import Mathlib

/-!
# GV11B fifo and GR: preemption, fault recovery, ECC error decoding and GR configuration

A shallow embedding of functions of `drivers/gpu/nvgpu/gv11b/fifo_gv11b.c`,
`drivers/gpu/nvgpu/gv11b/gr_gv11b.c`, `drivers/gpu/nvgpu/hal/gr/config/gr_config_gm20b.c`
and `drivers/gpu/nvgpu/common/pmu/lsfm/lsfm.c`, and of the assertions of the unit test
`userspace/units/fifo/channel/nvgpu-channel.c`.

* Machine integers are natural numbers; a store into a `u32` variable that can
  lose bits is written with `u32`.
* Constants, register-field decoders and masks that come from headers
  (`hw_fifo_gv11b.h`, `fifo_gk20a.h`, `hw_ram_gv11b.h`, `hw_gr_gv11b.h`, ...) are the
  fields of `Manifest`, `RamManifest`, `GrManifest`, `PmuManifest`, `GrOffsetManifest` and
  `GrPipeManifest`; the checked arithmetic of `nvgpu/safe_ops.h` is the structure
  `SafeOps`.
* Functions of other files (`gk20a_fifo_issue_preempt`, `pmu_mutex_acquire`,
  `nvgpu_gr_report_ecc_error`, the operations behind `g->ops`, ...) and the hardware
  registers are collaborators: a call appends an `Event` to the trace of the device and
  takes its return value from the environment `Env`, which may depend on everything that
  has happened before. A collaborator does not change the fields of the device that the
  embedded functions read.
* A timer set up by `nvgpu_timeout_init` expires after a finite number of checks, chosen
  by the environment; a polling loop is a recursion on that number. A loop of the source
  that has no timer is followed for a given number of iterations.
* A register `r() + offset` of the GR engine is the pair of its name and the offset; the
  ECC counters `g->ecc.gr.*[..].counter` are taken to be `u32`, the type of the deltas
  added to them.
* A pointer is an address, 0 for `NULL`; a channel passed by pointer is its index in the
  table of channels.
* Logging (`gk20a_dbg_info`, `gk20a_err`, `nvgpu_log`) and the sleeps between two polls are
  left out.
-/

namespace Nvgpu

/-! ## Hardware manifest and software constants -/

/-- Constants, masks and field decoders defined in headers. They are parameters
of the development. -/
structure Manifest where
  ID_TYPE_CHANNEL : Nat
  ID_TYPE_TSG : Nat
  ID_TYPE_UNKNOWN : Nat
  RC_TYPE_MMU_FAULT : Nat
  PREEMPT_TIMEOUT_RC : Nat
  PREEMPT_TIMEOUT_NORC : Nat
  FIFO_INVAL_PBDMA_ID : Nat
  FIFO_INVAL_ENGINE_ID : Nat
  FIFO_INVAL_CHANNEL_ID : Nat
  RUNLIST_DISABLED : Nat
  RUNLIST_ENABLED : Nat
  fifo_sched_disable_runlist_m : Nat → Nat
  fifo_runlist_preempt_runlist_m : Nat → Nat
  fifo_pbdma_status_chan_status_v : Nat → Nat
  fifo_pbdma_status_id_v : Nat → Nat
  fifo_pbdma_status_next_id_v : Nat → Nat
  fifo_pbdma_status_chan_status_valid_v : Nat
  fifo_pbdma_status_chan_status_chsw_save_v : Nat
  fifo_pbdma_status_chan_status_chsw_load_v : Nat
  fifo_pbdma_status_chan_status_chsw_switch_v : Nat
  fifo_engine_status_ctx_status_v : Nat → Nat
  fifo_engine_status_id_v : Nat → Nat
  fifo_engine_status_next_id_v : Nat → Nat
  fifo_engine_status_ctx_status_valid_v : Nat
  fifo_engine_status_ctx_status_ctxsw_save_v : Nat
  fifo_engine_status_ctx_status_ctxsw_load_v : Nat
  fifo_engine_status_ctx_status_ctxsw_switch_v : Nat
  fifo_intr_0_runlist_event_pending_f : Nat
  ccsr_channel_eng_faulted_reset_f : Nat
  ccsr_channel_pbdma_faulted_reset_f : Nat

/-- Truncation of a value stored into a `u32`. -/
def u32 (x : Nat) : Nat := x % 2 ^ 32

/-- The kernel's `BIT(n)`, `1UL << n` on a 64-bit `unsigned long`. -/
def BIT (n : Nat) : Nat := (1 <<< n) % 2 ^ 64

/-- The errno value `EINVAL`. -/
def EINVAL : Int := 22

/-- The errno value `EBUSY`. -/
def EBUSY : Int := 16

/-- The operator `|` on two `int` values: bitwise on the 32-bit two's complement
representations. -/
def int_or (a b : Int) : Int :=
  let bits : Nat := (a % 2 ^ 32).toNat ||| (b % 2 ^ 32).toNat
  if bits < 2 ^ 31 then (bits : Int) else (bits : Int) - 2 ^ 32

/-! ## Data model -/

/-- The fields of `struct tsg_gk20a` read by this file; `ch_list` holds the
`hw_chid` of the channels on the list of the TSG. -/
structure tsg_gk20a where
  tsgid : Nat
  runlist_id : Nat
  ch_list : List Nat
  timeslice_timeout : Nat
  timeslice_scale : Nat
  num_active_channels : Nat

/-- The fields of `struct channel_gk20a` read by this file. -/
structure channel_gk20a where
  hw_chid : Nat
  tsgid : Nat
  runlist_id : Nat

/-- The fields of `struct fifo_runlist_info_gk20a` read by this file. -/
structure fifo_runlist_info_gk20a where
  pbdma_bitmask : Nat
  eng_bitmask : Nat
  reset_eng_bitmask : Nat

/-- The fields of `struct mmu_fault_info` read by this file; `refch` is the index of the
referenced channel in the channel table, `none` for a null pointer. -/
structure mmu_fault_info where
  faulted_pbdma : Nat
  faulted_engine : Nat
  client_type : Nat
  refch : Option Nat

/-- The fields of `struct fifo_gk20a` used by this file. Tables are total functions of the index. -/
structure fifo_gk20a where
  tsg : Nat → tsg_gk20a
  channel : Nat → channel_gk20a
  runlist_info : Nat → fifo_runlist_info_gk20a
  max_runlists : Nat
  num_pbdma : Nat
  num_engines : Nat
  deferred_reset_pending : Bool
  deferred_fault_engines : Nat

/-! ## Runlist scope of a recovery -/

/-- One iteration of the loop over runlists on the MMU-fault path of
`gv11b_fifo_get_runlists_mask`. -/
def runlists_mask_mmu_step (hw : Manifest) (f : fifo_gk20a) (act_eng_bitmask pbdma_bitmask : Nat)
    (runlists_mask id : Nat) : Nat :=
  let runlist := f.runlist_info id
  let runlists_mask :=
    if runlist.eng_bitmask &&& act_eng_bitmask ≠ 0 then
      runlists_mask ||| hw.fifo_sched_disable_runlist_m id
    else runlists_mask
  if runlist.pbdma_bitmask &&& pbdma_bitmask ≠ 0 then
    runlists_mask ||| hw.fifo_sched_disable_runlist_m id
  else runlists_mask

/-- One iteration of the loop over runlists on the "ID is unknown" path of
`gv11b_fifo_get_runlists_mask`. -/
def runlists_mask_unknown_step (hw : Manifest) (f : fifo_gk20a) (act_eng_bitmask : Nat)
    (runlists_mask id : Nat) : Nat :=
  let runlist := f.runlist_info id
  if runlist.eng_bitmask &&& act_eng_bitmask ≠ 0 then
    runlists_mask ||| hw.fifo_sched_disable_runlist_m id
  else runlists_mask

/-- The function `gv11b_fifo_get_runlists_mask`. -/
def gv11b_fifo_get_runlists_mask (hw : Manifest) (f : fifo_gk20a) (act_eng_bitmask id id_type
    rc_type : Nat) (mmfault : Option mmu_fault_info) : Nat :=
  if id_type ≠ hw.ID_TYPE_UNKNOWN then
    if id_type = hw.ID_TYPE_TSG then
      hw.fifo_sched_disable_runlist_m (f.tsg id).runlist_id
    else
      hw.fifo_sched_disable_runlist_m (f.channel id).runlist_id
  else
    match decide (rc_type = hw.RC_TYPE_MMU_FAULT), mmfault with
    | true, some mmfault =>
      let pbdma_bitmask :=
        if mmfault.faulted_pbdma ≠ hw.FIFO_INVAL_PBDMA_ID then u32 (BIT mmfault.faulted_pbdma)
        else 0
      (List.range f.max_runlists).foldl
        (runlists_mask_mmu_step hw f act_eng_bitmask pbdma_bitmask) 0
    | _, _ =>
      (List.range f.max_runlists).foldl (runlists_mask_unknown_step hw f act_eng_bitmask) 0

/-! ## Collaborators, events and the device -/

/-- The registers of the GR engine accessed by the embedded functions of `gr_gv11b.c`,
named by their offset function in `hw_gr_gv11b.h`. -/
inductive GrReg where
  | gr_pri_gpc0_tpc0_sm_l1_tag_ecc_status_r
  | gr_pri_gpc0_tpc0_sm_l1_tag_ecc_corrected_err_count_r
  | gr_pri_gpc0_tpc0_sm_l1_tag_ecc_uncorrected_err_count_r
  | gr_pri_gpc0_tpc0_sm_lrf_ecc_status_r
  | gr_pri_gpc0_tpc0_sm_lrf_ecc_corrected_err_count_r
  | gr_pri_gpc0_tpc0_sm_lrf_ecc_uncorrected_err_count_r
  | gr_pri_gpc0_tpc0_sm_cbu_ecc_status_r
  | gr_pri_gpc0_tpc0_sm_cbu_ecc_corrected_err_count_r
  | gr_pri_gpc0_tpc0_sm_cbu_ecc_uncorrected_err_count_r
  | gr_pri_gpc0_tpc0_sm_l1_data_ecc_status_r
  | gr_pri_gpc0_tpc0_sm_l1_data_ecc_corrected_err_count_r
  | gr_pri_gpc0_tpc0_sm_l1_data_ecc_uncorrected_err_count_r
  | gr_pri_gpc0_tpc0_sm_icache_ecc_status_r
  | gr_pri_gpc0_tpc0_sm_icache_ecc_corrected_err_count_r
  | gr_pri_gpc0_tpc0_sm_icache_ecc_uncorrected_err_count_r
  | gr_pri_gpc0_gcc_l15_ecc_status_r
  | gr_pri_gpc0_gcc_l15_ecc_corrected_err_count_r
  | gr_pri_gpc0_gcc_l15_ecc_uncorrected_err_count_r
  | gr_gpc0_mmu_gpcmmu_global_esr_r
  | gr_gpc0_mmu_l1tlb_ecc_status_r
  | gr_gpc0_mmu_l1tlb_ecc_address_r
  | gr_gpc0_mmu_l1tlb_ecc_corrected_err_count_r
  | gr_gpc0_mmu_l1tlb_ecc_uncorrected_err_count_r
  | gr_gpc0_gpccs_hww_esr_r
  | gr_gpc0_gpccs_falcon_ecc_status_r
  | gr_gpc0_gpccs_falcon_ecc_address_r
  | gr_gpc0_gpccs_falcon_ecc_corrected_err_count_r
  | gr_gpc0_gpccs_falcon_ecc_uncorrected_err_count_r
  | gr_fecs_falcon_ecc_status_r
  | gr_fecs_falcon_ecc_address_r
  | gr_fecs_falcon_ecc_corrected_err_count_r
  | gr_fecs_falcon_ecc_uncorrected_err_count_r
  | gr_gpc0_tpc0_sm0_hww_warp_esr_r
  | gr_pipe_bundle_address_r
  | gr_pipe_bundle_data_r
  deriving DecidableEq, Repr

/-- The flags tested with `nvgpu_is_enabled` by the embedded functions. -/
inductive nvgpu_flag where
  | NVGPU_SEC_PRIVSECURITY
  | NVGPU_IS_FMODEL
  deriving DecidableEq, Repr

/-- The hardware modules named in the error reports of `gr_gv11b.c`. -/
inductive nvgpu_err_module where
  | NVGPU_ERR_MODULE_SM
  | NVGPU_ERR_MODULE_GCC
  | NVGPU_ERR_MODULE_MMU
  | NVGPU_ERR_MODULE_GPCCS
  | NVGPU_ERR_MODULE_FECS
  deriving DecidableEq, Repr

/-- The error types named in the error reports of `gr_gv11b.c`. -/
inductive gr_err_type where
  | GPU_SM_L1_TAG_ECC_CORRECTED
  | GPU_SM_L1_TAG_MISS_FIFO_ECC_CORRECTED
  | GPU_SM_L1_TAG_S2R_PIXPRF_ECC_CORRECTED
  | GPU_SM_L1_TAG_ECC_UNCORRECTED
  | GPU_SM_L1_TAG_MISS_FIFO_ECC_UNCORRECTED
  | GPU_SM_L1_TAG_S2R_PIXPRF_ECC_UNCORRECTED
  | GPU_SM_LRF_ECC_CORRECTED
  | GPU_SM_LRF_ECC_UNCORRECTED
  | GPU_SM_CBU_ECC_CORRECTED
  | GPU_SM_CBU_ECC_UNCORRECTED
  | GPU_SM_L1_DATA_ECC_CORRECTED
  | GPU_SM_L1_DATA_ECC_UNCORRECTED
  | GPU_SM_ICACHE_L0_DATA_ECC_CORRECTED
  | GPU_SM_ICACHE_L0_PREDECODE_ECC_CORRECTED
  | GPU_SM_ICACHE_L1_DATA_ECC_CORRECTED
  | GPU_SM_ICACHE_L1_PREDECODE_ECC_CORRECTED
  | GPU_SM_ICACHE_L0_DATA_ECC_UNCORRECTED
  | GPU_SM_ICACHE_L0_PREDECODE_ECC_UNCORRECTED
  | GPU_SM_ICACHE_L1_DATA_ECC_UNCORRECTED
  | GPU_SM_ICACHE_L1_PREDECODE_ECC_UNCORRECTED
  | GPU_GCC_L15_ECC_CORRECTED
  | GPU_GCC_L15_ECC_UNCORRECTED
  | GPU_MMU_L1TLB_SA_DATA_ECC_CORRECTED
  | GPU_MMU_L1TLB_SA_DATA_ECC_UNCORRECTED
  | GPU_MMU_L1TLB_FA_DATA_ECC_CORRECTED
  | GPU_MMU_L1TLB_FA_DATA_ECC_UNCORRECTED
  | GPU_GPCCS_FALCON_IMEM_ECC_CORRECTED
  | GPU_GPCCS_FALCON_IMEM_ECC_UNCORRECTED
  | GPU_GPCCS_FALCON_DMEM_ECC_CORRECTED
  | GPU_GPCCS_FALCON_DMEM_ECC_UNCORRECTED
  | GPU_FECS_FALCON_IMEM_ECC_CORRECTED
  | GPU_FECS_FALCON_IMEM_ECC_UNCORRECTED
  | GPU_FECS_FALCON_DMEM_ECC_CORRECTED
  | GPU_FECS_FALCON_DMEM_ECC_UNCORRECTED
  deriving DecidableEq, Repr

/-- The registers accessed, named by their offset function; `gr r offset` is the register
at `r() + offset`. -/
inductive Reg where
  | fifo_pbdma_status_r (i : Nat)
  | fifo_engine_status_r (i : Nat)
  | pbdma_intr_0_r (i : Nat)
  | pbdma_intr_1_r (i : Nat)
  | fifo_runlist_preempt_r
  | fifo_intr_en_0_r
  | ccsr_channel_r (i : Nat)
  | gr (r : GrReg) (offset : Nat)
  deriving DecidableEq, Repr

/-- A call made by the embedded functions of `gr_gv11b.c` other than the ECC decoders, of
`gr_config_gm20b.c`, of `lsfm.c` and of the channel setup, with its arguments: fuse
accessors, `nvgpu_is_enabled`, allocations (`nvgpu_kzalloc_lsfm` is the call
`nvgpu_kzalloc(g, sizeof(struct nvgpu_pmu_lsfm))`, `nvgpu_vzalloc_channels` the allocation
of the table of channels), the chip-specific `lsfm_sw_init` functions,
`g->ops.channel.count` and `g->ops.gr.init.wait_idle`. -/
inductive HalCall where
  | fuse_status_opt_gpc
  | nvgpu_tegra_fuse_write_bypass (val : Nat)
  | nvgpu_tegra_fuse_write_access_sw (val : Nat)
  | nvgpu_tegra_fuse_write_opt_gpu_tpc0_disable (val : Nat)
  | nvgpu_is_enabled (flag : nvgpu_flag)
  | nvgpu_kzalloc_lsfm
  | nvgpu_kfree (p : Nat)
  | nvgpu_gm20b_lsfm_sw_init (lsfm : Nat)
  | nvgpu_gp10b_lsfm_sw_init (lsfm : Nat)
  | nvgpu_gv100_lsfm_sw_init (lsfm : Nat)
  | nvgpu_tu104_lsfm_sw_init (lsfm : Nat)
  | channel_count
  | nvgpu_vzalloc_channels (count : Nat)
  | gr_init_wait_idle
  deriving DecidableEq, Repr

/-- A call to a collaborator, with its arguments; `hal` wraps the calls listed at
`HalCall`. -/
inductive Call where
  | gk20a_readl (r : Reg)
  | gk20a_writel (r : Reg) (v : Nat)
  | nvgpu_timeout_init
  | nvgpu_mutex_acquire (runlist_id : Nat)
  | nvgpu_mutex_release (runlist_id : Nat)
  | pmu_mutex_acquire
  | pmu_mutex_release
  | __locked_fifo_preempt (id : Nat) (is_tsg : Bool)
  | gk20a_fifo_issue_preempt (id id_type : Nat)
  | __locked_fifo_preempt_timeout_rc (id id_type : Nat)
  | gk20a_fifo_handle_runlist_event
  | gk20a_fifo_set_runlist_state (runlists_mask runlist_state : Nat)
  | support_gk20a_pmu
  | gk20a_pmu_disable_elpg
  | gk20a_pmu_enable_elpg
  | slcg_gr_load_gating_prod (prod : Bool)
  | slcg_perf_load_gating_prod (prod : Bool)
  | slcg_ltc_load_gating_prod (prod : Bool)
  | gr_gk20a_init_cg_mode
  | gk20a_debug_dump
  | gk20a_is_channel_marked_as_tsg (ch : Nat)
  | gk20a_channel_get (ch : Nat)
  | gk20a_channel_put (ch : Nat)
  | down_read_ch_list_lock (tsg : Nat)
  | up_read_ch_list_lock (tsg : Nat)
  | gk20a_fifo_set_ctx_mmu_error_tsg (tsg : Nat)
  | gk20a_fifo_error_tsg (tsg : Nat)
  | gk20a_fifo_abort_tsg (tsgid : Nat)
  | gk20a_fifo_set_ctx_mmu_error_ch (ch : Nat)
  | gk20a_fifo_error_ch (ch : Nat)
  | gk20a_channel_abort (ch : Nat)
  | update_runlist (runlist_id hw_chid : Nat) (add wait_for_finish : Bool)
  | gk20a_fifo_should_defer_engine_reset (engine_id client_type : Nat)
  | nvgpu_mutex_tryacquire_gr_reset
  | nvgpu_mutex_release_gr_reset
  | gk20a_fifo_reset_engine (engine_id : Nat)
  | gk20a_ctxsw_trace_channel_reset (ch : Nat)
  | gk20a_ctxsw_trace_tsg_reset (tsg : Nat)
  | nvgpu_gr_report_ecc_error (hw_module : nvgpu_err_module) (gpc tpc : Nat)
      (err_type : gr_err_type) (err_addr err_count : Nat)
  | fuse_status_opt_tpc_gpc (gpc : Nat)
  | fuse_ctrl_opt_tpc_gpc (gpc val : Nat)
  | hal (c : HalCall)
  deriving DecidableEq, Repr

/-- A call together with the value it returned (0 for a `void` function). -/
structure Event where
  call : Call
  ret : Int
  deriving DecidableEq, Repr

/-- The environment: the value returned by a call, given the events so far. -/
abbrev Env := List Event → Call → Int

/-- The ECC error counters of the GR engine, `g->ecc.gr`: the field `counter` of every
entry, indexed by GPC and TPC or by GPC alone as in the source. The counters are taken to
be `u32`, the type of the deltas added to them. -/
structure nvgpu_ecc_gr where
  sm_l1_tag_ecc_corrected_err_count : Nat → Nat → Nat := fun _ _ => 0
  sm_l1_tag_ecc_uncorrected_err_count : Nat → Nat → Nat := fun _ _ => 0
  sm_lrf_ecc_single_err_count : Nat → Nat → Nat := fun _ _ => 0
  sm_lrf_ecc_double_err_count : Nat → Nat → Nat := fun _ _ => 0
  sm_cbu_ecc_corrected_err_count : Nat → Nat → Nat := fun _ _ => 0
  sm_cbu_ecc_uncorrected_err_count : Nat → Nat → Nat := fun _ _ => 0
  sm_l1_data_ecc_corrected_err_count : Nat → Nat → Nat := fun _ _ => 0
  sm_l1_data_ecc_uncorrected_err_count : Nat → Nat → Nat := fun _ _ => 0
  sm_icache_ecc_corrected_err_count : Nat → Nat → Nat := fun _ _ => 0
  sm_icache_ecc_uncorrected_err_count : Nat → Nat → Nat := fun _ _ => 0
  gcc_l15_ecc_corrected_err_count : Nat → Nat := fun _ => 0
  gcc_l15_ecc_uncorrected_err_count : Nat → Nat := fun _ => 0
  mmu_l1tlb_ecc_corrected_err_count : Nat → Nat := fun _ => 0
  mmu_l1tlb_ecc_uncorrected_err_count : Nat → Nat := fun _ => 0
  gpccs_ecc_corrected_err_count : Nat → Nat := fun _ => 0
  gpccs_ecc_uncorrected_err_count : Nat → Nat := fun _ => 0
  fecs_ecc_corrected_err_count : Nat → Nat := fun _ => 0
  fecs_ecc_uncorrected_err_count : Nat → Nat := fun _ => 0

/-- An entry of a netlist address/value list, `struct netlist_av`. -/
structure netlist_av where
  addr : Nat
  value : Nat

/-- A netlist address/value list, `struct netlist_av_list`: the number of entries and the
array `l`. -/
structure netlist_av_list where
  count : Nat := 0
  l : Nat → netlist_av := fun _ => ⟨0, 0⟩

/-- An entry of the SM table, `struct nvgpu_sm_info`, with the four fields written by
`gm20b_gr_config_init_sm_id_table`. -/
structure nvgpu_sm_info where
  gpc_index : Nat
  tpc_index : Nat
  sm_index : Nat
  global_tpc_index : Nat
  deriving DecidableEq, Repr

/-- The GR configuration, `struct nvgpu_gr_config`, as seen through its accessors
`nvgpu_gr_config_get_*` and `nvgpu_gr_config_set_*` (which are not among the sources and
are taken to read and write the field they name): each field is the value returned by
the accessor of that name for the given indices; `sm_info` is the table behind
`nvgpu_gr_config_get_sm_info`. -/
structure nvgpu_gr_config where
  max_gpc_count : Nat := 0
  max_tpc_per_gpc_count : Nat := 0
  gpc_count : Nat := 0
  gpc_tpc_count : Nat → Nat := fun _ => 0
  gpc_tpc_mask : Nat → Nat := fun _ => 0
  gpc_ppc_count : Nat → Nat := fun _ => 0
  pes_tpc_mask : Nat → Nat → Nat := fun _ _ => 0
  pes_tpc_count : Nat → Nat → Nat := fun _ _ => 0
  sm_info : Nat → nvgpu_sm_info := fun _ => ⟨0, 0, 0, 0⟩
  no_of_sm : Nat := 0

/-- The fields of `struct gk20a` read or written by the embedded functions of
`gr_gv11b.c`, `gr_config_gm20b.c` and `lsfm.c` other than the ECC decoders: `gpu_arch`
and `gpu_impl` are the fields of `g->params`, `gr_config` is `g->gr.config`,
`max_subctx_count` is `g->fifo.max_subctx_count`, `sw_veid_bundle_init` is the list of
that name in `g->netlist_vars`, `fifo_channel` is the pointer `g->fifo.channel` of the
later version of the fifo structure (0 for `NULL`), and `mmu_nack_handled ch` is the field
`mmu_nack_handled` of channel `ch`. -/
structure gk20a_rest where
  gpu_arch : Nat := 0
  gpu_impl : Nat := 0
  gr_config : nvgpu_gr_config := {}
  max_subctx_count : Nat := 0
  sw_veid_bundle_init : netlist_av_list := {}
  fifo_channel : Nat := 0
  mmu_nack_handled : Nat → Bool := fun _ => false

/-- The device: `struct gk20a` as far as the embedded functions read it, and the events so
far. The three `has_slcg_*` fields say whether the clock-gating operation is non-null;
`ecc_gr` is `g->ecc.gr`; `rest` groups the fields listed at `gk20a_rest`. -/
structure gk20a where
  fifo : fifo_gk20a
  elpg_enabled : Bool
  has_slcg_gr_load_gating_prod : Bool
  has_slcg_perf_load_gating_prod : Bool
  has_slcg_ltc_load_gating_prod : Bool
  trace : List Event
  ecc_gr : nvgpu_ecc_gr := {}
  tpc_pg_mask : Nat := 0
  rest : gk20a_rest := {}

/-- A call of a collaborator that returns a value. -/
def ext (env : Env) (c : Call) (g : gk20a) : Int × gk20a :=
  let r := env g.trace c
  (r, { g with trace := g.trace ++ [⟨c, r⟩] })

/-- A call of a collaborator that returns nothing. -/
def ext_void (c : Call) (g : gk20a) : gk20a :=
  { g with trace := g.trace ++ [⟨c, 0⟩] }

/-- The value of a 32-bit register read: the environment's answer as a `u32`. -/
def gk20a_readl (env : Env) (r : Reg) (g : gk20a) : Nat × gk20a :=
  let v := (env g.trace (Call.gk20a_readl r) % 2 ^ 32).toNat
  (v, { g with trace := g.trace ++ [⟨Call.gk20a_readl r, v⟩] })

/-- A 32-bit register write. -/
def gk20a_writel (r : Reg) (v : Nat) (g : gk20a) : gk20a :=
  ext_void (Call.gk20a_writel r v) g

/-- The call `nvgpu_timeout_init`: the environment fixes how many times
`nvgpu_timeout_expired_msg` will answer "not expired" for this timer. -/
def nvgpu_timeout_init (env : Env) (g : gk20a) : Nat × gk20a :=
  let n := (env g.trace Call.nvgpu_timeout_init).toNat
  (n, { g with trace := g.trace ++ [⟨Call.nvgpu_timeout_init, n⟩] })

/-- The bit indices visited by `for_each_set_bit(i, &bits, size)`, in order. -/
def for_each_set_bit (bits size : Nat) : List Nat :=
  (List.range size).filter (fun i => bits.testBit i)

/-- Stores a new `reset_eng_bitmask` in `runlist_info[runlist_id]`. -/
def set_reset_eng_bitmask (runlist_id v : Nat) (g : gk20a) : gk20a :=
  let runlist : fifo_runlist_info_gk20a := g.fifo.runlist_info runlist_id
  let runlist : fifo_runlist_info_gk20a := { runlist with reset_eng_bitmask := v }
  let f : fifo_gk20a := g.fifo
  let f : fifo_gk20a := { f with runlist_info := Function.update f.runlist_info runlist_id runlist }
  { g with fifo := f }

/-! ## Preemption polling -/

/-- The body of the polling loop of `gv11b_fifo_poll_pbdma_chan_status` after the status
read: `true` when the body sets `ret = 0` and leaves the loop. -/
def poll_pbdma_body (hw : Manifest) (id pbdma_stat : Nat) : Bool :=
  let chan_stat := hw.fifo_pbdma_status_chan_status_v pbdma_stat
  if chan_stat = hw.fifo_pbdma_status_chan_status_valid_v ∨
      chan_stat = hw.fifo_pbdma_status_chan_status_chsw_save_v then
    if id ≠ hw.fifo_pbdma_status_id_v pbdma_stat then true else false
  else if chan_stat = hw.fifo_pbdma_status_chan_status_chsw_load_v then
    if id ≠ hw.fifo_pbdma_status_next_id_v pbdma_stat then true else false
  else if chan_stat = hw.fifo_pbdma_status_chan_status_chsw_switch_v then
    if id ≠ hw.fifo_pbdma_status_next_id_v pbdma_stat ∧
        id ≠ hw.fifo_pbdma_status_id_v pbdma_stat then true else false
  else
    true

/-- The `do ... while (!nvgpu_timeout_expired_msg(...))` loop of
`gv11b_fifo_poll_pbdma_chan_status`; the first argument counts the checks of the timer
that still answer "not expired". -/
def poll_pbdma_loop (hw : Manifest) (env : Env) (id pbdma_id : Nat) : Nat → gk20a → Int × gk20a
  | n, g =>
    let (pbdma_stat, g) := gk20a_readl env (Reg.fifo_pbdma_status_r pbdma_id) g
    if poll_pbdma_body hw id pbdma_stat then (0, g)
    else
      match n with
      | 0 => (-EBUSY, g)
      | n + 1 => poll_pbdma_loop hw env id pbdma_id n g

/-- The block `if (timeout_rc_type == PREEMPT_TIMEOUT_NORC) { ... }` at the head of
`gv11b_fifo_poll_pbdma_chan_status`, which clears the pending PBDMA interrupts. -/
def poll_pbdma_clear_intr (hw : Manifest) (env : Env) (pbdma_id timeout_rc_type : Nat)
    (g : gk20a) : gk20a :=
  if timeout_rc_type = hw.PREEMPT_TIMEOUT_NORC then
    let (pbdma_intr_0, g) := gk20a_readl env (Reg.pbdma_intr_0_r pbdma_id) g
    let (pbdma_intr_1, g) := gk20a_readl env (Reg.pbdma_intr_1_r pbdma_id) g
    let g := if pbdma_intr_0 ≠ 0 then gk20a_writel (Reg.pbdma_intr_0_r pbdma_id) pbdma_intr_0 g
      else g
    if pbdma_intr_1 ≠ 0 then gk20a_writel (Reg.pbdma_intr_1_r pbdma_id) pbdma_intr_1 g
    else g
  else g

/-- The function `gv11b_fifo_poll_pbdma_chan_status`. -/
def gv11b_fifo_poll_pbdma_chan_status (hw : Manifest) (env : Env) (id pbdma_id
    timeout_rc_type : Nat) (g : gk20a) : Int × gk20a :=
  let g := poll_pbdma_clear_intr hw env pbdma_id timeout_rc_type g
  let (timeout, g) := nvgpu_timeout_init env g
  poll_pbdma_loop hw env id pbdma_id timeout g

/-- The body of the polling loop of `gv11b_fifo_poll_eng_ctx_status` after the status
read: whether the body sets `ret = 0` and leaves the loop, and the new value of
`*reset_eng_bitmask`. -/
def poll_eng_body (hw : Manifest) (id engine_idx timeout_rc_type eng_stat
    reset_eng_bitmask : Nat) : Bool × Nat :=
  let ctx_stat := hw.fifo_engine_status_ctx_status_v eng_stat
  if ctx_stat = hw.fifo_engine_status_ctx_status_ctxsw_switch_v then
    (false, reset_eng_bitmask)
  else if ctx_stat = hw.fifo_engine_status_ctx_status_valid_v ∨
      ctx_stat = hw.fifo_engine_status_ctx_status_ctxsw_save_v then
    if id = hw.fifo_engine_status_id_v eng_stat then
      if timeout_rc_type = hw.PREEMPT_TIMEOUT_NORC then
        (true, u32 (reset_eng_bitmask ||| BIT engine_idx))
      else (false, reset_eng_bitmask)
    else (true, reset_eng_bitmask)
  else if ctx_stat = hw.fifo_engine_status_ctx_status_ctxsw_load_v then
    if id = hw.fifo_engine_status_next_id_v eng_stat then
      if timeout_rc_type = hw.PREEMPT_TIMEOUT_NORC then
        (true, u32 (reset_eng_bitmask ||| BIT engine_idx))
      else (false, reset_eng_bitmask)
    else (true, reset_eng_bitmask)
  else
    (true, reset_eng_bitmask)

/-- The `do ... while (!nvgpu_timeout_expired_msg(...))` loop of
`gv11b_fifo_poll_eng_ctx_status`; the first argument counts the checks of the timer that
still answer "not expired". The result is the return value, `*reset_eng_bitmask` and the
device. -/
def poll_eng_loop (hw : Manifest) (env : Env) (id engine_idx timeout_rc_type : Nat) :
    Nat → Nat → gk20a → Int × Nat × gk20a
  | n, reset_eng_bitmask, g =>
    let (eng_stat, g) := gk20a_readl env (Reg.fifo_engine_status_r engine_idx) g
    let (done, reset_eng_bitmask) :=
      poll_eng_body hw id engine_idx timeout_rc_type eng_stat reset_eng_bitmask
    if done then (0, reset_eng_bitmask, g)
    else
      match n with
      | 0 => (-EBUSY, reset_eng_bitmask, g)
      | n + 1 => poll_eng_loop hw env id engine_idx timeout_rc_type n reset_eng_bitmask g

/-- The function `gv11b_fifo_poll_eng_ctx_status`; `reset_eng_bitmask` is the value
behind the pointer at entry, and the second component of the result its value at
return. -/
def gv11b_fifo_poll_eng_ctx_status (hw : Manifest) (env : Env) (id engine_idx
    reset_eng_bitmask timeout_rc_type : Nat) (g : gk20a) : Int × Nat × gk20a :=
  let (timeout, g) := nvgpu_timeout_init env g
  poll_eng_loop hw env id engine_idx timeout_rc_type timeout reset_eng_bitmask g

/-- The function `gv11b_fifo_is_preempt_pending`. -/
def gv11b_fifo_is_preempt_pending (hw : Manifest) (env : Env) (id id_type
    timeout_rc_type : Nat) (g : gk20a) : Int × gk20a :=
  let f := g.fifo
  let runlist_id :=
    if id_type = hw.ID_TYPE_TSG then (f.tsg id).runlist_id else (f.channel id).runlist_id
  let runlist_served_pbdmas := (f.runlist_info runlist_id).pbdma_bitmask
  let runlist_served_engines := (f.runlist_info runlist_id).eng_bitmask
  let (ret, g) := (for_each_set_bit runlist_served_pbdmas f.num_pbdma).foldl
    (fun (p : Int × gk20a) pbdma_id =>
      let (func_ret, g) :=
        gv11b_fifo_poll_pbdma_chan_status hw env id pbdma_id timeout_rc_type p.2
      if func_ret ≠ 0 then (int_or p.1 func_ret, g) else (p.1, g))
    (0, g)
  let g := set_reset_eng_bitmask runlist_id 0 g
  (for_each_set_bit runlist_served_engines f.num_engines).foldl
    (fun (p : Int × gk20a) act_eng_id =>
      let (func_ret, reset_eng_bitmask, g) :=
        gv11b_fifo_poll_eng_ctx_status hw env id act_eng_id
          (p.2.fifo.runlist_info runlist_id).reset_eng_bitmask timeout_rc_type p.2
      let g := set_reset_eng_bitmask runlist_id reset_eng_bitmask g
      if func_ret ≠ 0 then (int_or p.1 func_ret, g) else (p.1, g))
    (ret, g)

/-! ## Preemption entry points -/

/-- The function `gv11b_fifo_runlist_event_intr_disable`. -/
def gv11b_fifo_runlist_event_intr_disable (hw : Manifest) (env : Env) (g : gk20a) : gk20a :=
  let (reg_val, g) := gk20a_readl env Reg.fifo_intr_en_0_r g
  let reg_val := reg_val &&& hw.fifo_intr_0_runlist_event_pending_f
  gk20a_writel Reg.fifo_intr_en_0_r reg_val g

/-- The function `gv11b_fifo_runlist_event_intr_enable`. -/
def gv11b_fifo_runlist_event_intr_enable (hw : Manifest) (env : Env) (g : gk20a) : gk20a :=
  let (reg_val, g) := gk20a_readl env Reg.fifo_intr_en_0_r g
  let reg_val := reg_val ||| hw.fifo_intr_0_runlist_event_pending_f
  gk20a_writel Reg.fifo_intr_en_0_r reg_val g

/-- The function `gv11b_fifo_issue_runlist_preempt`. -/
def gv11b_fifo_issue_runlist_preempt (env : Env) (runlists_mask : Nat) (g : gk20a) : gk20a :=
  let (reg_val, g) := gk20a_readl env Reg.fifo_runlist_preempt_r g
  let reg_val := reg_val ||| runlists_mask
  gk20a_writel Reg.fifo_runlist_preempt_r reg_val g

/-- The polling loop of `gv11b_fifo_poll_runlist_preempt_pending`. -/
def poll_runlist_preempt_loop (env : Env) (runlists_mask : Nat) : Nat → gk20a → Int × gk20a
  | n, g =>
    let (reg_val, g) := gk20a_readl env Reg.fifo_runlist_preempt_r g
    if reg_val &&& runlists_mask = 0 then (0, g)
    else
      match n with
      | 0 => (-EBUSY, g)
      | n + 1 => poll_runlist_preempt_loop env runlists_mask n g

/-- The function `gv11b_fifo_poll_runlist_preempt_pending`. -/
def gv11b_fifo_poll_runlist_preempt_pending (env : Env) (runlists_mask : Nat) (g : gk20a) :
    Int × gk20a :=
  let (timeout, g) := nvgpu_timeout_init env g
  poll_runlist_preempt_loop env runlists_mask timeout g

/-- The function `gv11b_fifo_preempt_channel`. -/
def gv11b_fifo_preempt_channel (env : Env) (hw_chid : Nat) (g : gk20a) : Int × gk20a :=
  let runlist_id := (g.fifo.channel hw_chid).runlist_id
  let g := ext_void (Call.nvgpu_mutex_acquire runlist_id) g
  let (mutex_ret, g) := ext env Call.pmu_mutex_acquire g
  let (ret, g) := ext env (Call.__locked_fifo_preempt hw_chid false) g
  let g := if mutex_ret = 0 then ext_void Call.pmu_mutex_release g else g
  let g := ext_void (Call.nvgpu_mutex_release runlist_id) g
  (ret, g)

/-- The function `__locked_fifo_preempt_runlists`. -/
def __locked_fifo_preempt_runlists (hw : Manifest) (env : Env) (runlists_mask : Nat)
    (g : gk20a) : Int × gk20a :=
  let g := gv11b_fifo_runlist_event_intr_disable hw env g
  let g := gv11b_fifo_issue_runlist_preempt env runlists_mask g
  let (ret, g) := gv11b_fifo_poll_runlist_preempt_pending env runlists_mask g
  let g := ext_void Call.gk20a_fifo_handle_runlist_event g
  let g := gv11b_fifo_runlist_event_intr_enable hw env g
  (ret, g)

/-- The function `gv11b_fifo_preempt_tsg`. -/
def gv11b_fifo_preempt_tsg (env : Env) (tsgid : Nat) (g : gk20a) : Int × gk20a :=
  let runlist_id := (g.fifo.tsg tsgid).runlist_id
  let g := ext_void (Call.nvgpu_mutex_acquire runlist_id) g
  let (mutex_ret, g) := ext env Call.pmu_mutex_acquire g
  let (ret, g) := ext env (Call.__locked_fifo_preempt tsgid true) g
  let g := if mutex_ret = 0 then ext_void Call.pmu_mutex_release g else g
  let g := ext_void (Call.nvgpu_mutex_release runlist_id) g
  (ret, g)

/-- The function `gv11b_fifo_preempt_runlists`. -/
def gv11b_fifo_preempt_runlists (hw : Manifest) (env : Env) (runlists_mask : Nat)
    (g : gk20a) : Int × gk20a :=
  let g := (List.range g.fifo.max_runlists).foldl
    (fun g runlist_id =>
      if runlists_mask &&& hw.fifo_runlist_preempt_runlist_m runlist_id ≠ 0 then
        ext_void (Call.nvgpu_mutex_acquire runlist_id) g
      else g) g
  let (mutex_ret, g) := ext env Call.pmu_mutex_acquire g
  let (ret, g) := __locked_fifo_preempt_runlists hw env runlists_mask g
  let g := if mutex_ret = 0 then ext_void Call.pmu_mutex_release g else g
  let g := (List.range g.fifo.max_runlists).foldl
    (fun g runlist_id =>
      if runlists_mask &&& hw.fifo_runlist_preempt_runlist_m runlist_id ≠ 0 then
        ext_void (Call.nvgpu_mutex_release runlist_id) g
      else g) g
  (ret, g)

/-- The function `__locked_fifo_preempt_ch_tsg`; `g->ops.fifo.is_preempt_pending` is
`gv11b_fifo_is_preempt_pending`, as installed by `gv11b_init_fifo`. -/
def __locked_fifo_preempt_ch_tsg (hw : Manifest) (env : Env) (id id_type
    timeout_rc_type : Nat) (g : gk20a) : Int × gk20a :=
  let g := ext_void (Call.gk20a_fifo_issue_preempt id id_type) g
  let (ret, g) := gv11b_fifo_is_preempt_pending hw env id id_type timeout_rc_type g
  let g :=
    if ret ≠ 0 ∧ timeout_rc_type = hw.PREEMPT_TIMEOUT_RC then
      ext_void (Call.__locked_fifo_preempt_timeout_rc id id_type) g
    else g
  (ret, g)

/-- The function `gv11b_fifo_preempt_ch_tsg`. -/
def gv11b_fifo_preempt_ch_tsg (hw : Manifest) (env : Env) (id id_type timeout_rc_type : Nat)
    (g : gk20a) : Int × gk20a :=
  let f := g.fifo
  let runlist_id : Option Nat :=
    if id_type = hw.ID_TYPE_TSG then some (f.tsg id).runlist_id
    else if id_type = hw.ID_TYPE_CHANNEL then some (f.channel id).runlist_id
    else none
  match runlist_id with
  | none => (-EINVAL, g)
  | some runlist_id =>
    if runlist_id ≥ g.fifo.max_runlists then (-EINVAL, g)
    else
      let g := ext_void (Call.nvgpu_mutex_acquire runlist_id) g
      let (mutex_ret, g) := ext env Call.pmu_mutex_acquire g
      let (ret, g) := __locked_fifo_preempt_ch_tsg hw env id id_type timeout_rc_type g
      let g := if mutex_ret = 0 then ext_void Call.pmu_mutex_release g else g
      let g := ext_void (Call.nvgpu_mutex_release runlist_id) g
      (ret, g)

/-! ## Recovery: `gv11b_fifo_teardown_ch_tsg` -/

/-- The function `gv11b_reset_eng_faulted_ch`. -/
def gv11b_reset_eng_faulted_ch (hw : Manifest) (env : Env) (hw_chid : Nat) (g : gk20a) : gk20a :=
  let (reg_val, g) := gk20a_readl env (Reg.ccsr_channel_r hw_chid) g
  let reg_val := reg_val ||| hw.ccsr_channel_eng_faulted_reset_f
  gk20a_writel (Reg.ccsr_channel_r hw_chid) reg_val g

/-- The function `gv11b_reset_eng_faulted_tsg`, for the TSG at index `tsg` of the table. -/
def gv11b_reset_eng_faulted_tsg (hw : Manifest) (env : Env) (tsg : Nat) (g : gk20a) : gk20a :=
  let g := ext_void (Call.down_read_ch_list_lock tsg) g
  let g := (g.fifo.tsg tsg).ch_list.foldl
    (fun g hw_chid => gv11b_reset_eng_faulted_ch hw env hw_chid g) g
  ext_void (Call.up_read_ch_list_lock tsg) g

/-- The function `gv11b_reset_pbdma_faulted_ch`. -/
def gv11b_reset_pbdma_faulted_ch (hw : Manifest) (env : Env) (hw_chid : Nat) (g : gk20a) :
    gk20a :=
  let (reg_val, g) := gk20a_readl env (Reg.ccsr_channel_r hw_chid) g
  let reg_val := reg_val ||| hw.ccsr_channel_pbdma_faulted_reset_f
  gk20a_writel (Reg.ccsr_channel_r hw_chid) reg_val g

/-- The function `gv11b_reset_pbdma_faulted_tsg`, for the TSG at index `tsg` of the table. -/
def gv11b_reset_pbdma_faulted_tsg (hw : Manifest) (env : Env) (tsg : Nat) (g : gk20a) : gk20a :=
  let g := ext_void (Call.down_read_ch_list_lock tsg) g
  let g := (g.fifo.tsg tsg).ch_list.foldl
    (fun g hw_chid => gv11b_reset_pbdma_faulted_ch hw env hw_chid g) g
  ext_void (Call.up_read_ch_list_lock tsg) g

/-- First step of `gv11b_fifo_teardown_ch_tsg`: from the call of
`gv11b_fifo_get_runlists_mask` to `gk20a_debug_dump`. -/
def teardown_disable (hw : Manifest) (env : Env) (act_eng_bitmask id id_type rc_type : Nat)
    (mmfault : Option mmu_fault_info) (g : gk20a) : Nat × gk20a :=
  let runlists_mask :=
    gv11b_fifo_get_runlists_mask hw g.fifo act_eng_bitmask id id_type rc_type mmfault
  let g := ext_void (Call.gk20a_fifo_set_runlist_state runlists_mask hw.RUNLIST_DISABLED) g
  let f : fifo_gk20a := g.fifo
  let g := { g with fifo := { f with deferred_reset_pending := false } }
  let (pmu, g) := ext env Call.support_gk20a_pmu g
  let g :=
    if pmu ≠ 0 ∧ g.elpg_enabled then (ext env Call.gk20a_pmu_disable_elpg g).2 else g
  let g :=
    if g.has_slcg_gr_load_gating_prod then ext_void (Call.slcg_gr_load_gating_prod false) g
    else g
  let g :=
    if g.has_slcg_perf_load_gating_prod then ext_void (Call.slcg_perf_load_gating_prod false) g
    else g
  let g :=
    if g.has_slcg_ltc_load_gating_prod then ext_void (Call.slcg_ltc_load_gating_prod false) g
    else g
  let g := ext_void Call.gr_gk20a_init_cg_mode g
  let g := if rc_type = hw.RC_TYPE_MMU_FAULT then ext_void Call.gk20a_debug_dump g else g
  (runlists_mask, g)

/-- Second step of `gv11b_fifo_teardown_ch_tsg`, "get the channel/TSG": the result is
`tsg`, `refch`, `client_type` and the device. -/
def teardown_resolve (hw : Manifest) (env : Env) (id id_type rc_type : Nat)
    (mmfault : Option mmu_fault_info) (g : gk20a) : Option Nat × Option Nat × Nat × gk20a :=
  let client_type := 2 ^ 32 - 1
  match decide (rc_type = hw.RC_TYPE_MMU_FAULT), mmfault with
  | true, some ⟨faulted_pbdma, faulted_engine, fault_client_type, some refch⟩ =>
    let client_type := fault_client_type
    let (marked, g) := ext env (Call.gk20a_is_channel_marked_as_tsg refch) g
    if marked ≠ 0 then
      let tsg := (g.fifo.channel refch).tsgid
      let g :=
        if faulted_pbdma ≠ hw.FIFO_INVAL_PBDMA_ID then gv11b_reset_pbdma_faulted_tsg hw env tsg g
        else g
      let g :=
        if faulted_engine ≠ hw.FIFO_INVAL_ENGINE_ID then gv11b_reset_eng_faulted_tsg hw env tsg g
        else g
      (some tsg, some refch, client_type, g)
    else
      let g :=
        if faulted_pbdma ≠ hw.FIFO_INVAL_PBDMA_ID then
          gv11b_reset_pbdma_faulted_ch hw env (g.fifo.channel refch).hw_chid g
        else g
      let g :=
        if faulted_engine ≠ hw.FIFO_INVAL_ENGINE_ID then
          gv11b_reset_eng_faulted_ch hw env (g.fifo.channel refch).hw_chid g
        else g
      (none, some refch, client_type, g)
  | _, _ =>
    if id_type = hw.ID_TYPE_TSG then (some id, none, client_type, g)
    else if id_type = hw.ID_TYPE_CHANNEL then
      let (got, g) := ext env (Call.gk20a_channel_get id) g
      ((none : Option Nat), (if got ≠ 0 then some id else none), client_type, g)
    else (none, none, client_type, g)

/-- Third step of `gv11b_fifo_teardown_ch_tsg`, the preemption; `g->ops.fifo.preempt_ch_tsg`
is `gv11b_fifo_preempt_ch_tsg`, as installed by `gv11b_init_fifo`. -/
def teardown_preempt (hw : Manifest) (env : Env) (id id_type runlists_mask : Nat)
    (g : gk20a) : gk20a :=
  if id_type = hw.ID_TYPE_TSG ∨ id_type = hw.ID_TYPE_CHANNEL then
    (gv11b_fifo_preempt_ch_tsg hw env id id_type hw.PREEMPT_TIMEOUT_NORC g).2
  else
    (gv11b_fifo_preempt_runlists hw env runlists_mask g).2

/-- Fourth step of `gv11b_fifo_teardown_ch_tsg`: error notifier and abort of the TSG or
channel, or reload of the frozen runlists when neither is known. The result is `verbose`
and the device. -/
def teardown_abort (hw : Manifest) (env : Env) (rc_type runlists_mask : Nat)
    (tsg refch : Option Nat) (g : gk20a) : Bool × gk20a :=
  match tsg, refch with
  | some tsg, refch =>
    let (verbose, g) :=
      if ¬ g.fifo.deferred_reset_pending ∧ rc_type = hw.RC_TYPE_MMU_FAULT then
        let g := ext_void (Call.gk20a_fifo_set_ctx_mmu_error_tsg tsg) g
        let (v, g) := ext env (Call.gk20a_fifo_error_tsg tsg) g
        (decide (v ≠ 0), g)
      else (false, g)
    let g := ext_void (Call.gk20a_fifo_abort_tsg (g.fifo.tsg tsg).tsgid) g
    let g :=
      match refch with
      | some refch => ext_void (Call.gk20a_channel_put refch) g
      | none => g
    (verbose, g)
  | none, some refch =>
    let (verbose, g) :=
      if ¬ g.fifo.deferred_reset_pending ∧ rc_type = hw.RC_TYPE_MMU_FAULT then
        let g := ext_void (Call.gk20a_fifo_set_ctx_mmu_error_ch refch) g
        let (v, g) := ext env (Call.gk20a_fifo_error_ch refch) g
        (decide (v ≠ 0), g)
      else (false, g)
    let g := ext_void (Call.gk20a_channel_abort refch) g
    let g := ext_void (Call.gk20a_channel_put refch) g
    (verbose, g)
  | none, none =>
    let g := (List.range g.fifo.max_runlists).foldl
      (fun g runlist_id =>
        if runlists_mask &&& BIT runlist_id ≠ 0 then
          ext_void (Call.update_runlist runlist_id hw.FIFO_INVAL_CHANNEL_ID false true) g
        else g) g
    (false, g)

/-- The body of the loop over the engines of one runlist in the fifth step of
`gv11b_fifo_teardown_ch_tsg`. -/
def teardown_reset_engine (env : Env) (tsg refch : Option Nat) (client_type : Nat)
    (g : gk20a) (engine_id : Nat) : gk20a :=
  let (defer, g) :=
    if refch.isSome ∨ tsg.isSome then
      let (d, g) := ext env (Call.gk20a_fifo_should_defer_engine_reset engine_id client_type) g
      (decide (d ≠ 0), g)
    else (false, g)
  if defer then
    let f : fifo_gk20a := g.fifo
    { g with fifo := { f with
        deferred_fault_engines := f.deferred_fault_engines ||| BIT engine_id
        deferred_reset_pending := true } }
  else
    let (locked, g) := ext env Call.nvgpu_mutex_tryacquire_gr_reset g
    if locked ≠ 0 then
      let g := ext_void (Call.gk20a_fifo_reset_engine engine_id) g
      ext_void Call.nvgpu_mutex_release_gr_reset g
    else g

/-- Fifth step of `gv11b_fifo_teardown_ch_tsg`, "check if engine reset should be
deferred". -/
def teardown_reset_engines (env : Env) (runlists_mask : Nat) (tsg refch : Option Nat)
    (client_type : Nat) (g : gk20a) : gk20a :=
  (List.range g.fifo.max_runlists).foldl
    (fun g runlist_id =>
      let runlist := g.fifo.runlist_info runlist_id
      if runlists_mask &&& BIT runlist_id ≠ 0 ∧ runlist.reset_eng_bitmask ≠ 0 then
        (for_each_set_bit runlist.reset_eng_bitmask 32).foldl
          (teardown_reset_engine env tsg refch client_type) g
      else g) g

/-- Last step of `gv11b_fifo_teardown_ch_tsg`: trace, enabling of the runlists and of
ELPG. -/
def teardown_enable (hw : Manifest) (env : Env) (runlists_mask : Nat) (tsg refch : Option Nat)
    (g : gk20a) : gk20a :=
  let g :=
    match refch, tsg with
    | some refch, _ => ext_void (Call.gk20a_ctxsw_trace_channel_reset refch) g
    | none, some tsg => ext_void (Call.gk20a_ctxsw_trace_tsg_reset tsg) g
    | none, none => g
  let g := ext_void (Call.gk20a_fifo_set_runlist_state runlists_mask hw.RUNLIST_ENABLED) g
  let (pmu, g) := ext env Call.support_gk20a_pmu g
  if pmu ≠ 0 ∧ g.elpg_enabled then (ext env Call.gk20a_pmu_enable_elpg g).2 else g

/-- The function `gv11b_fifo_teardown_ch_tsg`. -/
def gv11b_fifo_teardown_ch_tsg (hw : Manifest) (env : Env) (act_eng_bitmask id id_type
    rc_type : Nat) (mmfault : Option mmu_fault_info) (g : gk20a) : gk20a :=
  let (runlists_mask, g) := teardown_disable hw env act_eng_bitmask id id_type rc_type mmfault g
  let (tsg, refch, client_type, g) := teardown_resolve hw env id id_type rc_type mmfault g
  let g := teardown_preempt hw env id id_type runlists_mask g
  let (_, g) := teardown_abort hw env rc_type runlists_mask tsg refch g
  let g := teardown_reset_engines env runlists_mask tsg refch client_type g
  teardown_enable hw env runlists_mask tsg refch g

/-! ## Sample data used to instantiate the theorems -/

/-- A manifest with the usual encodings: one bit per runlist in the masks, status fields
`id` in bits 0..11, status in bits 13..15 and `next_id` in bits 16..27. -/
def sample_hw : Manifest where
  ID_TYPE_CHANNEL := 0
  ID_TYPE_TSG := 1
  ID_TYPE_UNKNOWN := 2 ^ 32 - 1
  RC_TYPE_MMU_FAULT := 1
  PREEMPT_TIMEOUT_RC := 1
  PREEMPT_TIMEOUT_NORC := 0
  FIFO_INVAL_PBDMA_ID := 2 ^ 32 - 1
  FIFO_INVAL_ENGINE_ID := 2 ^ 32 - 1
  FIFO_INVAL_CHANNEL_ID := 2 ^ 32 - 1
  RUNLIST_DISABLED := 0
  RUNLIST_ENABLED := 1
  fifo_sched_disable_runlist_m := fun i => 1 <<< i
  fifo_runlist_preempt_runlist_m := fun i => 1 <<< i
  fifo_pbdma_status_chan_status_v := fun r => (r >>> 13) &&& 7
  fifo_pbdma_status_id_v := fun r => r &&& 4095
  fifo_pbdma_status_next_id_v := fun r => (r >>> 16) &&& 4095
  fifo_pbdma_status_chan_status_valid_v := 1
  fifo_pbdma_status_chan_status_chsw_save_v := 6
  fifo_pbdma_status_chan_status_chsw_load_v := 5
  fifo_pbdma_status_chan_status_chsw_switch_v := 7
  fifo_engine_status_ctx_status_v := fun r => (r >>> 13) &&& 7
  fifo_engine_status_id_v := fun r => r &&& 4095
  fifo_engine_status_next_id_v := fun r => (r >>> 16) &&& 4095
  fifo_engine_status_ctx_status_valid_v := 1
  fifo_engine_status_ctx_status_ctxsw_save_v := 6
  fifo_engine_status_ctx_status_ctxsw_load_v := 5
  fifo_engine_status_ctx_status_ctxsw_switch_v := 7
  fifo_intr_0_runlist_event_pending_f := 2 ^ 30
  ccsr_channel_eng_faulted_reset_f := 2 ^ 23
  ccsr_channel_pbdma_faulted_reset_f := 2 ^ 22

/-- A fifo with three runlists: runlist `r` feeds engine `r` and PBDMA `r`. Channel and
TSG `i` are on runlist `i % 2`; TSG `i` holds the channels `i` and `i + 8`, both active,
and has no timeslice of its own. -/
def sample_fifo : fifo_gk20a where
  tsg := fun i => ⟨i, i % 2, [i, i + 8], 0, 0, 2⟩
  channel := fun i => ⟨i, i % 8, i % 2⟩
  runlist_info := fun r => ⟨1 <<< (r % 4), 1 <<< (r % 4), 0⟩
  max_runlists := 3
  num_pbdma := 3
  num_engines := 3
  deferred_reset_pending := false
  deferred_fault_engines := 0

/-- A device around `sample_fifo` with an empty trace. -/
def sample_g : gk20a where
  fifo := sample_fifo
  elpg_enabled := true
  has_slcg_gr_load_gating_prod := true
  has_slcg_perf_load_gating_prod := false
  has_slcg_ltc_load_gating_prod := true
  trace := []

/-- An environment in which every call returns 0: registers read 0, mutexes are
acquired, timers expire at their first check. -/
def env_zero : Env := fun _ _ => 0

/-- An environment in which every engine status read shows a valid context with id 5,
every other register reads 0, every other call returns 3 (a timer expires at its fourth
check). -/
def env_target_present : Env := fun _ c =>
  match c with
  | Call.gk20a_readl (Reg.fifo_engine_status_r _) => 8192 + 5
  | Call.gk20a_readl _ => 0
  | _ => 3

/-! ## Traces: what a function may call and what it leaves alone -/

/-- The events added to the trace between the device `g` and the later device `g'`. -/
def events_since (g g' : gk20a) : List Event := g'.trace.drop g.trace.length

/-- The number of calls `c` among the events `l`. -/
def count_calls (c : Call) (l : List Event) : Nat := l.countP (fun e => e.call = c)

/-- `Steps P g g'`: the device `g'` is `g` after some calls, all of them in the set `P`,
with the configuration of the fifo (tables, sizes, served PBDMAs and engines) and of the
device unchanged. -/
structure Steps (P : Call → Bool) (g g' : gk20a) : Prop where
  trace : ∃ l : List Event, g'.trace = g.trace ++ l ∧ ∀ e ∈ l, P e.call = true
  tsg : g'.fifo.tsg = g.fifo.tsg
  channel : g'.fifo.channel = g.fifo.channel
  max_runlists : g'.fifo.max_runlists = g.fifo.max_runlists
  num_pbdma : g'.fifo.num_pbdma = g.fifo.num_pbdma
  num_engines : g'.fifo.num_engines = g.fifo.num_engines
  pbdma_bitmask : ∀ r, (g'.fifo.runlist_info r).pbdma_bitmask =
    (g.fifo.runlist_info r).pbdma_bitmask
  eng_bitmask : ∀ r, (g'.fifo.runlist_info r).eng_bitmask = (g.fifo.runlist_info r).eng_bitmask
  elpg_enabled : g'.elpg_enabled = g.elpg_enabled
  slcg_gr : g'.has_slcg_gr_load_gating_prod = g.has_slcg_gr_load_gating_prod
  slcg_perf : g'.has_slcg_perf_load_gating_prod = g.has_slcg_perf_load_gating_prod
  slcg_ltc : g'.has_slcg_ltc_load_gating_prod = g.has_slcg_ltc_load_gating_prod

/-- Register accesses and timer set-up. -/
def is_reg_call : Call → Bool
  | Call.gk20a_readl _ => true
  | Call.gk20a_writel _ _ => true
  | Call.nvgpu_timeout_init => true
  | _ => false

/-- The calls made while a preemption holds its locks. -/
def is_locked_preempt_call : Call → Bool
  | Call.gk20a_fifo_issue_preempt _ _ => true
  | Call.__locked_fifo_preempt_timeout_rc _ _ => true
  | Call.__locked_fifo_preempt _ _ => true
  | Call.gk20a_fifo_handle_runlist_event => true
  | c => is_reg_call c

/-- Acquire and release of a per-runlist mutex or of the PMU mutex. -/
def is_mutex_call : Call → Bool
  | Call.nvgpu_mutex_acquire _ => true
  | Call.nvgpu_mutex_release _ => true
  | Call.pmu_mutex_acquire => true
  | Call.pmu_mutex_release => true
  | _ => false

/-- The mutex discipline on the events `l` of one call: the PMU mutex is released as
often as an acquire of it returned 0 and acquired at most once, and every per-runlist
mutex is released as often as it is acquired, at most once. -/
def mutex_discipline (l : List Event) : Prop :=
  count_calls Call.pmu_mutex_release l =
      l.countP (fun e => e.call = Call.pmu_mutex_acquire ∧ e.ret = 0) ∧
    count_calls Call.pmu_mutex_acquire l ≤ 1 ∧
    ∀ r, count_calls (Call.nvgpu_mutex_release r) l = count_calls (Call.nvgpu_mutex_acquire r) l ∧
      count_calls (Call.nvgpu_mutex_acquire r) l ≤ 1

/-- Reads and writes of the interrupt registers of one PBDMA. -/
def is_pbdma_intr_call (pbdma_id : Nat) : Call → Bool
  | Call.gk20a_readl r => r = Reg.pbdma_intr_0_r pbdma_id ∨ r = Reg.pbdma_intr_1_r pbdma_id
  | Call.gk20a_writel r _ => r = Reg.pbdma_intr_0_r pbdma_id ∨ r = Reg.pbdma_intr_1_r pbdma_id
  | _ => false

/-- The condition under which the PBDMA counts as clear of the target `id`, in the words
of the specification: the status is `valid` or `chsw_save` and the id field is not `id`;
or it is `chsw_load` and the next-id field is not `id`; or it is `chsw_switch` and `id`
differs from both fields; or it is any other value. -/
def pbdma_clear_spec (hw : Manifest) (id pbdma_stat : Nat) : Prop :=
  ((hw.fifo_pbdma_status_chan_status_v pbdma_stat = hw.fifo_pbdma_status_chan_status_valid_v ∨
      hw.fifo_pbdma_status_chan_status_v pbdma_stat =
        hw.fifo_pbdma_status_chan_status_chsw_save_v) ∧
    hw.fifo_pbdma_status_id_v pbdma_stat ≠ id) ∨
  (hw.fifo_pbdma_status_chan_status_v pbdma_stat =
      hw.fifo_pbdma_status_chan_status_chsw_load_v ∧
    hw.fifo_pbdma_status_next_id_v pbdma_stat ≠ id) ∨
  (hw.fifo_pbdma_status_chan_status_v pbdma_stat =
      hw.fifo_pbdma_status_chan_status_chsw_switch_v ∧
    id ≠ hw.fifo_pbdma_status_id_v pbdma_stat ∧ id ≠ hw.fifo_pbdma_status_next_id_v pbdma_stat) ∨
  (hw.fifo_pbdma_status_chan_status_v pbdma_stat ≠ hw.fifo_pbdma_status_chan_status_valid_v ∧
    hw.fifo_pbdma_status_chan_status_v pbdma_stat ≠
      hw.fifo_pbdma_status_chan_status_chsw_save_v ∧
    hw.fifo_pbdma_status_chan_status_v pbdma_stat ≠
      hw.fifo_pbdma_status_chan_status_chsw_load_v ∧
    hw.fifo_pbdma_status_chan_status_v pbdma_stat ≠
      hw.fifo_pbdma_status_chan_status_chsw_switch_v)

/-- The values of the status register of PBDMA `pbdma_id` read in the events `l`, in
order. -/
def pbdma_status_reads (pbdma_id : Nat) (l : List Event) : List Nat :=
  l.filterMap (fun e =>
    if e.call = Call.gk20a_readl (Reg.fifo_pbdma_status_r pbdma_id) then some e.ret.toNat
    else none)

/-- An environment in which PBDMA status reads show `chsw_switch` with the id 5 in both
the id and the next-id field, other registers read 0, and every other call returns 2 (a
timer expires at its third check). -/
def env_pbdma_stuck : Env := fun _ c =>
  match c with
  | Call.gk20a_readl (Reg.fifo_pbdma_status_r _) => 5 * 65536 + 7 * 8192 + 5
  | Call.gk20a_readl _ => 0
  | _ => 2

/-- The calls of the runlist-level preempt under its locks. -/
def is_locked_runlists_call : Call → Bool
  | Call.gk20a_fifo_handle_runlist_event => true
  | c => is_reg_call c

/-- The calls of the runlist-level preemption entry point. -/
def is_runlists_preempt_call (c : Call) : Bool := is_mutex_call c || is_locked_runlists_call c

/-- The calls of the trace points at the end of the recovery. -/
def is_ctxsw_trace_call : Call → Bool
  | Call.gk20a_ctxsw_trace_channel_reset _ => true
  | Call.gk20a_ctxsw_trace_tsg_reset _ => true
  | _ => false

/-- Reloading a runlist. -/
def is_update_runlist_call : Call → Bool
  | Call.update_runlist _ _ _ _ => true
  | _ => false

/-- Issuing the preempt of a single channel or TSG. -/
def is_issue_preempt_call : Call → Bool
  | Call.gk20a_fifo_issue_preempt _ _ => true
  | _ => false

/-- The calls of a preemption entry point: the mutexes and the work under them. -/
def is_preempt_call (c : Call) : Bool := is_mutex_call c || is_locked_preempt_call c

/-- Writing the state of a set of runlists. -/
def is_set_runlist_state_call : Call → Bool
  | Call.gk20a_fifo_set_runlist_state _ _ => true
  | _ => false

/-- Power management and dump calls of the first step of the recovery. -/
def is_power_call : Call → Bool
  | Call.support_gk20a_pmu => true
  | Call.gk20a_pmu_disable_elpg => true
  | Call.gk20a_pmu_enable_elpg => true
  | Call.slcg_gr_load_gating_prod _ => true
  | Call.slcg_perf_load_gating_prod _ => true
  | Call.slcg_ltc_load_gating_prod _ => true
  | Call.gr_gk20a_init_cg_mode => true
  | Call.gk20a_debug_dump => true
  | _ => false

/-- The calls made while the recovery looks up the channel or TSG. -/
def is_resolve_call : Call → Bool
  | Call.gk20a_is_channel_marked_as_tsg _ => true
  | Call.gk20a_channel_get _ => true
  | Call.down_read_ch_list_lock _ => true
  | Call.up_read_ch_list_lock _ => true
  | Call.gk20a_readl (Reg.ccsr_channel_r _) => true
  | Call.gk20a_writel (Reg.ccsr_channel_r _) _ => true
  | _ => false

/-- The abort handlers. -/
def is_abort_handler_call : Call → Bool
  | Call.gk20a_fifo_abort_tsg _ => true
  | Call.gk20a_channel_abort _ => true
  | _ => false

/-- The calls of the fourth step of the recovery. -/
def is_abort_call : Call → Bool
  | Call.gk20a_fifo_set_ctx_mmu_error_tsg _ => true
  | Call.gk20a_fifo_error_tsg _ => true
  | Call.gk20a_fifo_set_ctx_mmu_error_ch _ => true
  | Call.gk20a_fifo_error_ch _ => true
  | Call.gk20a_channel_put _ => true
  | Call.update_runlist _ _ _ _ => true
  | c => is_abort_handler_call c

/-- The calls of the engine-reset step of the recovery. -/
def is_engine_reset_call : Call → Bool
  | Call.gk20a_fifo_should_defer_engine_reset _ _ => true
  | Call.nvgpu_mutex_tryacquire_gr_reset => true
  | Call.nvgpu_mutex_release_gr_reset => true
  | Call.gk20a_fifo_reset_engine _ => true
  | _ => false

/-- The calls of the recovery between the two writes of the runlist state. -/
def is_recovery_work_call (c : Call) : Bool :=
  is_power_call c || is_resolve_call c || is_preempt_call c || is_abort_call c ||
    is_engine_reset_call c ||
    (match c with
      | Call.gk20a_ctxsw_trace_channel_reset _ => true
      | Call.gk20a_ctxsw_trace_tsg_reset _ => true
      | _ => false)

/-- The device `sample_g` in which an earlier preemption has left the bit of engine 0 in
`runlist_info[0].reset_eng_bitmask`. -/
def sample_g_stale : gk20a := set_reset_eng_bitmask 0 1 sample_g

/-- The result of the second step of `gv11b_fifo_teardown_ch_tsg`: `tsg`, `refch`,
`client_type` and the device when the channel or TSG has been looked up. -/
def teardown_resolved (hw : Manifest) (env : Env) (act_eng_bitmask id id_type rc_type : Nat)
    (mmfault : Option mmu_fault_info) (g : gk20a) : Option Nat × Option Nat × Nat × gk20a :=
  teardown_resolve hw env id id_type rc_type mmfault
    (teardown_disable hw env act_eng_bitmask id id_type rc_type mmfault g).2

/-- The device of `gv11b_fifo_teardown_ch_tsg` after the preemption (third step). -/
def teardown_preempted (hw : Manifest) (env : Env) (act_eng_bitmask id id_type rc_type : Nat)
    (mmfault : Option mmu_fault_info) (g : gk20a) : gk20a :=
  teardown_preempt hw env id id_type
    (gv11b_fifo_get_runlists_mask hw g.fifo act_eng_bitmask id id_type rc_type mmfault)
    (teardown_resolved hw env act_eng_bitmask id id_type rc_type mmfault g).2.2.2

/-- The device of `gv11b_fifo_teardown_ch_tsg` after the abort of the TSG or channel
(fourth step). -/
def teardown_aborted (hw : Manifest) (env : Env) (act_eng_bitmask id id_type rc_type : Nat)
    (mmfault : Option mmu_fault_info) (g : gk20a) : gk20a :=
  (teardown_abort hw env rc_type
    (gv11b_fifo_get_runlists_mask hw g.fifo act_eng_bitmask id id_type rc_type mmfault)
    (teardown_resolved hw env act_eng_bitmask id id_type rc_type mmfault g).1
    (teardown_resolved hw env act_eng_bitmask id id_type rc_type mmfault g).2.1
    (teardown_preempted hw env act_eng_bitmask id id_type rc_type mmfault g)).2

/-- The abort handler called by the fourth step of the recovery for the resolved `tsg`
and `refch`; `tsgs` is the TSG table. -/
def abort_handler_events (tsgs : Nat → tsg_gk20a) (tsg refch : Option Nat) : List Event :=
  match tsg, refch with
  | some tsg, _ => [⟨Call.gk20a_fifo_abort_tsg (tsgs tsg).tsgid, 0⟩]
  | none, some refch => [⟨Call.gk20a_channel_abort refch, 0⟩]
  | none, none => []

/-! ## Runlist entries -/

/-- Field encoders and values of `hw_ram_gv11b.h` used for the runlist entry of a TSG. -/
structure RamManifest where
  ram_rl_entry_type_tsg_v : Nat
  ram_rl_entry_tsg_timeslice_scale_f : Nat → Nat
  ram_rl_entry_tsg_timeslice_timeout_f : Nat → Nat
  ram_rl_entry_tsg_timeslice_scale_3_v : Nat
  ram_rl_entry_tsg_timeslice_timeout_128_v : Nat
  ram_rl_entry_tsg_length_f : Nat → Nat
  ram_rl_entry_tsg_tsgid_f : Nat → Nat

/-- The function `gv11b_get_tsg_runlist_entry`: the words stored in `runlist[0]` to
`runlist[3]`. -/
def gv11b_get_tsg_runlist_entry (hw : RamManifest) (tsg : tsg_gk20a) : List Nat :=
  let runlist_entry_0 := u32 hw.ram_rl_entry_type_tsg_v
  let runlist_entry_0 :=
    if tsg.timeslice_timeout ≠ 0 then
      u32 (runlist_entry_0 |||
        (hw.ram_rl_entry_tsg_timeslice_scale_f tsg.timeslice_scale |||
          hw.ram_rl_entry_tsg_timeslice_timeout_f tsg.timeslice_timeout))
    else
      u32 (runlist_entry_0 |||
        (hw.ram_rl_entry_tsg_timeslice_scale_f hw.ram_rl_entry_tsg_timeslice_scale_3_v |||
          hw.ram_rl_entry_tsg_timeslice_timeout_f hw.ram_rl_entry_tsg_timeslice_timeout_128_v))
  [runlist_entry_0, u32 (hw.ram_rl_entry_tsg_length_f tsg.num_active_channels),
    u32 (hw.ram_rl_entry_tsg_tsgid_f tsg.tsgid), 0]

/-- The runlist entry of a TSG in the words of the specification, as a function of the four
fields: the scale and timeout are those of the TSG when its timeout is non-zero and the
defaults `scale_3`, `timeout_128` otherwise; word 0 is the type or-ed with the two encoded
fields, word 1 the encoded length, word 2 the encoded id, word 3 is zero. -/
def tsg_runlist_entry_spec (hw : RamManifest) (timeslice_timeout timeslice_scale
    num_active_channels tsgid : Nat) : List Nat :=
  let st : Nat × Nat :=
    if timeslice_timeout ≠ 0 then (timeslice_scale, timeslice_timeout)
    else (hw.ram_rl_entry_tsg_timeslice_scale_3_v, hw.ram_rl_entry_tsg_timeslice_timeout_128_v)
  [u32 (hw.ram_rl_entry_type_tsg_v ||| hw.ram_rl_entry_tsg_timeslice_scale_f st.1 |||
      hw.ram_rl_entry_tsg_timeslice_timeout_f st.2),
    u32 (hw.ram_rl_entry_tsg_length_f num_active_channels),
    u32 (hw.ram_rl_entry_tsg_tsgid_f tsgid), 0]

/-! ## TPC power gating: `gr_gv11b_powergate_tpc` -/

/-- A call of a collaborator that returns a `u32`. -/
def ext_u32 (env : Env) (c : Call) (g : gk20a) : Nat × gk20a :=
  let v := (env g.trace c % 2 ^ 32).toNat
  (v, { g with trace := g.trace ++ [⟨c, v⟩] })

/-- The loop `do ... while (tpc_pg_status != g->tpc_pg_mask)` of `gr_gv11b_powergate_tpc`.
The loop of the source has no timer; `fuel` is the number of status reads that the
model follows, and the result is `none` when the loop has not been left after that many
reads. -/
def powergate_tpc_loop (env : Env) : Nat → gk20a → Option gk20a
  | 0, _ => none
  | fuel + 1, g =>
    let (tpc_pg_status, g) := ext_u32 env (Call.fuse_status_opt_tpc_gpc 0) g
    if tpc_pg_status ≠ g.tpc_pg_mask then powergate_tpc_loop env fuel g else some g

/-- The function `gr_gv11b_powergate_tpc`; `g->ops.fuse.fuse_status_opt_tpc_gpc` and
`g->ops.fuse.fuse_ctrl_opt_tpc_gpc` are collaborators. The result is the device at
return, `none` when the function has not returned after `fuel` status reads in its
loop. -/
def gr_gv11b_powergate_tpc (env : Env) (fuel : Nat) (g : gk20a) : Option gk20a :=
  let (tpc_pg_status, g) := ext_u32 env (Call.fuse_status_opt_tpc_gpc 0) g
  if tpc_pg_status = g.tpc_pg_mask then some g
  else
    let g := ext_void (Call.fuse_ctrl_opt_tpc_gpc 0 g.tpc_pg_mask) g
    powergate_tpc_loop env fuel g

/-! ## ECC error decoders of `gr_gv11b.c` -/

/-- The kernel's `BIT32(n)`, `1U << n` on a `u32`. -/
def BIT32 (n : Nat) : Nat := (1 <<< n) % 2 ^ 32

/-- The macros of `hw_gr_gv11b.h` that every SM or GCC ECC unit has: the `total` field of
the two count registers and its width, the two overflow fields of the status register and
the value that resets the status register. The name of a macro is the name of the unit
followed by the name of the field. -/
structure ecc_count_hw where
  corrected_err_count_total_v : Nat → Nat
  uncorrected_err_count_total_v : Nat → Nat
  status_corrected_err_total_counter_overflow_v : Nat → Nat
  status_uncorrected_err_total_counter_overflow_v : Nat → Nat
  corrected_err_count_total_s : Nat
  uncorrected_err_count_total_s : Nat
  status_reset_task_f : Nat

/-- The macros `gr_pri_gpc0_tpc0_sm_l1_tag_ecc_*` of `hw_gr_gv11b.h`. -/
structure sm_l1_tag_ecc_hw extends ecc_count_hw where
  status_corrected_err_el1_0_m : Nat
  status_corrected_err_el1_1_m : Nat
  status_corrected_err_pixrpf_m : Nat
  status_corrected_err_miss_fifo_m : Nat
  status_uncorrected_err_el1_0_m : Nat
  status_uncorrected_err_el1_1_m : Nat
  status_uncorrected_err_pixrpf_m : Nat
  status_uncorrected_err_miss_fifo_m : Nat

/-- The macros `gr_pri_gpc0_tpc0_sm_lrf_ecc_*` of `hw_gr_gv11b.h`. -/
structure sm_lrf_ecc_hw extends ecc_count_hw where
  status_corrected_err_qrfdp0_m : Nat
  status_corrected_err_qrfdp1_m : Nat
  status_corrected_err_qrfdp2_m : Nat
  status_corrected_err_qrfdp3_m : Nat
  status_corrected_err_qrfdp4_m : Nat
  status_corrected_err_qrfdp5_m : Nat
  status_corrected_err_qrfdp6_m : Nat
  status_corrected_err_qrfdp7_m : Nat
  status_uncorrected_err_qrfdp0_m : Nat
  status_uncorrected_err_qrfdp1_m : Nat
  status_uncorrected_err_qrfdp2_m : Nat
  status_uncorrected_err_qrfdp3_m : Nat
  status_uncorrected_err_qrfdp4_m : Nat
  status_uncorrected_err_qrfdp5_m : Nat
  status_uncorrected_err_qrfdp6_m : Nat
  status_uncorrected_err_qrfdp7_m : Nat

/-- The macros `gr_pri_gpc0_tpc0_sm_cbu_ecc_*` of `hw_gr_gv11b.h`. -/
structure sm_cbu_ecc_hw extends ecc_count_hw where
  status_corrected_err_warp_sm0_m : Nat
  status_corrected_err_warp_sm1_m : Nat
  status_corrected_err_barrier_sm0_m : Nat
  status_corrected_err_barrier_sm1_m : Nat
  status_uncorrected_err_warp_sm0_m : Nat
  status_uncorrected_err_warp_sm1_m : Nat
  status_uncorrected_err_barrier_sm0_m : Nat
  status_uncorrected_err_barrier_sm1_m : Nat

/-- The macros `gr_pri_gpc0_tpc0_sm_l1_data_ecc_*` of `hw_gr_gv11b.h`. -/
structure sm_l1_data_ecc_hw extends ecc_count_hw where
  status_corrected_err_el1_0_m : Nat
  status_corrected_err_el1_1_m : Nat
  status_uncorrected_err_el1_0_m : Nat
  status_uncorrected_err_el1_1_m : Nat

/-- The macros `gr_pri_gpc0_tpc0_sm_icache_ecc_*` of `hw_gr_gv11b.h`. -/
structure sm_icache_ecc_hw extends ecc_count_hw where
  status_corrected_err_l0_data_m : Nat
  status_corrected_err_l0_predecode_m : Nat
  status_corrected_err_l1_data_m : Nat
  status_corrected_err_l1_predecode_m : Nat
  status_uncorrected_err_l0_data_m : Nat
  status_uncorrected_err_l0_predecode_m : Nat
  status_uncorrected_err_l1_data_m : Nat
  status_uncorrected_err_l1_predecode_m : Nat

/-- The macros `gr_pri_gpc0_gcc_l15_ecc_*` of `hw_gr_gv11b.h`. -/
structure gcc_l15_ecc_hw extends ecc_count_hw where
  status_corrected_err_bank0_m : Nat
  status_corrected_err_bank1_m : Nat
  status_uncorrected_err_bank0_m : Nat
  status_uncorrected_err_bank1_m : Nat

/-- The macros `gr_gpc0_mmu_l1tlb_ecc_*` of `hw_gr_gv11b.h`. -/
structure mmu_l1tlb_ecc_hw where
  corrected_err_count_total_v : Nat → Nat
  uncorrected_err_count_total_v : Nat → Nat
  status_corrected_err_total_counter_overflow_m : Nat
  status_uncorrected_err_total_counter_overflow_m : Nat
  corrected_err_count_total_s : Nat
  uncorrected_err_count_total_s : Nat
  status_reset_task_f : Nat
  status_corrected_err_l1tlb_sa_data_m : Nat
  status_uncorrected_err_l1tlb_sa_data_m : Nat
  status_corrected_err_l1tlb_fa_data_m : Nat
  status_uncorrected_err_l1tlb_fa_data_m : Nat

/-- The macros `gr_gpc0_gpccs_falcon_ecc_*` and `gr_fecs_falcon_ecc_*` of
`hw_gr_gv11b.h` used by the decoders. -/
structure falcon_ecc_hw where
  corrected_err_count_total_v : Nat → Nat
  uncorrected_err_count_total_v : Nat → Nat
  status_corrected_err_total_counter_overflow_m : Nat
  status_uncorrected_err_total_counter_overflow_m : Nat
  status_reset_task_f : Nat
  status_corrected_err_imem_m : Nat
  status_uncorrected_err_imem_m : Nat
  status_corrected_err_dmem_m : Nat
  status_uncorrected_err_dmem_m : Nat

/-- The constants of the GR engine: the strides returned by `nvgpu_get_litter_value` and
the macros of `hw_gr_gv11b.h`, one group per ECC unit. They are parameters of the
development. -/
structure GrManifest where
  GPU_LIT_GPC_STRIDE : Nat
  GPU_LIT_TPC_IN_GPC_STRIDE : Nat
  gr_pri_gpc0_tpc0_sm_l1_tag_ecc : sm_l1_tag_ecc_hw
  gr_pri_gpc0_tpc0_sm_lrf_ecc : sm_lrf_ecc_hw
  gr_pri_gpc0_tpc0_sm_cbu_ecc : sm_cbu_ecc_hw
  gr_pri_gpc0_tpc0_sm_l1_data_ecc : sm_l1_data_ecc_hw
  gr_pri_gpc0_tpc0_sm_icache_ecc : sm_icache_ecc_hw
  gr_pri_gpc0_gcc_l15_ecc : gcc_l15_ecc_hw
  gr_gpc0_mmu_gpcmmu_global_esr_ecc_corrected_m : Nat
  gr_gpc0_mmu_gpcmmu_global_esr_ecc_uncorrected_m : Nat
  gr_gpc0_mmu_l1tlb_ecc : mmu_l1tlb_ecc_hw
  gr_gpc0_gpccs_hww_esr_ecc_corrected_m : Nat
  gr_gpc0_gpccs_hww_esr_ecc_uncorrected_m : Nat
  gr_gpc0_gpccs_falcon_ecc : falcon_ecc_hw
  gr_fecs_host_int_status_ecc_corrected_m : Nat
  gr_fecs_host_int_status_ecc_uncorrected_m : Nat
  gr_fecs_falcon_ecc : falcon_ecc_hw

/-- The statement `tbl[gpc][tpc].counter += delta` on `u32` counters. -/
def counter_add2 (tbl : Nat → Nat → Nat) (gpc tpc delta : Nat) : Nat → Nat → Nat :=
  Function.update tbl gpc (Function.update (tbl gpc) tpc (u32 (tbl gpc tpc + delta)))

/-- The statement `tbl[gpc].counter += delta` on `u32` counters. -/
def counter_add1 (tbl : Nat → Nat) (gpc delta : Nat) : Nat → Nat :=
  Function.update tbl gpc (u32 (tbl gpc + delta))

/-- The function `gr_gv11b_handle_l1_tag_exception`; the parameters `post_event`, `fault_ch`
and `hww_global_esr`, which it does not use, are left out. -/
def gr_gv11b_handle_l1_tag_exception (hw : GrManifest) (env : Env) (gpc tpc : Nat)
    (g : gk20a) : gk20a :=
  let u := hw.gr_pri_gpc0_tpc0_sm_l1_tag_ecc
  let gpc_stride := hw.GPU_LIT_GPC_STRIDE
  let tpc_in_gpc_stride := hw.GPU_LIT_TPC_IN_GPC_STRIDE
  let offset := u32 (gpc_stride * gpc + tpc_in_gpc_stride * tpc)
  let (l1_tag_ecc_status, g) :=
    gk20a_readl env (Reg.gr .gr_pri_gpc0_tpc0_sm_l1_tag_ecc_status_r offset) g
  let l1_tag_ecc_corrected_err_status := l1_tag_ecc_status &&&
    (u.status_corrected_err_el1_0_m |||
      u.status_corrected_err_el1_1_m |||
      u.status_corrected_err_pixrpf_m |||
      u.status_corrected_err_miss_fifo_m)
  let l1_tag_ecc_uncorrected_err_status := l1_tag_ecc_status &&&
    (u.status_uncorrected_err_el1_0_m |||
      u.status_uncorrected_err_el1_1_m |||
      u.status_uncorrected_err_pixrpf_m |||
      u.status_uncorrected_err_miss_fifo_m)
  if l1_tag_ecc_corrected_err_status = 0 ∧ l1_tag_ecc_uncorrected_err_status = 0 then g
  else
    let (cnt, g) :=
      gk20a_readl env (Reg.gr .gr_pri_gpc0_tpc0_sm_l1_tag_ecc_corrected_err_count_r offset) g
    let l1_tag_corrected_err_count_delta := u32 (u.corrected_err_count_total_v cnt)
    let (cnt, g) :=
      gk20a_readl env (Reg.gr .gr_pri_gpc0_tpc0_sm_l1_tag_ecc_uncorrected_err_count_r offset) g
    let l1_tag_uncorrected_err_count_delta := u32 (u.uncorrected_err_count_total_v cnt)
    let is_l1_tag_ecc_corrected_total_err_overflow : Bool := decide
      (u32 (u.status_corrected_err_total_counter_overflow_v l1_tag_ecc_status) ≠ 0)
    let is_l1_tag_ecc_uncorrected_total_err_overflow : Bool := decide
      (u32 (u.status_uncorrected_err_total_counter_overflow_v l1_tag_ecc_status) ≠ 0)
    let g :=
      if l1_tag_corrected_err_count_delta > 0 ∨
          is_l1_tag_ecc_corrected_total_err_overflow = true then
        let l1_tag_corrected_err_count_delta :=
          if is_l1_tag_ecc_corrected_total_err_overflow = true then
            u32 (l1_tag_corrected_err_count_delta + BIT32 u.corrected_err_count_total_s)
          else l1_tag_corrected_err_count_delta
        let ecc : nvgpu_ecc_gr := g.ecc_gr
        let g : gk20a := { g with ecc_gr := { ecc with
          sm_l1_tag_ecc_corrected_err_count :=
            counter_add2 ecc.sm_l1_tag_ecc_corrected_err_count gpc tpc
              l1_tag_corrected_err_count_delta } }
        let g :=
          if l1_tag_ecc_status &&& (u.status_corrected_err_el1_0_m |||
              u.status_corrected_err_el1_1_m) ≠ 0 then
            ext_void (Call.nvgpu_gr_report_ecc_error .NVGPU_ERR_MODULE_SM gpc tpc
              .GPU_SM_L1_TAG_ECC_CORRECTED 0 (g.ecc_gr.sm_l1_tag_ecc_corrected_err_count gpc tpc)) g
          else g
        let g :=
          if l1_tag_ecc_status &&& u.status_corrected_err_miss_fifo_m ≠ 0 then
            ext_void (Call.nvgpu_gr_report_ecc_error .NVGPU_ERR_MODULE_SM gpc tpc
              .GPU_SM_L1_TAG_MISS_FIFO_ECC_CORRECTED 0
                (g.ecc_gr.sm_l1_tag_ecc_corrected_err_count gpc tpc)) g
          else g
        let g :=
          if l1_tag_ecc_status &&& u.status_corrected_err_pixrpf_m ≠ 0 then
            ext_void (Call.nvgpu_gr_report_ecc_error .NVGPU_ERR_MODULE_SM gpc tpc
              .GPU_SM_L1_TAG_S2R_PIXPRF_ECC_CORRECTED 0
                (g.ecc_gr.sm_l1_tag_ecc_corrected_err_count gpc tpc)) g
          else g
        gk20a_writel (Reg.gr .gr_pri_gpc0_tpc0_sm_l1_tag_ecc_corrected_err_count_r offset) 0 g
      else g
    let g :=
      if l1_tag_uncorrected_err_count_delta > 0 ∨
          is_l1_tag_ecc_uncorrected_total_err_overflow = true then
        let l1_tag_uncorrected_err_count_delta :=
          if is_l1_tag_ecc_uncorrected_total_err_overflow = true then
            u32 (l1_tag_uncorrected_err_count_delta + BIT32 u.uncorrected_err_count_total_s)
          else l1_tag_uncorrected_err_count_delta
        let ecc : nvgpu_ecc_gr := g.ecc_gr
        let g : gk20a := { g with ecc_gr := { ecc with
          sm_l1_tag_ecc_uncorrected_err_count :=
            counter_add2 ecc.sm_l1_tag_ecc_uncorrected_err_count gpc tpc
              l1_tag_uncorrected_err_count_delta } }
        let g :=
          if l1_tag_ecc_status &&& (u.status_uncorrected_err_el1_0_m |||
              u.status_uncorrected_err_el1_1_m) ≠ 0 then
            ext_void (Call.nvgpu_gr_report_ecc_error .NVGPU_ERR_MODULE_SM gpc tpc
              .GPU_SM_L1_TAG_ECC_UNCORRECTED 0
                (g.ecc_gr.sm_l1_tag_ecc_uncorrected_err_count gpc tpc)) g
          else g
        let g :=
          if l1_tag_ecc_status &&& u.status_uncorrected_err_miss_fifo_m ≠ 0 then
            ext_void (Call.nvgpu_gr_report_ecc_error .NVGPU_ERR_MODULE_SM gpc tpc
              .GPU_SM_L1_TAG_MISS_FIFO_ECC_UNCORRECTED 0
                (g.ecc_gr.sm_l1_tag_ecc_uncorrected_err_count gpc tpc)) g
          else g
        let g :=
          if l1_tag_ecc_status &&& u.status_uncorrected_err_pixrpf_m ≠ 0 then
            ext_void (Call.nvgpu_gr_report_ecc_error .NVGPU_ERR_MODULE_SM gpc tpc
              .GPU_SM_L1_TAG_S2R_PIXPRF_ECC_UNCORRECTED 0
                (g.ecc_gr.sm_l1_tag_ecc_uncorrected_err_count gpc tpc)) g
          else g
        gk20a_writel (Reg.gr .gr_pri_gpc0_tpc0_sm_l1_tag_ecc_uncorrected_err_count_r offset) 0 g
      else g
    gk20a_writel (Reg.gr .gr_pri_gpc0_tpc0_sm_l1_tag_ecc_status_r offset) u.status_reset_task_f g

/-- The function `gr_gv11b_handle_lrf_exception`; the parameters `post_event`, `fault_ch`
and `hww_global_esr`, which it does not use, are left out. -/
def gr_gv11b_handle_lrf_exception (hw : GrManifest) (env : Env) (gpc tpc : Nat)
    (g : gk20a) : gk20a :=
  let u := hw.gr_pri_gpc0_tpc0_sm_lrf_ecc
  let gpc_stride := hw.GPU_LIT_GPC_STRIDE
  let tpc_in_gpc_stride := hw.GPU_LIT_TPC_IN_GPC_STRIDE
  let offset := u32 (gpc_stride * gpc + tpc_in_gpc_stride * tpc)
  let (lrf_ecc_status, g) := gk20a_readl env (Reg.gr .gr_pri_gpc0_tpc0_sm_lrf_ecc_status_r offset) g
  let lrf_ecc_corrected_err_status := lrf_ecc_status &&&
    (u.status_corrected_err_qrfdp0_m |||
      u.status_corrected_err_qrfdp1_m |||
      u.status_corrected_err_qrfdp2_m |||
      u.status_corrected_err_qrfdp3_m |||
      u.status_corrected_err_qrfdp4_m |||
      u.status_corrected_err_qrfdp5_m |||
      u.status_corrected_err_qrfdp6_m |||
      u.status_corrected_err_qrfdp7_m)
  let lrf_ecc_uncorrected_err_status := lrf_ecc_status &&&
    (u.status_uncorrected_err_qrfdp0_m |||
      u.status_uncorrected_err_qrfdp1_m |||
      u.status_uncorrected_err_qrfdp2_m |||
      u.status_uncorrected_err_qrfdp3_m |||
      u.status_uncorrected_err_qrfdp4_m |||
      u.status_uncorrected_err_qrfdp5_m |||
      u.status_uncorrected_err_qrfdp6_m |||
      u.status_uncorrected_err_qrfdp7_m)
  if lrf_ecc_corrected_err_status = 0 ∧ lrf_ecc_uncorrected_err_status = 0 then g
  else
    let (cnt, g) :=
      gk20a_readl env (Reg.gr .gr_pri_gpc0_tpc0_sm_lrf_ecc_corrected_err_count_r offset) g
    let lrf_corrected_err_count_delta := u32 (u.corrected_err_count_total_v cnt)
    let (cnt, g) :=
      gk20a_readl env (Reg.gr .gr_pri_gpc0_tpc0_sm_lrf_ecc_uncorrected_err_count_r offset) g
    let lrf_uncorrected_err_count_delta := u32 (u.uncorrected_err_count_total_v cnt)
    let is_lrf_ecc_corrected_total_err_overflow : Bool := decide
      (u32 (u.status_corrected_err_total_counter_overflow_v lrf_ecc_status) ≠ 0)
    let is_lrf_ecc_uncorrected_total_err_overflow : Bool := decide
      (u32 (u.status_uncorrected_err_total_counter_overflow_v lrf_ecc_status) ≠ 0)
    let g :=
      if lrf_corrected_err_count_delta > 0 ∨ is_lrf_ecc_corrected_total_err_overflow = true then
        let lrf_corrected_err_count_delta :=
          if is_lrf_ecc_corrected_total_err_overflow = true then
            u32 (lrf_corrected_err_count_delta + BIT32 u.corrected_err_count_total_s)
          else lrf_corrected_err_count_delta
        let ecc : nvgpu_ecc_gr := g.ecc_gr
        let g : gk20a := { g with ecc_gr := { ecc with
          sm_lrf_ecc_single_err_count :=
            counter_add2 ecc.sm_lrf_ecc_single_err_count gpc tpc lrf_corrected_err_count_delta } }
        let g :=
          ext_void (Call.nvgpu_gr_report_ecc_error .NVGPU_ERR_MODULE_SM gpc tpc
            .GPU_SM_LRF_ECC_CORRECTED 0 (g.ecc_gr.sm_lrf_ecc_single_err_count gpc tpc)) g
        gk20a_writel (Reg.gr .gr_pri_gpc0_tpc0_sm_lrf_ecc_corrected_err_count_r offset) 0 g
      else g
    let g :=
      if lrf_uncorrected_err_count_delta > 0 ∨ is_lrf_ecc_uncorrected_total_err_overflow = true then
        let lrf_uncorrected_err_count_delta :=
          if is_lrf_ecc_uncorrected_total_err_overflow = true then
            u32 (lrf_uncorrected_err_count_delta + BIT32 u.uncorrected_err_count_total_s)
          else lrf_uncorrected_err_count_delta
        let ecc : nvgpu_ecc_gr := g.ecc_gr
        let g : gk20a := { g with ecc_gr := { ecc with
          sm_lrf_ecc_double_err_count :=
            counter_add2 ecc.sm_lrf_ecc_double_err_count gpc tpc lrf_uncorrected_err_count_delta } }
        let g :=
          ext_void (Call.nvgpu_gr_report_ecc_error .NVGPU_ERR_MODULE_SM gpc tpc
            .GPU_SM_LRF_ECC_UNCORRECTED 0 (g.ecc_gr.sm_lrf_ecc_double_err_count gpc tpc)) g
        gk20a_writel (Reg.gr .gr_pri_gpc0_tpc0_sm_lrf_ecc_uncorrected_err_count_r offset) 0 g
      else g
    gk20a_writel (Reg.gr .gr_pri_gpc0_tpc0_sm_lrf_ecc_status_r offset) u.status_reset_task_f g

/-- The function `gr_gv11b_handle_cbu_exception`; the parameters `post_event`, `fault_ch`
and `hww_global_esr`, which it does not use, are left out. -/
def gr_gv11b_handle_cbu_exception (hw : GrManifest) (env : Env) (gpc tpc : Nat)
    (g : gk20a) : gk20a :=
  let u := hw.gr_pri_gpc0_tpc0_sm_cbu_ecc
  let gpc_stride := hw.GPU_LIT_GPC_STRIDE
  let tpc_in_gpc_stride := hw.GPU_LIT_TPC_IN_GPC_STRIDE
  let offset := u32 (gpc_stride * gpc + tpc_in_gpc_stride * tpc)
  let (cbu_ecc_status, g) := gk20a_readl env (Reg.gr .gr_pri_gpc0_tpc0_sm_cbu_ecc_status_r offset) g
  let cbu_ecc_corrected_err_status := cbu_ecc_status &&&
    (u.status_corrected_err_warp_sm0_m |||
      u.status_corrected_err_warp_sm1_m |||
      u.status_corrected_err_barrier_sm0_m |||
      u.status_corrected_err_barrier_sm1_m)
  let cbu_ecc_uncorrected_err_status := cbu_ecc_status &&&
    (u.status_uncorrected_err_warp_sm0_m |||
      u.status_uncorrected_err_warp_sm1_m |||
      u.status_uncorrected_err_barrier_sm0_m |||
      u.status_uncorrected_err_barrier_sm1_m)
  if cbu_ecc_corrected_err_status = 0 ∧ cbu_ecc_uncorrected_err_status = 0 then g
  else
    let (cnt, g) :=
      gk20a_readl env (Reg.gr .gr_pri_gpc0_tpc0_sm_cbu_ecc_corrected_err_count_r offset) g
    let cbu_corrected_err_count_delta := u32 (u.corrected_err_count_total_v cnt)
    let (cnt, g) :=
      gk20a_readl env (Reg.gr .gr_pri_gpc0_tpc0_sm_cbu_ecc_uncorrected_err_count_r offset) g
    let cbu_uncorrected_err_count_delta := u32 (u.uncorrected_err_count_total_v cnt)
    let is_cbu_ecc_corrected_total_err_overflow : Bool := decide
      (u32 (u.status_corrected_err_total_counter_overflow_v cbu_ecc_status) ≠ 0)
    let is_cbu_ecc_uncorrected_total_err_overflow : Bool := decide
      (u32 (u.status_uncorrected_err_total_counter_overflow_v cbu_ecc_status) ≠ 0)
    let g :=
      if cbu_corrected_err_count_delta > 0 ∨ is_cbu_ecc_corrected_total_err_overflow = true then
        let cbu_corrected_err_count_delta :=
          if is_cbu_ecc_corrected_total_err_overflow = true then
            u32 (cbu_corrected_err_count_delta + BIT32 u.corrected_err_count_total_s)
          else cbu_corrected_err_count_delta
        let ecc : nvgpu_ecc_gr := g.ecc_gr
        let g : gk20a := { g with ecc_gr := { ecc with
          sm_cbu_ecc_corrected_err_count :=
            counter_add2 ecc.sm_cbu_ecc_corrected_err_count gpc tpc
              cbu_corrected_err_count_delta } }
        let g :=
          ext_void (Call.nvgpu_gr_report_ecc_error .NVGPU_ERR_MODULE_SM gpc tpc
            .GPU_SM_CBU_ECC_CORRECTED 0 (g.ecc_gr.sm_cbu_ecc_corrected_err_count gpc tpc)) g
        gk20a_writel (Reg.gr .gr_pri_gpc0_tpc0_sm_cbu_ecc_corrected_err_count_r offset) 0 g
      else g
    let g :=
      if cbu_uncorrected_err_count_delta > 0 ∨ is_cbu_ecc_uncorrected_total_err_overflow = true then
        let cbu_uncorrected_err_count_delta :=
          if is_cbu_ecc_uncorrected_total_err_overflow = true then
            u32 (cbu_uncorrected_err_count_delta + BIT32 u.uncorrected_err_count_total_s)
          else cbu_uncorrected_err_count_delta
        let ecc : nvgpu_ecc_gr := g.ecc_gr
        let g : gk20a := { g with ecc_gr := { ecc with
          sm_cbu_ecc_uncorrected_err_count :=
            counter_add2 ecc.sm_cbu_ecc_uncorrected_err_count gpc tpc
              cbu_uncorrected_err_count_delta } }
        let g :=
          ext_void (Call.nvgpu_gr_report_ecc_error .NVGPU_ERR_MODULE_SM gpc tpc
            .GPU_SM_CBU_ECC_UNCORRECTED 0 (g.ecc_gr.sm_cbu_ecc_uncorrected_err_count gpc tpc)) g
        gk20a_writel (Reg.gr .gr_pri_gpc0_tpc0_sm_cbu_ecc_uncorrected_err_count_r offset) 0 g
      else g
    gk20a_writel (Reg.gr .gr_pri_gpc0_tpc0_sm_cbu_ecc_status_r offset) u.status_reset_task_f g

/-- The function `gr_gv11b_handle_l1_data_exception`; the parameters `post_event`, `fault_ch`
and `hww_global_esr`, which it does not use, are left out. -/
def gr_gv11b_handle_l1_data_exception (hw : GrManifest) (env : Env) (gpc tpc : Nat)
    (g : gk20a) : gk20a :=
  let u := hw.gr_pri_gpc0_tpc0_sm_l1_data_ecc
  let gpc_stride := hw.GPU_LIT_GPC_STRIDE
  let tpc_in_gpc_stride := hw.GPU_LIT_TPC_IN_GPC_STRIDE
  let offset := u32 (gpc_stride * gpc + tpc_in_gpc_stride * tpc)
  let (l1_data_ecc_status, g) :=
    gk20a_readl env (Reg.gr .gr_pri_gpc0_tpc0_sm_l1_data_ecc_status_r offset) g
  let l1_data_ecc_corrected_err_status := l1_data_ecc_status &&&
    (u.status_corrected_err_el1_0_m |||
      u.status_corrected_err_el1_1_m)
  let l1_data_ecc_uncorrected_err_status := l1_data_ecc_status &&&
    (u.status_uncorrected_err_el1_0_m |||
      u.status_uncorrected_err_el1_1_m)
  if l1_data_ecc_corrected_err_status = 0 ∧ l1_data_ecc_uncorrected_err_status = 0 then g
  else
    let (cnt, g) :=
      gk20a_readl env (Reg.gr .gr_pri_gpc0_tpc0_sm_l1_data_ecc_corrected_err_count_r offset) g
    let l1_data_corrected_err_count_delta := u32 (u.corrected_err_count_total_v cnt)
    let (cnt, g) :=
      gk20a_readl env (Reg.gr .gr_pri_gpc0_tpc0_sm_l1_data_ecc_uncorrected_err_count_r offset) g
    let l1_data_uncorrected_err_count_delta := u32 (u.uncorrected_err_count_total_v cnt)
    let is_l1_data_ecc_corrected_total_err_overflow : Bool := decide
      (u32 (u.status_corrected_err_total_counter_overflow_v l1_data_ecc_status) ≠ 0)
    let is_l1_data_ecc_uncorrected_total_err_overflow : Bool := decide
      (u32 (u.status_uncorrected_err_total_counter_overflow_v l1_data_ecc_status) ≠ 0)
    let g :=
      if l1_data_corrected_err_count_delta > 0 ∨
          is_l1_data_ecc_corrected_total_err_overflow = true then
        let l1_data_corrected_err_count_delta :=
          if is_l1_data_ecc_corrected_total_err_overflow = true then
            u32 (l1_data_corrected_err_count_delta + BIT32 u.corrected_err_count_total_s)
          else l1_data_corrected_err_count_delta
        let ecc : nvgpu_ecc_gr := g.ecc_gr
        let g : gk20a := { g with ecc_gr := { ecc with
          sm_l1_data_ecc_corrected_err_count :=
            counter_add2 ecc.sm_l1_data_ecc_corrected_err_count gpc tpc
              l1_data_corrected_err_count_delta } }
        let g :=
          ext_void (Call.nvgpu_gr_report_ecc_error .NVGPU_ERR_MODULE_SM gpc tpc
            .GPU_SM_L1_DATA_ECC_CORRECTED 0 (g.ecc_gr.sm_l1_data_ecc_corrected_err_count gpc tpc)) g
        gk20a_writel (Reg.gr .gr_pri_gpc0_tpc0_sm_l1_data_ecc_corrected_err_count_r offset) 0 g
      else g
    let g :=
      if l1_data_uncorrected_err_count_delta > 0 ∨
          is_l1_data_ecc_uncorrected_total_err_overflow = true then
        let l1_data_uncorrected_err_count_delta :=
          if is_l1_data_ecc_uncorrected_total_err_overflow = true then
            u32 (l1_data_uncorrected_err_count_delta + BIT32 u.uncorrected_err_count_total_s)
          else l1_data_uncorrected_err_count_delta
        let ecc : nvgpu_ecc_gr := g.ecc_gr
        let g : gk20a := { g with ecc_gr := { ecc with
          sm_l1_data_ecc_uncorrected_err_count :=
            counter_add2 ecc.sm_l1_data_ecc_uncorrected_err_count gpc tpc
              l1_data_uncorrected_err_count_delta } }
        let g :=
          ext_void (Call.nvgpu_gr_report_ecc_error .NVGPU_ERR_MODULE_SM gpc tpc
            .GPU_SM_L1_DATA_ECC_UNCORRECTED 0
              (g.ecc_gr.sm_l1_data_ecc_uncorrected_err_count gpc tpc)) g
        gk20a_writel (Reg.gr .gr_pri_gpc0_tpc0_sm_l1_data_ecc_uncorrected_err_count_r offset) 0 g
      else g
    gk20a_writel (Reg.gr .gr_pri_gpc0_tpc0_sm_l1_data_ecc_status_r offset) u.status_reset_task_f g

/-- The function `gr_gv11b_handle_icache_exception`; the parameters `post_event`, `fault_ch`
and `hww_global_esr`, which it does not use, are left out. -/
def gr_gv11b_handle_icache_exception (hw : GrManifest) (env : Env) (gpc tpc : Nat)
    (g : gk20a) : gk20a :=
  let u := hw.gr_pri_gpc0_tpc0_sm_icache_ecc
  let gpc_stride := hw.GPU_LIT_GPC_STRIDE
  let tpc_in_gpc_stride := hw.GPU_LIT_TPC_IN_GPC_STRIDE
  let offset := u32 (gpc_stride * gpc + tpc_in_gpc_stride * tpc)
  let (icache_ecc_status, g) :=
    gk20a_readl env (Reg.gr .gr_pri_gpc0_tpc0_sm_icache_ecc_status_r offset) g
  let icache_ecc_corrected_err_status := icache_ecc_status &&&
    (u.status_corrected_err_l0_data_m |||
      u.status_corrected_err_l0_predecode_m |||
      u.status_corrected_err_l1_data_m |||
      u.status_corrected_err_l1_predecode_m)
  let icache_ecc_uncorrected_err_status := icache_ecc_status &&&
    (u.status_uncorrected_err_l0_data_m |||
      u.status_uncorrected_err_l0_predecode_m |||
      u.status_uncorrected_err_l1_data_m |||
      u.status_uncorrected_err_l1_predecode_m)
  if icache_ecc_corrected_err_status = 0 ∧ icache_ecc_uncorrected_err_status = 0 then g
  else
    let (cnt, g) :=
      gk20a_readl env (Reg.gr .gr_pri_gpc0_tpc0_sm_icache_ecc_corrected_err_count_r offset) g
    let icache_corrected_err_count_delta := u32 (u.corrected_err_count_total_v cnt)
    let (cnt, g) :=
      gk20a_readl env (Reg.gr .gr_pri_gpc0_tpc0_sm_icache_ecc_uncorrected_err_count_r offset) g
    let icache_uncorrected_err_count_delta := u32 (u.uncorrected_err_count_total_v cnt)
    let is_icache_ecc_corrected_total_err_overflow : Bool := decide
      (u32 (u.status_corrected_err_total_counter_overflow_v icache_ecc_status) ≠ 0)
    let is_icache_ecc_uncorrected_total_err_overflow : Bool := decide
      (u32 (u.status_uncorrected_err_total_counter_overflow_v icache_ecc_status) ≠ 0)
    let g :=
      if icache_corrected_err_count_delta > 0 ∨
          is_icache_ecc_corrected_total_err_overflow = true then
        let icache_corrected_err_count_delta :=
          if is_icache_ecc_corrected_total_err_overflow = true then
            u32 (icache_corrected_err_count_delta + BIT32 u.corrected_err_count_total_s)
          else icache_corrected_err_count_delta
        let ecc : nvgpu_ecc_gr := g.ecc_gr
        let g : gk20a := { g with ecc_gr := { ecc with
          sm_icache_ecc_corrected_err_count :=
            counter_add2 ecc.sm_icache_ecc_corrected_err_count gpc tpc
              icache_corrected_err_count_delta } }
        let g :=
          gk20a_writel (Reg.gr .gr_pri_gpc0_tpc0_sm_icache_ecc_corrected_err_count_r offset) 0 g
        let g :=
          if icache_ecc_status &&& u.status_corrected_err_l0_data_m ≠ 0 then
            ext_void (Call.nvgpu_gr_report_ecc_error .NVGPU_ERR_MODULE_SM gpc tpc
              .GPU_SM_ICACHE_L0_DATA_ECC_CORRECTED 0
                (g.ecc_gr.sm_icache_ecc_corrected_err_count gpc tpc)) g
          else g
        let g :=
          if icache_ecc_status &&& u.status_corrected_err_l0_predecode_m ≠ 0 then
            ext_void (Call.nvgpu_gr_report_ecc_error .NVGPU_ERR_MODULE_SM gpc tpc
              .GPU_SM_ICACHE_L0_PREDECODE_ECC_CORRECTED 0
                (g.ecc_gr.sm_icache_ecc_corrected_err_count gpc tpc)) g
          else g
        let g :=
          if icache_ecc_status &&& u.status_corrected_err_l1_data_m ≠ 0 then
            ext_void (Call.nvgpu_gr_report_ecc_error .NVGPU_ERR_MODULE_SM gpc tpc
              .GPU_SM_ICACHE_L1_DATA_ECC_CORRECTED 0
                (g.ecc_gr.sm_icache_ecc_corrected_err_count gpc tpc)) g
          else g
        if icache_ecc_status &&& u.status_corrected_err_l1_predecode_m ≠ 0 then
          ext_void (Call.nvgpu_gr_report_ecc_error .NVGPU_ERR_MODULE_SM gpc tpc
            .GPU_SM_ICACHE_L1_PREDECODE_ECC_CORRECTED 0
              (g.ecc_gr.sm_icache_ecc_corrected_err_count gpc tpc)) g
        else g
      else g
    let g :=
      if icache_uncorrected_err_count_delta > 0 ∨
          is_icache_ecc_uncorrected_total_err_overflow = true then
        let icache_uncorrected_err_count_delta :=
          if is_icache_ecc_uncorrected_total_err_overflow = true then
            u32 (icache_uncorrected_err_count_delta + BIT32 u.uncorrected_err_count_total_s)
          else icache_uncorrected_err_count_delta
        let ecc : nvgpu_ecc_gr := g.ecc_gr
        let g : gk20a := { g with ecc_gr := { ecc with
          sm_icache_ecc_uncorrected_err_count :=
            counter_add2 ecc.sm_icache_ecc_uncorrected_err_count gpc tpc
              icache_uncorrected_err_count_delta } }
        let g :=
          gk20a_writel (Reg.gr .gr_pri_gpc0_tpc0_sm_icache_ecc_uncorrected_err_count_r offset) 0 g
        let g :=
          if icache_ecc_status &&& u.status_uncorrected_err_l0_data_m ≠ 0 then
            ext_void (Call.nvgpu_gr_report_ecc_error .NVGPU_ERR_MODULE_SM gpc tpc
              .GPU_SM_ICACHE_L0_DATA_ECC_UNCORRECTED 0
                (g.ecc_gr.sm_icache_ecc_uncorrected_err_count gpc tpc)) g
          else g
        let g :=
          if icache_ecc_status &&& u.status_uncorrected_err_l0_predecode_m ≠ 0 then
            ext_void (Call.nvgpu_gr_report_ecc_error .NVGPU_ERR_MODULE_SM gpc tpc
              .GPU_SM_ICACHE_L0_PREDECODE_ECC_UNCORRECTED 0
                (g.ecc_gr.sm_icache_ecc_uncorrected_err_count gpc tpc)) g
          else g
        let g :=
          if icache_ecc_status &&& u.status_uncorrected_err_l1_data_m ≠ 0 then
            ext_void (Call.nvgpu_gr_report_ecc_error .NVGPU_ERR_MODULE_SM gpc tpc
              .GPU_SM_ICACHE_L1_DATA_ECC_UNCORRECTED 0
                (g.ecc_gr.sm_icache_ecc_uncorrected_err_count gpc tpc)) g
          else g
        if icache_ecc_status &&& u.status_uncorrected_err_l1_predecode_m ≠ 0 then
          ext_void (Call.nvgpu_gr_report_ecc_error .NVGPU_ERR_MODULE_SM gpc tpc
            .GPU_SM_ICACHE_L1_PREDECODE_ECC_UNCORRECTED 0
              (g.ecc_gr.sm_icache_ecc_uncorrected_err_count gpc tpc)) g
        else g
      else g
    gk20a_writel (Reg.gr .gr_pri_gpc0_tpc0_sm_icache_ecc_status_r offset) u.status_reset_task_f g

/-- The function `gr_gv11b_handle_gcc_exception`; the parameters `post_event`, `fault_ch` and
`hww_global_esr`, which it does not use, are left out. The result is the return value and
the device. -/
def gr_gv11b_handle_gcc_exception (hw : GrManifest) (env : Env) (gpc tpc : Nat) (g : gk20a) :
    Int × gk20a :=
  let u := hw.gr_pri_gpc0_gcc_l15_ecc
  let gpc_stride := hw.GPU_LIT_GPC_STRIDE
  let offset := u32 (gpc_stride * gpc)
  let (gcc_l15_ecc_status, g) := gk20a_readl env (Reg.gr .gr_pri_gpc0_gcc_l15_ecc_status_r offset) g
  let gcc_l15_ecc_corrected_err_status := gcc_l15_ecc_status &&&
    (u.status_corrected_err_bank0_m |||
      u.status_corrected_err_bank1_m)
  let gcc_l15_ecc_uncorrected_err_status := gcc_l15_ecc_status &&&
    (u.status_uncorrected_err_bank0_m |||
      u.status_uncorrected_err_bank1_m)
  if gcc_l15_ecc_corrected_err_status = 0 ∧ gcc_l15_ecc_uncorrected_err_status = 0 then (0, g)
  else
    let (cnt, g) := gk20a_readl env (Reg.gr .gr_pri_gpc0_gcc_l15_ecc_corrected_err_count_r offset) g
    let gcc_l15_corrected_err_count_delta := u32 (u.corrected_err_count_total_v cnt)
    let (cnt, g) :=
      gk20a_readl env (Reg.gr .gr_pri_gpc0_gcc_l15_ecc_uncorrected_err_count_r offset) g
    let gcc_l15_uncorrected_err_count_delta := u32 (u.uncorrected_err_count_total_v cnt)
    let is_gcc_l15_ecc_corrected_total_err_overflow : Bool := decide
      (u32 (u.status_corrected_err_total_counter_overflow_v gcc_l15_ecc_status) ≠ 0)
    let is_gcc_l15_ecc_uncorrected_total_err_overflow : Bool := decide
      (u32 (u.status_uncorrected_err_total_counter_overflow_v gcc_l15_ecc_status) ≠ 0)
    let g :=
      if gcc_l15_corrected_err_count_delta > 0 ∨
          is_gcc_l15_ecc_corrected_total_err_overflow = true then
        let gcc_l15_corrected_err_count_delta :=
          if is_gcc_l15_ecc_corrected_total_err_overflow = true then
            u32 (gcc_l15_corrected_err_count_delta + BIT32 u.corrected_err_count_total_s)
          else gcc_l15_corrected_err_count_delta
        let ecc : nvgpu_ecc_gr := g.ecc_gr
        let g : gk20a := { g with ecc_gr := { ecc with
          gcc_l15_ecc_corrected_err_count :=
            counter_add1 ecc.gcc_l15_ecc_corrected_err_count gpc
              gcc_l15_corrected_err_count_delta } }
        let g :=
          ext_void (Call.nvgpu_gr_report_ecc_error .NVGPU_ERR_MODULE_GCC gpc tpc
            .GPU_GCC_L15_ECC_CORRECTED 0 (g.ecc_gr.gcc_l15_ecc_corrected_err_count gpc)) g
        gk20a_writel (Reg.gr .gr_pri_gpc0_gcc_l15_ecc_corrected_err_count_r offset) 0 g
      else g
    let g :=
      if gcc_l15_uncorrected_err_count_delta > 0 ∨
          is_gcc_l15_ecc_uncorrected_total_err_overflow = true then
        let gcc_l15_uncorrected_err_count_delta :=
          if is_gcc_l15_ecc_uncorrected_total_err_overflow = true then
            u32 (gcc_l15_uncorrected_err_count_delta + BIT32 u.uncorrected_err_count_total_s)
          else gcc_l15_uncorrected_err_count_delta
        let ecc : nvgpu_ecc_gr := g.ecc_gr
        let g : gk20a := { g with ecc_gr := { ecc with
          gcc_l15_ecc_uncorrected_err_count :=
            counter_add1 ecc.gcc_l15_ecc_uncorrected_err_count gpc
              gcc_l15_uncorrected_err_count_delta } }
        let g :=
          ext_void (Call.nvgpu_gr_report_ecc_error .NVGPU_ERR_MODULE_GCC gpc tpc
            .GPU_GCC_L15_ECC_UNCORRECTED 0 (g.ecc_gr.gcc_l15_ecc_uncorrected_err_count gpc)) g
        gk20a_writel (Reg.gr .gr_pri_gpc0_gcc_l15_ecc_uncorrected_err_count_r offset) 0 g
      else g
    let g :=
      gk20a_writel (Reg.gr .gr_pri_gpc0_gcc_l15_ecc_status_r offset) u.status_reset_task_f g
    (0, g)

/-- The function `gr_gv11b_handle_gpcmmu_ecc_exception`; the parameter `exception`, which it
does not use, is left out. The result is the return value and the device. -/
def gr_gv11b_handle_gpcmmu_ecc_exception (hw : GrManifest) (env : Env) (gpc : Nat)
    (g : gk20a) : Int × gk20a :=
  let u := hw.gr_gpc0_mmu_l1tlb_ecc
  let ret : Int := 0
  let gpc_stride := hw.GPU_LIT_GPC_STRIDE
  let offset := u32 (gpc_stride * gpc)
  let (hww_esr, g) := gk20a_readl env (Reg.gr .gr_gpc0_mmu_gpcmmu_global_esr_r offset) g
  if hww_esr &&& (hw.gr_gpc0_mmu_gpcmmu_global_esr_ecc_corrected_m |||
      hw.gr_gpc0_mmu_gpcmmu_global_esr_ecc_uncorrected_m) = 0 then (ret, g)
  else
    let (ecc_status, g) := gk20a_readl env (Reg.gr .gr_gpc0_mmu_l1tlb_ecc_status_r offset) g
    let (_ecc_addr, g) := gk20a_readl env (Reg.gr .gr_gpc0_mmu_l1tlb_ecc_address_r offset) g
    let (corrected_cnt, g) :=
      gk20a_readl env (Reg.gr .gr_gpc0_mmu_l1tlb_ecc_corrected_err_count_r offset) g
    let (uncorrected_cnt, g) :=
      gk20a_readl env (Reg.gr .gr_gpc0_mmu_l1tlb_ecc_uncorrected_err_count_r offset) g
    let corrected_delta := u32 (u.corrected_err_count_total_v corrected_cnt)
    let uncorrected_delta := u32 (u.uncorrected_err_count_total_v uncorrected_cnt)
    let corrected_overflow := ecc_status &&&
      u.status_corrected_err_total_counter_overflow_m
    let uncorrected_overflow := ecc_status &&&
      u.status_uncorrected_err_total_counter_overflow_m
    let g :=
      if corrected_delta > 0 ∨ corrected_overflow ≠ 0 then
        gk20a_writel (Reg.gr .gr_gpc0_mmu_l1tlb_ecc_corrected_err_count_r offset) 0 g
      else g
    let g :=
      if uncorrected_delta > 0 ∨ uncorrected_overflow ≠ 0 then
        gk20a_writel (Reg.gr .gr_gpc0_mmu_l1tlb_ecc_uncorrected_err_count_r offset) 0 g
      else g
    let g :=
      gk20a_writel (Reg.gr .gr_gpc0_mmu_l1tlb_ecc_status_r offset) u.status_reset_task_f g
    let corrected_delta :=
      if corrected_overflow ≠ 0 then
        u32 (corrected_delta + BIT32 u.corrected_err_count_total_s)
      else corrected_delta
    let uncorrected_delta :=
      if uncorrected_overflow ≠ 0 then
        u32 (uncorrected_delta + BIT32 u.uncorrected_err_count_total_s)
      else uncorrected_delta
    let ecc : nvgpu_ecc_gr := g.ecc_gr
    let g : gk20a := { g with ecc_gr := { ecc with
      mmu_l1tlb_ecc_corrected_err_count :=
        counter_add1 ecc.mmu_l1tlb_ecc_corrected_err_count gpc corrected_delta } }
    let ecc : nvgpu_ecc_gr := g.ecc_gr
    let g : gk20a := { g with ecc_gr := { ecc with
      mmu_l1tlb_ecc_uncorrected_err_count :=
        counter_add1 ecc.mmu_l1tlb_ecc_uncorrected_err_count gpc uncorrected_delta } }
    let g :=
      if ecc_status &&& u.status_corrected_err_l1tlb_sa_data_m ≠ 0 then
        ext_void (Call.nvgpu_gr_report_ecc_error .NVGPU_ERR_MODULE_MMU gpc 0
          .GPU_MMU_L1TLB_SA_DATA_ECC_CORRECTED 0 (g.ecc_gr.mmu_l1tlb_ecc_corrected_err_count gpc)) g
      else g
    let g :=
      if ecc_status &&& u.status_uncorrected_err_l1tlb_sa_data_m ≠ 0 then
        ext_void (Call.nvgpu_gr_report_ecc_error .NVGPU_ERR_MODULE_MMU gpc 0
          .GPU_MMU_L1TLB_SA_DATA_ECC_UNCORRECTED 0
            (g.ecc_gr.mmu_l1tlb_ecc_uncorrected_err_count gpc)) g
      else g
    let g :=
      if ecc_status &&& u.status_corrected_err_l1tlb_fa_data_m ≠ 0 then
        ext_void (Call.nvgpu_gr_report_ecc_error .NVGPU_ERR_MODULE_MMU gpc 0
          .GPU_MMU_L1TLB_FA_DATA_ECC_CORRECTED 0 (g.ecc_gr.mmu_l1tlb_ecc_corrected_err_count gpc)) g
      else g
    let g :=
      if ecc_status &&& u.status_uncorrected_err_l1tlb_fa_data_m ≠ 0 then
        ext_void (Call.nvgpu_gr_report_ecc_error .NVGPU_ERR_MODULE_MMU gpc 0
          .GPU_MMU_L1TLB_FA_DATA_ECC_UNCORRECTED 0
            (g.ecc_gr.mmu_l1tlb_ecc_uncorrected_err_count gpc)) g
      else g
    (ret, g)

/-- The function `gr_gv11b_handle_gpccs_ecc_exception`; the parameter `exception`, which it
does not use, is left out. The result is the return value and the device. -/
def gr_gv11b_handle_gpccs_ecc_exception (hw : GrManifest) (env : Env) (gpc : Nat)
    (g : gk20a) : Int × gk20a :=
  let u := hw.gr_gpc0_gpccs_falcon_ecc
  let ret : Int := 0
  let gpc_stride := hw.GPU_LIT_GPC_STRIDE
  let offset := u32 (gpc_stride * gpc)
  let (hww_esr, g) := gk20a_readl env (Reg.gr .gr_gpc0_gpccs_hww_esr_r offset) g
  if hww_esr &&& (hw.gr_gpc0_gpccs_hww_esr_ecc_uncorrected_m |||
      hw.gr_gpc0_gpccs_hww_esr_ecc_corrected_m) = 0 then (ret, g)
  else
    let (ecc_status, g) := gk20a_readl env (Reg.gr .gr_gpc0_gpccs_falcon_ecc_status_r offset) g
    let (ecc_addr, g) := gk20a_readl env (Reg.gr .gr_gpc0_gpccs_falcon_ecc_address_r offset) g
    let (corrected_cnt, g) :=
      gk20a_readl env (Reg.gr .gr_gpc0_gpccs_falcon_ecc_corrected_err_count_r offset) g
    let (uncorrected_cnt, g) :=
      gk20a_readl env (Reg.gr .gr_gpc0_gpccs_falcon_ecc_uncorrected_err_count_r offset) g
    let corrected_delta := u32 (u.corrected_err_count_total_v corrected_cnt)
    let uncorrected_delta := u32 (u.uncorrected_err_count_total_v uncorrected_cnt)
    let corrected_overflow := ecc_status &&&
      u.status_corrected_err_total_counter_overflow_m
    let uncorrected_overflow := ecc_status &&&
      u.status_uncorrected_err_total_counter_overflow_m
    let g :=
      if corrected_delta > 0 ∨ corrected_overflow ≠ 0 then
        gk20a_writel (Reg.gr .gr_gpc0_gpccs_falcon_ecc_corrected_err_count_r offset) 0 g
      else g
    let g :=
      if uncorrected_delta > 0 ∨ uncorrected_overflow ≠ 0 then
        gk20a_writel (Reg.gr .gr_gpc0_gpccs_falcon_ecc_uncorrected_err_count_r offset) 0 g
      else g
    let g :=
      gk20a_writel (Reg.gr .gr_gpc0_gpccs_falcon_ecc_status_r offset) u.status_reset_task_f g
    let ecc : nvgpu_ecc_gr := g.ecc_gr
    let g : gk20a := { g with ecc_gr := { ecc with
      gpccs_ecc_corrected_err_count :=
        counter_add1 ecc.gpccs_ecc_corrected_err_count gpc corrected_delta } }
    let ecc : nvgpu_ecc_gr := g.ecc_gr
    let g : gk20a := { g with ecc_gr := { ecc with
      gpccs_ecc_uncorrected_err_count :=
        counter_add1 ecc.gpccs_ecc_uncorrected_err_count gpc uncorrected_delta } }
    let g :=
      if ecc_status &&& u.status_corrected_err_imem_m ≠ 0 then
        ext_void (Call.nvgpu_gr_report_ecc_error .NVGPU_ERR_MODULE_GPCCS gpc 0
          .GPU_GPCCS_FALCON_IMEM_ECC_CORRECTED ecc_addr
            (g.ecc_gr.gpccs_ecc_corrected_err_count gpc)) g
      else g
    let g :=
      if ecc_status &&& u.status_uncorrected_err_imem_m ≠ 0 then
        ext_void (Call.nvgpu_gr_report_ecc_error .NVGPU_ERR_MODULE_GPCCS gpc 0
          .GPU_GPCCS_FALCON_IMEM_ECC_UNCORRECTED ecc_addr
            (g.ecc_gr.gpccs_ecc_uncorrected_err_count gpc)) g
      else g
    let g :=
      if ecc_status &&& u.status_corrected_err_dmem_m ≠ 0 then
        ext_void (Call.nvgpu_gr_report_ecc_error .NVGPU_ERR_MODULE_GPCCS gpc 0
          .GPU_GPCCS_FALCON_DMEM_ECC_CORRECTED ecc_addr
            (g.ecc_gr.gpccs_ecc_corrected_err_count gpc)) g
      else g
    let g :=
      if ecc_status &&& u.status_uncorrected_err_dmem_m ≠ 0 then
        ext_void (Call.nvgpu_gr_report_ecc_error .NVGPU_ERR_MODULE_GPCCS gpc 0
          .GPU_GPCCS_FALCON_DMEM_ECC_UNCORRECTED ecc_addr
            (g.ecc_gr.gpccs_ecc_uncorrected_err_count gpc)) g
      else g
    (ret, g)

/-- The function `gr_gv11b_handle_fecs_ecc_error`. -/
def gr_gv11b_handle_fecs_ecc_error (hw : GrManifest) (env : Env) (intr : Nat) (g : gk20a) :
    gk20a :=
  let u := hw.gr_fecs_falcon_ecc
  if intr &&& (hw.gr_fecs_host_int_status_ecc_uncorrected_m |||
      hw.gr_fecs_host_int_status_ecc_corrected_m) ≠ 0 then
    let (ecc_status, g) := gk20a_readl env (Reg.gr .gr_fecs_falcon_ecc_status_r 0) g
    let (ecc_addr, g) := gk20a_readl env (Reg.gr .gr_fecs_falcon_ecc_address_r 0) g
    let (corrected_cnt, g) :=
      gk20a_readl env (Reg.gr .gr_fecs_falcon_ecc_corrected_err_count_r 0) g
    let (uncorrected_cnt, g) :=
      gk20a_readl env (Reg.gr .gr_fecs_falcon_ecc_uncorrected_err_count_r 0) g
    let corrected_delta := u32 (u.corrected_err_count_total_v corrected_cnt)
    let uncorrected_delta := u32 (u.uncorrected_err_count_total_v uncorrected_cnt)
    let corrected_overflow := ecc_status &&&
      u.status_corrected_err_total_counter_overflow_m
    let uncorrected_overflow := ecc_status &&&
      u.status_uncorrected_err_total_counter_overflow_m
    let g :=
      if corrected_delta > 0 ∨ corrected_overflow ≠ 0 then
        gk20a_writel (Reg.gr .gr_fecs_falcon_ecc_corrected_err_count_r 0) 0 g
      else g
    let g :=
      if uncorrected_delta > 0 ∨ uncorrected_overflow ≠ 0 then
        gk20a_writel (Reg.gr .gr_fecs_falcon_ecc_uncorrected_err_count_r 0) 0 g
      else g
    let g := gk20a_writel (Reg.gr .gr_fecs_falcon_ecc_uncorrected_err_count_r 0) 0 g
    let g := gk20a_writel (Reg.gr .gr_fecs_falcon_ecc_corrected_err_count_r 0) 0 g
    let g :=
      gk20a_writel (Reg.gr .gr_fecs_falcon_ecc_status_r 0) u.status_reset_task_f g
    let ecc : nvgpu_ecc_gr := g.ecc_gr
    let g : gk20a := { g with ecc_gr := { ecc with
      fecs_ecc_corrected_err_count :=
        counter_add1 ecc.fecs_ecc_corrected_err_count 0 corrected_delta } }
    let ecc : nvgpu_ecc_gr := g.ecc_gr
    let g : gk20a := { g with ecc_gr := { ecc with
      fecs_ecc_uncorrected_err_count :=
        counter_add1 ecc.fecs_ecc_uncorrected_err_count 0 uncorrected_delta } }
    let g :=
      if ecc_status &&& u.status_corrected_err_imem_m ≠ 0 then
        ext_void (Call.nvgpu_gr_report_ecc_error .NVGPU_ERR_MODULE_FECS 0 0
          .GPU_FECS_FALCON_IMEM_ECC_CORRECTED ecc_addr (g.ecc_gr.fecs_ecc_corrected_err_count 0)) g
      else g
    let g :=
      if ecc_status &&& u.status_uncorrected_err_imem_m ≠ 0 then
        ext_void (Call.nvgpu_gr_report_ecc_error .NVGPU_ERR_MODULE_FECS 0 0
          .GPU_FECS_FALCON_IMEM_ECC_UNCORRECTED ecc_addr
            (g.ecc_gr.fecs_ecc_uncorrected_err_count 0)) g
      else g
    let g :=
      if ecc_status &&& u.status_corrected_err_dmem_m ≠ 0 then
        ext_void (Call.nvgpu_gr_report_ecc_error .NVGPU_ERR_MODULE_FECS 0 0
          .GPU_FECS_FALCON_DMEM_ECC_CORRECTED ecc_addr (g.ecc_gr.fecs_ecc_corrected_err_count 0)) g
      else g
    if ecc_status &&& u.status_uncorrected_err_dmem_m ≠ 0 then
      ext_void (Call.nvgpu_gr_report_ecc_error .NVGPU_ERR_MODULE_FECS 0 0
        .GPU_FECS_FALCON_DMEM_ECC_UNCORRECTED ecc_addr
          (g.ecc_gr.fecs_ecc_uncorrected_err_count 0)) g
    else g
  else g

/-- Whether a call is a register write. -/
def is_writel_call : Call → Bool
  | Call.gk20a_writel _ _ => true
  | _ => false

/-- Whether a call is an ECC error report. -/
def is_report_call : Call → Bool
  | Call.nvgpu_gr_report_ecc_error _ _ _ _ _ _ => true
  | _ => false

/-- Sample values of the macros shared by the SM and GCC ECC units: the `total` field is
bits 0..15 of a count register, the overflow fields are bits 16 (corrected) and 18
(uncorrected) of the status register. -/
def sample_ecc_count_hw : ecc_count_hw where
  corrected_err_count_total_v := fun r => r &&& 65535
  uncorrected_err_count_total_v := fun r => r &&& 65535
  status_corrected_err_total_counter_overflow_v := fun r => (r >>> 16) &&& 1
  status_uncorrected_err_total_counter_overflow_v := fun r => (r >>> 18) &&& 1
  corrected_err_count_total_s := 16
  uncorrected_err_count_total_s := 16
  status_reset_task_f := 2 ^ 30

/-- Sample values of the macros of a falcon ECC unit, with the same layout of the count
and overflow fields; the error bits are bits 0, 1 (corrected) and 8, 9 (uncorrected). -/
def sample_falcon_ecc_hw : falcon_ecc_hw where
  corrected_err_count_total_v := fun r => r &&& 65535
  uncorrected_err_count_total_v := fun r => r &&& 65535
  status_corrected_err_total_counter_overflow_m := 2 ^ 16
  status_uncorrected_err_total_counter_overflow_m := 2 ^ 18
  status_reset_task_f := 2 ^ 30
  status_corrected_err_imem_m := 1
  status_uncorrected_err_imem_m := 256
  status_corrected_err_dmem_m := 2
  status_uncorrected_err_dmem_m := 512

/-- A manifest of the GR engine in which, for every ECC unit, the corrected error of source
number `i` is bit `i` of the status register and the uncorrected one bit `8 + i`. -/
def sample_gr_hw : GrManifest where
  GPU_LIT_GPC_STRIDE := 32768
  GPU_LIT_TPC_IN_GPC_STRIDE := 2048
  gr_pri_gpc0_tpc0_sm_l1_tag_ecc :=
    { sample_ecc_count_hw with
      status_corrected_err_el1_0_m := 1
      status_corrected_err_el1_1_m := 2
      status_corrected_err_pixrpf_m := 4
      status_corrected_err_miss_fifo_m := 8
      status_uncorrected_err_el1_0_m := 256
      status_uncorrected_err_el1_1_m := 512
      status_uncorrected_err_pixrpf_m := 1024
      status_uncorrected_err_miss_fifo_m := 2048 }
  gr_pri_gpc0_tpc0_sm_lrf_ecc :=
    { sample_ecc_count_hw with
      status_corrected_err_qrfdp0_m := 1
      status_corrected_err_qrfdp1_m := 2
      status_corrected_err_qrfdp2_m := 4
      status_corrected_err_qrfdp3_m := 8
      status_corrected_err_qrfdp4_m := 16
      status_corrected_err_qrfdp5_m := 32
      status_corrected_err_qrfdp6_m := 64
      status_corrected_err_qrfdp7_m := 128
      status_uncorrected_err_qrfdp0_m := 256
      status_uncorrected_err_qrfdp1_m := 512
      status_uncorrected_err_qrfdp2_m := 1024
      status_uncorrected_err_qrfdp3_m := 2048
      status_uncorrected_err_qrfdp4_m := 4096
      status_uncorrected_err_qrfdp5_m := 8192
      status_uncorrected_err_qrfdp6_m := 16384
      status_uncorrected_err_qrfdp7_m := 32768 }
  gr_pri_gpc0_tpc0_sm_cbu_ecc :=
    { sample_ecc_count_hw with
      status_corrected_err_warp_sm0_m := 1
      status_corrected_err_warp_sm1_m := 2
      status_corrected_err_barrier_sm0_m := 4
      status_corrected_err_barrier_sm1_m := 8
      status_uncorrected_err_warp_sm0_m := 256
      status_uncorrected_err_warp_sm1_m := 512
      status_uncorrected_err_barrier_sm0_m := 1024
      status_uncorrected_err_barrier_sm1_m := 2048 }
  gr_pri_gpc0_tpc0_sm_l1_data_ecc :=
    { sample_ecc_count_hw with
      status_corrected_err_el1_0_m := 1
      status_corrected_err_el1_1_m := 2
      status_uncorrected_err_el1_0_m := 256
      status_uncorrected_err_el1_1_m := 512 }
  gr_pri_gpc0_tpc0_sm_icache_ecc :=
    { sample_ecc_count_hw with
      status_corrected_err_l0_data_m := 1
      status_corrected_err_l0_predecode_m := 2
      status_corrected_err_l1_data_m := 4
      status_corrected_err_l1_predecode_m := 8
      status_uncorrected_err_l0_data_m := 256
      status_uncorrected_err_l0_predecode_m := 512
      status_uncorrected_err_l1_data_m := 1024
      status_uncorrected_err_l1_predecode_m := 2048 }
  gr_pri_gpc0_gcc_l15_ecc :=
    { sample_ecc_count_hw with
      status_corrected_err_bank0_m := 1
      status_corrected_err_bank1_m := 2
      status_uncorrected_err_bank0_m := 256
      status_uncorrected_err_bank1_m := 512 }
  gr_gpc0_mmu_gpcmmu_global_esr_ecc_corrected_m := 1
  gr_gpc0_mmu_gpcmmu_global_esr_ecc_uncorrected_m := 2
  gr_gpc0_mmu_l1tlb_ecc :=
    { corrected_err_count_total_v := fun r => r &&& 65535
      uncorrected_err_count_total_v := fun r => r &&& 65535
      status_corrected_err_total_counter_overflow_m := 2 ^ 16
      status_uncorrected_err_total_counter_overflow_m := 2 ^ 18
      corrected_err_count_total_s := 16
      uncorrected_err_count_total_s := 16
      status_reset_task_f := 2 ^ 30
      status_corrected_err_l1tlb_sa_data_m := 1
      status_uncorrected_err_l1tlb_sa_data_m := 256
      status_corrected_err_l1tlb_fa_data_m := 2
      status_uncorrected_err_l1tlb_fa_data_m := 512 }
  gr_gpc0_gpccs_hww_esr_ecc_corrected_m := 1
  gr_gpc0_gpccs_hww_esr_ecc_uncorrected_m := 2
  gr_gpc0_gpccs_falcon_ecc := sample_falcon_ecc_hw
  gr_fecs_host_int_status_ecc_corrected_m := 1
  gr_fecs_host_int_status_ecc_uncorrected_m := 2
  gr_fecs_falcon_ecc := sample_falcon_ecc_hw

/-- An environment in which every register reads `v` and every other call returns 0. -/
def env_reads (v : Int) : Env := fun _ c =>
  match c with
  | Call.gk20a_readl _ => v
  | _ => 0

/-- An environment in which the status register of the CBU unit reads `status`, its two
count registers read `corrected` and `uncorrected`, and everything else 0. -/
def env_cbu (status corrected uncorrected : Int) : Env := fun _ c =>
  match c with
  | Call.gk20a_readl (Reg.gr .gr_pri_gpc0_tpc0_sm_cbu_ecc_status_r _) => status
  | Call.gk20a_readl (Reg.gr .gr_pri_gpc0_tpc0_sm_cbu_ecc_corrected_err_count_r _) => corrected
  | Call.gk20a_readl (Reg.gr .gr_pri_gpc0_tpc0_sm_cbu_ecc_uncorrected_err_count_r _) =>
    uncorrected
  | _ => 0

/-- An environment in which the TPC power-gating status fuse always reads 1. -/
def env_fuse_stuck : Env := fun _ c =>
  match c with
  | Call.fuse_status_opt_tpc_gpc _ => 1
  | _ => 0

/-- The device `sample_g` asked to power-gate the TPCs of mask 5. -/
def sample_g_pg : gk20a := { sample_g with tpc_pg_mask := 5 }

/-- A runlist manifest with the type in bits 0..2, the timeslice scale in bits 16..19, the
timeslice timeout in bits 24..31, and the length and id fields in bits 0..7 and 0..11. -/
def sample_ram_hw : RamManifest where
  ram_rl_entry_type_tsg_v := 1
  ram_rl_entry_tsg_timeslice_scale_f := fun v => (v &&& 15) <<< 16
  ram_rl_entry_tsg_timeslice_timeout_f := fun v => (v &&& 255) <<< 24
  ram_rl_entry_tsg_timeslice_scale_3_v := 3
  ram_rl_entry_tsg_timeslice_timeout_128_v := 128
  ram_rl_entry_tsg_length_f := fun v => v &&& 255
  ram_rl_entry_tsg_tsgid_f := fun v => v &&& 4095

/-! ## LS falcon manager: `nvgpu_pmu_lsfm_init` -/

/-- The errno value `ENOMEM`. -/
def ENOMEM : Int := 12

/-- The errno value `EFAULT`. -/
def EFAULT : Int := 14

/-- The GPU ids named in `nvgpu_pmu_lsfm_init` and whether `NVGPU_DGPU_SUPPORT` is
defined. They are parameters of the development. -/
structure PmuManifest where
  GK20A_GPUID_GM20B : Nat
  GK20A_GPUID_GM20B_B : Nat
  NVGPU_GPUID_GP10B : Nat
  NVGPU_GPUID_GV11B : Nat
  NVGPU_DGPU_SUPPORT : Bool
  NVGPU_GPUID_GV100 : Nat
  NVGPU_GPUID_TU104 : Nat

/-- A call of a collaborator that returns a pointer: an address, 0 for `NULL`. -/
def ext_ptr (env : Env) (c : Call) (g : gk20a) : Nat × gk20a :=
  let p := (env g.trace c).toNat
  (p, { g with trace := g.trace ++ [⟨c, p⟩] })

/-- The call `nvgpu_is_enabled(g, flag)`. -/
def nvgpu_is_enabled (env : Env) (flag : nvgpu_flag) (g : gk20a) : Bool × gk20a :=
  let (r, g) := ext env (Call.hal (.nvgpu_is_enabled flag)) g
  (decide (r ≠ 0), g)

/-- The function `nvgpu_pmu_lsfm_init`; `lsfm` is the pointer `*lsfm` at entry (0 for
`NULL`). The result is the return value, `*lsfm` at return and the device. -/
def nvgpu_pmu_lsfm_init (hw : PmuManifest) (env : Env) (lsfm : Nat) (g : gk20a) :
    Int × Nat × gk20a :=
  let ver := u32 (g.rest.gpu_arch + g.rest.gpu_impl)
  let (privsecurity, g) := nvgpu_is_enabled env .NVGPU_SEC_PRIVSECURITY g
  let (skip, g) :=
    if ¬ privsecurity then (true, g) else nvgpu_is_enabled env .NVGPU_IS_FMODEL g
  if skip then (0, lsfm, g)
  else if lsfm ≠ 0 then (0, lsfm, g)
  else
    let (lsfm, g) := ext_ptr env (Call.hal .nvgpu_kzalloc_lsfm) g
    if lsfm = 0 then (-ENOMEM, lsfm, g)
    else if ver = hw.GK20A_GPUID_GM20B ∨ ver = hw.GK20A_GPUID_GM20B_B then
      (0, lsfm, ext_void (Call.hal (.nvgpu_gm20b_lsfm_sw_init lsfm)) g)
    else if ver = hw.NVGPU_GPUID_GP10B ∨ ver = hw.NVGPU_GPUID_GV11B then
      (0, lsfm, ext_void (Call.hal (.nvgpu_gp10b_lsfm_sw_init lsfm)) g)
    else if hw.NVGPU_DGPU_SUPPORT ∧ ver = hw.NVGPU_GPUID_GV100 then
      (0, lsfm, ext_void (Call.hal (.nvgpu_gv100_lsfm_sw_init lsfm)) g)
    else if hw.NVGPU_DGPU_SUPPORT ∧ ver = hw.NVGPU_GPUID_TU104 then
      (0, lsfm, ext_void (Call.hal (.nvgpu_tu104_lsfm_sw_init lsfm)) g)
    else
      let g := ext_void (Call.hal (.nvgpu_kfree lsfm)) g
      (-EINVAL, lsfm, g)

/-! ## Channel software setup -/

/-- Modelled from the spec: the function `nvgpu_channel_setup_sw` of
`common/fifo/channel.c`, which is not among the sources (only its unit test
`test_channel_setup_sw` is). The table of channels is allocated for the number of
channels given by `g->ops.channel.count`; an allocation failure is propagated as the "no
memory" condition and leaves no partially constructed state, `g->fifo.channel` being
`NULL`; otherwise the table is installed and the result is 0. -/
def nvgpu_channel_setup_sw (env : Env) (g : gk20a) : Int × gk20a :=
  let (count, g) := ext_u32 env (Call.hal .channel_count) g
  let (p, g) := ext_ptr env (Call.hal (.nvgpu_vzalloc_channels count)) g
  let r : gk20a_rest := g.rest
  if p = 0 then (-ENOMEM, { g with rest := { r with fifo_channel := 0 } })
  else (0, { g with rest := { r with fifo_channel := p } })

/-- The assertions made by `test_channel_setup_sw` on the result of
`nvgpu_channel_setup_sw`: in a branch with an injected allocation failure, `err != 0` and
`f->channel == NULL`; otherwise `err == 0`. -/
def test_channel_setup_sw_asserts (fail : Bool) (r : Int × gk20a) : Bool :=
  if fail then decide (r.1 ≠ 0) && decide (r.2.rest.fifo_channel = 0) else decide (r.1 = 0)

/-! ## TPC fuse, MMU NACK and VEID bundles of `gr_gv11b.c` -/

/-- The operator `~` on a `u32`. -/
def u32_not (x : Nat) : Nat := 2 ^ 32 - 1 - u32 x

/-- The function `gr_gv11b_set_gpc_tpc_mask`. -/
def gr_gv11b_set_gpc_tpc_mask (gpc_index : Nat) (g : gk20a) : gk20a :=
  if g.rest.gr_config.gpc_tpc_mask gpc_index = 0 then g
  else
    let fuse_val := g.rest.gr_config.gpc_tpc_mask gpc_index
    let fuse_val := u32_not fuse_val
    let fuse_val := fuse_val &&& 0xf
    let g := ext_void (Call.hal (.nvgpu_tegra_fuse_write_bypass 1)) g
    let g := ext_void (Call.hal (.nvgpu_tegra_fuse_write_access_sw 0)) g
    ext_void (Call.hal (.nvgpu_tegra_fuse_write_opt_gpu_tpc0_disable fuse_val)) g

/-- The offsets of the GPC and TPC register blocks, computed by `gk20a_gr_gpc_offset` and
`gk20a_gr_tpc_offset` (functions of another file, taken as parameters), and the stride
returned by `nvgpu_get_litter_value(g, GPU_LIT_SM_PRI_STRIDE)`. -/
structure GrOffsetManifest where
  gk20a_gr_gpc_offset : Nat → Nat
  gk20a_gr_tpc_offset : Nat → Nat
  GPU_LIT_SM_PRI_STRIDE : Nat

/-- The function `gv11b_gr_sm_offset`. -/
def gv11b_gr_sm_offset (hw : GrOffsetManifest) (sm : Nat) : Nat :=
  let sm_pri_stride := hw.GPU_LIT_SM_PRI_STRIDE
  let sm_offset := u32 (sm_pri_stride * sm)
  sm_offset

/-- The function `gr_gv11b_handle_warp_esr_error_mmu_nack`; `fault_ch` is the index of the
channel passed to `gk20a_channel_get`, which returns it or `NULL`. The result is the
return value and the device. -/
def gr_gv11b_handle_warp_esr_error_mmu_nack (hw : GrOffsetManifest) (env : Env)
    (gpc tpc sm fault_ch : Nat) (g : gk20a) : Int × gk20a :=
  let (got, g) := ext env (Call.gk20a_channel_get fault_ch) g
  let fault_ch : Option Nat := if got ≠ 0 then some fault_ch else none
  let (err, g) :=
    match fault_ch with
    | some ch =>
      if ¬ g.rest.mmu_nack_handled ch then
        let r : gk20a_rest := g.rest
        (-EFAULT, { g with rest := { r with
          mmu_nack_handled := Function.update r.mmu_nack_handled ch true } })
      else ((0 : Int), g)
    | none => (0, g)
  let g :=
    match fault_ch with
    | some ch => if err = 0 then ext_void (Call.gk20a_channel_put ch) g else g
    | none => g
  let offset := u32 (hw.gk20a_gr_gpc_offset gpc + hw.gk20a_gr_tpc_offset tpc +
    gv11b_gr_sm_offset hw sm)
  let g := gk20a_writel (Reg.gr .gr_gpc0_tpc0_sm0_hww_warp_esr_r offset) 0 g
  (err, g)

/-- The macros and the constant used to write the VEID bundles. -/
structure GrPipeManifest where
  gr_pipe_bundle_address_veid_f : Nat → Nat
  gr_pipe_bundle_address_value_v : Nat → Nat
  GR_GO_IDLE_BUNDLE : Nat

/-- The function `gv11b_write_bundle_veid_state`; `g->ops.gr.init.wait_idle` is a
collaborator. -/
def gv11b_write_bundle_veid_state (hw : GrPipeManifest) (env : Env) (index : Nat)
    (g : gk20a) : Int × gk20a :=
  let sw_veid_bundle_init := g.rest.sw_veid_bundle_init
  let num_subctx := g.rest.max_subctx_count
  (List.range num_subctx).foldl
    (fun (p : Int × gk20a) j =>
      let g := gk20a_writel (Reg.gr .gr_pipe_bundle_address_r 0)
        (u32 ((sw_veid_bundle_init.l index).addr ||| hw.gr_pipe_bundle_address_veid_f j)) p.2
      ext env (Call.hal .gr_init_wait_idle) g)
    (0, g)

/-- The loop of `gr_gv11b_init_sw_veid_bundle` over the indices that remain, with the
current value of `last_bundle_data`. -/
def init_sw_veid_bundle_loop (hw : GrPipeManifest) (env : Env) :
    List Nat → Nat → gk20a → Int × gk20a
  | [], _, g => (0, g)
  | i :: is, last_bundle_data, g =>
    let sw_veid_bundle_init := g.rest.sw_veid_bundle_init
    let (last_bundle_data, g) :=
      if i = 0 ∨ last_bundle_data ≠ (sw_veid_bundle_init.l i).value then
        ((sw_veid_bundle_init.l i).value,
          gk20a_writel (Reg.gr .gr_pipe_bundle_data_r 0) (sw_veid_bundle_init.l i).value g)
      else (last_bundle_data, g)
    let (err, g) :=
      if hw.gr_pipe_bundle_address_value_v (sw_veid_bundle_init.l i).addr =
          hw.GR_GO_IDLE_BUNDLE then
        let g := gk20a_writel (Reg.gr .gr_pipe_bundle_address_r 0)
          (sw_veid_bundle_init.l i).addr g
        ext env (Call.hal .gr_init_wait_idle) g
      else gv11b_write_bundle_veid_state hw env i g
    if err ≠ 0 then (err, g) else init_sw_veid_bundle_loop hw env is last_bundle_data g

/-- The function `gr_gv11b_init_sw_veid_bundle`. -/
def gr_gv11b_init_sw_veid_bundle (hw : GrPipeManifest) (env : Env) (g : gk20a) :
    Int × gk20a :=
  init_sw_veid_bundle_loop hw env (List.range g.rest.sw_veid_bundle_init.count) 0 g

/-! ## GR configuration: `gr_config_gm20b.c` -/

/-- The checked arithmetic of `nvgpu/safe_ops.h`, taken as a parameter: the functions
return the exact result when it fits an unsigned 32-bit integer. -/
structure SafeOps where
  nvgpu_safe_add_u32 : Nat → Nat → Nat
  nvgpu_safe_sub_u32 : Nat → Nat → Nat

/-- The function `gm20b_gr_config_get_gpc_tpc_mask`; the result is the return value and
the device. -/
def gm20b_gr_config_get_gpc_tpc_mask (ops : SafeOps) (env : Env) (config : nvgpu_gr_config)
    (gpc_index : Nat) (g : gk20a) : Nat × gk20a :=
  let tpc_cnt := config.max_tpc_per_gpc_count
  let (val, g) := ext_u32 env (Call.fuse_status_opt_tpc_gpc gpc_index) g
  (u32_not val &&& ops.nvgpu_safe_sub_u32 (BIT32 tpc_cnt) 1, g)

/-- The function `gm20b_gr_config_get_gpc_mask`; the result is the return value and the
device. -/
def gm20b_gr_config_get_gpc_mask (ops : SafeOps) (env : Env) (config : nvgpu_gr_config)
    (g : gk20a) : Nat × gk20a :=
  let tpc_cnt := config.max_gpc_count
  let (val, g) := ext_u32 env (Call.hal .fuse_status_opt_gpc) g
  (u32_not val &&& ops.nvgpu_safe_sub_u32 (BIT32 tpc_cnt) 1, g)

/-- The GPU ids of the chips named in `nvgpu_pmu_lsfm_init`, without support for discrete
GPUs. -/
def sample_pmu_hw : PmuManifest where
  GK20A_GPUID_GM20B := 0x12B
  GK20A_GPUID_GM20B_B := 0x12E
  NVGPU_GPUID_GP10B := 0x13B
  NVGPU_GPUID_GV11B := 0x15B
  NVGPU_DGPU_SUPPORT := false
  NVGPU_GPUID_GV100 := 0x140
  NVGPU_GPUID_TU104 := 0x164

/-- An environment with priv-security enabled, not on FMODEL, in which every allocation
returns the address `p` and every other call returns 0. -/
def env_lsfm (p : Int) : Env := fun _ c =>
  match c with
  | Call.hal (.nvgpu_is_enabled .NVGPU_SEC_PRIVSECURITY) => 1
  | Call.hal .nvgpu_kzalloc_lsfm => p
  | _ => 0

/-- The device `sample_g` on a GV100 (`gpu_arch + gpu_impl == 0x140`), a chip that
`nvgpu_pmu_lsfm_init` supports only when `NVGPU_DGPU_SUPPORT` is defined. -/
def sample_g_gv100 : gk20a :=
  { sample_g with rest := { gpu_arch := 0x140, gpu_impl := 0 } }

/-- The device `sample_g` with one GPC of two TPCs, both enabled. -/
def sample_g_two_tpcs : gk20a :=
  { sample_g with rest := { gr_config := {
      max_gpc_count := 1, max_tpc_per_gpc_count := 2, gpc_count := 1,
      gpc_tpc_count := fun _ => 2, gpc_tpc_mask := fun _ => 3 } } }

/-- Offsets with a GPC stride of `0x8000`, a TPC stride of `0x800` and an SM stride of
`0x80`. -/
def sample_offset_hw : GrOffsetManifest where
  gk20a_gr_gpc_offset := fun gpc => 32768 * gpc
  gk20a_gr_tpc_offset := fun tpc => 2048 * tpc
  GPU_LIT_SM_PRI_STRIDE := 128

/-- An environment in which `gk20a_channel_get` returns the channel (1) and every other call
returns 0. -/
def env_channel_live : Env := fun _ c =>
  match c with
  | Call.gk20a_channel_get _ => 1
  | _ => 0

/-- Bundle macros: the VEID in bits 20..25 of the bundle address, the value field in bits
0..15; the go-idle bundle is the value 0. -/
def sample_pipe_hw : GrPipeManifest where
  gr_pipe_bundle_address_veid_f := fun v => (v &&& 63) <<< 20
  gr_pipe_bundle_address_value_v := fun r => r &&& 65535
  GR_GO_IDLE_BUNDLE := 0

/-- The device `sample_g` with two subcontexts and two VEID bundles, of address 16 and 32
and of value 7. -/
def sample_g_veid : gk20a :=
  { sample_g with rest := {
      max_subctx_count := 2
      sw_veid_bundle_init := { count := 2, l := fun i => ⟨16 * (i + 1), 7⟩ } } }

/-- An environment in which the first call of `g->ops.gr.init.wait_idle` fails with
`-EBUSY` and every later call, like every other call, returns 0. -/
def env_idle_fails_first : Env := fun t c =>
  match c with
  | Call.hal .gr_init_wait_idle =>
    if t.any (fun e => decide (e.call = Call.hal .gr_init_wait_idle)) then 0 else -16
  | _ => 0

/-- Checked arithmetic that returns the exact result. -/
def sample_safe_ops : SafeOps where
  nvgpu_safe_add_u32 := fun a b => a + b
  nvgpu_safe_sub_u32 := fun a b => a - b

/-- A configuration with at most 3 GPCs of at most 4 TPCs. -/
def sample_gr_config : nvgpu_gr_config :=
  { max_gpc_count := 3, max_tpc_per_gpc_count := 4, gpc_count := 3,
    gpc_tpc_count := fun g => if g = 0 then 4 else if g = 1 then 2 else 3 }

/-- An environment in which the GPC fuse and every TPC fuse read `v` and every other call
returns 0. -/
def env_fuse_status (v : Int) : Env := fun _ c =>
  match c with
  | Call.hal .fuse_status_opt_gpc => v
  | Call.fuse_status_opt_tpc_gpc _ => v
  | _ => 0

/-- The function `gm20b_gr_config_init_sm_id_table`, which does not use the device; the
result is the return value and the configuration. The loops carry `sm_id` and the table
`sm_info`, the only part of the configuration that they write. -/
def gm20b_gr_config_init_sm_id_table (ops : SafeOps) (gr_config : nvgpu_gr_config) :
    Int × nvgpu_gr_config :=
  let st := (List.range gr_config.max_tpc_per_gpc_count).foldl
    (fun (st : Nat × (Nat → nvgpu_sm_info)) tpc =>
      (List.range gr_config.gpc_count).foldl
        (fun (st : Nat × (Nat → nvgpu_sm_info)) gpc =>
          if tpc < gr_config.gpc_tpc_count gpc then
            let sm_id := st.1
            (ops.nvgpu_safe_add_u32 sm_id 1,
              Function.update st.2 sm_id
                { tpc_index := tpc, gpc_index := gpc, sm_index := 0,
                  global_tpc_index := sm_id })
          else st)
        st)
    (0, gr_config.sm_info)
  (0, { gr_config with sm_info := st.2, no_of_sm := st.1 })

/-- The pairs `(tpc, gpc)` in the order in which the loops of
`gm20b_gr_config_init_sm_id_table` meet them and find `tpc < gpc_tpc_count(gpc)`. -/
def sm_id_pairs (gr_config : nvgpu_gr_config) : List (Nat × Nat) :=
  (List.range gr_config.max_tpc_per_gpc_count).flatMap fun tpc =>
    ((List.range gr_config.gpc_count).filter
      (fun gpc => decide (tpc < gr_config.gpc_tpc_count gpc))).map fun gpc => (tpc, gpc)

/-- The entry written for a pair at the index `sm_id`. -/
def sm_id_entry (sm_id : Nat) (p : Nat × Nat) : nvgpu_sm_info :=
  { tpc_index := p.1, gpc_index := p.2, sm_index := 0, global_tpc_index := sm_id }

/-- The writes of `gm20b_gr_config_init_sm_id_table` for a list of pairs. -/
def sm_id_write (ops : SafeOps) (l : List (Nat × Nat)) (st : Nat × (Nat → nvgpu_sm_info)) :
    Nat × (Nat → nvgpu_sm_info) :=
  l.foldl (fun st p => (ops.nvgpu_safe_add_u32 st.1 1,
    Function.update st.2 st.1 (sm_id_entry st.1 p))) st

/-! ## The renumbering of TPCs: `gr_gv11b_get_nonpes_aware_tpc` -/

/-- The kernel's `hweight32`: the number of bits set among the 32 bits of a `u32`. -/
def hweight32 (x : Nat) : Nat := ((List.range 32).filter (fun i => x.testBit i)).length

/-- The loop `for (pes = 0; pes < gpc_ppc_count; pes++)` of
`gr_gv11b_get_nonpes_aware_tpc` with `n` iterations left before the bound is reached; the
result is the value of `pes` when the loop is left and `tpc_new`. -/
def get_nonpes_aware_tpc_loop (config : nvgpu_gr_config) (gpc tpc : Nat) :
    Nat → Nat → Nat → Nat × Nat
  | 0, pes, tpc_new => (pes, tpc_new)
  | n + 1, pes, tpc_new =>
    if config.pes_tpc_mask gpc pes &&& BIT32 tpc ≠ 0 then (pes, tpc_new)
    else get_nonpes_aware_tpc_loop config gpc tpc n (pes + 1)
      (u32 (tpc_new + config.pes_tpc_count gpc pes))

/-- The function `gr_gv11b_get_nonpes_aware_tpc` on the configuration `gr->config`; the
call of `nvgpu_log_info` is left out. -/
def gr_gv11b_get_nonpes_aware_tpc (config : nvgpu_gr_config) (gpc tpc : Nat) : Nat :=
  let (pes, tpc_new) :=
    get_nonpes_aware_tpc_loop config gpc tpc (config.gpc_ppc_count gpc) 0 0
  let temp := u32 (BIT32 tpc + 2 ^ 32 - 1) &&& config.pes_tpc_mask gpc pes
  let temp := hweight32 temp
  let tpc_new := u32 (tpc_new + temp)
  tpc_new

/-- A configuration whose GPC 0 has two PESes, with the TPCs 0, 2 and 1, 3. -/
def sample_pes_config : nvgpu_gr_config :=
  { gpc_count := 1, gpc_ppc_count := fun _ => 2,
    pes_tpc_mask := fun _ pes => if pes = 0 then 5 else if pes = 1 then 10 else 0,
    pes_tpc_count := fun _ pes => if pes = 0 then 2 else if pes = 1 then 2 else 0 }

/-- The number of bits set in `x` at the positions below `t`. -/
def bits_below (x t : Nat) : Nat := ((List.range t).filter (fun i => x.testBit i)).length

/-! ## The reset mark of `gv11b_fifo_is_preempt_pending` -/

/-- The values of the status register of engine `engine_idx` read in the events `l`, in
order. -/
def eng_status_reads (engine_idx : Nat) (l : List Event) : List Nat :=
  l.filterMap (fun e =>
    if e.call = Call.gk20a_readl (Reg.fifo_engine_status_r engine_idx) then some e.ret.toNat
    else none)

/-- The runlist of the id, as `gv11b_fifo_is_preempt_pending` computes it. -/
def preempt_pending_runlist_id (hw : Manifest) (f : fifo_gk20a) (id id_type : Nat) : Nat :=
  if id_type = hw.ID_TYPE_TSG then (f.tsg id).runlist_id else (f.channel id).runlist_id

/-- The first loop of `gv11b_fifo_is_preempt_pending` over the PBDMAs that remain: the
values returned by the calls of `gv11b_fifo_poll_pbdma_chan_status`, in order, and the
device after the loop. -/
def preempt_pending_pbdma_polls (hw : Manifest) (env : Env) (id timeout_rc_type : Nat) :
    List Nat → gk20a → List Int × gk20a
  | [], g => ([], g)
  | pbdma_id :: l, g =>
    let r := gv11b_fifo_poll_pbdma_chan_status hw env id pbdma_id timeout_rc_type g
    let rest := preempt_pending_pbdma_polls hw env id timeout_rc_type l r.2
    (r.1 :: rest.1, rest.2)

/-- The second loop of `gv11b_fifo_is_preempt_pending` over the engines that remain: the
values returned by the calls of `gv11b_fifo_poll_eng_ctx_status`, in order, and the device
after the loop. -/
def preempt_pending_eng_polls (hw : Manifest) (env : Env) (id timeout_rc_type
    runlist_id : Nat) : List Nat → gk20a → List Int × gk20a
  | [], g => ([], g)
  | act_eng_id :: l, g =>
    let r := gv11b_fifo_poll_eng_ctx_status hw env id act_eng_id
      (g.fifo.runlist_info runlist_id).reset_eng_bitmask timeout_rc_type g
    let g := set_reset_eng_bitmask runlist_id r.2.1 r.2.2
    let rest := preempt_pending_eng_polls hw env id timeout_rc_type runlist_id l g
    (r.1 :: rest.1, rest.2)

/-- The values returned by the polls of the served PBDMAs and engines that
`gv11b_fifo_is_preempt_pending` makes, in order. -/
def is_preempt_pending_polls (hw : Manifest) (env : Env) (id id_type timeout_rc_type : Nat)
    (g : gk20a) : List Int :=
  let f := g.fifo
  let runlist_id := preempt_pending_runlist_id hw f id id_type
  let pbdmas := preempt_pending_pbdma_polls hw env id timeout_rc_type
    (for_each_set_bit (f.runlist_info runlist_id).pbdma_bitmask f.num_pbdma) g
  let g := set_reset_eng_bitmask runlist_id 0 pbdmas.2
  let engines := preempt_pending_eng_polls hw env id timeout_rc_type runlist_id
    (for_each_set_bit (f.runlist_info runlist_id).eng_bitmask f.num_engines) g
  pbdmas.1 ++ engines.1

/-- How `gv11b_fifo_is_preempt_pending` accumulates the value `func_ret` of a poll into
`ret`. -/
def preempt_pending_acc (ret func_ret : Int) : Int :=
  if func_ret ≠ 0 then int_or ret func_ret else ret

/-! ## Theorems -/

theorem and_u32_of_lt (x y : Nat) (hx : x < 2 ^ 32) : x &&& u32 y = x &&& y := by
  apply Nat.eq_of_testBit_eq
  intro i
  simp only [u32, Nat.testBit_and, Nat.testBit_mod_two_pow]
  by_cases hi : i < 32
  · simp [hi]
  · have hxi : x.testBit i = false := by
      apply Nat.testBit_lt_two_pow
      calc x < 2 ^ 32 := hx
        _ ≤ 2 ^ i := Nat.pow_le_pow_right (by decide) (by omega)
    simp [hxi]

theorem runlists_mask_mmu_step_eq (hw : Manifest) (f : fifo_gk20a) (act pb mask id : Nat) :
    runlists_mask_mmu_step hw f act pb mask id =
      mask ||| (if (f.runlist_info id).eng_bitmask &&& act ≠ 0 ∨
          (f.runlist_info id).pbdma_bitmask &&& pb ≠ 0
        then hw.fifo_sched_disable_runlist_m id else 0) := by
  unfold runlists_mask_mmu_step
  by_cases h1 : (f.runlist_info id).eng_bitmask &&& act ≠ 0 <;>
  by_cases h2 : (f.runlist_info id).pbdma_bitmask &&& pb ≠ 0 <;>
  simp [h1, h2, Nat.or_assoc]

theorem runlists_mask_unknown_step_eq (hw : Manifest) (f : fifo_gk20a) (act mask id : Nat) :
    runlists_mask_unknown_step hw f act mask id =
      mask ||| (if (f.runlist_info id).eng_bitmask &&& act ≠ 0
        then hw.fifo_sched_disable_runlist_m id else 0) := by
  unfold runlists_mask_unknown_step
  by_cases h1 : (f.runlist_info id).eng_bitmask &&& act ≠ 0 <;> simp [h1]

theorem testBit_foldl_or (c : Nat → Nat) (l : List Nat) (a i : Nat) :
    (l.foldl (fun acc id => acc ||| c id) a).testBit i = true ↔
      a.testBit i = true ∨ ∃ r, r ∈ l ∧ (c r).testBit i = true := by
  induction l generalizing a with
  | nil => simp
  | cons x xs ih =>
    simp only [List.foldl_cons, ih, Nat.testBit_or, Bool.or_eq_true, List.mem_cons]
    constructor
    · rintro ((h | h) | ⟨r, hr, h⟩)
      · exact Or.inl h
      · exact Or.inr ⟨x, Or.inl rfl, h⟩
      · exact Or.inr ⟨r, Or.inr hr, h⟩
    · rintro (h | ⟨r, rfl | hr, h⟩)
      · exact Or.inl (Or.inl h)
      · exact Or.inl (Or.inr h)
      · exact Or.inr ⟨r, hr, h⟩

/-- C1: with `id_type == ID_TYPE_UNKNOWN`, `rc_type == RC_TYPE_MMU_FAULT` and a fault
record, a bit is set in the result of `gv11b_fifo_get_runlists_mask` exactly when it is
set in the disable mask of a runlist `r < max_runlists` whose engine bitmask meets
`act_eng_bitmask`, or whose PBDMA bitmask meets `BIT(faulted_pbdma)` for a valid
`faulted_pbdma`: the result is the union of these disable masks and nothing else. -/
theorem get_runlists_mask_unknown_mmu_fault (hw : Manifest) (f : fifo_gk20a)
    (act_eng_bitmask id id_type rc_type : Nat) (mmfault : mmu_fault_info)
    (hid : id_type = hw.ID_TYPE_UNKNOWN) (hrc : rc_type = hw.RC_TYPE_MMU_FAULT)
    (hu32 : ∀ r, r < f.max_runlists → (f.runlist_info r).pbdma_bitmask < 2 ^ 32) (i : Nat) :
    (gv11b_fifo_get_runlists_mask hw f act_eng_bitmask id id_type rc_type
        (some mmfault)).testBit i = true ↔
      ∃ r, r < f.max_runlists ∧
        ((f.runlist_info r).eng_bitmask &&& act_eng_bitmask ≠ 0 ∨
          (mmfault.faulted_pbdma ≠ hw.FIFO_INVAL_PBDMA_ID ∧
            (f.runlist_info r).pbdma_bitmask &&& BIT mmfault.faulted_pbdma ≠ 0)) ∧
        (hw.fifo_sched_disable_runlist_m r).testBit i = true := by
  subst hid hrc
  have hstep : ∀ pb, runlists_mask_mmu_step hw f act_eng_bitmask pb =
      fun acc r => acc ||| (if (f.runlist_info r).eng_bitmask &&& act_eng_bitmask ≠ 0 ∨
          (f.runlist_info r).pbdma_bitmask &&& pb ≠ 0
        then hw.fifo_sched_disable_runlist_m r else 0) := by
    intro pb
    funext acc r
    exact runlists_mask_mmu_step_eq hw f act_eng_bitmask pb acc r
  have hpb : ∀ r, r < f.max_runlists →
      ((f.runlist_info r).pbdma_bitmask &&&
          (if mmfault.faulted_pbdma ≠ hw.FIFO_INVAL_PBDMA_ID
            then u32 (BIT mmfault.faulted_pbdma) else 0) ≠ 0 ↔
        (mmfault.faulted_pbdma ≠ hw.FIFO_INVAL_PBDMA_ID ∧
          (f.runlist_info r).pbdma_bitmask &&& BIT mmfault.faulted_pbdma ≠ 0)) := by
    intro r hr
    by_cases hp : mmfault.faulted_pbdma = hw.FIFO_INVAL_PBDMA_ID
    · simp [hp]
    · simp [hp, and_u32_of_lt _ _ (hu32 r hr)]
  unfold gv11b_fifo_get_runlists_mask
  simp only [ne_eq, not_true_eq_false, if_false, decide_True]
  rw [hstep, testBit_foldl_or]
  simp only [Nat.zero_testBit, Bool.false_eq_true, false_or, List.mem_range]
  constructor
  · rintro ⟨r, hr, h⟩
    refine ⟨r, hr, ?_⟩
    by_cases hc : (f.runlist_info r).eng_bitmask &&& act_eng_bitmask ≠ 0 ∨
        (f.runlist_info r).pbdma_bitmask &&&
          (if mmfault.faulted_pbdma ≠ hw.FIFO_INVAL_PBDMA_ID
            then u32 (BIT mmfault.faulted_pbdma) else 0) ≠ 0
    · rw [if_pos hc] at h
      refine ⟨?_, h⟩
      rcases hc with hc | hc
      · exact Or.inl hc
      · exact Or.inr ((hpb r hr).1 hc)
    · rw [if_neg hc] at h
      simp at h
  · rintro ⟨r, hr, hc, h⟩
    refine ⟨r, hr, ?_⟩
    have hc2 : (f.runlist_info r).eng_bitmask &&& act_eng_bitmask ≠ 0 ∨
        (f.runlist_info r).pbdma_bitmask &&&
          (if mmfault.faulted_pbdma ≠ hw.FIFO_INVAL_PBDMA_ID
            then u32 (BIT mmfault.faulted_pbdma) else 0) ≠ 0 := by
      rcases hc with hc | hc
      · exact Or.inl hc
      · exact Or.inr ((hpb r hr).2 hc)
    rw [if_pos hc2]
    exact h

/-- C1 at `sample_fifo`: an unattributed MMU fault on engine 0 with faulting PBDMA 2
freezes the runlists 0 and 2; bit 2 is set in the mask. -/
theorem get_runlists_mask_unknown_mmu_fault_witness :
    (∀ r, r < sample_fifo.max_runlists → (sample_fifo.runlist_info r).pbdma_bitmask < 2 ^ 32) ∧
    ((gv11b_fifo_get_runlists_mask sample_hw sample_fifo 1 0 (2 ^ 32 - 1) 1
        (some ⟨2, 0, 0, none⟩)).testBit 2 = true ↔
      ∃ r, r < sample_fifo.max_runlists ∧
        ((sample_fifo.runlist_info r).eng_bitmask &&& 1 ≠ 0 ∨
          ((2 : Nat) ≠ sample_hw.FIFO_INVAL_PBDMA_ID ∧
            (sample_fifo.runlist_info r).pbdma_bitmask &&& BIT 2 ≠ 0)) ∧
        (sample_hw.fifo_sched_disable_runlist_m r).testBit 2 = true) :=
  ⟨by decide,
   get_runlists_mask_unknown_mmu_fault sample_hw sample_fifo 1 0 (2 ^ 32 - 1) 1
     ⟨2, 0, 0, none⟩ rfl rfl (by decide) 2⟩

/-- C2: for `id_type` `ID_TYPE_TSG` or `ID_TYPE_CHANNEL`, `gv11b_fifo_get_runlists_mask`
returns the disable mask of the single runlist `tsg[id].runlist_id`, respectively
`channel[id].runlist_id`, whatever `act_eng_bitmask`, `rc_type` and `mmfault` are. -/
theorem get_runlists_mask_known_id (hw : Manifest) (f : fifo_gk20a)
    (act_eng_bitmask id rc_type : Nat) (mmfault : Option mmu_fault_info)
    (htsg : hw.ID_TYPE_TSG ≠ hw.ID_TYPE_UNKNOWN) (hch : hw.ID_TYPE_CHANNEL ≠ hw.ID_TYPE_UNKNOWN)
    (hne : hw.ID_TYPE_CHANNEL ≠ hw.ID_TYPE_TSG) :
    gv11b_fifo_get_runlists_mask hw f act_eng_bitmask id hw.ID_TYPE_TSG rc_type mmfault =
        hw.fifo_sched_disable_runlist_m (f.tsg id).runlist_id ∧
    gv11b_fifo_get_runlists_mask hw f act_eng_bitmask id hw.ID_TYPE_CHANNEL rc_type mmfault =
        hw.fifo_sched_disable_runlist_m (f.channel id).runlist_id := by
  constructor
  · simp [gv11b_fifo_get_runlists_mask, htsg]
  · simp [gv11b_fifo_get_runlists_mask, hch, hne]

/-- C2 at `sample_fifo`: TSG 5 and channel 4, with an engine bitmask and a fault record
that point at other runlists. -/
theorem get_runlists_mask_known_id_witness :
    (sample_hw.ID_TYPE_TSG ≠ sample_hw.ID_TYPE_UNKNOWN ∧
      sample_hw.ID_TYPE_CHANNEL ≠ sample_hw.ID_TYPE_UNKNOWN ∧
      sample_hw.ID_TYPE_CHANNEL ≠ sample_hw.ID_TYPE_TSG) ∧
    gv11b_fifo_get_runlists_mask sample_hw sample_fifo 7 5 sample_hw.ID_TYPE_TSG 1
        (some ⟨2, 0, 0, none⟩) =
        sample_hw.fifo_sched_disable_runlist_m (sample_fifo.tsg 5).runlist_id ∧
    gv11b_fifo_get_runlists_mask sample_hw sample_fifo 7 5 sample_hw.ID_TYPE_CHANNEL 1
        (some ⟨2, 0, 0, none⟩) =
        sample_hw.fifo_sched_disable_runlist_m (sample_fifo.channel 5).runlist_id :=
  ⟨by decide,
   get_runlists_mask_known_id sample_hw sample_fifo 7 5 1 (some ⟨2, 0, 0, none⟩)
     (by decide) (by decide) (by decide)⟩

/-- C3, as stated, fails: with an unknown id and a recovery that is not an MMU fault
(`rc_type` 0, no fault record), an engine bitmask that meets the runlists 0 and 1 makes
`gv11b_fifo_get_runlists_mask` return the disable bits of both. -/
theorem get_runlists_mask_two_runlists_without_mmu_fault :
    gv11b_fifo_get_runlists_mask sample_hw sample_fifo 3 0 sample_hw.ID_TYPE_UNKNOWN 0 none = 3 ∧
    (3 : Nat) &&& sample_hw.fifo_sched_disable_runlist_m 0 ≠ 0 ∧
    (3 : Nat) &&& sample_hw.fifo_sched_disable_runlist_m 1 ≠ 0 ∧
    (0 : Nat) ≠ sample_hw.RC_TYPE_MMU_FAULT := by
  decide

/-- C3, amended: when the disable masks of distinct runlists share no bit, a result of
`gv11b_fifo_get_runlists_mask` that contains bits of two different runlists is only
possible with `id_type == ID_TYPE_UNKNOWN`; `rc_type` need not be `RC_TYPE_MMU_FAULT` and
no fault record need be present: with an unknown id and without an MMU fault or without a
fault record, a bit is set in the result exactly when it is set in the disable mask of a
runlist `r < max_runlists` whose engine bitmask meets `act_eng_bitmask`, so every such
runlist is selected and no other. -/
theorem get_runlists_mask_two_runlists_only_unknown (hw : Manifest) (f : fifo_gk20a)
    (act_eng_bitmask id id_type rc_type : Nat) (mmfault : Option mmu_fault_info)
    (hdisj : ∀ r1 r2, r1 ≠ r2 →
      hw.fifo_sched_disable_runlist_m r1 &&& hw.fifo_sched_disable_runlist_m r2 = 0) :
    (∀ r1 r2, r1 ≠ r2 →
      gv11b_fifo_get_runlists_mask hw f act_eng_bitmask id id_type rc_type mmfault &&&
        hw.fifo_sched_disable_runlist_m r1 ≠ 0 →
      gv11b_fifo_get_runlists_mask hw f act_eng_bitmask id id_type rc_type mmfault &&&
        hw.fifo_sched_disable_runlist_m r2 ≠ 0 →
      id_type = hw.ID_TYPE_UNKNOWN) ∧
    (id_type = hw.ID_TYPE_UNKNOWN → (rc_type ≠ hw.RC_TYPE_MMU_FAULT ∨ mmfault = none) →
      ∀ i, (gv11b_fifo_get_runlists_mask hw f act_eng_bitmask id id_type rc_type
          mmfault).testBit i = true ↔
        ∃ r, r < f.max_runlists ∧ (f.runlist_info r).eng_bitmask &&& act_eng_bitmask ≠ 0 ∧
          (hw.fifo_sched_disable_runlist_m r).testBit i = true) := by
  constructor
  · intro r1 r2 hr h1 h2
    by_contra hid
    have hone : ∃ r,
        gv11b_fifo_get_runlists_mask hw f act_eng_bitmask id id_type rc_type mmfault =
          hw.fifo_sched_disable_runlist_m r := by
      unfold gv11b_fifo_get_runlists_mask
      rw [if_pos hid]
      by_cases ht : id_type = hw.ID_TYPE_TSG
      · exact ⟨_, by rw [if_pos ht]⟩
      · exact ⟨_, by rw [if_neg ht]⟩
    obtain ⟨r, hr0⟩ := hone
    rw [hr0] at h1 h2
    have e1 : r = r1 := by
      by_contra hne
      exact h1 (hdisj r r1 hne)
    have e2 : r = r2 := by
      by_contra hne
      exact h2 (hdisj r r2 hne)
    exact hr (e1.symm.trans e2)
  · intro hid hno i
    have hstep : runlists_mask_unknown_step hw f act_eng_bitmask =
        fun acc r => acc ||| (if (f.runlist_info r).eng_bitmask &&& act_eng_bitmask ≠ 0
          then hw.fifo_sched_disable_runlist_m r else 0) := by
      funext acc r
      exact runlists_mask_unknown_step_eq hw f act_eng_bitmask acc r
    have hval : gv11b_fifo_get_runlists_mask hw f act_eng_bitmask id id_type rc_type mmfault =
        (List.range f.max_runlists).foldl (runlists_mask_unknown_step hw f act_eng_bitmask) 0 := by
      unfold gv11b_fifo_get_runlists_mask
      rw [if_neg (by simpa using hid)]
      rcases hno with hrc | hmm
      · have hd : decide (rc_type = hw.RC_TYPE_MMU_FAULT) = false := by simpa using hrc
        rw [hd]
      · subst hmm
        cases decide (rc_type = hw.RC_TYPE_MMU_FAULT) <;> rfl
    rw [hval, hstep, testBit_foldl_or]
    simp only [Nat.zero_testBit, Bool.false_eq_true, false_or, List.mem_range]
    constructor
    · rintro ⟨r, hr, h⟩
      by_cases hc : (f.runlist_info r).eng_bitmask &&& act_eng_bitmask ≠ 0
      · rw [if_pos hc] at h
        exact ⟨r, hr, hc, h⟩
      · rw [if_neg hc] at h
        simp at h
    · rintro ⟨r, hr, hc, h⟩
      exact ⟨r, hr, by rw [if_pos hc]; exact h⟩

theorem sample_hw_disable_masks_disjoint (r1 r2 : Nat) (h : r1 ≠ r2) :
    sample_hw.fifo_sched_disable_runlist_m r1 &&& sample_hw.fifo_sched_disable_runlist_m r2
      = 0 := by
  simp only [sample_hw, Nat.one_shiftLeft, Nat.and_two_pow, Nat.testBit_two_pow]
  simp [h]

/-- C3, amended, at `sample_fifo`: the mask 3 of the unknown-id recovery above contains
the runlists 0 and 1, its `id_type` is `ID_TYPE_UNKNOWN`, and its bits are those of the
disable masks of the runlists whose engine bitmask meets 3. -/
theorem get_runlists_mask_two_runlists_only_unknown_witness :
    (gv11b_fifo_get_runlists_mask sample_hw sample_fifo 3 0 (2 ^ 32 - 1) 0 none &&&
      sample_hw.fifo_sched_disable_runlist_m 0 ≠ 0) ∧
    (gv11b_fifo_get_runlists_mask sample_hw sample_fifo 3 0 (2 ^ 32 - 1) 0 none &&&
      sample_hw.fifo_sched_disable_runlist_m 1 ≠ 0) ∧
    (2 ^ 32 - 1 : Nat) = sample_hw.ID_TYPE_UNKNOWN ∧
    (∀ i, (gv11b_fifo_get_runlists_mask sample_hw sample_fifo 3 0 (2 ^ 32 - 1) 0
        none).testBit i = true ↔
      ∃ r, r < sample_fifo.max_runlists ∧ (sample_fifo.runlist_info r).eng_bitmask &&& 3 ≠ 0 ∧
        (sample_hw.fifo_sched_disable_runlist_m r).testBit i = true) :=
  ⟨by decide, by decide,
   (get_runlists_mask_two_runlists_only_unknown sample_hw sample_fifo 3 0 (2 ^ 32 - 1) 0 none
     sample_hw_disable_masks_disjoint).1 0 1 (by decide) (by decide) (by decide),
   (get_runlists_mask_two_runlists_only_unknown sample_hw sample_fifo 3 0 (2 ^ 32 - 1) 0 none
     sample_hw_disable_masks_disjoint).2 (by decide) (Or.inr rfl)⟩

/-- C4: `gv11b_fifo_preempt_ch_tsg` returns `-EINVAL` when `id_type` is neither
`ID_TYPE_TSG` nor `ID_TYPE_CHANNEL`, or when the runlist id of the TSG or channel is not
below `max_runlists`; the device is then exactly as at entry: no event was added to the
trace (no mutex acquired, no preempt issued, no register accessed) and no field
changed. -/
theorem preempt_ch_tsg_invalid_argument (hw : Manifest) (env : Env)
    (id id_type timeout_rc_type : Nat) (g : gk20a)
    (hne : hw.ID_TYPE_CHANNEL ≠ hw.ID_TYPE_TSG)
    (h : (id_type ≠ hw.ID_TYPE_TSG ∧ id_type ≠ hw.ID_TYPE_CHANNEL) ∨
      (id_type = hw.ID_TYPE_TSG ∧ (g.fifo.tsg id).runlist_id ≥ g.fifo.max_runlists) ∨
      (id_type = hw.ID_TYPE_CHANNEL ∧ (g.fifo.channel id).runlist_id ≥ g.fifo.max_runlists)) :
    gv11b_fifo_preempt_ch_tsg hw env id id_type timeout_rc_type g = (-EINVAL, g) := by
  unfold gv11b_fifo_preempt_ch_tsg
  rcases h with ⟨h1, h2⟩ | ⟨h1, h2⟩ | ⟨h1, h2⟩
  · simp [h1, h2]
  · simp [h1, h2]
  · subst h1
    simp [hne, h2]

/-- C4 at `sample_g`: a preemption request with the id type `ID_TYPE_UNKNOWN`. -/
theorem preempt_ch_tsg_invalid_argument_witness :
    gv11b_fifo_preempt_ch_tsg sample_hw env_zero 4 (2 ^ 32 - 1) 0 sample_g = (-EINVAL, sample_g) :=
  preempt_ch_tsg_invalid_argument sample_hw env_zero 4 (2 ^ 32 - 1) 0 sample_g (by decide)
    (Or.inl ⟨by decide, by decide⟩)

theorem ite_pair_snd {α β : Type} (c : Prop) [Decidable c] (a b : α) (x : β) :
    (if c then (a, x) else (b, x)).2 = x := by
  split <;> rfl

/-! ### Basic facts on `Steps` -/

theorem Steps.refl (P : Call → Bool) (g : gk20a) : Steps P g g :=
  ⟨⟨[], by simp, by simp⟩, rfl, rfl, rfl, rfl, rfl, fun _ => rfl, fun _ => rfl, rfl, rfl, rfl,
    rfl⟩

theorem Steps.trans {P : Call → Bool} {g g1 g2 : gk20a} (h1 : Steps P g g1)
    (h2 : Steps P g1 g2) : Steps P g g2 := by
  obtain ⟨l1, e1, p1⟩ := h1.trace
  obtain ⟨l2, e2, p2⟩ := h2.trace
  refine ⟨⟨l1 ++ l2, by rw [e2, e1, List.append_assoc], ?_⟩, h2.tsg.trans h1.tsg,
    h2.channel.trans h1.channel, h2.max_runlists.trans h1.max_runlists,
    h2.num_pbdma.trans h1.num_pbdma, h2.num_engines.trans h1.num_engines,
    fun r => (h2.pbdma_bitmask r).trans (h1.pbdma_bitmask r),
    fun r => (h2.eng_bitmask r).trans (h1.eng_bitmask r),
    h2.elpg_enabled.trans h1.elpg_enabled, h2.slcg_gr.trans h1.slcg_gr,
    h2.slcg_perf.trans h1.slcg_perf, h2.slcg_ltc.trans h1.slcg_ltc⟩
  intro e he
  rcases List.mem_append.1 he with he | he
  · exact p1 e he
  · exact p2 e he

theorem Steps.mono {P Q : Call → Bool} {g g' : gk20a} (hPQ : ∀ c, P c = true → Q c = true)
    (h : Steps P g g') : Steps Q g g' := by
  obtain ⟨l, e, p⟩ := h.trace
  exact ⟨⟨l, e, fun x hx => hPQ _ (p x hx)⟩, h.tsg, h.channel, h.max_runlists, h.num_pbdma,
    h.num_engines, h.pbdma_bitmask, h.eng_bitmask, h.elpg_enabled, h.slcg_gr, h.slcg_perf,
    h.slcg_ltc⟩

theorem steps_ext_void {P : Call → Bool} (c : Call) (g : gk20a) (hc : P c = true) :
    Steps P g (ext_void c g) :=
  ⟨⟨[⟨c, 0⟩], rfl, by simpa using hc⟩, rfl, rfl, rfl, rfl, rfl, fun _ => rfl, fun _ => rfl, rfl,
    rfl, rfl, rfl⟩

theorem steps_ext {P : Call → Bool} (env : Env) (c : Call) (g : gk20a) (hc : P c = true) :
    Steps P g (ext env c g).2 :=
  ⟨⟨[⟨c, env g.trace c⟩], rfl, by simpa using hc⟩, rfl, rfl, rfl, rfl, rfl, fun _ => rfl,
    fun _ => rfl, rfl, rfl, rfl, rfl⟩

theorem steps_readl {P : Call → Bool} (env : Env) (r : Reg) (g : gk20a)
    (hc : P (Call.gk20a_readl r) = true) : Steps P g (gk20a_readl env r g).2 :=
  ⟨⟨[⟨Call.gk20a_readl r, ((gk20a_readl env r g).1 : Int)⟩], rfl,
    by simpa using hc⟩, rfl, rfl, rfl, rfl, rfl, fun _ => rfl, fun _ => rfl, rfl, rfl, rfl, rfl⟩

theorem steps_writel {P : Call → Bool} (r : Reg) (v : Nat) (g : gk20a)
    (hc : P (Call.gk20a_writel r v) = true) : Steps P g (gk20a_writel r v g) :=
  steps_ext_void _ g hc

theorem steps_timeout_init {P : Call → Bool} (env : Env) (g : gk20a)
    (hc : P Call.nvgpu_timeout_init = true) : Steps P g (nvgpu_timeout_init env g).2 :=
  ⟨⟨[⟨Call.nvgpu_timeout_init, ((nvgpu_timeout_init env g).1 : Int)⟩], rfl,
    by simpa using hc⟩, rfl, rfl, rfl, rfl, rfl, fun _ => rfl, fun _ => rfl, rfl, rfl, rfl, rfl⟩

theorem steps_set_reset_eng_bitmask (P : Call → Bool) (runlist_id v : Nat) (g : gk20a) :
    Steps P g (set_reset_eng_bitmask runlist_id v g) := by
  refine ⟨⟨[], by simp [set_reset_eng_bitmask], by simp⟩, rfl, rfl, rfl, rfl, rfl, ?_, ?_, rfl,
    rfl, rfl, rfl⟩
  · intro r
    by_cases h : r = runlist_id
    · subst h; simp [set_reset_eng_bitmask]
    · simp [set_reset_eng_bitmask, Function.update_noteq h]
  · intro r
    by_cases h : r = runlist_id
    · subst h; simp [set_reset_eng_bitmask]
    · simp [set_reset_eng_bitmask, Function.update_noteq h]

theorem steps_foldl {α : Type} {P : Call → Bool} (body : gk20a → α → gk20a)
    (h : ∀ g a, Steps P g (body g a)) (l : List α) (g : gk20a) :
    Steps P g (l.foldl body g) := by
  induction l generalizing g with
  | nil => exact Steps.refl P g
  | cons a l ih => exact (h g a).trans (ih (body g a))

theorem steps_foldl_pair {α β : Type} {P : Call → Bool} (body : β × gk20a → α → β × gk20a)
    (h : ∀ p a, Steps P p.2 (body p a).2) (l : List α) (p : β × gk20a) :
    Steps P p.2 (l.foldl body p).2 := by
  induction l generalizing p with
  | nil => exact Steps.refl P p.2
  | cons a l ih => exact (h p a).trans (ih (body p a))

/-! ### What the polling functions call -/

theorem steps_poll_pbdma_loop (hw : Manifest) (env : Env) (id pbdma_id n : Nat) (g : gk20a) :
    Steps is_reg_call g (poll_pbdma_loop hw env id pbdma_id n g).2 := by
  induction n generalizing g with
  | zero =>
    unfold poll_pbdma_loop
    have h := steps_readl (P := is_reg_call) env (Reg.fifo_pbdma_status_r pbdma_id) g rfl
    rcases hr : gk20a_readl env (Reg.fifo_pbdma_status_r pbdma_id) g with ⟨stat, g1⟩
    rw [hr] at h
    dsimp only
    split <;> exact h
  | succ n ih =>
    unfold poll_pbdma_loop
    have h := steps_readl (P := is_reg_call) env (Reg.fifo_pbdma_status_r pbdma_id) g rfl
    rcases hr : gk20a_readl env (Reg.fifo_pbdma_status_r pbdma_id) g with ⟨stat, g1⟩
    rw [hr] at h
    dsimp only
    split
    · exact h
    · exact h.trans (ih g1)

theorem steps_poll_pbdma_clear_intr (hw : Manifest) (env : Env) (pbdma_id timeout_rc_type : Nat)
    (g : gk20a) :
    Steps (is_pbdma_intr_call pbdma_id) g
      (poll_pbdma_clear_intr hw env pbdma_id timeout_rc_type g) := by
  unfold poll_pbdma_clear_intr
  have h0 := steps_readl (P := is_pbdma_intr_call pbdma_id) env (Reg.pbdma_intr_0_r pbdma_id) g
    (by simp [is_pbdma_intr_call])
  have h1 := steps_readl (P := is_pbdma_intr_call pbdma_id) env (Reg.pbdma_intr_1_r pbdma_id)
    (gk20a_readl env (Reg.pbdma_intr_0_r pbdma_id) g).2 (by simp [is_pbdma_intr_call])
  have h01 := h0.trans h1
  have hw0 : ∀ v g, Steps (is_pbdma_intr_call pbdma_id) g
      (gk20a_writel (Reg.pbdma_intr_0_r pbdma_id) v g) :=
    fun v g => steps_writel _ _ _ (by simp [is_pbdma_intr_call])
  have hw1 : ∀ v g, Steps (is_pbdma_intr_call pbdma_id) g
      (gk20a_writel (Reg.pbdma_intr_1_r pbdma_id) v g) :=
    fun v g => steps_writel _ _ _ (by simp [is_pbdma_intr_call])
  split
  · dsimp only
    split <;> split
    · exact (h01.trans (hw0 _ _)).trans (hw1 _ _)
    · exact h01.trans (hw1 _ _)
    · exact h01.trans (hw0 _ _)
    · exact h01
  · exact Steps.refl _ g

theorem steps_poll_pbdma_chan_status (hw : Manifest) (env : Env) (id pbdma_id
    timeout_rc_type : Nat) (g : gk20a) :
    Steps is_reg_call g
      (gv11b_fifo_poll_pbdma_chan_status hw env id pbdma_id timeout_rc_type g).2 := by
  unfold gv11b_fifo_poll_pbdma_chan_status
  have hpre := (steps_poll_pbdma_clear_intr hw env pbdma_id timeout_rc_type g).mono
    (Q := is_reg_call) (by intro c hc; cases c <;> simp_all [is_pbdma_intr_call, is_reg_call])
  exact (hpre.trans (steps_timeout_init env _ rfl)).trans (steps_poll_pbdma_loop _ _ _ _ _ _)

theorem steps_poll_eng_loop (hw : Manifest) (env : Env) (id engine_idx timeout_rc_type n
    reset_eng_bitmask : Nat) (g : gk20a) :
    Steps is_reg_call g
      (poll_eng_loop hw env id engine_idx timeout_rc_type n reset_eng_bitmask g).2.2 := by
  induction n generalizing g reset_eng_bitmask with
  | zero =>
    unfold poll_eng_loop
    have h := steps_readl (P := is_reg_call) env (Reg.fifo_engine_status_r engine_idx) g rfl
    rcases hr : gk20a_readl env (Reg.fifo_engine_status_r engine_idx) g with ⟨stat, g1⟩
    rw [hr] at h
    dsimp only
    split <;> exact h
  | succ n ih =>
    unfold poll_eng_loop
    have h := steps_readl (P := is_reg_call) env (Reg.fifo_engine_status_r engine_idx) g rfl
    rcases hr : gk20a_readl env (Reg.fifo_engine_status_r engine_idx) g with ⟨stat, g1⟩
    rw [hr] at h
    dsimp only
    split
    · exact h
    · exact h.trans (ih _ g1)

theorem steps_poll_eng_ctx_status (hw : Manifest) (env : Env) (id engine_idx reset_eng_bitmask
    timeout_rc_type : Nat) (g : gk20a) :
    Steps is_reg_call g
      (gv11b_fifo_poll_eng_ctx_status hw env id engine_idx reset_eng_bitmask
        timeout_rc_type g).2.2 :=
  (steps_timeout_init env g rfl).trans (steps_poll_eng_loop _ _ _ _ _ _ _ _)

theorem steps_is_preempt_pending (hw : Manifest) (env : Env) (id id_type timeout_rc_type : Nat)
    (g : gk20a) :
    Steps is_reg_call g (gv11b_fifo_is_preempt_pending hw env id id_type timeout_rc_type g).2 := by
  unfold gv11b_fifo_is_preempt_pending
  dsimp only
  refine Steps.trans ?_ (steps_foldl_pair _ ?_ _ _)
  · dsimp only
    refine Steps.trans ?_ (steps_set_reset_eng_bitmask _ _ _ _)
    refine steps_foldl_pair _ ?_ _ (0, g)
    intro p a
    dsimp only
    rw [ite_pair_snd]
    exact steps_poll_pbdma_chan_status _ _ _ _ _ _
  · intro p a
    dsimp only
    rw [ite_pair_snd]
    exact (steps_poll_eng_ctx_status hw env id a _ timeout_rc_type p.2).trans
      (steps_set_reset_eng_bitmask is_reg_call _ _ _)

/-! ### What the preemption entry points call -/

theorem events_since_of_append (g g' : gk20a) (l : List Event) (h : g'.trace = g.trace ++ l) :
    events_since g g' = l := by
  simp [events_since, h]

theorem foldl_ext_void (cond : Nat → Prop) [DecidablePred cond] (c : Nat → Call) (l : List Nat)
    (g : gk20a) :
    l.foldl (fun g r => if cond r then ext_void (c r) g else g) g =
      { g with trace := g.trace ++
          (l.filter (fun r => decide (cond r))).map (fun r => (⟨c r, 0⟩ : Event)) } := by
  induction l generalizing g with
  | nil => simp
  | cons a l ih =>
    rw [List.foldl_cons, ih]
    by_cases h : cond a
    · simp [h, ext_void]
    · simp [h]

theorem steps_locked_fifo_preempt_runlists_reg (hw : Manifest) (env : Env) (runlists_mask : Nat)
    (g : gk20a) :
    Steps is_locked_runlists_call g (__locked_fifo_preempt_runlists hw env runlists_mask g).2 := by
  have hpoll : ∀ n g, Steps is_locked_runlists_call g
      (poll_runlist_preempt_loop env runlists_mask n g).2 := by
    intro n
    induction n with
    | zero =>
      intro g
      unfold poll_runlist_preempt_loop
      dsimp only
      split <;> exact steps_readl env _ g rfl
    | succ n ih =>
      intro g
      unfold poll_runlist_preempt_loop
      dsimp only
      split
      · exact steps_readl env _ g rfl
      · exact (steps_readl env _ g rfl).trans (ih _)
  unfold __locked_fifo_preempt_runlists gv11b_fifo_runlist_event_intr_disable
    gv11b_fifo_issue_runlist_preempt gv11b_fifo_poll_runlist_preempt_pending
    gv11b_fifo_runlist_event_intr_enable
  dsimp only
  refine Steps.trans ?_ (steps_writel _ _ _ rfl)
  refine Steps.trans ?_ (steps_readl env _ _ rfl)
  refine Steps.trans ?_ (steps_ext_void _ _ rfl)
  refine Steps.trans ?_ (hpoll _ _)
  refine Steps.trans ?_ (steps_timeout_init env _ rfl)
  refine Steps.trans ?_ (steps_writel _ _ _ rfl)
  refine Steps.trans ?_ (steps_readl env _ _ rfl)
  refine Steps.trans ?_ (steps_writel _ _ _ rfl)
  exact steps_readl env _ _ rfl

theorem steps_locked_fifo_preempt_runlists (hw : Manifest) (env : Env) (runlists_mask : Nat)
    (g : gk20a) :
    Steps is_locked_preempt_call g (__locked_fifo_preempt_runlists hw env runlists_mask g).2 :=
  (steps_locked_fifo_preempt_runlists_reg hw env runlists_mask g).mono
    (by intro c hc; cases c <;> simp_all [is_locked_preempt_call, is_locked_runlists_call,
      is_reg_call])

theorem steps_locked_fifo_preempt_ch_tsg (hw : Manifest) (env : Env) (id id_type
    timeout_rc_type : Nat) (g : gk20a) :
    Steps is_locked_preempt_call g
      (__locked_fifo_preempt_ch_tsg hw env id id_type timeout_rc_type g).2 := by
  unfold __locked_fifo_preempt_ch_tsg
  dsimp only
  have h1 : Steps is_locked_preempt_call g
      (gv11b_fifo_is_preempt_pending hw env id id_type timeout_rc_type
        (ext_void (Call.gk20a_fifo_issue_preempt id id_type) g)).2 :=
    (steps_ext_void _ g rfl).trans
      ((steps_is_preempt_pending hw env id id_type timeout_rc_type _).mono
        (by intro c hc; cases c <;> simp_all [is_locked_preempt_call, is_reg_call]))
  split
  · exact h1.trans (steps_ext_void _ _ rfl)
  · exact h1

theorem countP_eq_zero_of_locked (l : List Event) (c : Call)
    (hl : ∀ e ∈ l, is_locked_preempt_call e.call = true) (hc : is_locked_preempt_call c = false) :
    l.countP (fun e => e.call = c) = 0 := by
  rw [List.countP_eq_zero]
  intro e he
  have h1 := hl e he
  intro h2
  simp only [decide_eq_true_eq] at h2
  rw [h2, hc] at h1
  exact Bool.false_ne_true h1

theorem countP_and_eq_zero_of_locked (l : List Event) (c : Call)
    (hl : ∀ e ∈ l, is_locked_preempt_call e.call = true) (hc : is_locked_preempt_call c = false) :
    l.countP (fun e => e.call = c ∧ e.ret = 0) = 0 := by
  rw [List.countP_eq_zero]
  intro e he
  have h1 := hl e he
  intro h2
  simp only [decide_eq_true_eq] at h2
  rw [h2.1, hc] at h1
  exact Bool.false_ne_true h1

theorem countP_eq_le_one (L : List Nat) (hL : L.Nodup) (r0 : Nat) :
    L.countP (fun r => decide (r = r0)) ≤ 1 := by
  have h := List.nodup_iff_count_le_one.1 hL r0
  simpa [List.count_eq_countP, beq_iff_eq] using h

/-- The events of a preemption entry point that takes the software mutexes of the
runlists `L`, then the PMU mutex with result `mutex_ret`, works under the locks and
releases them, satisfy the mutex discipline. -/
theorem mutex_discipline_of_shape (L : List Nat) (hL : L.Nodup) (mutex_ret : Int)
    (l : List Event) (hl : ∀ e ∈ l, is_locked_preempt_call e.call = true) :
    mutex_discipline
      (L.map (fun r => (⟨Call.nvgpu_mutex_acquire r, 0⟩ : Event)) ++
        ((⟨Call.pmu_mutex_acquire, mutex_ret⟩ : Event) :: l) ++
        (if mutex_ret = 0 then [(⟨Call.pmu_mutex_release, 0⟩ : Event)] else []) ++
        L.map (fun r => (⟨Call.nvgpu_mutex_release r, 0⟩ : Event))) := by
  have z1 := countP_eq_zero_of_locked l Call.pmu_mutex_release hl rfl
  have z2 := countP_eq_zero_of_locked l Call.pmu_mutex_acquire hl rfl
  have z3 := countP_and_eq_zero_of_locked l Call.pmu_mutex_acquire hl rfl
  have z3b : List.countP
      (fun e : Event => decide (e.call = Call.pmu_mutex_acquire) && decide (e.ret = 0)) l = 0 := by
    rw [← z3]
    apply List.countP_congr
    intro e _
    simp
  have z4 := fun r => countP_eq_zero_of_locked l (Call.nvgpu_mutex_acquire r) hl rfl
  have z5 := fun r => countP_eq_zero_of_locked l (Call.nvgpu_mutex_release r) hl rfl
  unfold mutex_discipline count_calls
  refine ⟨?_, ?_, ?_⟩
  · by_cases hm : mutex_ret = 0
    · simp [List.countP_append, List.countP_cons, List.countP_map, Function.comp_def, z1, z3b, hm]
    · simp [List.countP_append, List.countP_cons, List.countP_map, Function.comp_def, z1, z3b, hm]
  · by_cases hm : mutex_ret = 0
    · simp [List.countP_append, List.countP_cons, List.countP_map, Function.comp_def, z2, hm]
    · simp [List.countP_append, List.countP_cons, List.countP_map, Function.comp_def, z2, hm]
  · intro r
    have hr := countP_eq_le_one L hL r
    by_cases hm : mutex_ret = 0
    · simpa [List.countP_append, List.countP_cons, List.countP_map, Function.comp_def, z4 r,
        z5 r, hm] using hr
    · simpa [List.countP_append, List.countP_cons, List.countP_map, Function.comp_def, z4 r,
        z5 r, hm] using hr

theorem mutex_discipline_nil : mutex_discipline [] := by
  simp [mutex_discipline, count_calls]

theorem mutex_discipline_preempt_ch_tsg (hw : Manifest) (env : Env) (id id_type
    timeout_rc_type : Nat) (g : gk20a) :
    mutex_discipline
      (events_since g (gv11b_fifo_preempt_ch_tsg hw env id id_type timeout_rc_type g).2) := by
  have hnil : events_since g g = [] := events_since_of_append g g [] (by simp)
  have key : ∀ runlist_id : Nat, mutex_discipline (events_since g
      (if runlist_id ≥ g.fifo.max_runlists then (-EINVAL, g)
       else
        let g1 := ext_void (Call.nvgpu_mutex_acquire runlist_id) g
        let (mutex_ret, g2) := ext env Call.pmu_mutex_acquire g1
        let (ret, g3) := __locked_fifo_preempt_ch_tsg hw env id id_type timeout_rc_type g2
        let g4 := if mutex_ret = 0 then ext_void Call.pmu_mutex_release g3 else g3
        let g5 := ext_void (Call.nvgpu_mutex_release runlist_id) g4
        (ret, g5)).2) := by
    intro runlist_id
    split
    · rw [hnil]; exact mutex_discipline_nil
    · obtain ⟨l, hl, hP⟩ := (steps_locked_fifo_preempt_ch_tsg hw env id id_type timeout_rc_type
        (ext env Call.pmu_mutex_acquire
          (ext_void (Call.nvgpu_mutex_acquire runlist_id) g)).2).trace
      have hs := mutex_discipline_of_shape [runlist_id] (List.nodup_singleton _)
        (env (g.trace ++ [⟨Call.nvgpu_mutex_acquire runlist_id, 0⟩]) Call.pmu_mutex_acquire) l hP
      rw [events_since_of_append g _ _ ?_]
      · exact hs
      · dsimp only
        by_cases hm : env (g.trace ++ [⟨Call.nvgpu_mutex_acquire runlist_id, 0⟩])
            Call.pmu_mutex_acquire = 0
        · simp [ext, ext_void, hm] at hl ⊢
          rw [hl]
          simp
        · simp [ext, ext_void, hm] at hl ⊢
          rw [hl]
          simp
  unfold gv11b_fifo_preempt_ch_tsg
  dsimp only
  by_cases h1 : id_type = hw.ID_TYPE_TSG
  · rw [if_pos h1]
    exact key _
  · rw [if_neg h1]
    by_cases h2 : id_type = hw.ID_TYPE_CHANNEL
    · rw [if_pos h2]
      exact key _
    · rw [if_neg h2]
      dsimp only
      rw [hnil]; exact mutex_discipline_nil

theorem mutex_discipline_locked_fifo_preempt (env : Env) (id runlist_id : Nat) (is_tsg : Bool)
    (g : gk20a) :
    mutex_discipline (events_since g
      (let g1 := ext_void (Call.nvgpu_mutex_acquire runlist_id) g
       let (mutex_ret, g2) := ext env Call.pmu_mutex_acquire g1
       let (ret, g3) := ext env (Call.__locked_fifo_preempt id is_tsg) g2
       let g4 := if mutex_ret = 0 then ext_void Call.pmu_mutex_release g3 else g3
       let g5 := ext_void (Call.nvgpu_mutex_release runlist_id) g4
       (ret, g5)).2) := by
  have hs := mutex_discipline_of_shape [runlist_id] (List.nodup_singleton _)
    (env (g.trace ++ [⟨Call.nvgpu_mutex_acquire runlist_id, 0⟩]) Call.pmu_mutex_acquire)
    [⟨Call.__locked_fifo_preempt id is_tsg,
      env (g.trace ++ [⟨Call.nvgpu_mutex_acquire runlist_id, 0⟩,
        ⟨Call.pmu_mutex_acquire,
          env (g.trace ++ [⟨Call.nvgpu_mutex_acquire runlist_id, 0⟩]) Call.pmu_mutex_acquire⟩])
        (Call.__locked_fifo_preempt id is_tsg)⟩]
    (by simp [is_locked_preempt_call])
  rw [events_since_of_append g _ _ ?_]
  · exact hs
  · dsimp only
    by_cases hm : env (g.trace ++ [⟨Call.nvgpu_mutex_acquire runlist_id, 0⟩])
        Call.pmu_mutex_acquire = 0
    · simp [ext, ext_void, hm]
    · simp [ext, ext_void, hm]

theorem mutex_discipline_preempt_runlists (hw : Manifest) (env : Env) (runlists_mask : Nat)
    (g : gk20a) :
    mutex_discipline
      (events_since g (gv11b_fifo_preempt_runlists hw env runlists_mask g).2) := by
  unfold gv11b_fifo_preempt_runlists
  dsimp only
  rw [foldl_ext_void (fun r => runlists_mask &&& hw.fifo_runlist_preempt_runlist_m r ≠ 0)
    Call.nvgpu_mutex_acquire]
  rw [foldl_ext_void (fun r => runlists_mask &&& hw.fifo_runlist_preempt_runlist_m r ≠ 0)
    Call.nvgpu_mutex_release]
  have hLn : ((List.range g.fifo.max_runlists).filter
      (fun r => decide (runlists_mask &&& hw.fifo_runlist_preempt_runlist_m r ≠ 0))).Nodup :=
    (List.nodup_range _).filter _
  have hst := steps_locked_fifo_preempt_runlists hw env runlists_mask
    (ext env Call.pmu_mutex_acquire
      { g with trace := (g.trace ++ ((List.range g.fifo.max_runlists).filter
        (fun r => decide (runlists_mask &&& hw.fifo_runlist_preempt_runlist_m r ≠ 0))).map
          (fun r => (⟨Call.nvgpu_mutex_acquire r, 0⟩ : Event))) }).2
  obtain ⟨l, hl, hP⟩ := hst.trace
  have hmax := hst.max_runlists
  have hs := mutex_discipline_of_shape _ hLn
    (env (g.trace ++ ((List.range g.fifo.max_runlists).filter
        (fun r => decide (runlists_mask &&& hw.fifo_runlist_preempt_runlist_m r ≠ 0))).map
          (fun r => (⟨Call.nvgpu_mutex_acquire r, 0⟩ : Event))) Call.pmu_mutex_acquire) l hP
  rw [events_since_of_append g _ _ ?_]
  · exact hs
  · by_cases hm : env (g.trace ++ ((List.range g.fifo.max_runlists).filter
        (fun r => decide (runlists_mask &&& hw.fifo_runlist_preempt_runlist_m r ≠ 0))).map
          (fun r => (⟨Call.nvgpu_mutex_acquire r, 0⟩ : Event))) Call.pmu_mutex_acquire = 0
    · simp only [ext, hm, if_true, ext_void] at hl hmax ⊢
      rw [hl, hmax]
      simp
    · simp only [ext, hm, if_false] at hl hmax ⊢
      rw [hl, hmax]
      simp

/-- C5: on every path of `gv11b_fifo_preempt_ch_tsg`, `gv11b_fifo_preempt_tsg`,
`gv11b_fifo_preempt_channel` and `gv11b_fifo_preempt_runlists` (success, poll timeout,
`-EINVAL`), among the calls made by the function `pmu_mutex_release` occurs once when
`pmu_mutex_acquire` returned 0 and not at all when it failed or was not attempted, and
every per-runlist mutex is released exactly as often as it is acquired, at most once. -/
theorem preempt_mutex_discipline (hw : Manifest) (env : Env) (g : gk20a)
    (id id_type timeout_rc_type tsgid hw_chid runlists_mask : Nat) :
    mutex_discipline
      (events_since g (gv11b_fifo_preempt_ch_tsg hw env id id_type timeout_rc_type g).2) ∧
    mutex_discipline (events_since g (gv11b_fifo_preempt_tsg env tsgid g).2) ∧
    mutex_discipline (events_since g (gv11b_fifo_preempt_channel env hw_chid g).2) ∧
    mutex_discipline
      (events_since g (gv11b_fifo_preempt_runlists hw env runlists_mask g).2) :=
  ⟨mutex_discipline_preempt_ch_tsg hw env id id_type timeout_rc_type g,
   mutex_discipline_locked_fifo_preempt env tsgid _ true g,
   mutex_discipline_locked_fifo_preempt env hw_chid _ false g,
   mutex_discipline_preempt_runlists hw env runlists_mask g⟩

/-- C6: under `PREEMPT_TIMEOUT_NORC`, an iteration of the polling loop of
`gv11b_fifo_poll_eng_ctx_status` (any number `n` of timer checks left, any device `g`,
any `*reset_eng_bitmask` `b`) whose status read shows the target id (`valid` or
`ctxsw_save` with `id`, or `ctxsw_load` with `next_id`) returns 0 at once with
`BIT(engine_idx)` or-ed into the bitmask; an iteration whose read shows another id, or a
status that is none of switch/valid/save/load, returns 0 at once with the bitmask
unchanged. Hence a call whose first read shows the target id returns after that single
read, and for `engine_idx < 32` the bit of the engine is set in the result. -/
theorem poll_eng_ctx_status_norc (hw : Manifest) (env : Env) (id engine_idx b : Nat)
    (g : gk20a)
    (hsv : hw.fifo_engine_status_ctx_status_ctxsw_switch_v ≠
      hw.fifo_engine_status_ctx_status_valid_v)
    (hss : hw.fifo_engine_status_ctx_status_ctxsw_switch_v ≠
      hw.fifo_engine_status_ctx_status_ctxsw_save_v)
    (hsl : hw.fifo_engine_status_ctx_status_ctxsw_switch_v ≠
      hw.fifo_engine_status_ctx_status_ctxsw_load_v)
    (hlv : hw.fifo_engine_status_ctx_status_ctxsw_load_v ≠
      hw.fifo_engine_status_ctx_status_valid_v)
    (hls : hw.fifo_engine_status_ctx_status_ctxsw_load_v ≠
      hw.fifo_engine_status_ctx_status_ctxsw_save_v) :
    (∀ (n b : Nat) (g : gk20a),
      let rd := gk20a_readl env (Reg.fifo_engine_status_r engine_idx) g
      let ctx_stat := hw.fifo_engine_status_ctx_status_v rd.1
      ((((ctx_stat = hw.fifo_engine_status_ctx_status_valid_v ∨
            ctx_stat = hw.fifo_engine_status_ctx_status_ctxsw_save_v) ∧
          id = hw.fifo_engine_status_id_v rd.1) ∨
        (ctx_stat = hw.fifo_engine_status_ctx_status_ctxsw_load_v ∧
          id = hw.fifo_engine_status_next_id_v rd.1)) →
        poll_eng_loop hw env id engine_idx hw.PREEMPT_TIMEOUT_NORC n b g =
          (0, u32 (b ||| BIT engine_idx), rd.2)) ∧
      ((((ctx_stat = hw.fifo_engine_status_ctx_status_valid_v ∨
            ctx_stat = hw.fifo_engine_status_ctx_status_ctxsw_save_v) ∧
          id ≠ hw.fifo_engine_status_id_v rd.1) ∨
        (ctx_stat = hw.fifo_engine_status_ctx_status_ctxsw_load_v ∧
          id ≠ hw.fifo_engine_status_next_id_v rd.1) ∨
        (ctx_stat ≠ hw.fifo_engine_status_ctx_status_ctxsw_switch_v ∧
          ctx_stat ≠ hw.fifo_engine_status_ctx_status_valid_v ∧
          ctx_stat ≠ hw.fifo_engine_status_ctx_status_ctxsw_save_v ∧
          ctx_stat ≠ hw.fifo_engine_status_ctx_status_ctxsw_load_v)) →
        poll_eng_loop hw env id engine_idx hw.PREEMPT_TIMEOUT_NORC n b g = (0, b, rd.2))) ∧
    (let rd := gk20a_readl env (Reg.fifo_engine_status_r engine_idx) (nvgpu_timeout_init env g).2
     let ctx_stat := hw.fifo_engine_status_ctx_status_v rd.1
     (((ctx_stat = hw.fifo_engine_status_ctx_status_valid_v ∨
            ctx_stat = hw.fifo_engine_status_ctx_status_ctxsw_save_v) ∧
          id = hw.fifo_engine_status_id_v rd.1) ∨
        (ctx_stat = hw.fifo_engine_status_ctx_status_ctxsw_load_v ∧
          id = hw.fifo_engine_status_next_id_v rd.1)) →
      gv11b_fifo_poll_eng_ctx_status hw env id engine_idx b hw.PREEMPT_TIMEOUT_NORC g =
          (0, u32 (b ||| BIT engine_idx), rd.2) ∧
        (events_since g rd.2).countP
          (fun e => e.call = Call.gk20a_readl (Reg.fifo_engine_status_r engine_idx)) = 1 ∧
        (events_since g rd.2).length = 2) ∧
    (engine_idx < 32 → (u32 (b ||| BIT engine_idx)).testBit engine_idx = true) := by
  have hiter : ∀ (n b : Nat) (g : gk20a),
      poll_eng_loop hw env id engine_idx hw.PREEMPT_TIMEOUT_NORC n b g =
        if (poll_eng_body hw id engine_idx hw.PREEMPT_TIMEOUT_NORC
            (gk20a_readl env (Reg.fifo_engine_status_r engine_idx) g).1 b).1 = true then
          (0, (poll_eng_body hw id engine_idx hw.PREEMPT_TIMEOUT_NORC
            (gk20a_readl env (Reg.fifo_engine_status_r engine_idx) g).1 b).2,
            (gk20a_readl env (Reg.fifo_engine_status_r engine_idx) g).2)
        else
          match n with
          | 0 => (-EBUSY, (poll_eng_body hw id engine_idx hw.PREEMPT_TIMEOUT_NORC
              (gk20a_readl env (Reg.fifo_engine_status_r engine_idx) g).1 b).2,
              (gk20a_readl env (Reg.fifo_engine_status_r engine_idx) g).2)
          | n + 1 => poll_eng_loop hw env id engine_idx hw.PREEMPT_TIMEOUT_NORC n
              (poll_eng_body hw id engine_idx hw.PREEMPT_TIMEOUT_NORC
                (gk20a_readl env (Reg.fifo_engine_status_r engine_idx) g).1 b).2
              (gk20a_readl env (Reg.fifo_engine_status_r engine_idx) g).2 := by
    intro n b g
    cases n <;> rw [poll_eng_loop]
  have hloop : ∀ (n b : Nat) (g : gk20a),
      let rd := gk20a_readl env (Reg.fifo_engine_status_r engine_idx) g
      let ctx_stat := hw.fifo_engine_status_ctx_status_v rd.1
      ((((ctx_stat = hw.fifo_engine_status_ctx_status_valid_v ∨
            ctx_stat = hw.fifo_engine_status_ctx_status_ctxsw_save_v) ∧
          id = hw.fifo_engine_status_id_v rd.1) ∨
        (ctx_stat = hw.fifo_engine_status_ctx_status_ctxsw_load_v ∧
          id = hw.fifo_engine_status_next_id_v rd.1)) →
        poll_eng_loop hw env id engine_idx hw.PREEMPT_TIMEOUT_NORC n b g =
          (0, u32 (b ||| BIT engine_idx), rd.2)) ∧
      ((((ctx_stat = hw.fifo_engine_status_ctx_status_valid_v ∨
            ctx_stat = hw.fifo_engine_status_ctx_status_ctxsw_save_v) ∧
          id ≠ hw.fifo_engine_status_id_v rd.1) ∨
        (ctx_stat = hw.fifo_engine_status_ctx_status_ctxsw_load_v ∧
          id ≠ hw.fifo_engine_status_next_id_v rd.1) ∨
        (ctx_stat ≠ hw.fifo_engine_status_ctx_status_ctxsw_switch_v ∧
          ctx_stat ≠ hw.fifo_engine_status_ctx_status_valid_v ∧
          ctx_stat ≠ hw.fifo_engine_status_ctx_status_ctxsw_save_v ∧
          ctx_stat ≠ hw.fifo_engine_status_ctx_status_ctxsw_load_v)) →
        poll_eng_loop hw env id engine_idx hw.PREEMPT_TIMEOUT_NORC n b g = (0, b, rd.2)) := by
    intro n b g
    dsimp only
    constructor
    · intro h
      rw [hiter]
      rcases h with ⟨h1 | h1, h2⟩ | ⟨h1, h2⟩
      · simp [poll_eng_body, h1, ← h2, hsv.symm]
      · simp [poll_eng_body, h1, ← h2, hss.symm]
      · simp [poll_eng_body, h1, ← h2, hsl.symm, hlv, hls]
    · intro h
      rw [hiter]
      rcases h with ⟨h1 | h1, h2⟩ | ⟨h1, h2⟩ | ⟨h1, h2, h3, h4⟩
      · simp [poll_eng_body, h1, h2, hsv.symm]
      · simp [poll_eng_body, h1, h2, hss.symm]
      · simp [poll_eng_body, h1, h2, hsl.symm, hlv, hls]
      · simp [poll_eng_body, h1, h2, h3, h4]
  refine ⟨hloop, ?_, ?_⟩
  · dsimp only
    intro h
    refine ⟨?_, ?_, ?_⟩
    · exact (hloop _ b _).1 h
    · simp [events_since, gk20a_readl, nvgpu_timeout_init]
    · simp [events_since, gk20a_readl, nvgpu_timeout_init]
  · intro he
    simp only [u32, Nat.testBit_mod_two_pow, Nat.testBit_or, BIT, Nat.one_shiftLeft, he,
      decide_True, Bool.true_and]
    have : engine_idx < 64 := by omega
    simp [Nat.testBit_two_pow, this]

/-- C6 at `sample_g`: engine 1 always shows a valid context with the target id 5; the
call returns 0 after one status read with bit 1 set in the bitmask. -/
theorem poll_eng_ctx_status_norc_witness :
    (sample_hw.fifo_engine_status_ctx_status_v 8197 = sample_hw.fifo_engine_status_ctx_status_valid_v ∧
      5 = sample_hw.fifo_engine_status_id_v 8197) ∧
    (gv11b_fifo_poll_eng_ctx_status sample_hw env_target_present 5 1 0
        sample_hw.PREEMPT_TIMEOUT_NORC sample_g).1 = 0 ∧
    (gv11b_fifo_poll_eng_ctx_status sample_hw env_target_present 5 1 0
        sample_hw.PREEMPT_TIMEOUT_NORC sample_g).2.1 = 2 ∧
    (gv11b_fifo_poll_eng_ctx_status sample_hw env_target_present 5 1 0
        sample_hw.PREEMPT_TIMEOUT_NORC sample_g).2.2.trace =
      [⟨Call.nvgpu_timeout_init, 3⟩, ⟨Call.gk20a_readl (Reg.fifo_engine_status_r 1), 8197⟩] := by
  have h := (poll_eng_ctx_status_norc sample_hw env_target_present 5 1 0 sample_g
    (by decide) (by decide) (by decide) (by decide) (by decide)).2.1
    (Or.inl ⟨Or.inl (by decide), by decide⟩)
  refine ⟨by decide, ?_, ?_, ?_⟩
  · rw [h.1]
  · rw [h.1]; decide
  · rw [h.1]; decide

/-! ### The PBDMA poll -/

theorem poll_pbdma_body_iff (hw : Manifest) (id pbdma_stat : Nat)
    (hlv : hw.fifo_pbdma_status_chan_status_chsw_load_v ≠
      hw.fifo_pbdma_status_chan_status_valid_v)
    (hls : hw.fifo_pbdma_status_chan_status_chsw_load_v ≠
      hw.fifo_pbdma_status_chan_status_chsw_save_v)
    (hsv : hw.fifo_pbdma_status_chan_status_chsw_switch_v ≠
      hw.fifo_pbdma_status_chan_status_valid_v)
    (hss : hw.fifo_pbdma_status_chan_status_chsw_switch_v ≠
      hw.fifo_pbdma_status_chan_status_chsw_save_v)
    (hsl : hw.fifo_pbdma_status_chan_status_chsw_switch_v ≠
      hw.fifo_pbdma_status_chan_status_chsw_load_v) :
    poll_pbdma_body hw id pbdma_stat = true ↔ pbdma_clear_spec hw id pbdma_stat := by
  unfold poll_pbdma_body pbdma_clear_spec
  dsimp only
  by_cases h1 : hw.fifo_pbdma_status_chan_status_v pbdma_stat =
      hw.fifo_pbdma_status_chan_status_valid_v
  · simp only [h1, hlv.symm, hsv.symm, hlv, hsv, true_or, if_true, true_and, false_and, or_false,
      false_or, ne_eq, not_true_eq_false, and_false]
    by_cases hid : id = hw.fifo_pbdma_status_id_v pbdma_stat
    · simp [hid]
    · simp [hid, Ne.symm hid]
  · by_cases h2 : hw.fifo_pbdma_status_chan_status_v pbdma_stat =
        hw.fifo_pbdma_status_chan_status_chsw_save_v
    · simp only [h2, hls.symm, hss.symm, hls, hss, or_true, if_true, true_and, false_and,
        or_false, false_or, ne_eq, not_true_eq_false, and_false]
      by_cases hid : id = hw.fifo_pbdma_status_id_v pbdma_stat
      · simp [hid]
      · simp [hid, Ne.symm hid]
    · by_cases h3 : hw.fifo_pbdma_status_chan_status_v pbdma_stat =
          hw.fifo_pbdma_status_chan_status_chsw_load_v
      · simp only [h3, hlv, hls, hsl.symm, hsl, or_self, if_false, if_true, true_and, false_and,
          or_false, false_or, ne_eq, not_true_eq_false, and_false]
        by_cases hid : id = hw.fifo_pbdma_status_next_id_v pbdma_stat
        · simp [hid]
        · simp [hid, Ne.symm hid]
      · by_cases h4 : hw.fifo_pbdma_status_chan_status_v pbdma_stat =
            hw.fifo_pbdma_status_chan_status_chsw_switch_v
        · simp only [h4, hsv, hss, hsl, or_self, if_false, if_true, true_and, false_and,
            or_false, false_or, ne_eq, not_true_eq_false, and_false]
          by_cases hid : id = hw.fifo_pbdma_status_next_id_v pbdma_stat
          · simp [hid]
          · by_cases hid2 : id = hw.fifo_pbdma_status_id_v pbdma_stat
            · simp [hid2]
            · simp [hid, hid2]
        · simp [h1, h2, h3, h4]

theorem poll_pbdma_loop_unfold (hw : Manifest) (env : Env) (id pbdma_id n : Nat) (g : gk20a) :
    poll_pbdma_loop hw env id pbdma_id n g =
      if poll_pbdma_body hw id (gk20a_readl env (Reg.fifo_pbdma_status_r pbdma_id) g).1 = true
      then (0, (gk20a_readl env (Reg.fifo_pbdma_status_r pbdma_id) g).2)
      else
        match n with
        | 0 => (-EBUSY, (gk20a_readl env (Reg.fifo_pbdma_status_r pbdma_id) g).2)
        | n + 1 => poll_pbdma_loop hw env id pbdma_id n
            (gk20a_readl env (Reg.fifo_pbdma_status_r pbdma_id) g).2 := by
  cases n <;> rw [poll_pbdma_loop]

theorem poll_pbdma_loop_reads (hw : Manifest) (env : Env) (id pbdma_id n : Nat) (g : gk20a) :
    ∃ vals : List Nat, vals ≠ [] ∧ vals.length ≤ n + 1 ∧
      (poll_pbdma_loop hw env id pbdma_id n g).2.trace =
        g.trace ++ vals.map
          (fun v : Nat => (⟨Call.gk20a_readl (Reg.fifo_pbdma_status_r pbdma_id), (v : Int)⟩ : Event)) ∧
      (((poll_pbdma_loop hw env id pbdma_id n g).1 = 0 ∧
          ∃ v ∈ vals, poll_pbdma_body hw id v = true) ∨
        ((poll_pbdma_loop hw env id pbdma_id n g).1 = -EBUSY ∧
          ∀ v ∈ vals, poll_pbdma_body hw id v = false)) := by
  induction n generalizing g with
  | zero =>
    refine ⟨[(gk20a_readl env (Reg.fifo_pbdma_status_r pbdma_id) g).1], by simp, by simp, ?_, ?_⟩
    · rw [poll_pbdma_loop_unfold]
      split <;> rfl
    · rw [poll_pbdma_loop_unfold]
      by_cases hb : poll_pbdma_body hw id
          (gk20a_readl env (Reg.fifo_pbdma_status_r pbdma_id) g).1 = true
      · simp [hb]
      · simp [hb]
  | succ n ih =>
    by_cases hb : poll_pbdma_body hw id
        (gk20a_readl env (Reg.fifo_pbdma_status_r pbdma_id) g).1 = true
    · refine ⟨[(gk20a_readl env (Reg.fifo_pbdma_status_r pbdma_id) g).1], by simp, by simp,
        ?_, ?_⟩
      · rw [poll_pbdma_loop_unfold, if_pos hb]
        rfl
      · rw [poll_pbdma_loop_unfold, if_pos hb]
        simp [hb]
    · obtain ⟨vals, hne, hlen, htr, hres⟩ :=
        ih (gk20a_readl env (Reg.fifo_pbdma_status_r pbdma_id) g).2
      refine ⟨(gk20a_readl env (Reg.fifo_pbdma_status_r pbdma_id) g).1 :: vals, by simp,
        by simp; omega, ?_, ?_⟩
      · rw [poll_pbdma_loop_unfold, if_neg hb]
        dsimp only
        rw [htr]
        simp [gk20a_readl]
      · rw [poll_pbdma_loop_unfold, if_neg hb]
        dsimp only
        rcases hres with ⟨h0, v, hv, hvb⟩ | ⟨h0, hall⟩
        · exact Or.inl ⟨h0, v, List.mem_cons_of_mem _ hv, hvb⟩
        · refine Or.inr ⟨h0, ?_⟩
          intro v hv
          rcases List.mem_cons.1 hv with rfl | hv
          · simpa using hb
          · exact hall v hv

theorem pbdma_status_reads_of_steps (pbdma_id : Nat) (P : Call → Bool) (l : List Event)
    (hl : ∀ e ∈ l, P e.call = true)
    (hP : P (Call.gk20a_readl (Reg.fifo_pbdma_status_r pbdma_id)) = false) :
    pbdma_status_reads pbdma_id l = [] := by
  unfold pbdma_status_reads
  rw [List.filterMap_eq_nil_iff]
  intro e he
  have h1 := hl e he
  split
  · rename_i hc
    rw [hc, hP] at h1
    exact absurd h1 (by decide)
  · rfl

theorem pbdma_status_reads_map (pbdma_id : Nat) (vals : List Nat) :
    pbdma_status_reads pbdma_id (vals.map
      (fun v : Nat => (⟨Call.gk20a_readl (Reg.fifo_pbdma_status_r pbdma_id), (v : Int)⟩ : Event))) =
      vals := by
  induction vals with
  | nil => rfl
  | cons v vs ih =>
    unfold pbdma_status_reads at ih ⊢
    rw [List.map_cons, List.filterMap_cons]
    simp only [if_true, Int.toNat_ofNat, ih]

theorem pbdma_status_reads_append (pbdma_id : Nat) (l1 l2 : List Event) :
    pbdma_status_reads pbdma_id (l1 ++ l2) =
      pbdma_status_reads pbdma_id l1 ++ pbdma_status_reads pbdma_id l2 := by
  simp [pbdma_status_reads, List.filterMap_append]

/-- C7: an iteration of the polling loop of `gv11b_fifo_poll_pbdma_chan_status` returns
0 exactly when the status it reads satisfies the clear condition of the specification;
otherwise the loop goes on, or returns `-EBUSY` when the timer has expired. A call
reads the status at least once, returns 0 or `-EBUSY`, and returns `-EBUSY` if and only
if none of the status values it read before the timeout satisfied the condition. -/
theorem poll_pbdma_chan_status_clear (hw : Manifest) (env : Env) (id pbdma_id
    timeout_rc_type : Nat) (g : gk20a)
    (hlv : hw.fifo_pbdma_status_chan_status_chsw_load_v ≠
      hw.fifo_pbdma_status_chan_status_valid_v)
    (hls : hw.fifo_pbdma_status_chan_status_chsw_load_v ≠
      hw.fifo_pbdma_status_chan_status_chsw_save_v)
    (hsv : hw.fifo_pbdma_status_chan_status_chsw_switch_v ≠
      hw.fifo_pbdma_status_chan_status_valid_v)
    (hss : hw.fifo_pbdma_status_chan_status_chsw_switch_v ≠
      hw.fifo_pbdma_status_chan_status_chsw_save_v)
    (hsl : hw.fifo_pbdma_status_chan_status_chsw_switch_v ≠
      hw.fifo_pbdma_status_chan_status_chsw_load_v) :
    (∀ (n : Nat) (g : gk20a),
      (pbdma_clear_spec hw id (gk20a_readl env (Reg.fifo_pbdma_status_r pbdma_id) g).1 →
        poll_pbdma_loop hw env id pbdma_id n g =
          (0, (gk20a_readl env (Reg.fifo_pbdma_status_r pbdma_id) g).2)) ∧
      (¬ pbdma_clear_spec hw id (gk20a_readl env (Reg.fifo_pbdma_status_r pbdma_id) g).1 →
        poll_pbdma_loop hw env id pbdma_id 0 g =
          (-EBUSY, (gk20a_readl env (Reg.fifo_pbdma_status_r pbdma_id) g).2) ∧
        poll_pbdma_loop hw env id pbdma_id (n + 1) g =
          poll_pbdma_loop hw env id pbdma_id n
            (gk20a_readl env (Reg.fifo_pbdma_status_r pbdma_id) g).2)) ∧
    (pbdma_status_reads pbdma_id (events_since g
        (gv11b_fifo_poll_pbdma_chan_status hw env id pbdma_id timeout_rc_type g).2) ≠ [] ∧
      ((gv11b_fifo_poll_pbdma_chan_status hw env id pbdma_id timeout_rc_type g).1 = 0 ∨
        (gv11b_fifo_poll_pbdma_chan_status hw env id pbdma_id timeout_rc_type g).1 = -EBUSY) ∧
      ((gv11b_fifo_poll_pbdma_chan_status hw env id pbdma_id timeout_rc_type g).1 = -EBUSY ↔
        ∀ v ∈ pbdma_status_reads pbdma_id (events_since g
            (gv11b_fifo_poll_pbdma_chan_status hw env id pbdma_id timeout_rc_type g).2),
          ¬ pbdma_clear_spec hw id v)) := by
  have hiff := fun st => poll_pbdma_body_iff hw id st hlv hls hsv hss hsl
  constructor
  · intro n g
    constructor
    · intro h
      rw [poll_pbdma_loop_unfold, if_pos ((hiff _).2 h)]
    · intro h
      have hb : ¬ poll_pbdma_body hw id
          (gk20a_readl env (Reg.fifo_pbdma_status_r pbdma_id) g).1 = true :=
        fun hb => h ((hiff _).1 hb)
      constructor
      · rw [poll_pbdma_loop_unfold, if_neg hb]
      · rw [poll_pbdma_loop_unfold, if_neg hb]
  · unfold gv11b_fifo_poll_pbdma_chan_status
    dsimp only
    obtain ⟨l0, hl0, hP0⟩ := (steps_poll_pbdma_clear_intr hw env pbdma_id timeout_rc_type g).trace
    obtain ⟨vals, hne, -, htr, hres⟩ := poll_pbdma_loop_reads hw env id pbdma_id
      (nvgpu_timeout_init env (poll_pbdma_clear_intr hw env pbdma_id timeout_rc_type g)).1
      (nvgpu_timeout_init env (poll_pbdma_clear_intr hw env pbdma_id timeout_rc_type g)).2
    have hev : pbdma_status_reads pbdma_id (events_since g
        (poll_pbdma_loop hw env id pbdma_id
          (nvgpu_timeout_init env (poll_pbdma_clear_intr hw env pbdma_id timeout_rc_type g)).1
          (nvgpu_timeout_init env
            (poll_pbdma_clear_intr hw env pbdma_id timeout_rc_type g)).2).2) = vals := by
      rw [events_since_of_append g _ (l0 ++ [⟨Call.nvgpu_timeout_init,
        ((nvgpu_timeout_init env
          (poll_pbdma_clear_intr hw env pbdma_id timeout_rc_type g)).1 : Int)⟩] ++
        vals.map (fun v : Nat =>
          (⟨Call.gk20a_readl (Reg.fifo_pbdma_status_r pbdma_id), (v : Int)⟩ : Event))) ?_]
      · rw [pbdma_status_reads_append, pbdma_status_reads_append, pbdma_status_reads_map,
          pbdma_status_reads_of_steps pbdma_id _ l0 hP0 (by simp [is_pbdma_intr_call])]
        simp [pbdma_status_reads]
      · rw [htr]
        simp [nvgpu_timeout_init, hl0]
    rw [hev]
    refine ⟨hne, ?_, ?_⟩
    · rcases hres with ⟨h0, -⟩ | ⟨h0, -⟩
      · exact Or.inl h0
      · exact Or.inr h0
    · constructor
      · intro hbusy v hv hclear
        rcases hres with ⟨h0, -⟩ | ⟨-, hall⟩
        · rw [h0] at hbusy
          exact absurd hbusy (by decide)
        · have := hall v hv
          rw [(hiff v).2 hclear] at this
          exact absurd this (by decide)
      · intro hall
        rcases hres with ⟨-, v, hv, hvb⟩ | ⟨h0, -⟩
        · exact absurd ((hiff v).1 hvb) (hall v hv)
        · exact h0

/-- C7 at `sample_g`: PBDMA 0 shows `chsw_switch` with the target id 5 in both fields at
every read; the status is read, no read satisfies the clear condition, and the call
returns `-EBUSY`. -/
theorem poll_pbdma_chan_status_clear_witness :
    (sample_hw.fifo_pbdma_status_chan_status_chsw_load_v ≠
        sample_hw.fifo_pbdma_status_chan_status_valid_v ∧
      sample_hw.fifo_pbdma_status_chan_status_chsw_load_v ≠
        sample_hw.fifo_pbdma_status_chan_status_chsw_save_v ∧
      sample_hw.fifo_pbdma_status_chan_status_chsw_switch_v ≠
        sample_hw.fifo_pbdma_status_chan_status_valid_v ∧
      sample_hw.fifo_pbdma_status_chan_status_chsw_switch_v ≠
        sample_hw.fifo_pbdma_status_chan_status_chsw_save_v ∧
      sample_hw.fifo_pbdma_status_chan_status_chsw_switch_v ≠
        sample_hw.fifo_pbdma_status_chan_status_chsw_load_v) ∧
    (gv11b_fifo_poll_pbdma_chan_status sample_hw env_pbdma_stuck 5 0 1 sample_g).1 = -EBUSY ∧
    pbdma_status_reads 0 (events_since sample_g
      (gv11b_fifo_poll_pbdma_chan_status sample_hw env_pbdma_stuck 5 0 1 sample_g).2) =
        [385029, 385029, 385029] ∧
    ∀ v ∈ pbdma_status_reads 0 (events_since sample_g
        (gv11b_fifo_poll_pbdma_chan_status sample_hw env_pbdma_stuck 5 0 1 sample_g).2),
      ¬ pbdma_clear_spec sample_hw 5 v := by
  have h := (poll_pbdma_chan_status_clear sample_hw env_pbdma_stuck 5 0 1 sample_g
    (by decide) (by decide) (by decide) (by decide) (by decide)).2.2.2
  have hret : (gv11b_fifo_poll_pbdma_chan_status sample_hw env_pbdma_stuck 5 0 1 sample_g).1 =
      -EBUSY := by decide
  exact ⟨by decide, hret, by decide, h.1 hret⟩

/-- C8: `__locked_fifo_preempt_ch_tsg` first issues the preempt for `(id, id_type)`, then
waits in `is_preempt_pending` (register accesses and timers only), and after the wait
calls `__locked_fifo_preempt_timeout_rc(g, id, id_type)` exactly when the wait returned
non-zero and `timeout_rc_type == PREEMPT_TIMEOUT_RC`; it makes no other call, so under
`PREEMPT_TIMEOUT_NORC` the recovery is never called. The value returned is the value of
`is_preempt_pending`. -/
theorem locked_preempt_ch_tsg_escalation (hw : Manifest) (env : Env) (id id_type
    timeout_rc_type : Nat) (g : gk20a)
    (hne : hw.PREEMPT_TIMEOUT_NORC ≠ hw.PREEMPT_TIMEOUT_RC) :
    (__locked_fifo_preempt_ch_tsg hw env id id_type timeout_rc_type g).1 =
      (gv11b_fifo_is_preempt_pending hw env id id_type timeout_rc_type
        (ext_void (Call.gk20a_fifo_issue_preempt id id_type) g)).1 ∧
    events_since g (__locked_fifo_preempt_ch_tsg hw env id id_type timeout_rc_type g).2 =
      (⟨Call.gk20a_fifo_issue_preempt id id_type, 0⟩ : Event) ::
        events_since (ext_void (Call.gk20a_fifo_issue_preempt id id_type) g)
          (gv11b_fifo_is_preempt_pending hw env id id_type timeout_rc_type
            (ext_void (Call.gk20a_fifo_issue_preempt id id_type) g)).2 ++
        (if (gv11b_fifo_is_preempt_pending hw env id id_type timeout_rc_type
              (ext_void (Call.gk20a_fifo_issue_preempt id id_type) g)).1 ≠ 0 ∧
            timeout_rc_type = hw.PREEMPT_TIMEOUT_RC
          then [(⟨Call.__locked_fifo_preempt_timeout_rc id id_type, 0⟩ : Event)] else []) ∧
    (∀ e ∈ events_since (ext_void (Call.gk20a_fifo_issue_preempt id id_type) g)
        (gv11b_fifo_is_preempt_pending hw env id id_type timeout_rc_type
          (ext_void (Call.gk20a_fifo_issue_preempt id id_type) g)).2,
      is_reg_call e.call = true) ∧
    (timeout_rc_type = hw.PREEMPT_TIMEOUT_NORC →
      ∀ e ∈ events_since g (__locked_fifo_preempt_ch_tsg hw env id id_type timeout_rc_type g).2,
        ∀ i t, e.call ≠ Call.__locked_fifo_preempt_timeout_rc i t) := by
  obtain ⟨l, hl, hP⟩ := (steps_is_preempt_pending hw env id id_type timeout_rc_type
    (ext_void (Call.gk20a_fifo_issue_preempt id id_type) g)).trace
  have hwait : events_since (ext_void (Call.gk20a_fifo_issue_preempt id id_type) g)
      (gv11b_fifo_is_preempt_pending hw env id id_type timeout_rc_type
        (ext_void (Call.gk20a_fifo_issue_preempt id id_type) g)).2 = l :=
    events_since_of_append _ _ l hl
  have hshape : events_since g
      (__locked_fifo_preempt_ch_tsg hw env id id_type timeout_rc_type g).2 =
      (⟨Call.gk20a_fifo_issue_preempt id id_type, 0⟩ : Event) :: l ++
        (if (gv11b_fifo_is_preempt_pending hw env id id_type timeout_rc_type
              (ext_void (Call.gk20a_fifo_issue_preempt id id_type) g)).1 ≠ 0 ∧
            timeout_rc_type = hw.PREEMPT_TIMEOUT_RC
          then [(⟨Call.__locked_fifo_preempt_timeout_rc id id_type, 0⟩ : Event)] else []) := by
    apply events_since_of_append
    unfold __locked_fifo_preempt_ch_tsg
    dsimp only
    split
    · simp only [ext_void] at hl ⊢
      rw [hl]
      simp
    · rw [hl]
      simp [ext_void]
  refine ⟨rfl, ?_, ?_, ?_⟩
  · rw [hshape, hwait]
  · rw [hwait]; exact hP
  · intro hnorc e he i t hc
    rw [hshape] at he
    have hrc : ¬ ((gv11b_fifo_is_preempt_pending hw env id id_type timeout_rc_type
        (ext_void (Call.gk20a_fifo_issue_preempt id id_type) g)).1 ≠ 0 ∧
        timeout_rc_type = hw.PREEMPT_TIMEOUT_RC) := by
      rintro ⟨-, h⟩
      exact hne (hnorc.symm.trans h)
    rw [if_neg hrc, List.append_nil] at he
    rcases List.mem_cons.1 he with rfl | he
    · simp at hc
    · have := hP e he
      rw [hc] at this
      simp [is_reg_call] at this

/-- C8 at `sample_g`: TSG 5 stays on PBDMA 1, so the wait returns `-EBUSY`; with
`PREEMPT_TIMEOUT_RC` the recovery is called once, after the wait. -/
theorem locked_preempt_ch_tsg_escalation_witness :
    sample_hw.PREEMPT_TIMEOUT_NORC ≠ sample_hw.PREEMPT_TIMEOUT_RC ∧
    (__locked_fifo_preempt_ch_tsg sample_hw env_pbdma_stuck 5 1 1 sample_g).1 = -EBUSY ∧
    (events_since sample_g
      (__locked_fifo_preempt_ch_tsg sample_hw env_pbdma_stuck 5 1 1 sample_g).2).getLast? =
        some ⟨Call.__locked_fifo_preempt_timeout_rc 5 1, 0⟩ := by
  have h := locked_preempt_ch_tsg_escalation sample_hw env_pbdma_stuck 5 1 1 sample_g
    (by decide)
  have hret : (gv11b_fifo_is_preempt_pending sample_hw env_pbdma_stuck 5 1 1
      (ext_void (Call.gk20a_fifo_issue_preempt 5 1) sample_g)).1 = -EBUSY := by decide
  exact ⟨by decide, h.1.trans hret, by decide⟩

/-! ### What the steps of the recovery call -/

theorem steps_preempt_ch_tsg (hw : Manifest) (env : Env) (id id_type timeout_rc_type : Nat)
    (g : gk20a) :
    Steps is_preempt_call g (gv11b_fifo_preempt_ch_tsg hw env id id_type timeout_rc_type g).2 := by
  have key : ∀ runlist_id : Nat, Steps is_preempt_call g
      (if runlist_id ≥ g.fifo.max_runlists then (-EINVAL, g)
       else
        let g1 := ext_void (Call.nvgpu_mutex_acquire runlist_id) g
        let (mutex_ret, g2) := ext env Call.pmu_mutex_acquire g1
        let (ret, g3) := __locked_fifo_preempt_ch_tsg hw env id id_type timeout_rc_type g2
        let g4 := if mutex_ret = 0 then ext_void Call.pmu_mutex_release g3 else g3
        let g5 := ext_void (Call.nvgpu_mutex_release runlist_id) g4
        (ret, g5)).2 := by
    intro runlist_id
    split
    · exact Steps.refl _ g
    · dsimp only
      have h3 := ((steps_ext_void (P := is_preempt_call) (Call.nvgpu_mutex_acquire runlist_id) g
        rfl).trans (steps_ext env Call.pmu_mutex_acquire _ rfl)).trans
        ((steps_locked_fifo_preempt_ch_tsg hw env id id_type timeout_rc_type _).mono
          (by intro c hc; simp [is_preempt_call, hc]))
      refine Steps.trans ?_ (steps_ext_void _ _ rfl)
      split
      · exact h3.trans (steps_ext_void _ _ rfl)
      · exact h3
  unfold gv11b_fifo_preempt_ch_tsg
  dsimp only
  by_cases h1 : id_type = hw.ID_TYPE_TSG
  · rw [if_pos h1]
    exact key _
  · rw [if_neg h1]
    by_cases h2 : id_type = hw.ID_TYPE_CHANNEL
    · rw [if_pos h2]
      exact key _
    · rw [if_neg h2]
      exact Steps.refl _ g

theorem steps_preempt_runlists_tight (hw : Manifest) (env : Env) (runlists_mask : Nat) (g : gk20a) :
    Steps is_runlists_preempt_call g (gv11b_fifo_preempt_runlists hw env runlists_mask g).2 := by
  unfold gv11b_fifo_preempt_runlists
  dsimp only
  refine Steps.trans ?_ (steps_foldl _ ?_ _ _)
  · have h3 := ((steps_foldl (P := is_runlists_preempt_call)
        (fun g runlist_id =>
          if runlists_mask &&& hw.fifo_runlist_preempt_runlist_m runlist_id ≠ 0 then
            ext_void (Call.nvgpu_mutex_acquire runlist_id) g
          else g) ?_ (List.range g.fifo.max_runlists) g).trans
        (steps_ext env Call.pmu_mutex_acquire _ rfl)).trans
        ((steps_locked_fifo_preempt_runlists_reg hw env runlists_mask _).mono
          (by intro c hc; simp [is_runlists_preempt_call, hc]))
    · split
      · exact h3.trans (steps_ext_void _ _ rfl)
      · exact h3
    · intro g a
      dsimp only
      split
      · exact steps_ext_void _ _ rfl
      · exact Steps.refl _ _
  · intro g a
    dsimp only
    split
    · exact steps_ext_void _ _ rfl
    · exact Steps.refl _ _

theorem steps_preempt_runlists (hw : Manifest) (env : Env) (runlists_mask : Nat) (g : gk20a) :
    Steps is_preempt_call g (gv11b_fifo_preempt_runlists hw env runlists_mask g).2 :=
  (steps_preempt_runlists_tight hw env runlists_mask g).mono
    (by intro c hc; cases c <;> simp_all [is_preempt_call, is_runlists_preempt_call,
      is_locked_preempt_call, is_locked_runlists_call, is_mutex_call, is_reg_call])

theorem steps_teardown_disable (hw : Manifest) (env : Env) (act_eng_bitmask id id_type
    rc_type : Nat) (mmfault : Option mmu_fault_info) (g : gk20a) :
    Steps is_power_call
      (ext_void (Call.gk20a_fifo_set_runlist_state
        (gv11b_fifo_get_runlists_mask hw g.fifo act_eng_bitmask id id_type rc_type mmfault)
        hw.RUNLIST_DISABLED) g)
      (teardown_disable hw env act_eng_bitmask id id_type rc_type mmfault g).2 := by
  unfold teardown_disable
  dsimp only
  have hflag : ∀ g : gk20a, Steps is_power_call g
      { g with fifo := { g.fifo with deferred_reset_pending := false } } := fun g =>
    ⟨⟨[], by simp, by simp⟩, rfl, rfl, rfl, rfl, rfl, fun _ => rfl, fun _ => rfl, rfl, rfl,
      rfl, rfl⟩
  have hif : ∀ (c : Prop) [Decidable c] (call : Call) (g : gk20a), is_power_call call = true →
      Steps is_power_call g (if c then ext_void call g else g) := by
    intro c _ call g hc
    split
    · exact steps_ext_void _ _ hc
    · exact Steps.refl _ _
  refine Steps.trans ?_ (hif _ _ _ rfl)
  refine Steps.trans ?_ (steps_ext_void _ _ rfl)
  refine Steps.trans ?_ (hif _ _ _ rfl)
  refine Steps.trans ?_ (hif _ _ _ rfl)
  refine Steps.trans ?_ (hif _ _ _ rfl)
  have hif2 : ∀ (c : Prop) [Decidable c] (call : Call) (g : gk20a), is_power_call call = true →
      Steps is_power_call g (if c then (ext env call g).2 else g) := by
    intro c _ call g hc
    split
    · exact steps_ext env _ _ hc
    · exact Steps.refl _ _
  refine Steps.trans ?_ (hif2 _ _ _ rfl)
  exact (hflag _).trans (steps_ext env _ _ rfl)

theorem steps_reset_faulted (hw : Manifest) (env : Env) :
    (∀ hw_chid g, Steps is_resolve_call g (gv11b_reset_eng_faulted_ch hw env hw_chid g)) ∧
    (∀ hw_chid g, Steps is_resolve_call g (gv11b_reset_pbdma_faulted_ch hw env hw_chid g)) ∧
    (∀ tsg g, Steps is_resolve_call g (gv11b_reset_eng_faulted_tsg hw env tsg g)) ∧
    (∀ tsg g, Steps is_resolve_call g (gv11b_reset_pbdma_faulted_tsg hw env tsg g)) := by
  have h1 : ∀ hw_chid g, Steps is_resolve_call g (gv11b_reset_eng_faulted_ch hw env hw_chid g) :=
    fun hw_chid g => (steps_readl env _ g rfl).trans (steps_writel _ _ _ rfl)
  have h2 : ∀ hw_chid g, Steps is_resolve_call g
      (gv11b_reset_pbdma_faulted_ch hw env hw_chid g) :=
    fun hw_chid g => (steps_readl env _ g rfl).trans (steps_writel _ _ _ rfl)
  refine ⟨h1, h2, ?_, ?_⟩
  · intro tsg g
    unfold gv11b_reset_eng_faulted_tsg
    dsimp only
    exact ((steps_ext_void _ g rfl).trans (steps_foldl _ (fun g a => h1 a g) _ _)).trans
      (steps_ext_void _ _ rfl)
  · intro tsg g
    unfold gv11b_reset_pbdma_faulted_tsg
    dsimp only
    exact ((steps_ext_void _ g rfl).trans (steps_foldl _ (fun g a => h2 a g) _ _)).trans
      (steps_ext_void _ _ rfl)

theorem steps_teardown_resolve (hw : Manifest) (env : Env) (id id_type rc_type : Nat)
    (mmfault : Option mmu_fault_info) (g : gk20a) :
    Steps is_resolve_call g (teardown_resolve hw env id id_type rc_type mmfault g).2.2.2 := by
  obtain ⟨h1, h2, h3, h4⟩ := steps_reset_faulted hw env
  have hif : ∀ (c : Prop) [Decidable c] (g g1 : gk20a), Steps is_resolve_call g g1 →
      Steps is_resolve_call g (if c then g1 else g) := by
    intro c _ g g1 h
    split
    · exact h
    · exact Steps.refl _ _
  unfold teardown_resolve
  split
  · dsimp only
    split
    · dsimp only
      refine Steps.trans ?_ (hif _ _ _ (h3 _ _))
      exact (steps_ext env _ g rfl).trans (hif _ _ _ (h4 _ _))
    · dsimp only
      refine Steps.trans ?_ (hif _ _ _ (h1 _ _))
      exact (steps_ext env _ g rfl).trans (hif _ _ _ (h2 _ _))
  · dsimp only
    split
    · exact Steps.refl _ g
    · split
      · exact steps_ext env _ g rfl
      · exact Steps.refl _ g

theorem steps_teardown_preempt (hw : Manifest) (env : Env) (id id_type runlists_mask : Nat)
    (g : gk20a) :
    Steps is_preempt_call g (teardown_preempt hw env id id_type runlists_mask g) := by
  unfold teardown_preempt
  split
  · exact steps_preempt_ch_tsg _ _ _ _ _ _
  · exact steps_preempt_runlists _ _ _ _

theorem steps_set_deferred (P : Call → Bool) (g : gk20a) (b : Bool) (v : Nat) :
    Steps P g { g with fifo := { g.fifo with
      deferred_fault_engines := v
      deferred_reset_pending := b } } :=
  ⟨⟨[], by simp, by simp⟩, rfl, rfl, rfl, rfl, rfl, fun _ => rfl, fun _ => rfl, rfl, rfl, rfl,
    rfl⟩

theorem steps_teardown_abort (hw : Manifest) (env : Env) (rc_type runlists_mask : Nat)
    (tsg refch : Option Nat) (g : gk20a) :
    Steps is_abort_call g (teardown_abort hw env rc_type runlists_mask tsg refch g).2 := by
  unfold teardown_abort
  cases tsg with
  | some t =>
    dsimp only
    by_cases hn : ¬ g.fifo.deferred_reset_pending = true ∧ rc_type = hw.RC_TYPE_MMU_FAULT
    · simp only [hn, not_false_eq_true, and_self, if_true]
      have h1 := ((steps_ext_void (P := is_abort_call) (Call.gk20a_fifo_set_ctx_mmu_error_tsg t)
        g (by rfl)).trans (steps_ext env (Call.gk20a_fifo_error_tsg t) _ (by rfl))).trans
        (steps_ext_void (Call.gk20a_fifo_abort_tsg
          ((ext env (Call.gk20a_fifo_error_tsg t)
            (ext_void (Call.gk20a_fifo_set_ctx_mmu_error_tsg t) g)).2.fifo.tsg t).tsgid) _
          (by rfl))
      cases refch with
      | some c => exact h1.trans (steps_ext_void _ _ (by rfl))
      | none => exact h1
    · simp only [hn, if_false]
      have h1 := steps_ext_void (P := is_abort_call)
        (Call.gk20a_fifo_abort_tsg (g.fifo.tsg t).tsgid) g (by rfl)
      cases refch with
      | some c => exact h1.trans (steps_ext_void _ _ (by rfl))
      | none => exact h1
  | none =>
    cases refch with
    | some c =>
      dsimp only
      by_cases hn : ¬ g.fifo.deferred_reset_pending = true ∧ rc_type = hw.RC_TYPE_MMU_FAULT
      · simp only [hn, not_false_eq_true, and_self, if_true]
        exact (((steps_ext_void (P := is_abort_call) (Call.gk20a_fifo_set_ctx_mmu_error_ch c)
          g (by rfl)).trans (steps_ext env (Call.gk20a_fifo_error_ch c) _ (by rfl))).trans
          (steps_ext_void (Call.gk20a_channel_abort c) _ (by rfl))).trans
          (steps_ext_void (Call.gk20a_channel_put c) _ (by rfl))
      · simp only [hn, if_false]
        exact (steps_ext_void (P := is_abort_call) (Call.gk20a_channel_abort c) g (by rfl)).trans
          (steps_ext_void (Call.gk20a_channel_put c) _ (by rfl))
    | none =>
      dsimp only
      refine steps_foldl _ ?_ _ _
      intro g a
      dsimp only
      split
      · exact steps_ext_void _ _ (by rfl)
      · exact Steps.refl _ _

theorem steps_teardown_reset_engine (env : Env) (tsg refch : Option Nat) (client_type : Nat)
    (g : gk20a) (engine_id : Nat) :
    Steps is_engine_reset_call g
      (teardown_reset_engine env tsg refch client_type g engine_id) := by
  unfold teardown_reset_engine
  have hlock : ∀ g : gk20a, Steps is_engine_reset_call g
      (if (ext env Call.nvgpu_mutex_tryacquire_gr_reset g).1 ≠ 0 then
        ext_void Call.nvgpu_mutex_release_gr_reset
          (ext_void (Call.gk20a_fifo_reset_engine engine_id)
            (ext env Call.nvgpu_mutex_tryacquire_gr_reset g).2)
      else (ext env Call.nvgpu_mutex_tryacquire_gr_reset g).2) := by
    intro g
    split
    · exact ((steps_ext env _ g (by rfl)).trans (steps_ext_void _ _ (by rfl))).trans
        (steps_ext_void _ _ (by rfl))
    · exact steps_ext env _ g (by rfl)
  by_cases hrt : refch.isSome = true ∨ tsg.isSome = true
  · simp only [hrt, if_true]
    have h1 := steps_ext (P := is_engine_reset_call) env
      (Call.gk20a_fifo_should_defer_engine_reset engine_id client_type) g (by rfl)
    by_cases hd : (ext env (Call.gk20a_fifo_should_defer_engine_reset engine_id client_type)
        g).1 ≠ 0
    · rw [if_pos (decide_eq_true hd)]
      exact h1.trans (steps_set_deferred _ _ _ _)
    · rw [if_neg (fun h => hd (of_decide_eq_true h))]
      exact h1.trans (hlock _)
  · simp only [hrt, if_false, Bool.false_eq_true]
    exact hlock g

theorem steps_teardown_reset_engines (env : Env) (runlists_mask : Nat) (tsg refch : Option Nat)
    (client_type : Nat) (g : gk20a) :
    Steps is_engine_reset_call g
      (teardown_reset_engines env runlists_mask tsg refch client_type g) := by
  unfold teardown_reset_engines
  refine steps_foldl _ ?_ _ _
  intro g a
  dsimp only
  split
  · exact steps_foldl _ (steps_teardown_reset_engine env tsg refch client_type) _ _
  · exact Steps.refl _ _

theorem teardown_enable_trace (hw : Manifest) (env : Env) (runlists_mask : Nat)
    (tsg refch : Option Nat) (g : gk20a) :
    ∃ pre post : List Event,
      (teardown_enable hw env runlists_mask tsg refch g).trace =
        g.trace ++ pre ++
          (⟨Call.gk20a_fifo_set_runlist_state runlists_mask hw.RUNLIST_ENABLED, 0⟩ : Event) ::
            post ∧
      (∀ e ∈ pre, is_ctxsw_trace_call e.call = true) ∧
      (∀ e ∈ post, is_power_call e.call = true) := by
  have hpost : ∀ g : gk20a, ∃ post : List Event,
      (if (ext env Call.support_gk20a_pmu g).1 ≠ 0 ∧
          (ext env Call.support_gk20a_pmu g).2.elpg_enabled = true then
        (ext env Call.gk20a_pmu_enable_elpg (ext env Call.support_gk20a_pmu g).2).2
       else (ext env Call.support_gk20a_pmu g).2).trace = g.trace ++ post ∧
      ∀ e ∈ post, is_power_call e.call = true := by
    intro g
    split
    · exact ((steps_ext (P := is_power_call) env _ g (by rfl)).trans
        (steps_ext env _ _ (by rfl))).trace
    · exact (steps_ext (P := is_power_call) env _ g (by rfl)).trace
  unfold teardown_enable
  dsimp only
  cases refch with
  | some c =>
    dsimp only
    obtain ⟨post, h1, h2⟩ := hpost (ext_void
      (Call.gk20a_fifo_set_runlist_state runlists_mask hw.RUNLIST_ENABLED)
      (ext_void (Call.gk20a_ctxsw_trace_channel_reset c) g))
    refine ⟨[⟨Call.gk20a_ctxsw_trace_channel_reset c, 0⟩], post, ?_, ?_, h2⟩
    · rw [h1]; simp [ext_void]
    · intro e he
      simp only [List.mem_singleton] at he
      rw [he]; rfl
  | none =>
    cases tsg with
    | some t =>
      dsimp only
      obtain ⟨post, h1, h2⟩ := hpost (ext_void
        (Call.gk20a_fifo_set_runlist_state runlists_mask hw.RUNLIST_ENABLED)
        (ext_void (Call.gk20a_ctxsw_trace_tsg_reset t) g))
      refine ⟨[⟨Call.gk20a_ctxsw_trace_tsg_reset t, 0⟩], post, ?_, ?_, h2⟩
      · rw [h1]; simp [ext_void]
      · intro e he
        simp only [List.mem_singleton] at he
        rw [he]; rfl
    | none =>
      dsimp only
      obtain ⟨post, h1, h2⟩ := hpost (ext_void
        (Call.gk20a_fifo_set_runlist_state runlists_mask hw.RUNLIST_ENABLED) g)
      refine ⟨[], post, ?_, by simp, h2⟩
      rw [h1]; simp [ext_void]

theorem teardown_unfold (hw : Manifest) (env : Env) (act_eng_bitmask id id_type rc_type : Nat)
    (mmfault : Option mmu_fault_info) (g : gk20a) :
    gv11b_fifo_teardown_ch_tsg hw env act_eng_bitmask id id_type rc_type mmfault g =
      teardown_enable hw env
        (gv11b_fifo_get_runlists_mask hw g.fifo act_eng_bitmask id id_type rc_type mmfault)
        (teardown_resolve hw env id id_type rc_type mmfault
          (teardown_disable hw env act_eng_bitmask id id_type rc_type mmfault g).2).1
        (teardown_resolve hw env id id_type rc_type mmfault
          (teardown_disable hw env act_eng_bitmask id id_type rc_type mmfault g).2).2.1
        (teardown_reset_engines env
          (gv11b_fifo_get_runlists_mask hw g.fifo act_eng_bitmask id id_type rc_type mmfault)
          (teardown_resolve hw env id id_type rc_type mmfault
            (teardown_disable hw env act_eng_bitmask id id_type rc_type mmfault g).2).1
          (teardown_resolve hw env id id_type rc_type mmfault
            (teardown_disable hw env act_eng_bitmask id id_type rc_type mmfault g).2).2.1
          (teardown_resolve hw env id id_type rc_type mmfault
            (teardown_disable hw env act_eng_bitmask id id_type rc_type mmfault g).2).2.2.1
          (teardown_abort hw env rc_type
            (gv11b_fifo_get_runlists_mask hw g.fifo act_eng_bitmask id id_type rc_type mmfault)
            (teardown_resolve hw env id id_type rc_type mmfault
              (teardown_disable hw env act_eng_bitmask id id_type rc_type mmfault g).2).1
            (teardown_resolve hw env id id_type rc_type mmfault
              (teardown_disable hw env act_eng_bitmask id id_type rc_type mmfault g).2).2.1
            (teardown_preempt hw env id id_type
              (gv11b_fifo_get_runlists_mask hw g.fifo act_eng_bitmask id id_type rc_type mmfault)
              (teardown_resolve hw env id id_type rc_type mmfault
                (teardown_disable hw env act_eng_bitmask id id_type rc_type mmfault
                  g).2).2.2.2)).2) :=
  rfl

theorem steps_teardown_work (hw : Manifest) (env : Env) (act_eng_bitmask id id_type rc_type : Nat)
    (mmfault : Option mmu_fault_info) (g : gk20a) :
    Steps is_recovery_work_call
      (ext_void (Call.gk20a_fifo_set_runlist_state
        (gv11b_fifo_get_runlists_mask hw g.fifo act_eng_bitmask id id_type rc_type mmfault)
        hw.RUNLIST_DISABLED) g)
      (teardown_reset_engines env
          (gv11b_fifo_get_runlists_mask hw g.fifo act_eng_bitmask id id_type rc_type mmfault)
          (teardown_resolve hw env id id_type rc_type mmfault
            (teardown_disable hw env act_eng_bitmask id id_type rc_type mmfault g).2).1
          (teardown_resolve hw env id id_type rc_type mmfault
            (teardown_disable hw env act_eng_bitmask id id_type rc_type mmfault g).2).2.1
          (teardown_resolve hw env id id_type rc_type mmfault
            (teardown_disable hw env act_eng_bitmask id id_type rc_type mmfault g).2).2.2.1
          (teardown_abort hw env rc_type
            (gv11b_fifo_get_runlists_mask hw g.fifo act_eng_bitmask id id_type rc_type mmfault)
            (teardown_resolve hw env id id_type rc_type mmfault
              (teardown_disable hw env act_eng_bitmask id id_type rc_type mmfault g).2).1
            (teardown_resolve hw env id id_type rc_type mmfault
              (teardown_disable hw env act_eng_bitmask id id_type rc_type mmfault g).2).2.1
            (teardown_preempt hw env id id_type
              (gv11b_fifo_get_runlists_mask hw g.fifo act_eng_bitmask id id_type rc_type mmfault)
              (teardown_resolve hw env id id_type rc_type mmfault
                (teardown_disable hw env act_eng_bitmask id id_type rc_type mmfault
                  g).2).2.2.2)).2) := by
  have s1 := (steps_teardown_disable hw env act_eng_bitmask id id_type rc_type mmfault g).mono
    (Q := is_recovery_work_call) (by intro c hc; simp [is_recovery_work_call, hc])
  have s2 := (steps_teardown_resolve hw env id id_type rc_type mmfault
    (teardown_disable hw env act_eng_bitmask id id_type rc_type mmfault g).2).mono
    (Q := is_recovery_work_call) (by intro c hc; simp [is_recovery_work_call, hc])
  have s3 := (steps_teardown_preempt hw env id id_type
    (gv11b_fifo_get_runlists_mask hw g.fifo act_eng_bitmask id id_type rc_type mmfault)
    (teardown_resolve hw env id id_type rc_type mmfault
      (teardown_disable hw env act_eng_bitmask id id_type rc_type mmfault g).2).2.2.2).mono
    (Q := is_recovery_work_call) (by intro c hc; simp [is_recovery_work_call, hc])
  have s4 := (steps_teardown_abort hw env rc_type
    (gv11b_fifo_get_runlists_mask hw g.fifo act_eng_bitmask id id_type rc_type mmfault)
    (teardown_resolve hw env id id_type rc_type mmfault
      (teardown_disable hw env act_eng_bitmask id id_type rc_type mmfault g).2).1
    (teardown_resolve hw env id id_type rc_type mmfault
      (teardown_disable hw env act_eng_bitmask id id_type rc_type mmfault g).2).2.1
    (teardown_preempt hw env id id_type
      (gv11b_fifo_get_runlists_mask hw g.fifo act_eng_bitmask id id_type rc_type mmfault)
      (teardown_resolve hw env id id_type rc_type mmfault
        (teardown_disable hw env act_eng_bitmask id id_type rc_type mmfault g).2).2.2.2)).mono
    (Q := is_recovery_work_call) (by intro c hc; simp [is_recovery_work_call, hc])
  exact (((s1.trans s2).trans s3).trans s4).trans
    ((steps_teardown_reset_engines env _ _ _ _ _).mono
      (by intro c hc; simp [is_recovery_work_call, hc]))

/-- C9: the calls of `gv11b_fifo_teardown_ch_tsg` are, for every input and whatever the
collaborators return: first `gk20a_fifo_set_runlist_state(mask, RUNLIST_DISABLED)` with
the mask computed by `gv11b_fifo_get_runlists_mask`, then the work of the recovery, then
`gk20a_fifo_set_runlist_state(mask, RUNLIST_ENABLED)` with the same mask, then only power
management calls. No other call writes the runlist state. -/
theorem teardown_enables_disabled_runlists (hw : Manifest) (env : Env)
    (act_eng_bitmask id id_type rc_type : Nat) (mmfault : Option mmu_fault_info) (g : gk20a) :
    (∃ work tail : List Event,
      events_since g
          (gv11b_fifo_teardown_ch_tsg hw env act_eng_bitmask id id_type rc_type mmfault g) =
        (⟨Call.gk20a_fifo_set_runlist_state
            (gv11b_fifo_get_runlists_mask hw g.fifo act_eng_bitmask id id_type rc_type mmfault)
            hw.RUNLIST_DISABLED, 0⟩ : Event) :: work ++
          (⟨Call.gk20a_fifo_set_runlist_state
            (gv11b_fifo_get_runlists_mask hw g.fifo act_eng_bitmask id id_type rc_type mmfault)
            hw.RUNLIST_ENABLED, 0⟩ : Event) :: tail ∧
      (∀ e ∈ work, is_recovery_work_call e.call = true) ∧
      (∀ e ∈ tail, is_power_call e.call = true)) ∧
    (events_since g
        (gv11b_fifo_teardown_ch_tsg hw env act_eng_bitmask id id_type rc_type mmfault g)).filter
      (fun e => is_set_runlist_state_call e.call) =
      [⟨Call.gk20a_fifo_set_runlist_state
          (gv11b_fifo_get_runlists_mask hw g.fifo act_eng_bitmask id id_type rc_type mmfault)
          hw.RUNLIST_DISABLED, 0⟩,
        ⟨Call.gk20a_fifo_set_runlist_state
          (gv11b_fifo_get_runlists_mask hw g.fifo act_eng_bitmask id id_type rc_type mmfault)
          hw.RUNLIST_ENABLED, 0⟩] := by
  obtain ⟨work, hw1, hw2⟩ :=
    (steps_teardown_work hw env act_eng_bitmask id id_type rc_type mmfault g).trace
  obtain ⟨pre, post, hp1, hp2, hp3⟩ := teardown_enable_trace hw env
    (gv11b_fifo_get_runlists_mask hw g.fifo act_eng_bitmask id id_type rc_type mmfault)
    (teardown_resolve hw env id id_type rc_type mmfault
      (teardown_disable hw env act_eng_bitmask id id_type rc_type mmfault g).2).1
    (teardown_resolve hw env id id_type rc_type mmfault
      (teardown_disable hw env act_eng_bitmask id id_type rc_type mmfault g).2).2.1
    _
  rw [hw1] at hp1
  have hshape : events_since g
      (gv11b_fifo_teardown_ch_tsg hw env act_eng_bitmask id id_type rc_type mmfault g) =
      (⟨Call.gk20a_fifo_set_runlist_state
          (gv11b_fifo_get_runlists_mask hw g.fifo act_eng_bitmask id id_type rc_type mmfault)
          hw.RUNLIST_DISABLED, 0⟩ : Event) :: (work ++ pre) ++
        (⟨Call.gk20a_fifo_set_runlist_state
          (gv11b_fifo_get_runlists_mask hw g.fifo act_eng_bitmask id id_type rc_type mmfault)
          hw.RUNLIST_ENABLED, 0⟩ : Event) :: post := by
    apply events_since_of_append
    rw [teardown_unfold, hp1]
    simp [ext_void]
  have hwork : ∀ e ∈ work ++ pre, is_recovery_work_call e.call = true := by
    intro e he
    rcases List.mem_append.1 he with he | he
    · exact hw2 e he
    · have := hp2 e he
      revert this
      cases e.call <;> simp [is_recovery_work_call, is_ctxsw_trace_call]
  have hf1 : (work ++ pre).filter (fun e => is_set_runlist_state_call e.call) = [] := by
    rw [List.filter_eq_nil_iff]
    intro e he
    have := hwork e he
    revert this
    cases e.call <;> simp [is_recovery_work_call, is_set_runlist_state_call, is_power_call,
      is_resolve_call, is_preempt_call, is_abort_call, is_engine_reset_call, is_mutex_call,
      is_locked_preempt_call, is_reg_call, is_abort_handler_call]
  have hf2 : post.filter (fun e => is_set_runlist_state_call e.call) = [] := by
    rw [List.filter_eq_nil_iff]
    intro e he
    have := hp3 e he
    revert this
    cases e.call <;> simp [is_set_runlist_state_call, is_power_call]
  refine ⟨⟨work ++ pre, post, hshape, hwork, hp3⟩, ?_⟩
  rw [hshape, List.filter_append, List.filter_cons, List.filter_cons, hf1, hf2]
  simp [is_set_runlist_state_call]

/-! ### The recovery when neither a TSG nor a channel is known -/

theorem teardown_abort_unresolved (hw : Manifest) (env : Env) (rc_type runlists_mask : Nat)
    (g : gk20a) :
    (teardown_abort hw env rc_type runlists_mask none none g).2 =
      { g with trace := (g.trace ++
          ((List.range g.fifo.max_runlists).filter
            (fun r => decide (runlists_mask &&& BIT r ≠ 0))).map
            (fun r => (⟨Call.update_runlist r hw.FIFO_INVAL_CHANNEL_ID false true, 0⟩ : Event))) } := by
  unfold teardown_abort
  dsimp only
  exact foldl_ext_void (fun r => runlists_mask &&& BIT r ≠ 0)
    (fun r => Call.update_runlist r hw.FIFO_INVAL_CHANNEL_ID false true) _ g

/-- The events of a recovery in which neither a TSG nor a channel is resolved, for a
preemption step whose calls are in `P3`: the reload of the runlists in the mask, between
calls that are neither reloads nor abort handlers. -/
theorem teardown_unresolved_shape (hw : Manifest) (env : Env)
    (act_eng_bitmask id id_type rc_type : Nat) (mmfault : Option mmu_fault_info) (g : gk20a)
    (P3 : Call → Bool)
    (h3 : Steps P3
      (teardown_resolve hw env id id_type rc_type mmfault
        (teardown_disable hw env act_eng_bitmask id id_type rc_type mmfault g).2).2.2.2
      (teardown_preempt hw env id id_type
        (gv11b_fifo_get_runlists_mask hw g.fifo act_eng_bitmask id id_type rc_type mmfault)
        (teardown_resolve hw env id id_type rc_type mmfault
          (teardown_disable hw env act_eng_bitmask id id_type rc_type mmfault g).2).2.2.2))
    (hun : (teardown_resolve hw env id id_type rc_type mmfault
        (teardown_disable hw env act_eng_bitmask id id_type rc_type mmfault g).2).1 = none ∧
      (teardown_resolve hw env id id_type rc_type mmfault
        (teardown_disable hw env act_eng_bitmask id id_type rc_type mmfault g).2).2.1 = none) :
    ∃ l1 l2 : List Event,
      events_since g
          (gv11b_fifo_teardown_ch_tsg hw env act_eng_bitmask id id_type rc_type mmfault g) =
        l1 ++ ((List.range g.fifo.max_runlists).filter
            (fun r => decide (gv11b_fifo_get_runlists_mask hw g.fifo act_eng_bitmask id id_type
              rc_type mmfault &&& BIT r ≠ 0))).map
            (fun r => (⟨Call.update_runlist r hw.FIFO_INVAL_CHANNEL_ID false true, 0⟩ : Event))
          ++ l2 ∧
      ∀ e ∈ l1 ++ l2, (is_power_call e.call || is_resolve_call e.call || P3 e.call ||
        is_engine_reset_call e.call || is_ctxsw_trace_call e.call ||
        is_set_runlist_state_call e.call) = true := by
  have sA := steps_teardown_disable hw env act_eng_bitmask id id_type rc_type mmfault g
  have sB := steps_teardown_resolve hw env id id_type rc_type mmfault
    (teardown_disable hw env act_eng_bitmask id id_type rc_type mmfault g).2
  obtain ⟨lA, hA, pA⟩ := sA.trace
  obtain ⟨lB, hB, pB⟩ := sB.trace
  obtain ⟨lC, hC, pC⟩ := h3.trace
  have hmax : (teardown_preempt hw env id id_type
      (gv11b_fifo_get_runlists_mask hw g.fifo act_eng_bitmask id id_type rc_type mmfault)
      (teardown_resolve hw env id id_type rc_type mmfault
        (teardown_disable hw env act_eng_bitmask id id_type rc_type mmfault
          g).2).2.2.2).fifo.max_runlists = g.fifo.max_runlists :=
    (h3.max_runlists.trans sB.max_runlists).trans sA.max_runlists
  have hD := teardown_abort_unresolved hw env rc_type
    (gv11b_fifo_get_runlists_mask hw g.fifo act_eng_bitmask id id_type rc_type mmfault)
    (teardown_preempt hw env id id_type
      (gv11b_fifo_get_runlists_mask hw g.fifo act_eng_bitmask id id_type rc_type mmfault)
      (teardown_resolve hw env id id_type rc_type mmfault
        (teardown_disable hw env act_eng_bitmask id id_type rc_type mmfault g).2).2.2.2)
  rw [hmax] at hD
  obtain ⟨lE, hE, pE⟩ := (steps_teardown_reset_engines env
    (gv11b_fifo_get_runlists_mask hw g.fifo act_eng_bitmask id id_type rc_type mmfault)
    none none
    (teardown_resolve hw env id id_type rc_type mmfault
      (teardown_disable hw env act_eng_bitmask id id_type rc_type mmfault g).2).2.2.1
    (teardown_abort hw env rc_type
      (gv11b_fifo_get_runlists_mask hw g.fifo act_eng_bitmask id id_type rc_type mmfault)
      none none
      (teardown_preempt hw env id id_type
        (gv11b_fifo_get_runlists_mask hw g.fifo act_eng_bitmask id id_type rc_type mmfault)
        (teardown_resolve hw env id id_type rc_type mmfault
          (teardown_disable hw env act_eng_bitmask id id_type rc_type mmfault
            g).2).2.2.2)).2).trace
  obtain ⟨pre, post, hF, pF1, pF2⟩ := teardown_enable_trace hw env
    (gv11b_fifo_get_runlists_mask hw g.fifo act_eng_bitmask id id_type rc_type mmfault)
    none none
    (teardown_reset_engines env
      (gv11b_fifo_get_runlists_mask hw g.fifo act_eng_bitmask id id_type rc_type mmfault)
      none none
      (teardown_resolve hw env id id_type rc_type mmfault
        (teardown_disable hw env act_eng_bitmask id id_type rc_type mmfault g).2).2.2.1
      (teardown_abort hw env rc_type
        (gv11b_fifo_get_runlists_mask hw g.fifo act_eng_bitmask id id_type rc_type mmfault)
        none none
        (teardown_preempt hw env id id_type
          (gv11b_fifo_get_runlists_mask hw g.fifo act_eng_bitmask id id_type rc_type mmfault)
          (teardown_resolve hw env id id_type rc_type mmfault
            (teardown_disable hw env act_eng_bitmask id id_type rc_type mmfault
              g).2).2.2.2)).2)
  refine ⟨(⟨Call.gk20a_fifo_set_runlist_state
      (gv11b_fifo_get_runlists_mask hw g.fifo act_eng_bitmask id id_type rc_type mmfault)
      hw.RUNLIST_DISABLED, 0⟩ : Event) :: (lA ++ lB ++ lC),
    lE ++ pre ++ (⟨Call.gk20a_fifo_set_runlist_state
      (gv11b_fifo_get_runlists_mask hw g.fifo act_eng_bitmask id id_type rc_type mmfault)
      hw.RUNLIST_ENABLED, 0⟩ : Event) :: post, ?_, ?_⟩
  · apply events_since_of_append
    rw [teardown_unfold, hun.1, hun.2, hF, hE, hD]
    dsimp only
    rw [hC, hB, hA]
    simp [ext_void]
  · intro e he
    simp only [List.mem_append, List.mem_cons] at he
    rcases he with (rfl | (he | he) | he) | (he | he) | rfl | he
    · simp [is_set_runlist_state_call]
    · simp [pA e he]
    · simp [pB e he]
    · simp [pC e he]
    · simp [pE e he]
    · simp [pF1 e he]
    · simp [is_set_runlist_state_call]
    · simp [pF2 e he]

/-- C10, as stated, fails: for a recovery of channel 4 (`ID_TYPE_CHANNEL`, no MMU fault)
whose reference cannot be taken (`gk20a_channel_get` returns null), neither a TSG nor a
channel is resolved, yet the preemption is the single-id preempt of the channel
(`gk20a_fifo_issue_preempt(4, ID_TYPE_CHANNEL)` under the mutex of its runlist) and the
runlist preempt register is never accessed; the runlist of the channel is then
reloaded. -/
theorem teardown_unresolved_channel_uses_single_id_preempt :
    (teardown_resolve sample_hw env_zero 4 sample_hw.ID_TYPE_CHANNEL 0 none
      (teardown_disable sample_hw env_zero 0 4 sample_hw.ID_TYPE_CHANNEL 0 none sample_g).2).1 =
        none ∧
    (teardown_resolve sample_hw env_zero 4 sample_hw.ID_TYPE_CHANNEL 0 none
      (teardown_disable sample_hw env_zero 0 4 sample_hw.ID_TYPE_CHANNEL 0 none sample_g).2).2.1 =
        none ∧
    (events_since sample_g
      (gv11b_fifo_teardown_ch_tsg sample_hw env_zero 0 4 sample_hw.ID_TYPE_CHANNEL 0 none
        sample_g)).map (fun e => e.call) =
      [Call.gk20a_fifo_set_runlist_state 1 0, Call.support_gk20a_pmu,
        Call.slcg_gr_load_gating_prod false, Call.slcg_ltc_load_gating_prod false,
        Call.gr_gk20a_init_cg_mode, Call.gk20a_channel_get 4, Call.nvgpu_mutex_acquire 0,
        Call.pmu_mutex_acquire, Call.gk20a_fifo_issue_preempt 4 0,
        Call.gk20a_readl (Reg.pbdma_intr_0_r 0), Call.gk20a_readl (Reg.pbdma_intr_1_r 0),
        Call.nvgpu_timeout_init, Call.gk20a_readl (Reg.fifo_pbdma_status_r 0),
        Call.nvgpu_timeout_init, Call.gk20a_readl (Reg.fifo_engine_status_r 0),
        Call.pmu_mutex_release, Call.nvgpu_mutex_release 0,
        Call.update_runlist 0 4294967295 false true, Call.gk20a_fifo_set_runlist_state 1 1,
        Call.support_gk20a_pmu] := by
  rw [teardown_unfold]
  decide

/-- C10, amended: in a recovery in which neither a TSG nor a channel is resolved,
`update_runlist(g, r, FIFO_INVAL_CHANNEL_ID, false, true)` is called exactly once, in
increasing order, for every runlist `r < max_runlists` whose disable bit is in the
computed mask and for no other runlist, and no abort handler is called. When `id_type`
is neither `ID_TYPE_TSG` nor `ID_TYPE_CHANNEL` the preemption step is
`gv11b_fifo_preempt_runlists` with the same mask and no single-id preempt is issued
during the recovery; when `id_type` is `ID_TYPE_CHANNEL` the preemption step is the
single-id preempt `gv11b_fifo_preempt_ch_tsg(id, id_type, PREEMPT_TIMEOUT_NORC)`. -/
theorem teardown_unresolved_reloads_runlists (hw : Manifest) (env : Env)
    (act_eng_bitmask id id_type rc_type : Nat) (mmfault : Option mmu_fault_info) (g : gk20a)
    (hm : ∀ r, r < g.fifo.max_runlists → hw.fifo_sched_disable_runlist_m r = BIT r)
    (hun : (teardown_resolve hw env id id_type rc_type mmfault
        (teardown_disable hw env act_eng_bitmask id id_type rc_type mmfault g).2).1 = none ∧
      (teardown_resolve hw env id id_type rc_type mmfault
        (teardown_disable hw env act_eng_bitmask id id_type rc_type mmfault g).2).2.1 = none) :
    (events_since g
        (gv11b_fifo_teardown_ch_tsg hw env act_eng_bitmask id id_type rc_type mmfault g)).filter
      (fun e => is_update_runlist_call e.call) =
      ((List.range g.fifo.max_runlists).filter
        (fun r => decide (gv11b_fifo_get_runlists_mask hw g.fifo act_eng_bitmask id id_type
          rc_type mmfault &&& hw.fifo_sched_disable_runlist_m r ≠ 0))).map
        (fun r => (⟨Call.update_runlist r hw.FIFO_INVAL_CHANNEL_ID false true, 0⟩ : Event)) ∧
    (∀ e ∈ events_since g
        (gv11b_fifo_teardown_ch_tsg hw env act_eng_bitmask id id_type rc_type mmfault g),
      is_abort_handler_call e.call = false) ∧
    (id_type ≠ hw.ID_TYPE_TSG ∧ id_type ≠ hw.ID_TYPE_CHANNEL →
      teardown_preempt hw env id id_type
          (gv11b_fifo_get_runlists_mask hw g.fifo act_eng_bitmask id id_type rc_type mmfault)
          (teardown_resolve hw env id id_type rc_type mmfault
            (teardown_disable hw env act_eng_bitmask id id_type rc_type mmfault g).2).2.2.2 =
        (gv11b_fifo_preempt_runlists hw env
          (gv11b_fifo_get_runlists_mask hw g.fifo act_eng_bitmask id id_type rc_type mmfault)
          (teardown_resolve hw env id id_type rc_type mmfault
            (teardown_disable hw env act_eng_bitmask id id_type rc_type mmfault g).2).2.2.2).2 ∧
      ∀ e ∈ events_since g
          (gv11b_fifo_teardown_ch_tsg hw env act_eng_bitmask id id_type rc_type mmfault g),
        is_issue_preempt_call e.call = false) ∧
    (id_type = hw.ID_TYPE_CHANNEL →
      teardown_preempt hw env id id_type
          (gv11b_fifo_get_runlists_mask hw g.fifo act_eng_bitmask id id_type rc_type mmfault)
          (teardown_resolve hw env id id_type rc_type mmfault
            (teardown_disable hw env act_eng_bitmask id id_type rc_type mmfault g).2).2.2.2 =
        (gv11b_fifo_preempt_ch_tsg hw env id id_type hw.PREEMPT_TIMEOUT_NORC
          (teardown_resolve hw env id id_type rc_type mmfault
            (teardown_disable hw env act_eng_bitmask id id_type rc_type mmfault
              g).2).2.2.2).2) := by
  have hfilt : (List.range g.fifo.max_runlists).filter
      (fun r => decide (gv11b_fifo_get_runlists_mask hw g.fifo act_eng_bitmask id id_type
        rc_type mmfault &&& hw.fifo_sched_disable_runlist_m r ≠ 0)) =
      (List.range g.fifo.max_runlists).filter
      (fun r => decide (gv11b_fifo_get_runlists_mask hw g.fifo act_eng_bitmask id id_type
        rc_type mmfault &&& BIT r ≠ 0)) := by
    apply List.filter_congr
    intro r hr
    rw [hm r (List.mem_range.1 hr)]
  have hupd : ∀ L : List Nat, (L.map
      (fun r => (⟨Call.update_runlist r hw.FIFO_INVAL_CHANNEL_ID false true, 0⟩ : Event))).filter
      (fun e => is_update_runlist_call e.call) = L.map
      (fun r => (⟨Call.update_runlist r hw.FIFO_INVAL_CHANNEL_ID false true, 0⟩ : Event)) := by
    intro L
    rw [List.filter_eq_self]
    intro e he
    obtain ⟨r, -, rfl⟩ := List.mem_map.1 he
    rfl
  obtain ⟨l1, l2, hsh, hP⟩ := teardown_unresolved_shape hw env act_eng_bitmask id id_type
    rc_type mmfault g is_preempt_call (steps_teardown_preempt hw env id id_type _ _) hun
  have hno : ∀ l : List Event, (∀ e ∈ l, e ∈ l1 ++ l2) →
      l.filter (fun e => is_update_runlist_call e.call) = [] := by
    intro l hl
    rw [List.filter_eq_nil_iff]
    intro e he
    have := hP e (hl e he)
    revert this
    cases e.call <;> simp [is_update_runlist_call, is_power_call, is_resolve_call,
      is_preempt_call, is_engine_reset_call, is_ctxsw_trace_call, is_set_runlist_state_call,
      is_mutex_call, is_locked_preempt_call, is_reg_call]
  refine ⟨?_, ?_, ?_, ?_⟩
  · rw [hsh, List.filter_append, List.filter_append, hupd,
      hno l1 (fun e he => List.mem_append_left _ he),
      hno l2 (fun e he => List.mem_append_right _ he), hfilt]
    simp
  · intro e he
    rw [hsh] at he
    simp only [List.mem_append] at he
    rcases he with (he | he) | he
    · have := hP e (List.mem_append_left _ he)
      revert this
      cases e.call <;> simp [is_abort_handler_call, is_power_call, is_resolve_call,
        is_preempt_call, is_engine_reset_call, is_ctxsw_trace_call, is_set_runlist_state_call,
        is_mutex_call, is_locked_preempt_call, is_reg_call]
    · obtain ⟨r, -, rfl⟩ := List.mem_map.1 he
      rfl
    · have := hP e (List.mem_append_right _ he)
      revert this
      cases e.call <;> simp [is_abort_handler_call, is_power_call, is_resolve_call,
        is_preempt_call, is_engine_reset_call, is_ctxsw_trace_call, is_set_runlist_state_call,
        is_mutex_call, is_locked_preempt_call, is_reg_call]
  · rintro ⟨ht, hc⟩
    have heq : ∀ g1 : gk20a, teardown_preempt hw env id id_type
        (gv11b_fifo_get_runlists_mask hw g.fifo act_eng_bitmask id id_type rc_type mmfault) g1 =
        (gv11b_fifo_preempt_runlists hw env
          (gv11b_fifo_get_runlists_mask hw g.fifo act_eng_bitmask id id_type rc_type mmfault)
          g1).2 := by
      intro g1
      simp [teardown_preempt, ht, hc]
    refine ⟨heq _, ?_⟩
    have h3 := steps_preempt_runlists_tight hw env
      (gv11b_fifo_get_runlists_mask hw g.fifo act_eng_bitmask id id_type rc_type mmfault)
      (teardown_resolve hw env id id_type rc_type mmfault
        (teardown_disable hw env act_eng_bitmask id id_type rc_type mmfault g).2).2.2.2
    rw [← heq] at h3
    obtain ⟨k1, k2, hsh2, hP2⟩ := teardown_unresolved_shape hw env act_eng_bitmask id id_type
      rc_type mmfault g is_runlists_preempt_call h3 hun
    intro e he
    rw [hsh2] at he
    simp only [List.mem_append] at he
    rcases he with (he | he) | he
    · have := hP2 e (List.mem_append_left _ he)
      revert this
      cases e.call <;> simp [is_issue_preempt_call, is_power_call, is_resolve_call,
        is_runlists_preempt_call, is_engine_reset_call, is_ctxsw_trace_call,
        is_set_runlist_state_call, is_mutex_call, is_locked_runlists_call, is_reg_call]
    · obtain ⟨r, -, rfl⟩ := List.mem_map.1 he
      rfl
    · have := hP2 e (List.mem_append_right _ he)
      revert this
      cases e.call <;> simp [is_issue_preempt_call, is_power_call, is_resolve_call,
        is_runlists_preempt_call, is_engine_reset_call, is_ctxsw_trace_call,
        is_set_runlist_state_call, is_mutex_call, is_locked_runlists_call, is_reg_call]
  · intro hc
    simp [teardown_preempt, hc]

/-- C10, amended, at `sample_g`: an MMU fault without channel on engine 0 and PBDMA 2
freezes the runlists 0 and 2; both are reloaded with the invalid channel id, once each,
no abort handler is called and no single-id preempt is issued. -/
theorem teardown_unresolved_reloads_runlists_witness :
    (∀ r, r < sample_g.fifo.max_runlists → sample_hw.fifo_sched_disable_runlist_m r = BIT r) ∧
    (events_since sample_g
        (gv11b_fifo_teardown_ch_tsg sample_hw env_zero 1 0 (2 ^ 32 - 1) 1
          (some ⟨2, 0, 0, none⟩) sample_g)).filter
      (fun e => is_update_runlist_call e.call) =
      [⟨Call.update_runlist 0 (2 ^ 32 - 1) false true, 0⟩,
        ⟨Call.update_runlist 2 (2 ^ 32 - 1) false true, 0⟩] ∧
    (∀ e ∈ events_since sample_g
        (gv11b_fifo_teardown_ch_tsg sample_hw env_zero 1 0 (2 ^ 32 - 1) 1
          (some ⟨2, 0, 0, none⟩) sample_g),
      is_abort_handler_call e.call = false) ∧
    (∀ e ∈ events_since sample_g
        (gv11b_fifo_teardown_ch_tsg sample_hw env_zero 1 0 (2 ^ 32 - 1) 1
          (some ⟨2, 0, 0, none⟩) sample_g),
      is_issue_preempt_call e.call = false) := by
  have h := teardown_unresolved_reloads_runlists sample_hw env_zero 1 0 (2 ^ 32 - 1) 1
    (some ⟨2, 0, 0, none⟩) sample_g (by decide) (by decide)
  exact ⟨by decide, h.1.trans (by decide), h.2.1, (h.2.2.1 (by decide)).2⟩

/-! ### Error notifier, engine reset and abort scope of the recovery -/

theorem teardown_unfold_steps (hw : Manifest) (env : Env)
    (act_eng_bitmask id id_type rc_type : Nat) (mmfault : Option mmu_fault_info) (g : gk20a) :
    gv11b_fifo_teardown_ch_tsg hw env act_eng_bitmask id id_type rc_type mmfault g =
      teardown_enable hw env
        (gv11b_fifo_get_runlists_mask hw g.fifo act_eng_bitmask id id_type rc_type mmfault)
        (teardown_resolved hw env act_eng_bitmask id id_type rc_type mmfault g).1
        (teardown_resolved hw env act_eng_bitmask id id_type rc_type mmfault g).2.1
        (teardown_reset_engines env
          (gv11b_fifo_get_runlists_mask hw g.fifo act_eng_bitmask id id_type rc_type mmfault)
          (teardown_resolved hw env act_eng_bitmask id id_type rc_type mmfault g).1
          (teardown_resolved hw env act_eng_bitmask id id_type rc_type mmfault g).2.1
          (teardown_resolved hw env act_eng_bitmask id id_type rc_type mmfault g).2.2.1
          (teardown_aborted hw env act_eng_bitmask id id_type rc_type mmfault g)) :=
  rfl

/-- The events of the recovery: those of the abort step, between events that are not calls
of that step. The TSG table is the same at the abort step as at entry. -/
theorem teardown_events_split (hw : Manifest) (env : Env)
    (act_eng_bitmask id id_type rc_type : Nat) (mmfault : Option mmu_fault_info) (g : gk20a) :
    (teardown_preempted hw env act_eng_bitmask id id_type rc_type mmfault g).fifo.tsg =
      g.fifo.tsg ∧
    ∃ l1 l2 : List Event,
      events_since g
          (gv11b_fifo_teardown_ch_tsg hw env act_eng_bitmask id id_type rc_type mmfault g) =
        l1 ++ events_since (teardown_preempted hw env act_eng_bitmask id id_type rc_type mmfault g)
          (teardown_aborted hw env act_eng_bitmask id id_type rc_type mmfault g) ++ l2 ∧
      (∀ e ∈ l1 ++ l2, is_abort_call e.call = false) ∧
      (⟨Call.gk20a_fifo_set_runlist_state
          (gv11b_fifo_get_runlists_mask hw g.fifo act_eng_bitmask id id_type rc_type mmfault)
          hw.RUNLIST_ENABLED, 0⟩ : Event) ∈ l2 := by
  have sA := steps_teardown_disable hw env act_eng_bitmask id id_type rc_type mmfault g
  have sB := steps_teardown_resolve hw env id id_type rc_type mmfault
    (teardown_disable hw env act_eng_bitmask id id_type rc_type mmfault g).2
  have sC := steps_teardown_preempt hw env id id_type
    (gv11b_fifo_get_runlists_mask hw g.fifo act_eng_bitmask id id_type rc_type mmfault)
    (teardown_resolved hw env act_eng_bitmask id id_type rc_type mmfault g).2.2.2
  have sD := steps_teardown_abort hw env rc_type
    (gv11b_fifo_get_runlists_mask hw g.fifo act_eng_bitmask id id_type rc_type mmfault)
    (teardown_resolved hw env act_eng_bitmask id id_type rc_type mmfault g).1
    (teardown_resolved hw env act_eng_bitmask id id_type rc_type mmfault g).2.1
    (teardown_preempted hw env act_eng_bitmask id id_type rc_type mmfault g)
  have sE := steps_teardown_reset_engines env
    (gv11b_fifo_get_runlists_mask hw g.fifo act_eng_bitmask id id_type rc_type mmfault)
    (teardown_resolved hw env act_eng_bitmask id id_type rc_type mmfault g).1
    (teardown_resolved hw env act_eng_bitmask id id_type rc_type mmfault g).2.1
    (teardown_resolved hw env act_eng_bitmask id id_type rc_type mmfault g).2.2.1
    (teardown_aborted hw env act_eng_bitmask id id_type rc_type mmfault g)
  obtain ⟨pre, post, hF, pF1, pF2⟩ := teardown_enable_trace hw env
    (gv11b_fifo_get_runlists_mask hw g.fifo act_eng_bitmask id id_type rc_type mmfault)
    (teardown_resolved hw env act_eng_bitmask id id_type rc_type mmfault g).1
    (teardown_resolved hw env act_eng_bitmask id id_type rc_type mmfault g).2.1
    (teardown_reset_engines env
      (gv11b_fifo_get_runlists_mask hw g.fifo act_eng_bitmask id id_type rc_type mmfault)
      (teardown_resolved hw env act_eng_bitmask id id_type rc_type mmfault g).1
      (teardown_resolved hw env act_eng_bitmask id id_type rc_type mmfault g).2.1
      (teardown_resolved hw env act_eng_bitmask id id_type rc_type mmfault g).2.2.1
      (teardown_aborted hw env act_eng_bitmask id id_type rc_type mmfault g))
  obtain ⟨lA, hA, pA⟩ := sA.trace
  obtain ⟨lB, hB, pB⟩ := sB.trace
  obtain ⟨lC, hC, pC⟩ := sC.trace
  obtain ⟨lD, hD, -⟩ := sD.trace
  obtain ⟨lE, hE, pE⟩ := sE.trace
  refine ⟨(sC.tsg.trans sB.tsg).trans sA.tsg, ?_⟩
  change (teardown_resolved hw env act_eng_bitmask id id_type rc_type mmfault g).2.2.2.trace = _
    at hB
  change (teardown_preempted hw env act_eng_bitmask id id_type rc_type mmfault g).trace = _ at hC
  change (teardown_aborted hw env act_eng_bitmask id id_type rc_type mmfault g).trace = _ at hD
  refine ⟨(⟨Call.gk20a_fifo_set_runlist_state
      (gv11b_fifo_get_runlists_mask hw g.fifo act_eng_bitmask id id_type rc_type mmfault)
      hw.RUNLIST_DISABLED, 0⟩ : Event) :: (lA ++ lB ++ lC),
    lE ++ pre ++ (⟨Call.gk20a_fifo_set_runlist_state
      (gv11b_fifo_get_runlists_mask hw g.fifo act_eng_bitmask id id_type rc_type mmfault)
      hw.RUNLIST_ENABLED, 0⟩ : Event) :: post, ?_, ?_, ?_⟩
  · rw [events_since_of_append _ _ lD hD]
    apply events_since_of_append
    rw [teardown_unfold_steps, hF, hE, hD, hC, hB, hA]
    simp [ext_void]
  · intro e he
    simp only [List.mem_append, List.mem_cons] at he
    rcases he with (rfl | (he | he) | he) | (he | he) | rfl | he
    · rfl
    · have := pA e he
      revert this
      cases e.call <;> simp [is_power_call, is_abort_call, is_abort_handler_call]
    · have := pB e he
      revert this
      cases e.call <;> simp [is_resolve_call, is_abort_call, is_abort_handler_call]
    · have := pC e he
      revert this
      cases e.call <;> simp [is_preempt_call, is_mutex_call, is_locked_preempt_call,
        is_reg_call, is_abort_call, is_abort_handler_call]
    · have := pE e he
      revert this
      cases e.call <;> simp [is_engine_reset_call, is_abort_call, is_abort_handler_call]
    · have := pF1 e he
      revert this
      cases e.call <;> simp [is_ctxsw_trace_call, is_abort_call, is_abort_handler_call]
    · rfl
    · have := pF2 e he
      revert this
      cases e.call <;> simp [is_power_call, is_abort_call, is_abort_handler_call]
  · simp

/-- The abort handlers called by the fourth step of the recovery. -/
theorem teardown_abort_handlers (hw : Manifest) (env : Env) (rc_type runlists_mask : Nat)
    (tsg refch : Option Nat) (g : gk20a) :
    (events_since g (teardown_abort hw env rc_type runlists_mask tsg refch g).2).filter
        (fun e => is_abort_handler_call e.call) =
      abort_handler_events g.fifo.tsg tsg refch := by
  cases tsg with
  | some t =>
    have h : ∃ l : List Event, (∀ e ∈ l, is_abort_handler_call e.call = false) ∧
        ∃ l2 : List Event, (∀ e ∈ l2, is_abort_handler_call e.call = false) ∧
        (teardown_abort hw env rc_type runlists_mask (some t) refch g).2.trace =
          g.trace ++ (l ++ (⟨Call.gk20a_fifo_abort_tsg (g.fifo.tsg t).tsgid, 0⟩ : Event) :: l2) := by
      unfold teardown_abort
      dsimp only
      by_cases hc : ¬ g.fifo.deferred_reset_pending = true ∧ rc_type = hw.RC_TYPE_MMU_FAULT
      · rw [if_pos hc]
        cases refch with
        | some c =>
          exact ⟨[⟨Call.gk20a_fifo_set_ctx_mmu_error_tsg t, 0⟩, ⟨Call.gk20a_fifo_error_tsg t,
              env (g.trace ++ [⟨Call.gk20a_fifo_set_ctx_mmu_error_tsg t, 0⟩])
                (Call.gk20a_fifo_error_tsg t)⟩],
            by simp [is_abort_handler_call], [⟨Call.gk20a_channel_put c, 0⟩],
            by simp [is_abort_handler_call], by simp [ext, ext_void]⟩
        | none =>
          exact ⟨[⟨Call.gk20a_fifo_set_ctx_mmu_error_tsg t, 0⟩, ⟨Call.gk20a_fifo_error_tsg t,
              env (g.trace ++ [⟨Call.gk20a_fifo_set_ctx_mmu_error_tsg t, 0⟩])
                (Call.gk20a_fifo_error_tsg t)⟩],
            by simp [is_abort_handler_call], [], by simp, by simp [ext, ext_void]⟩
      · rw [if_neg hc]
        cases refch with
        | some c =>
          exact ⟨[], by simp, [⟨Call.gk20a_channel_put c, 0⟩],
            by simp [is_abort_handler_call], by simp [ext_void]⟩
        | none => exact ⟨[], by simp, [], by simp, by simp [ext_void]⟩
    obtain ⟨l, hl, l2, hl2, ht⟩ := h
    rw [events_since_of_append _ _ _ ht, List.filter_append, List.filter_cons,
      List.filter_eq_nil_iff.2 (by simpa using hl), List.filter_eq_nil_iff.2 (by simpa using hl2)]
    simp [is_abort_handler_call, abort_handler_events]
  | none =>
    cases refch with
    | some c =>
      have h : ∃ l : List Event, (∀ e ∈ l, is_abort_handler_call e.call = false) ∧
          (teardown_abort hw env rc_type runlists_mask none (some c) g).2.trace =
            g.trace ++ (l ++ [(⟨Call.gk20a_channel_abort c, 0⟩ : Event),
              ⟨Call.gk20a_channel_put c, 0⟩]) := by
        unfold teardown_abort
        dsimp only
        by_cases hc : ¬ g.fifo.deferred_reset_pending = true ∧ rc_type = hw.RC_TYPE_MMU_FAULT
        · rw [if_pos hc]
          exact ⟨[⟨Call.gk20a_fifo_set_ctx_mmu_error_ch c, 0⟩, ⟨Call.gk20a_fifo_error_ch c,
              env (g.trace ++ [⟨Call.gk20a_fifo_set_ctx_mmu_error_ch c, 0⟩])
                (Call.gk20a_fifo_error_ch c)⟩],
            by simp [is_abort_handler_call], by simp [ext, ext_void]⟩
        · rw [if_neg hc]
          exact ⟨[], by simp, by simp [ext_void]⟩
      obtain ⟨l, hl, ht⟩ := h
      rw [events_since_of_append _ _ _ ht, List.filter_append,
        List.filter_eq_nil_iff.2 (by simpa using hl)]
      simp [is_abort_handler_call, abort_handler_events]
    | none =>
      rw [teardown_abort_unresolved, events_since_of_append _ _ _ rfl,
        List.filter_eq_nil_iff.2]
      · rfl
      · intro e he
        obtain ⟨r, -, rfl⟩ := List.mem_map.1 he
        simp [is_abort_handler_call]

/-- The TSG and channel found by the second step of the recovery. -/
theorem teardown_resolve_targets (hw : Manifest) (env : Env) (id id_type rc_type : Nat)
    (mmfault : Option mmu_fault_info) (g : gk20a) :
    match decide (rc_type = hw.RC_TYPE_MMU_FAULT), mmfault with
      | true, some ⟨_, _, _, some c⟩ =>
        (teardown_resolve hw env id id_type rc_type mmfault g).2.1 = some c ∧
        (teardown_resolve hw env id id_type rc_type mmfault g).1 =
          (if env g.trace (Call.gk20a_is_channel_marked_as_tsg c) ≠ 0 then
            some (g.fifo.channel c).tsgid else none)
      | _, _ =>
        if id_type = hw.ID_TYPE_TSG then
          (teardown_resolve hw env id id_type rc_type mmfault g).1 = some id ∧
          (teardown_resolve hw env id id_type rc_type mmfault g).2.1 = none
        else
          (teardown_resolve hw env id id_type rc_type mmfault g).1 = none ∧
          (teardown_resolve hw env id id_type rc_type mmfault g).2.1 =
            (if id_type = hw.ID_TYPE_CHANNEL ∧ env g.trace (Call.gk20a_channel_get id) ≠ 0 then
              some id else none) := by
  unfold teardown_resolve
  cases hd : decide (rc_type = hw.RC_TYPE_MMU_FAULT) <;>
    rcases mmfault with _ | ⟨pb, en, ct, _ | c⟩ <;> dsimp only <;> split_ifs <;>
    simp_all [ext]

/-- C11, failing input: recovery of TSG 5 after an MMU fault, with engine 1 still running
the TSG when it is preempted and a debugger attached (`gk20a_fifo_should_defer_engine_reset`
answers true). The recovery ends with `deferred_reset_pending == true` and the reset of
engine 1 deferred, yet `gk20a_fifo_set_ctx_mmu_error_tsg` and `gk20a_fifo_error_tsg` were
called before the abort: the test of `deferred_reset_pending` is made before the loop that
decides on the deferral, when the flag is still false. -/
theorem teardown_marks_error_notifier_when_deferred :
    (gv11b_fifo_teardown_ch_tsg sample_hw env_target_present 0 5 sample_hw.ID_TYPE_TSG
        sample_hw.RC_TYPE_MMU_FAULT none sample_g).fifo.deferred_reset_pending = true ∧
    (gv11b_fifo_teardown_ch_tsg sample_hw env_target_present 0 5 sample_hw.ID_TYPE_TSG
        sample_hw.RC_TYPE_MMU_FAULT none sample_g).fifo.deferred_fault_engines = BIT 1 ∧
    (events_since sample_g
      (gv11b_fifo_teardown_ch_tsg sample_hw env_target_present 0 5 sample_hw.ID_TYPE_TSG
        sample_hw.RC_TYPE_MMU_FAULT none sample_g)).filter
        (fun e => is_abort_call e.call || is_engine_reset_call e.call) =
      [⟨Call.gk20a_fifo_set_ctx_mmu_error_tsg 5, 0⟩, ⟨Call.gk20a_fifo_error_tsg 5, 3⟩,
        ⟨Call.gk20a_fifo_abort_tsg 5, 0⟩,
        ⟨Call.gk20a_fifo_should_defer_engine_reset 1 (2 ^ 32 - 1), 3⟩] := by
  rw [teardown_unfold]
  decide

/-- C12: `gv11b_fifo_teardown_ch_tsg` is its last step applied to the device after the
abort step on which, for every runlist in the mask with a non-zero `reset_eng_bitmask` and
every engine set in it, the per-engine step has been run. The per-engine step, when a TSG
or channel is resolved and `gk20a_fifo_should_defer_engine_reset` answers non-zero, or-s
`BIT(engine_id)` into `deferred_fault_engines`, sets `deferred_reset_pending` and makes no
other call; otherwise it tries to take `gr_reset_mutex` and calls
`gk20a_fifo_reset_engine(engine_id)` followed by the release exactly when the try-acquire
returned non-zero, and makes no further call when it returned zero. In every case the
abort handler of the resolved TSG or channel and
`gk20a_fifo_set_runlist_state(mask, RUNLIST_ENABLED)` are among the events of the call. -/
theorem teardown_engine_reset_or_defer (hw : Manifest) (env : Env)
    (act_eng_bitmask id id_type rc_type : Nat) (mmfault : Option mmu_fault_info) (g : gk20a) :
    gv11b_fifo_teardown_ch_tsg hw env act_eng_bitmask id id_type rc_type mmfault g =
      teardown_enable hw env
        (gv11b_fifo_get_runlists_mask hw g.fifo act_eng_bitmask id id_type rc_type mmfault)
        (teardown_resolved hw env act_eng_bitmask id id_type rc_type mmfault g).1
        (teardown_resolved hw env act_eng_bitmask id id_type rc_type mmfault g).2.1
        ((List.range
            (teardown_aborted hw env act_eng_bitmask id id_type rc_type mmfault
              g).fifo.max_runlists).foldl
          (fun g1 runlist_id =>
            if gv11b_fifo_get_runlists_mask hw g.fifo act_eng_bitmask id id_type rc_type
                  mmfault &&& BIT runlist_id ≠ 0 ∧
                (g1.fifo.runlist_info runlist_id).reset_eng_bitmask ≠ 0 then
              (for_each_set_bit (g1.fifo.runlist_info runlist_id).reset_eng_bitmask 32).foldl
                (teardown_reset_engine env
                  (teardown_resolved hw env act_eng_bitmask id id_type rc_type mmfault g).1
                  (teardown_resolved hw env act_eng_bitmask id id_type rc_type mmfault g).2.1
                  (teardown_resolved hw env act_eng_bitmask id id_type rc_type mmfault
                    g).2.2.1) g1
            else g1)
          (teardown_aborted hw env act_eng_bitmask id id_type rc_type mmfault g)) ∧
    (∀ (tsg refch : Option Nat) (client_type : Nat) (g1 : gk20a) (engine_id : Nat),
      teardown_reset_engine env tsg refch client_type g1 engine_id =
        if (refch.isSome ∨ tsg.isSome) ∧
            env g1.trace (Call.gk20a_fifo_should_defer_engine_reset engine_id client_type) ≠ 0
        then
          { g1 with
            fifo := { g1.fifo with
              deferred_fault_engines := g1.fifo.deferred_fault_engines ||| BIT engine_id
              deferred_reset_pending := true }
            trace := g1.trace ++
              [⟨Call.gk20a_fifo_should_defer_engine_reset engine_id client_type,
                env g1.trace
                  (Call.gk20a_fifo_should_defer_engine_reset engine_id client_type)⟩] }
        else
          { g1 with
            trace := (g1.trace ++
              (if refch.isSome ∨ tsg.isSome then
                [⟨Call.gk20a_fifo_should_defer_engine_reset engine_id client_type, 0⟩]
              else []) ++
              (if env (g1.trace ++
                  (if refch.isSome ∨ tsg.isSome then
                    [⟨Call.gk20a_fifo_should_defer_engine_reset engine_id client_type, 0⟩]
                  else [])) Call.nvgpu_mutex_tryacquire_gr_reset ≠ 0 then
                [⟨Call.nvgpu_mutex_tryacquire_gr_reset,
                    env (g1.trace ++
                      (if refch.isSome ∨ tsg.isSome then
                        [⟨Call.gk20a_fifo_should_defer_engine_reset engine_id client_type, 0⟩]
                      else [])) Call.nvgpu_mutex_tryacquire_gr_reset⟩,
                  ⟨Call.gk20a_fifo_reset_engine engine_id, 0⟩,
                  ⟨Call.nvgpu_mutex_release_gr_reset, 0⟩]
              else [⟨Call.nvgpu_mutex_tryacquire_gr_reset, 0⟩])) }) ∧
    (∀ e ∈ abort_handler_events g.fifo.tsg
        (teardown_resolved hw env act_eng_bitmask id id_type rc_type mmfault g).1
        (teardown_resolved hw env act_eng_bitmask id id_type rc_type mmfault g).2.1,
      e ∈ events_since g
        (gv11b_fifo_teardown_ch_tsg hw env act_eng_bitmask id id_type rc_type mmfault g)) ∧
    (⟨Call.gk20a_fifo_set_runlist_state
        (gv11b_fifo_get_runlists_mask hw g.fifo act_eng_bitmask id id_type rc_type mmfault)
        hw.RUNLIST_ENABLED, 0⟩ : Event) ∈ events_since g
      (gv11b_fifo_teardown_ch_tsg hw env act_eng_bitmask id id_type rc_type mmfault g) := by
  obtain ⟨htsg, l1, l2, hsplit, -, hen⟩ :=
    teardown_events_split hw env act_eng_bitmask id id_type rc_type mmfault g
  refine ⟨rfl, ?_, ?_, ?_⟩
  · intro tsg refch client_type g1 engine_id
    unfold teardown_reset_engine
    by_cases h1 : refch.isSome = true ∨ tsg.isSome = true
    · by_cases h2 :
          env g1.trace (Call.gk20a_fifo_should_defer_engine_reset engine_id client_type) = 0
      · by_cases h3 : env (g1.trace ++
            [⟨Call.gk20a_fifo_should_defer_engine_reset engine_id client_type, 0⟩])
            Call.nvgpu_mutex_tryacquire_gr_reset = 0
        · simp [h1, h2, h3, ext, ext_void]
        · simp [h1, h2, h3, ext, ext_void]
      · simp [h1, h2, ext]
    · by_cases h3 : env g1.trace Call.nvgpu_mutex_tryacquire_gr_reset = 0
      · simp [h1, h3, ext, ext_void]
      · simp [h1, h3, ext, ext_void]
  · intro e he
    rw [hsplit]
    refine List.mem_append_left _ (List.mem_append_right _ ?_)
    have hh := teardown_abort_handlers hw env rc_type
      (gv11b_fifo_get_runlists_mask hw g.fifo act_eng_bitmask id id_type rc_type mmfault)
      (teardown_resolved hw env act_eng_bitmask id id_type rc_type mmfault g).1
      (teardown_resolved hw env act_eng_bitmask id id_type rc_type mmfault g).2.1
      (teardown_preempted hw env act_eng_bitmask id id_type rc_type mmfault g)
    rw [htsg] at hh
    rw [← hh] at he
    exact (List.mem_filter.1 he).1
  · rw [hsplit]
    exact List.mem_append_right _ hen

/-- C13, as stated, fails: the recovery of TSG 5 (`id = 5`, `ID_TYPE_TSG`) after an MMU
fault whose record carries channel 4, not marked as part of a TSG, disables the runlist of
TSG 5 and preempts TSG 5, but the only abort handler called is
`gk20a_channel_abort` on channel 4. -/
theorem teardown_aborts_fault_record_channel :
    (events_since sample_g
      (gv11b_fifo_teardown_ch_tsg sample_hw env_zero 0 5 sample_hw.ID_TYPE_TSG
        sample_hw.RC_TYPE_MMU_FAULT
        (some ⟨sample_hw.FIFO_INVAL_PBDMA_ID, sample_hw.FIFO_INVAL_ENGINE_ID, 0, some 4⟩)
        sample_g)).filter
      (fun e => is_abort_handler_call e.call || is_issue_preempt_call e.call ||
        is_set_runlist_state_call e.call) =
      [⟨Call.gk20a_fifo_set_runlist_state 2 sample_hw.RUNLIST_DISABLED, 0⟩,
        ⟨Call.gk20a_fifo_issue_preempt 5 sample_hw.ID_TYPE_TSG, 0⟩,
        ⟨Call.gk20a_channel_abort 4, 0⟩,
        ⟨Call.gk20a_fifo_set_runlist_state 2 sample_hw.RUNLIST_ENABLED, 0⟩] := by
  rw [teardown_unfold]
  decide

/-- C13, amended: among the events of `gv11b_fifo_teardown_ch_tsg` the calls of the abort
handlers are: `gk20a_fifo_abort_tsg` once on the resolved TSG if there is one, else
`gk20a_channel_abort` once on the resolved channel if there is one, else none. When
`rc_type` is `RC_TYPE_MMU_FAULT` and the fault record carries a channel, the resolved
channel is that channel and the resolved TSG is the TSG `refch->tsgid` exactly when
`gk20a_is_channel_marked_as_tsg` answers non-zero for it (none otherwise), whatever `id`
and `id_type` are; in every other case the resolved TSG is `id` exactly for `ID_TYPE_TSG`,
and the resolved channel is `id` exactly for `ID_TYPE_CHANNEL` with a reference taken by
`gk20a_channel_get` (none otherwise). -/
theorem teardown_abort_scope (hw : Manifest) (env : Env)
    (act_eng_bitmask id id_type rc_type : Nat) (mmfault : Option mmu_fault_info) (g : gk20a) :
    (events_since g
        (gv11b_fifo_teardown_ch_tsg hw env act_eng_bitmask id id_type rc_type mmfault g)).filter
      (fun e => is_abort_handler_call e.call) =
      abort_handler_events g.fifo.tsg
        (teardown_resolved hw env act_eng_bitmask id id_type rc_type mmfault g).1
        (teardown_resolved hw env act_eng_bitmask id id_type rc_type mmfault g).2.1 ∧
    (match decide (rc_type = hw.RC_TYPE_MMU_FAULT), mmfault with
      | true, some ⟨_, _, _, some c⟩ =>
        (teardown_resolved hw env act_eng_bitmask id id_type rc_type mmfault g).2.1 = some c ∧
        (teardown_resolved hw env act_eng_bitmask id id_type rc_type mmfault g).1 =
          (if env (teardown_disable hw env act_eng_bitmask id id_type rc_type mmfault g).2.trace
              (Call.gk20a_is_channel_marked_as_tsg c) ≠ 0 then
            some (g.fifo.channel c).tsgid else none)
      | _, _ =>
        if id_type = hw.ID_TYPE_TSG then
          (teardown_resolved hw env act_eng_bitmask id id_type rc_type mmfault g).1 = some id ∧
          (teardown_resolved hw env act_eng_bitmask id id_type rc_type mmfault g).2.1 = none
        else
          (teardown_resolved hw env act_eng_bitmask id id_type rc_type mmfault g).1 = none ∧
          (teardown_resolved hw env act_eng_bitmask id id_type rc_type mmfault g).2.1 =
            (if id_type = hw.ID_TYPE_CHANNEL ∧
                env (teardown_disable hw env act_eng_bitmask id id_type rc_type mmfault
                  g).2.trace (Call.gk20a_channel_get id) ≠ 0 then
              some id else none)) := by
  obtain ⟨htsg, l1, l2, hsplit, hno, -⟩ :=
    teardown_events_split hw env act_eng_bitmask id id_type rc_type mmfault g
  constructor
  · have hh := teardown_abort_handlers hw env rc_type
      (gv11b_fifo_get_runlists_mask hw g.fifo act_eng_bitmask id id_type rc_type mmfault)
      (teardown_resolved hw env act_eng_bitmask id id_type rc_type mmfault g).1
      (teardown_resolved hw env act_eng_bitmask id id_type rc_type mmfault g).2.1
      (teardown_preempted hw env act_eng_bitmask id id_type rc_type mmfault g)
    rw [htsg] at hh
    have hnil : ∀ l : List Event, (∀ e ∈ l, e ∈ l1 ++ l2) →
        l.filter (fun e => is_abort_handler_call e.call) = [] := by
      intro l hl
      rw [List.filter_eq_nil_iff]
      intro e he
      have := hno e (hl e he)
      revert this
      cases e.call <;> simp [is_abort_call, is_abort_handler_call]
    rw [hsplit, List.filter_append, List.filter_append]
    unfold teardown_aborted
    rw [hh, hnil l1 (fun e he => List.mem_append_left _ he),
      hnil l2 (fun e he => List.mem_append_right _ he)]
    simp
  · have hch := (steps_teardown_disable hw env act_eng_bitmask id id_type rc_type mmfault
      g).channel
    have hr := teardown_resolve_targets hw env id id_type rc_type mmfault
      (teardown_disable hw env act_eng_bitmask id id_type rc_type mmfault g).2
    rw [hch] at hr
    exact hr

/-- C14, failing input: the bit of engine 0 was left in
`runlist_info[0].reset_eng_bitmask` by an earlier preemption. A recovery with an unknown
id and `act_eng_bitmask = BIT(0)` freezes runlist 0 and uses the runlist-level preempt,
which marks no engine and does not clear the bitmask; the recovery then takes
`gr_reset_mutex` and resets engine 0. -/
theorem teardown_acts_on_stale_reset_bit :
    (sample_g_stale.fifo.runlist_info 0).reset_eng_bitmask = 1 ∧
    gv11b_fifo_get_runlists_mask sample_hw sample_g_stale.fifo 1 0 sample_hw.ID_TYPE_UNKNOWN 0
      none = 1 ∧
    ((gv11b_fifo_preempt_runlists sample_hw env_target_present 1
      sample_g_stale).2.fifo.runlist_info 0).reset_eng_bitmask = 1 ∧
    (events_since sample_g_stale
      (gv11b_fifo_teardown_ch_tsg sample_hw env_target_present 1 0 sample_hw.ID_TYPE_UNKNOWN
        0 none sample_g_stale)).filter
        (fun e => is_engine_reset_call e.call) =
      [⟨Call.nvgpu_mutex_tryacquire_gr_reset, 3⟩, ⟨Call.gk20a_fifo_reset_engine 0, 0⟩,
       ⟨Call.nvgpu_mutex_release_gr_reset, 0⟩] := by
  rw [teardown_unfold]
  decide

/-! ### The ECC decoders -/

theorem readl_snd_eq {env : Env} {r : Reg} {g g1 : gk20a} {st : Nat}
    (h : gk20a_readl env r g = (st, g1)) :
    g1 = { g with trace := g.trace ++ [⟨Call.gk20a_readl r, st⟩] } := by
  unfold gk20a_readl at h
  simp only [Prod.mk.injEq] at h
  obtain ⟨rfl, rfl⟩ := h
  rfl

/-- C15: each of the six SM and GCC ECC decoders, called in a device in which the value `st`
read from the status register of its unit has no corrected-error bit and no
uncorrected-error bit of the unit, returns the device at entry with the read of the status
register as only new event: no counter of `g->ecc.gr` changes, no register is written, no
error is reported (and `gr_gv11b_handle_gcc_exception` returns 0). This holds for every
device, hence also for the device left by an earlier such call. -/
theorem ecc_decoders_clean_status_noop (hw : GrManifest) (env : Env) (gpc tpc : Nat) :
    (∀ (g g1 : gk20a) (st : Nat),
      gk20a_readl env (Reg.gr .gr_pri_gpc0_tpc0_sm_l1_tag_ecc_status_r
        (u32 (hw.GPU_LIT_GPC_STRIDE * gpc + hw.GPU_LIT_TPC_IN_GPC_STRIDE * tpc))) g = (st, g1) →
      st &&& (hw.gr_pri_gpc0_tpc0_sm_l1_tag_ecc.status_corrected_err_el1_0_m |||
          hw.gr_pri_gpc0_tpc0_sm_l1_tag_ecc.status_corrected_err_el1_1_m |||
          hw.gr_pri_gpc0_tpc0_sm_l1_tag_ecc.status_corrected_err_pixrpf_m |||
          hw.gr_pri_gpc0_tpc0_sm_l1_tag_ecc.status_corrected_err_miss_fifo_m) = 0 →
      st &&& (hw.gr_pri_gpc0_tpc0_sm_l1_tag_ecc.status_uncorrected_err_el1_0_m |||
          hw.gr_pri_gpc0_tpc0_sm_l1_tag_ecc.status_uncorrected_err_el1_1_m |||
          hw.gr_pri_gpc0_tpc0_sm_l1_tag_ecc.status_uncorrected_err_pixrpf_m |||
          hw.gr_pri_gpc0_tpc0_sm_l1_tag_ecc.status_uncorrected_err_miss_fifo_m) = 0 →
      gr_gv11b_handle_l1_tag_exception hw env gpc tpc g = g1 ∧
      g1 = { g with trace := g.trace ++ [⟨Call.gk20a_readl (Reg.gr .gr_pri_gpc0_tpc0_sm_l1_tag_ecc_status_r
        (u32 (hw.GPU_LIT_GPC_STRIDE * gpc + hw.GPU_LIT_TPC_IN_GPC_STRIDE * tpc))), st⟩] }) ∧
    (∀ (g g1 : gk20a) (st : Nat),
      gk20a_readl env (Reg.gr .gr_pri_gpc0_tpc0_sm_lrf_ecc_status_r
        (u32 (hw.GPU_LIT_GPC_STRIDE * gpc + hw.GPU_LIT_TPC_IN_GPC_STRIDE * tpc))) g = (st, g1) →
      st &&& (hw.gr_pri_gpc0_tpc0_sm_lrf_ecc.status_corrected_err_qrfdp0_m |||
          hw.gr_pri_gpc0_tpc0_sm_lrf_ecc.status_corrected_err_qrfdp1_m |||
          hw.gr_pri_gpc0_tpc0_sm_lrf_ecc.status_corrected_err_qrfdp2_m |||
          hw.gr_pri_gpc0_tpc0_sm_lrf_ecc.status_corrected_err_qrfdp3_m |||
          hw.gr_pri_gpc0_tpc0_sm_lrf_ecc.status_corrected_err_qrfdp4_m |||
          hw.gr_pri_gpc0_tpc0_sm_lrf_ecc.status_corrected_err_qrfdp5_m |||
          hw.gr_pri_gpc0_tpc0_sm_lrf_ecc.status_corrected_err_qrfdp6_m |||
          hw.gr_pri_gpc0_tpc0_sm_lrf_ecc.status_corrected_err_qrfdp7_m) = 0 →
      st &&& (hw.gr_pri_gpc0_tpc0_sm_lrf_ecc.status_uncorrected_err_qrfdp0_m |||
          hw.gr_pri_gpc0_tpc0_sm_lrf_ecc.status_uncorrected_err_qrfdp1_m |||
          hw.gr_pri_gpc0_tpc0_sm_lrf_ecc.status_uncorrected_err_qrfdp2_m |||
          hw.gr_pri_gpc0_tpc0_sm_lrf_ecc.status_uncorrected_err_qrfdp3_m |||
          hw.gr_pri_gpc0_tpc0_sm_lrf_ecc.status_uncorrected_err_qrfdp4_m |||
          hw.gr_pri_gpc0_tpc0_sm_lrf_ecc.status_uncorrected_err_qrfdp5_m |||
          hw.gr_pri_gpc0_tpc0_sm_lrf_ecc.status_uncorrected_err_qrfdp6_m |||
          hw.gr_pri_gpc0_tpc0_sm_lrf_ecc.status_uncorrected_err_qrfdp7_m) = 0 →
      gr_gv11b_handle_lrf_exception hw env gpc tpc g = g1 ∧
      g1 = { g with trace := g.trace ++ [⟨Call.gk20a_readl (Reg.gr .gr_pri_gpc0_tpc0_sm_lrf_ecc_status_r
        (u32 (hw.GPU_LIT_GPC_STRIDE * gpc + hw.GPU_LIT_TPC_IN_GPC_STRIDE * tpc))), st⟩] }) ∧
    (∀ (g g1 : gk20a) (st : Nat),
      gk20a_readl env (Reg.gr .gr_pri_gpc0_tpc0_sm_cbu_ecc_status_r
        (u32 (hw.GPU_LIT_GPC_STRIDE * gpc + hw.GPU_LIT_TPC_IN_GPC_STRIDE * tpc))) g = (st, g1) →
      st &&& (hw.gr_pri_gpc0_tpc0_sm_cbu_ecc.status_corrected_err_warp_sm0_m |||
          hw.gr_pri_gpc0_tpc0_sm_cbu_ecc.status_corrected_err_warp_sm1_m |||
          hw.gr_pri_gpc0_tpc0_sm_cbu_ecc.status_corrected_err_barrier_sm0_m |||
          hw.gr_pri_gpc0_tpc0_sm_cbu_ecc.status_corrected_err_barrier_sm1_m) = 0 →
      st &&& (hw.gr_pri_gpc0_tpc0_sm_cbu_ecc.status_uncorrected_err_warp_sm0_m |||
          hw.gr_pri_gpc0_tpc0_sm_cbu_ecc.status_uncorrected_err_warp_sm1_m |||
          hw.gr_pri_gpc0_tpc0_sm_cbu_ecc.status_uncorrected_err_barrier_sm0_m |||
          hw.gr_pri_gpc0_tpc0_sm_cbu_ecc.status_uncorrected_err_barrier_sm1_m) = 0 →
      gr_gv11b_handle_cbu_exception hw env gpc tpc g = g1 ∧
      g1 = { g with trace := g.trace ++ [⟨Call.gk20a_readl (Reg.gr .gr_pri_gpc0_tpc0_sm_cbu_ecc_status_r
        (u32 (hw.GPU_LIT_GPC_STRIDE * gpc + hw.GPU_LIT_TPC_IN_GPC_STRIDE * tpc))), st⟩] }) ∧
    (∀ (g g1 : gk20a) (st : Nat),
      gk20a_readl env (Reg.gr .gr_pri_gpc0_tpc0_sm_l1_data_ecc_status_r
        (u32 (hw.GPU_LIT_GPC_STRIDE * gpc + hw.GPU_LIT_TPC_IN_GPC_STRIDE * tpc))) g = (st, g1) →
      st &&& (hw.gr_pri_gpc0_tpc0_sm_l1_data_ecc.status_corrected_err_el1_0_m |||
          hw.gr_pri_gpc0_tpc0_sm_l1_data_ecc.status_corrected_err_el1_1_m) = 0 →
      st &&& (hw.gr_pri_gpc0_tpc0_sm_l1_data_ecc.status_uncorrected_err_el1_0_m |||
          hw.gr_pri_gpc0_tpc0_sm_l1_data_ecc.status_uncorrected_err_el1_1_m) = 0 →
      gr_gv11b_handle_l1_data_exception hw env gpc tpc g = g1 ∧
      g1 = { g with trace := g.trace ++ [⟨Call.gk20a_readl (Reg.gr .gr_pri_gpc0_tpc0_sm_l1_data_ecc_status_r
        (u32 (hw.GPU_LIT_GPC_STRIDE * gpc + hw.GPU_LIT_TPC_IN_GPC_STRIDE * tpc))), st⟩] }) ∧
    (∀ (g g1 : gk20a) (st : Nat),
      gk20a_readl env (Reg.gr .gr_pri_gpc0_tpc0_sm_icache_ecc_status_r
        (u32 (hw.GPU_LIT_GPC_STRIDE * gpc + hw.GPU_LIT_TPC_IN_GPC_STRIDE * tpc))) g = (st, g1) →
      st &&& (hw.gr_pri_gpc0_tpc0_sm_icache_ecc.status_corrected_err_l0_data_m |||
          hw.gr_pri_gpc0_tpc0_sm_icache_ecc.status_corrected_err_l0_predecode_m |||
          hw.gr_pri_gpc0_tpc0_sm_icache_ecc.status_corrected_err_l1_data_m |||
          hw.gr_pri_gpc0_tpc0_sm_icache_ecc.status_corrected_err_l1_predecode_m) = 0 →
      st &&& (hw.gr_pri_gpc0_tpc0_sm_icache_ecc.status_uncorrected_err_l0_data_m |||
          hw.gr_pri_gpc0_tpc0_sm_icache_ecc.status_uncorrected_err_l0_predecode_m |||
          hw.gr_pri_gpc0_tpc0_sm_icache_ecc.status_uncorrected_err_l1_data_m |||
          hw.gr_pri_gpc0_tpc0_sm_icache_ecc.status_uncorrected_err_l1_predecode_m) = 0 →
      gr_gv11b_handle_icache_exception hw env gpc tpc g = g1 ∧
      g1 = { g with trace := g.trace ++ [⟨Call.gk20a_readl (Reg.gr .gr_pri_gpc0_tpc0_sm_icache_ecc_status_r
        (u32 (hw.GPU_LIT_GPC_STRIDE * gpc + hw.GPU_LIT_TPC_IN_GPC_STRIDE * tpc))), st⟩] }) ∧
    (∀ (g g1 : gk20a) (st : Nat),
      gk20a_readl env (Reg.gr .gr_pri_gpc0_gcc_l15_ecc_status_r
        (u32 (hw.GPU_LIT_GPC_STRIDE * gpc))) g = (st, g1) →
      st &&& (hw.gr_pri_gpc0_gcc_l15_ecc.status_corrected_err_bank0_m |||
          hw.gr_pri_gpc0_gcc_l15_ecc.status_corrected_err_bank1_m) = 0 →
      st &&& (hw.gr_pri_gpc0_gcc_l15_ecc.status_uncorrected_err_bank0_m |||
          hw.gr_pri_gpc0_gcc_l15_ecc.status_uncorrected_err_bank1_m) = 0 →
      gr_gv11b_handle_gcc_exception hw env gpc tpc g = (0, g1) ∧
      g1 = { g with trace := g.trace ++ [⟨Call.gk20a_readl (Reg.gr .gr_pri_gpc0_gcc_l15_ecc_status_r
        (u32 (hw.GPU_LIT_GPC_STRIDE * gpc))), st⟩] }) := by
  refine ⟨?_, ?_, ?_, ?_, ?_, ?_⟩ <;> intro g g1 st h1 h2 h3
  · refine ⟨?_, readl_snd_eq h1⟩
    unfold gr_gv11b_handle_l1_tag_exception
    simp only [h1, h2, h3, and_self, if_true]
  · refine ⟨?_, readl_snd_eq h1⟩
    unfold gr_gv11b_handle_lrf_exception
    simp only [h1, h2, h3, and_self, if_true]
  · refine ⟨?_, readl_snd_eq h1⟩
    unfold gr_gv11b_handle_cbu_exception
    simp only [h1, h2, h3, and_self, if_true]
  · refine ⟨?_, readl_snd_eq h1⟩
    unfold gr_gv11b_handle_l1_data_exception
    simp only [h1, h2, h3, and_self, if_true]
  · refine ⟨?_, readl_snd_eq h1⟩
    unfold gr_gv11b_handle_icache_exception
    simp only [h1, h2, h3, and_self, if_true]
  · refine ⟨?_, readl_snd_eq h1⟩
    unfold gr_gv11b_handle_gcc_exception
    simp only [h1, h2, h3, and_self, if_true]
/-- Witness for C15: with every register reading 0 the six decoders, called for GPC 1 and
TPC 2 of the sample device, only read their status register; a second call of the LRF
decoder again only reads it. -/
theorem ecc_decoders_clean_status_noop_witness :
    gr_gv11b_handle_l1_tag_exception sample_gr_hw env_zero 1 2 sample_g =
      { sample_g with trace :=
        [⟨Call.gk20a_readl (Reg.gr .gr_pri_gpc0_tpc0_sm_l1_tag_ecc_status_r 36864), 0⟩] } ∧
    gr_gv11b_handle_lrf_exception sample_gr_hw env_zero 1 2
        (gr_gv11b_handle_lrf_exception sample_gr_hw env_zero 1 2 sample_g) =
      { sample_g with trace :=
        [⟨Call.gk20a_readl (Reg.gr .gr_pri_gpc0_tpc0_sm_lrf_ecc_status_r 36864), 0⟩,
          ⟨Call.gk20a_readl (Reg.gr .gr_pri_gpc0_tpc0_sm_lrf_ecc_status_r 36864), 0⟩] } ∧
    gr_gv11b_handle_cbu_exception sample_gr_hw env_zero 1 2 sample_g =
      { sample_g with trace :=
        [⟨Call.gk20a_readl (Reg.gr .gr_pri_gpc0_tpc0_sm_cbu_ecc_status_r 36864), 0⟩] } ∧
    gr_gv11b_handle_l1_data_exception sample_gr_hw env_zero 1 2 sample_g =
      { sample_g with trace :=
        [⟨Call.gk20a_readl (Reg.gr .gr_pri_gpc0_tpc0_sm_l1_data_ecc_status_r 36864), 0⟩] } ∧
    gr_gv11b_handle_icache_exception sample_gr_hw env_zero 1 2 sample_g =
      { sample_g with trace :=
        [⟨Call.gk20a_readl (Reg.gr .gr_pri_gpc0_tpc0_sm_icache_ecc_status_r 36864), 0⟩] } ∧
    gr_gv11b_handle_gcc_exception sample_gr_hw env_zero 1 2 sample_g =
      (0, { sample_g with trace :=
        [⟨Call.gk20a_readl (Reg.gr .gr_pri_gpc0_gcc_l15_ecc_status_r 32768), 0⟩] }) := by
  have h := ecc_decoders_clean_status_noop sample_gr_hw env_zero 1 2
  have hl1 := h.2.1 sample_g _ 0 rfl (by decide) (by decide)
  refine ⟨(h.1 sample_g _ 0 rfl (by decide) (by decide)).1, ?_,
    (h.2.2.1 sample_g _ 0 rfl (by decide) (by decide)).1,
    (h.2.2.2.1 sample_g _ 0 rfl (by decide) (by decide)).1,
    (h.2.2.2.2.1 sample_g _ 0 rfl (by decide) (by decide)).1,
    (h.2.2.2.2.2 sample_g _ 0 rfl (by decide) (by decide)).1⟩
  rw [hl1.1]
  exact (h.2.1 _ _ 0 rfl (by decide) (by decide)).1

theorem u32_add_u32 (a b : Nat) : u32 (a + u32 b) = u32 (a + b) := by
  unfold u32
  omega

theorem u32_of_lt {a : Nat} (h : a < 2 ^ 32) : u32 a = a := Nat.mod_eq_of_lt h

theorem readl_ecc_gr {env : Env} {r : Reg} {g g1 : gk20a} {st : Nat}
    (h : gk20a_readl env r g = (st, g1)) : g1.ecc_gr = g.ecc_gr := by
  rw [readl_snd_eq h]

/-- C16, as stated, fails: in a device whose LRF status register reads the
corrected-overflow flag alone (no error bit of the unit), `gr_gv11b_handle_lrf_exception`
returns after the read of the status register and the counter of GPC 1, TPC 2 keeps its
value, although the overflow flag is set. -/
theorem lrf_exception_overflow_flag_alone :
    sample_gr_hw.gr_pri_gpc0_tpc0_sm_lrf_ecc.status_corrected_err_total_counter_overflow_v
      65536 = 1 ∧
    events_since sample_g
        (gr_gv11b_handle_lrf_exception sample_gr_hw (env_reads 65536) 1 2 sample_g) =
      [⟨Call.gk20a_readl (Reg.gr .gr_pri_gpc0_tpc0_sm_lrf_ecc_status_r 36864), 65536⟩] ∧
    (gr_gv11b_handle_lrf_exception sample_gr_hw (env_reads 65536) 1 2
      sample_g).ecc_gr.sm_lrf_ecc_single_err_count 1 2 =
        sample_g.ecc_gr.sm_lrf_ecc_single_err_count 1 2 ∧
    sample_g.ecc_gr.sm_lrf_ecc_single_err_count 1 2 ≠
      u32 (sample_g.ecc_gr.sm_lrf_ecc_single_err_count 1 2 +
        sample_gr_hw.gr_pri_gpc0_tpc0_sm_lrf_ecc.corrected_err_count_total_v 65536 +
        BIT32 sample_gr_hw.gr_pri_gpc0_tpc0_sm_lrf_ecc.corrected_err_count_total_s) := by
  decide

/-- C16, amended: let `st` be the value that `gr_gv11b_handle_lrf_exception` reads from the
LRF status register and `cc`, `uc` the values it then reads from the corrected and the
uncorrected count register. If `st` has a corrected-error or an uncorrected-error bit of
the unit and the two counters of `[gpc][tpc]` hold `u32` values, then after the call the
corrected counter is its value before plus the `total` field of `cc`, plus
`BIT32(corrected_err_count_total_s)` when the corrected overflow field of `st` is non-zero,
and the uncorrected counter likewise from `uc` and the uncorrected overflow field; the
sums are taken modulo `2^32`. -/
theorem lrf_exception_accumulates (hw : GrManifest) (env : Env) (gpc tpc : Nat)
    (g g1 g2 g3 : gk20a) (st cc uc : Nat)
    (h1 : gk20a_readl env (Reg.gr .gr_pri_gpc0_tpc0_sm_lrf_ecc_status_r
      (u32 (hw.GPU_LIT_GPC_STRIDE * gpc + hw.GPU_LIT_TPC_IN_GPC_STRIDE * tpc))) g = (st, g1))
    (h2 : gk20a_readl env (Reg.gr .gr_pri_gpc0_tpc0_sm_lrf_ecc_corrected_err_count_r
      (u32 (hw.GPU_LIT_GPC_STRIDE * gpc + hw.GPU_LIT_TPC_IN_GPC_STRIDE * tpc))) g1 = (cc, g2))
    (h3 : gk20a_readl env (Reg.gr .gr_pri_gpc0_tpc0_sm_lrf_ecc_uncorrected_err_count_r
      (u32 (hw.GPU_LIT_GPC_STRIDE * gpc + hw.GPU_LIT_TPC_IN_GPC_STRIDE * tpc))) g2 = (uc, g3))
    (hst : st &&& (hw.gr_pri_gpc0_tpc0_sm_lrf_ecc.status_corrected_err_qrfdp0_m |||
      hw.gr_pri_gpc0_tpc0_sm_lrf_ecc.status_corrected_err_qrfdp1_m |||
      hw.gr_pri_gpc0_tpc0_sm_lrf_ecc.status_corrected_err_qrfdp2_m |||
      hw.gr_pri_gpc0_tpc0_sm_lrf_ecc.status_corrected_err_qrfdp3_m |||
      hw.gr_pri_gpc0_tpc0_sm_lrf_ecc.status_corrected_err_qrfdp4_m |||
      hw.gr_pri_gpc0_tpc0_sm_lrf_ecc.status_corrected_err_qrfdp5_m |||
      hw.gr_pri_gpc0_tpc0_sm_lrf_ecc.status_corrected_err_qrfdp6_m |||
      hw.gr_pri_gpc0_tpc0_sm_lrf_ecc.status_corrected_err_qrfdp7_m) ≠ 0 ∨
      st &&& (hw.gr_pri_gpc0_tpc0_sm_lrf_ecc.status_uncorrected_err_qrfdp0_m |||
      hw.gr_pri_gpc0_tpc0_sm_lrf_ecc.status_uncorrected_err_qrfdp1_m |||
      hw.gr_pri_gpc0_tpc0_sm_lrf_ecc.status_uncorrected_err_qrfdp2_m |||
      hw.gr_pri_gpc0_tpc0_sm_lrf_ecc.status_uncorrected_err_qrfdp3_m |||
      hw.gr_pri_gpc0_tpc0_sm_lrf_ecc.status_uncorrected_err_qrfdp4_m |||
      hw.gr_pri_gpc0_tpc0_sm_lrf_ecc.status_uncorrected_err_qrfdp5_m |||
      hw.gr_pri_gpc0_tpc0_sm_lrf_ecc.status_uncorrected_err_qrfdp6_m |||
      hw.gr_pri_gpc0_tpc0_sm_lrf_ecc.status_uncorrected_err_qrfdp7_m) ≠ 0)
    (hc : g.ecc_gr.sm_lrf_ecc_single_err_count gpc tpc < 2 ^ 32)
    (hu : g.ecc_gr.sm_lrf_ecc_double_err_count gpc tpc < 2 ^ 32) :
    (gr_gv11b_handle_lrf_exception hw env gpc tpc g).ecc_gr.sm_lrf_ecc_single_err_count
        gpc tpc =
      u32 (g.ecc_gr.sm_lrf_ecc_single_err_count gpc tpc +
        u32 (hw.gr_pri_gpc0_tpc0_sm_lrf_ecc.corrected_err_count_total_v cc) +
        (if u32 (hw.gr_pri_gpc0_tpc0_sm_lrf_ecc.status_corrected_err_total_counter_overflow_v
            st) ≠ 0 then
          BIT32 hw.gr_pri_gpc0_tpc0_sm_lrf_ecc.corrected_err_count_total_s else 0)) ∧
    (gr_gv11b_handle_lrf_exception hw env gpc tpc g).ecc_gr.sm_lrf_ecc_double_err_count
        gpc tpc =
      u32 (g.ecc_gr.sm_lrf_ecc_double_err_count gpc tpc +
        u32 (hw.gr_pri_gpc0_tpc0_sm_lrf_ecc.uncorrected_err_count_total_v uc) +
        (if u32 (hw.gr_pri_gpc0_tpc0_sm_lrf_ecc.status_uncorrected_err_total_counter_overflow_v
            st) ≠ 0 then
          BIT32 hw.gr_pri_gpc0_tpc0_sm_lrf_ecc.uncorrected_err_count_total_s else 0)) := by
  have e1 := readl_ecc_gr h1
  have e2 := readl_ecc_gr h2
  have e3 := readl_ecc_gr h3
  unfold gr_gv11b_handle_lrf_exception
  simp only [h1, h2, h3]
  rw [if_neg (not_and_or.mpr hst)]
  simp only [gk20a_writel, ext_void, decide_eq_true_eq, gt_iff_lt, Nat.pos_iff_ne_zero]
  by_cases ho : u32 (hw.gr_pri_gpc0_tpc0_sm_lrf_ecc.status_corrected_err_total_counter_overflow_v
      st) = 0 <;>
  by_cases hd : u32 (hw.gr_pri_gpc0_tpc0_sm_lrf_ecc.corrected_err_count_total_v cc) = 0 <;>
  by_cases ho2 :
    u32 (hw.gr_pri_gpc0_tpc0_sm_lrf_ecc.status_uncorrected_err_total_counter_overflow_v
      st) = 0 <;>
  by_cases hd2 : u32 (hw.gr_pri_gpc0_tpc0_sm_lrf_ecc.uncorrected_err_count_total_v uc) = 0 <;>
  simp [ho, hd, ho2, hd2, counter_add2, e1, e2, e3, u32_add_u32, u32_of_lt hc, u32_of_lt hu,
    Nat.add_assoc]

/-- Witness for C16: the LRF status register reads a corrected error of source 0 with the
corrected-overflow flag, both count registers read a `total` of 1: the corrected counter
of GPC 1, TPC 2 goes from 0 to `1 + 2^16`, the uncorrected one from 0 to 1. -/
theorem lrf_exception_accumulates_witness :
    (gr_gv11b_handle_lrf_exception sample_gr_hw (env_reads 65537) 1 2
      sample_g).ecc_gr.sm_lrf_ecc_single_err_count 1 2 = 1 + 2 ^ 16 ∧
    (gr_gv11b_handle_lrf_exception sample_gr_hw (env_reads 65537) 1 2
      sample_g).ecc_gr.sm_lrf_ecc_double_err_count 1 2 = 1 := by
  have h := lrf_exception_accumulates sample_gr_hw (env_reads 65537) 1 2 sample_g _ _ _
    65537 65537 65537 rfl rfl rfl (by decide) (by decide) (by decide)
  exact ⟨h.1.trans (by decide), h.2.trans (by decide)⟩

theorem readl_trace {env : Env} {r : Reg} {g g1 : gk20a} {st : Nat}
    (h : gk20a_readl env r g = (st, g1)) :
    g1.trace = g.trace ++ [⟨Call.gk20a_readl r, st⟩] := by
  rw [readl_snd_eq h]

/-- C18: let `st` be the value that `gr_gv11b_handle_cbu_exception` reads from the CBU
status register and `cc`, `uc` the values it then reads from the corrected and the
uncorrected count register. If `st` has a corrected-error or an uncorrected-error bit of
the unit, the register writes of the call are, in order: 0 to the corrected count register
exactly when the `total` field of `cc` is positive or the corrected overflow field of `st`
is non-zero; 0 to the uncorrected count register exactly when the `total` field of `uc` is
positive or the uncorrected overflow field of `st` is non-zero; and, in every case, the
reset value to the status register. -/
theorem cbu_exception_clears (hw : GrManifest) (env : Env) (gpc tpc : Nat)
    (g g1 g2 g3 : gk20a) (st cc uc : Nat)
    (h1 : gk20a_readl env (Reg.gr .gr_pri_gpc0_tpc0_sm_cbu_ecc_status_r
      (u32 (hw.GPU_LIT_GPC_STRIDE * gpc + hw.GPU_LIT_TPC_IN_GPC_STRIDE * tpc))) g = (st, g1))
    (h2 : gk20a_readl env (Reg.gr .gr_pri_gpc0_tpc0_sm_cbu_ecc_corrected_err_count_r
      (u32 (hw.GPU_LIT_GPC_STRIDE * gpc + hw.GPU_LIT_TPC_IN_GPC_STRIDE * tpc))) g1 = (cc, g2))
    (h3 : gk20a_readl env (Reg.gr .gr_pri_gpc0_tpc0_sm_cbu_ecc_uncorrected_err_count_r
      (u32 (hw.GPU_LIT_GPC_STRIDE * gpc + hw.GPU_LIT_TPC_IN_GPC_STRIDE * tpc))) g2 = (uc, g3))
    (hst : st &&& (hw.gr_pri_gpc0_tpc0_sm_cbu_ecc.status_corrected_err_warp_sm0_m |||
      hw.gr_pri_gpc0_tpc0_sm_cbu_ecc.status_corrected_err_warp_sm1_m |||
      hw.gr_pri_gpc0_tpc0_sm_cbu_ecc.status_corrected_err_barrier_sm0_m |||
      hw.gr_pri_gpc0_tpc0_sm_cbu_ecc.status_corrected_err_barrier_sm1_m) ≠ 0 ∨
      st &&& (hw.gr_pri_gpc0_tpc0_sm_cbu_ecc.status_uncorrected_err_warp_sm0_m |||
      hw.gr_pri_gpc0_tpc0_sm_cbu_ecc.status_uncorrected_err_warp_sm1_m |||
      hw.gr_pri_gpc0_tpc0_sm_cbu_ecc.status_uncorrected_err_barrier_sm0_m |||
      hw.gr_pri_gpc0_tpc0_sm_cbu_ecc.status_uncorrected_err_barrier_sm1_m) ≠ 0) :
    (events_since g (gr_gv11b_handle_cbu_exception hw env gpc tpc g)).filter
        (fun e => is_writel_call e.call) =
      (if u32 (hw.gr_pri_gpc0_tpc0_sm_cbu_ecc.corrected_err_count_total_v cc) > 0 ∨
          u32 (hw.gr_pri_gpc0_tpc0_sm_cbu_ecc.status_corrected_err_total_counter_overflow_v
            st) ≠ 0 then
        [(⟨Call.gk20a_writel (Reg.gr .gr_pri_gpc0_tpc0_sm_cbu_ecc_corrected_err_count_r
          (u32 (hw.GPU_LIT_GPC_STRIDE * gpc + hw.GPU_LIT_TPC_IN_GPC_STRIDE * tpc))) 0, 0⟩ : Event)]
      else []) ++
      (if u32 (hw.gr_pri_gpc0_tpc0_sm_cbu_ecc.uncorrected_err_count_total_v uc) > 0 ∨
          u32 (hw.gr_pri_gpc0_tpc0_sm_cbu_ecc.status_uncorrected_err_total_counter_overflow_v
            st) ≠ 0 then
        [(⟨Call.gk20a_writel (Reg.gr .gr_pri_gpc0_tpc0_sm_cbu_ecc_uncorrected_err_count_r
          (u32 (hw.GPU_LIT_GPC_STRIDE * gpc + hw.GPU_LIT_TPC_IN_GPC_STRIDE * tpc))) 0, 0⟩ : Event)]
      else []) ++
      [⟨Call.gk20a_writel (Reg.gr .gr_pri_gpc0_tpc0_sm_cbu_ecc_status_r
        (u32 (hw.GPU_LIT_GPC_STRIDE * gpc + hw.GPU_LIT_TPC_IN_GPC_STRIDE * tpc)))
        hw.gr_pri_gpc0_tpc0_sm_cbu_ecc.status_reset_task_f, 0⟩] := by
  have t3 : g3.trace = g.trace ++ [⟨Call.gk20a_readl (Reg.gr
      .gr_pri_gpc0_tpc0_sm_cbu_ecc_status_r
        (u32 (hw.GPU_LIT_GPC_STRIDE * gpc + hw.GPU_LIT_TPC_IN_GPC_STRIDE * tpc))), st⟩,
      ⟨Call.gk20a_readl (Reg.gr .gr_pri_gpc0_tpc0_sm_cbu_ecc_corrected_err_count_r
        (u32 (hw.GPU_LIT_GPC_STRIDE * gpc + hw.GPU_LIT_TPC_IN_GPC_STRIDE * tpc))), cc⟩,
      ⟨Call.gk20a_readl (Reg.gr .gr_pri_gpc0_tpc0_sm_cbu_ecc_uncorrected_err_count_r
        (u32 (hw.GPU_LIT_GPC_STRIDE * gpc + hw.GPU_LIT_TPC_IN_GPC_STRIDE * tpc))), uc⟩] := by
    rw [readl_trace h3, readl_trace h2, readl_trace h1]
    simp
  unfold gr_gv11b_handle_cbu_exception
  simp only [h1, h2, h3]
  rw [if_neg (not_and_or.mpr hst)]
  simp only [gk20a_writel, ext_void, decide_eq_true_eq, gt_iff_lt, Nat.pos_iff_ne_zero]
  by_cases ho : u32 (hw.gr_pri_gpc0_tpc0_sm_cbu_ecc.status_corrected_err_total_counter_overflow_v
      st) = 0 <;>
  by_cases hd : u32 (hw.gr_pri_gpc0_tpc0_sm_cbu_ecc.corrected_err_count_total_v cc) = 0 <;>
  by_cases ho2 :
    u32 (hw.gr_pri_gpc0_tpc0_sm_cbu_ecc.status_uncorrected_err_total_counter_overflow_v
      st) = 0 <;>
  by_cases hd2 : u32 (hw.gr_pri_gpc0_tpc0_sm_cbu_ecc.uncorrected_err_count_total_v uc) = 0 <;>
  simp [ho, hd, ho2, hd2, events_since, t3, is_writel_call]

/-- Witness for C18: the CBU status register reads a corrected error of source 0 with the
corrected-overflow flag while both count registers read 0: the corrected count register is
written to 0, the uncorrected one is not written, the status register is reset. -/
theorem cbu_exception_clears_witness :
    (events_since sample_g
      (gr_gv11b_handle_cbu_exception sample_gr_hw (env_cbu 65537 0 0) 1 2 sample_g)).filter
        (fun e => is_writel_call e.call) =
      [⟨Call.gk20a_writel (Reg.gr .gr_pri_gpc0_tpc0_sm_cbu_ecc_corrected_err_count_r 36864) 0,
          0⟩,
        ⟨Call.gk20a_writel (Reg.gr .gr_pri_gpc0_tpc0_sm_cbu_ecc_status_r 36864) (2 ^ 30),
          0⟩] := by
  have h := cbu_exception_clears sample_gr_hw (env_cbu 65537 0 0) 1 2 sample_g _ _ _
    65537 0 0 rfl rfl rfl (by decide)
  exact h.trans (by decide)

theorem ext_void_ecc_gr (c : Call) (g : gk20a) : (ext_void c g).ecc_gr = g.ecc_gr := rfl

theorem writel_ecc_gr (r : Reg) (v : Nat) (g : gk20a) : (gk20a_writel r v g).ecc_gr = g.ecc_gr :=
  rfl

/-- C17, as stated, fails. Whenever `gr_gv11b_handle_gpccs_ecc_exception` (resp.
`gr_gv11b_handle_fecs_ecc_error`) goes past its first test, each of the two counters of
`[gpc]` (resp. `[0]`) grows by the `total` field of the count register read, whatever the
overflow bits of the status are: no counter-width increment is added. Failing input: every
register reads `0x50101`, so that the ECC status shows a corrected and an uncorrected IMEM
error with both overflow bits set and both count registers have a `total` of 257;
`gr_gv11b_handle_gpcmmu_ecc_exception` adds `257 + 2^16` to both L1 TLB counters of GPC 1,
the GPCCS and FECS decoders add 257. -/
theorem falcon_decoders_drop_overflow_increment :
    (∀ (hw : GrManifest) (env : Env) (gpc : Nat) (g g0 g1 g2 g3 g4 : gk20a)
        (esr st ad cc uc : Nat),
      gk20a_readl env (Reg.gr .gr_gpc0_gpccs_hww_esr_r (u32 (hw.GPU_LIT_GPC_STRIDE * gpc))) g =
        (esr, g0) →
      gk20a_readl env (Reg.gr .gr_gpc0_gpccs_falcon_ecc_status_r
        (u32 (hw.GPU_LIT_GPC_STRIDE * gpc))) g0 = (st, g1) →
      gk20a_readl env (Reg.gr .gr_gpc0_gpccs_falcon_ecc_address_r
        (u32 (hw.GPU_LIT_GPC_STRIDE * gpc))) g1 = (ad, g2) →
      gk20a_readl env (Reg.gr .gr_gpc0_gpccs_falcon_ecc_corrected_err_count_r
        (u32 (hw.GPU_LIT_GPC_STRIDE * gpc))) g2 = (cc, g3) →
      gk20a_readl env (Reg.gr .gr_gpc0_gpccs_falcon_ecc_uncorrected_err_count_r
        (u32 (hw.GPU_LIT_GPC_STRIDE * gpc))) g3 = (uc, g4) →
      esr &&& (hw.gr_gpc0_gpccs_hww_esr_ecc_uncorrected_m |||
        hw.gr_gpc0_gpccs_hww_esr_ecc_corrected_m) ≠ 0 →
      (gr_gv11b_handle_gpccs_ecc_exception hw env gpc g).2.ecc_gr.gpccs_ecc_corrected_err_count
          gpc =
        u32 (g.ecc_gr.gpccs_ecc_corrected_err_count gpc +
          u32 (hw.gr_gpc0_gpccs_falcon_ecc.corrected_err_count_total_v cc)) ∧
      (gr_gv11b_handle_gpccs_ecc_exception hw env gpc
          g).2.ecc_gr.gpccs_ecc_uncorrected_err_count gpc =
        u32 (g.ecc_gr.gpccs_ecc_uncorrected_err_count gpc +
          u32 (hw.gr_gpc0_gpccs_falcon_ecc.uncorrected_err_count_total_v uc))) ∧
    (∀ (hw : GrManifest) (env : Env) (intr : Nat) (g g1 g2 g3 g4 : gk20a) (st ad cc uc : Nat),
      gk20a_readl env (Reg.gr .gr_fecs_falcon_ecc_status_r 0) g = (st, g1) →
      gk20a_readl env (Reg.gr .gr_fecs_falcon_ecc_address_r 0) g1 = (ad, g2) →
      gk20a_readl env (Reg.gr .gr_fecs_falcon_ecc_corrected_err_count_r 0) g2 = (cc, g3) →
      gk20a_readl env (Reg.gr .gr_fecs_falcon_ecc_uncorrected_err_count_r 0) g3 = (uc, g4) →
      intr &&& (hw.gr_fecs_host_int_status_ecc_uncorrected_m |||
        hw.gr_fecs_host_int_status_ecc_corrected_m) ≠ 0 →
      (gr_gv11b_handle_fecs_ecc_error hw env intr g).ecc_gr.fecs_ecc_corrected_err_count 0 =
        u32 (g.ecc_gr.fecs_ecc_corrected_err_count 0 +
          u32 (hw.gr_fecs_falcon_ecc.corrected_err_count_total_v cc)) ∧
      (gr_gv11b_handle_fecs_ecc_error hw env intr g).ecc_gr.fecs_ecc_uncorrected_err_count 0 =
        u32 (g.ecc_gr.fecs_ecc_uncorrected_err_count 0 +
          u32 (hw.gr_fecs_falcon_ecc.uncorrected_err_count_total_v uc))) ∧
    (327937 &&&
        sample_gr_hw.gr_gpc0_gpccs_falcon_ecc.status_corrected_err_total_counter_overflow_m ≠
          0 ∧
      327937 &&&
        sample_gr_hw.gr_gpc0_gpccs_falcon_ecc.status_uncorrected_err_total_counter_overflow_m ≠
          0 ∧
      sample_gr_hw.gr_gpc0_gpccs_falcon_ecc.corrected_err_count_total_v 327937 = 257 ∧
      (gr_gv11b_handle_gpcmmu_ecc_exception sample_gr_hw (env_reads 327937) 1
        sample_g).2.ecc_gr.mmu_l1tlb_ecc_corrected_err_count 1 = 257 + 2 ^ 16 ∧
      (gr_gv11b_handle_gpcmmu_ecc_exception sample_gr_hw (env_reads 327937) 1
        sample_g).2.ecc_gr.mmu_l1tlb_ecc_uncorrected_err_count 1 = 257 + 2 ^ 16 ∧
      (gr_gv11b_handle_gpccs_ecc_exception sample_gr_hw (env_reads 327937) 1
        sample_g).2.ecc_gr.gpccs_ecc_corrected_err_count 1 = 257 ∧
      (gr_gv11b_handle_gpccs_ecc_exception sample_gr_hw (env_reads 327937) 1
        sample_g).2.ecc_gr.gpccs_ecc_uncorrected_err_count 1 = 257 ∧
      (gr_gv11b_handle_fecs_ecc_error sample_gr_hw (env_reads 327937) 3
        sample_g).ecc_gr.fecs_ecc_corrected_err_count 0 = 257 ∧
      (gr_gv11b_handle_fecs_ecc_error sample_gr_hw (env_reads 327937) 3
        sample_g).ecc_gr.fecs_ecc_uncorrected_err_count 0 = 257) := by
  refine ⟨?_, ?_, by decide⟩
  · intro hw env gpc g g0 g1 g2 g3 g4 esr st ad cc uc h0 h1 h2 h3 h4 hesr
    have e0 := readl_ecc_gr h0
    have e1 := readl_ecc_gr h1
    have e2 := readl_ecc_gr h2
    have e3 := readl_ecc_gr h3
    have e4 := readl_ecc_gr h4
    generalize hr : gr_gv11b_handle_gpccs_ecc_exception hw env gpc g = r
    unfold gr_gv11b_handle_gpccs_ecc_exception at hr
    simp only [h0, if_neg hesr, h1, h2, h3, h4] at hr
    subst hr
    simp only [apply_ite gk20a.ecc_gr, ext_void_ecc_gr, writel_ecc_gr, ite_self, e0, e1, e2, e3,
      e4]
    simp [counter_add1]
  · intro hw env intr g g1 g2 g3 g4 st ad cc uc h1 h2 h3 h4 hintr
    have e1 := readl_ecc_gr h1
    have e2 := readl_ecc_gr h2
    have e3 := readl_ecc_gr h3
    have e4 := readl_ecc_gr h4
    generalize hr : gr_gv11b_handle_fecs_ecc_error hw env intr g = r
    unfold gr_gv11b_handle_fecs_ecc_error at hr
    simp only [if_pos hintr, h1, h2, h3, h4] at hr
    subst hr
    simp only [apply_ite gk20a.ecc_gr, ext_void_ecc_gr, writel_ecc_gr, ite_self, e1, e2, e3, e4]
    simp [counter_add1]

/-! ### Runlist entries and TPC power gating -/

theorem u32_or_u32 (a b : Nat) : u32 (u32 a ||| b) = u32 (a ||| b) := by
  unfold u32
  apply Nat.eq_of_testBit_eq
  intro i
  simp only [Nat.testBit_mod_two_pow, Nat.testBit_or]
  by_cases h : i < 32 <;> simp [h]

/-- C19: the four words written by `gv11b_get_tsg_runlist_entry` are those of the
specification, a function of `timeslice_timeout`, `timeslice_scale`,
`num_active_channels` and `tsgid` alone: two TSGs that agree on these four fields get the
same entry. For instance, with the sample encoders, a TSG with timeout 0 and scale 9 gets
the default scale 3 and timeout 128. -/
theorem tsg_runlist_entry_words (hw : RamManifest) (tsg : tsg_gk20a) :
    gv11b_get_tsg_runlist_entry hw tsg =
      tsg_runlist_entry_spec hw tsg.timeslice_timeout tsg.timeslice_scale
        tsg.num_active_channels tsg.tsgid ∧
    (∀ tsg1 : tsg_gk20a, tsg1.timeslice_timeout = tsg.timeslice_timeout →
      tsg1.timeslice_scale = tsg.timeslice_scale →
      tsg1.num_active_channels = tsg.num_active_channels → tsg1.tsgid = tsg.tsgid →
      gv11b_get_tsg_runlist_entry hw tsg1 = gv11b_get_tsg_runlist_entry hw tsg) ∧
    gv11b_get_tsg_runlist_entry sample_ram_hw ⟨7, 1, [4, 5], 0, 9, 2⟩ =
      [1 ||| 3 <<< 16 ||| 128 <<< 24, 2, 7, 0] := by
  refine ⟨?_, ?_, by decide⟩
  · unfold gv11b_get_tsg_runlist_entry tsg_runlist_entry_spec
    by_cases h : tsg.timeslice_timeout = 0
    · simp [h, u32_or_u32, Nat.lor_assoc]
    · simp [h, u32_or_u32, Nat.lor_assoc]
  · intro tsg1 h1 h2 h3 h4
    unfold gv11b_get_tsg_runlist_entry
    rw [h1, h2, h3, h4]

/-- The loop of `gr_gv11b_powergate_tpc` is not left as long as the status differs from
`g->tpc_pg_mask`: if no answer of `fuse_status_opt_tpc_gpc` equals the mask, the loop has
not ended after any number of reads. -/
theorem powergate_tpc_loop_never (env : Env) (mask : Nat)
    (henv : ∀ t : List Event, (env t (Call.fuse_status_opt_tpc_gpc 0) % 2 ^ 32).toNat ≠ mask)
    (fuel : Nat) (g : gk20a) (h : g.tpc_pg_mask = mask) :
    powergate_tpc_loop env fuel g = none := by
  induction fuel generalizing g with
  | zero => rfl
  | succ n ih =>
    unfold powergate_tpc_loop
    have h1 : (ext_u32 env (Call.fuse_status_opt_tpc_gpc 0) g).1 ≠
        (ext_u32 env (Call.fuse_status_opt_tpc_gpc 0) g).2.tpc_pg_mask := by
      change (env g.trace (Call.fuse_status_opt_tpc_gpc 0) % 2 ^ 32).toNat ≠ g.tpc_pg_mask
      rw [h]
      exact henv _
    dsimp only
    rw [if_pos h1]
    exact ih _ h

/-- C20, failing input: the device is asked to power-gate the TPCs of mask 5 and the status
fuse reads 1 at every call of `fuse_status_opt_tpc_gpc`. Whatever number of status reads
the loop of `gr_gv11b_powergate_tpc` is followed for, the function has not returned: the
loop has no exit other than the status becoming equal to `g->tpc_pg_mask`. -/
theorem powergate_tpc_never_returns (fuel : Nat) :
    gr_gv11b_powergate_tpc env_fuse_stuck fuel sample_g_pg = none := by
  unfold gr_gv11b_powergate_tpc
  have h1 : (ext_u32 env_fuse_stuck (Call.fuse_status_opt_tpc_gpc 0) sample_g_pg).1 = 1 := rfl
  have h2 : (ext_u32 env_fuse_stuck (Call.fuse_status_opt_tpc_gpc 0)
      sample_g_pg).2.tpc_pg_mask = 5 := rfl
  simp only [h1, h2]
  exact powergate_tpc_loop_never env_fuse_stuck 5 (fun _ => by simp [env_fuse_stuck]) fuel _ rfl

/-! ### LS falcon manager and channel setup -/

/-- C21, failing input: priv-security is enabled, the model is not FMODEL, `*lsfm` is `NULL`,
the allocation returns the address `0x1000` and the GPU id `0x140` (GV100, in a build
without `NVGPU_DGPU_SUPPORT`) is not a recognised one. `nvgpu_pmu_lsfm_init` frees the
object and returns `-EINVAL`, but `*lsfm` is left equal to the address of the freed
object, not to `NULL`; a second call then finds `*lsfm != NULL`, takes the "skip" path and
returns 0. When the allocation fails the result is `-ENOMEM` with `*lsfm == NULL`. -/
theorem lsfm_init_leaves_freed_pointer :
    nvgpu_pmu_lsfm_init sample_pmu_hw (env_lsfm 4096) 0 sample_g_gv100 =
      (-EINVAL, 4096, { sample_g_gv100 with trace :=
        [⟨Call.hal (.nvgpu_is_enabled .NVGPU_SEC_PRIVSECURITY), 1⟩,
          ⟨Call.hal (.nvgpu_is_enabled .NVGPU_IS_FMODEL), 0⟩,
          ⟨Call.hal .nvgpu_kzalloc_lsfm, 4096⟩, ⟨Call.hal (.nvgpu_kfree 4096), 0⟩] }) ∧
    (nvgpu_pmu_lsfm_init sample_pmu_hw (env_lsfm 4096) 4096
      (nvgpu_pmu_lsfm_init sample_pmu_hw (env_lsfm 4096) 0 sample_g_gv100).2.2).1 = 0 ∧
    (nvgpu_pmu_lsfm_init sample_pmu_hw (env_lsfm 4096) 4096
      (nvgpu_pmu_lsfm_init sample_pmu_hw (env_lsfm 4096) 0 sample_g_gv100).2.2).2.1 = 4096 ∧
    (events_since (nvgpu_pmu_lsfm_init sample_pmu_hw (env_lsfm 4096) 0 sample_g_gv100).2.2
      (nvgpu_pmu_lsfm_init sample_pmu_hw (env_lsfm 4096) 4096
        (nvgpu_pmu_lsfm_init sample_pmu_hw (env_lsfm 4096) 0 sample_g_gv100).2.2).2.2).map
        Event.call =
      [Call.hal (.nvgpu_is_enabled .NVGPU_SEC_PRIVSECURITY),
        Call.hal (.nvgpu_is_enabled .NVGPU_IS_FMODEL)] ∧
    (nvgpu_pmu_lsfm_init sample_pmu_hw (env_lsfm 0) 0 sample_g_gv100).1 = -ENOMEM ∧
    (nvgpu_pmu_lsfm_init sample_pmu_hw (env_lsfm 0) 0 sample_g_gv100).2.1 = 0 := by
  refine ⟨rfl, ?_, ?_, ?_, ?_, ?_⟩ <;> decide

/-- C22: for every device and environment, if the allocation of the channel table made by
`nvgpu_channel_setup_sw` returns `NULL`, the call returns a non-zero error and
`g->fifo.channel` is `NULL`; if it does not fail the call returns 0. These are the
assertions of `test_channel_setup_sw` for its two branches. -/
theorem channel_setup_sw_atomic (env : Env) (g : gk20a) :
    ((ext_ptr env
        (Call.hal (.nvgpu_vzalloc_channels (ext_u32 env (Call.hal .channel_count) g).1))
        (ext_u32 env (Call.hal .channel_count) g).2).1 = 0 →
      (nvgpu_channel_setup_sw env g).1 ≠ 0 ∧
      (nvgpu_channel_setup_sw env g).2.rest.fifo_channel = 0) ∧
    ((ext_ptr env
        (Call.hal (.nvgpu_vzalloc_channels (ext_u32 env (Call.hal .channel_count) g).1))
        (ext_u32 env (Call.hal .channel_count) g).2).1 ≠ 0 →
      (nvgpu_channel_setup_sw env g).1 = 0) ∧
    test_channel_setup_sw_asserts
      (decide ((ext_ptr env
        (Call.hal (.nvgpu_vzalloc_channels (ext_u32 env (Call.hal .channel_count) g).1))
        (ext_u32 env (Call.hal .channel_count) g).2).1 = 0))
      (nvgpu_channel_setup_sw env g) = true := by
  unfold nvgpu_channel_setup_sw test_channel_setup_sw_asserts
  dsimp only
  by_cases h : (ext_ptr env
        (Call.hal (.nvgpu_vzalloc_channels (ext_u32 env (Call.hal .channel_count) g).1))
        (ext_u32 env (Call.hal .channel_count) g).2).1 = 0
  · simp [h, ENOMEM]
  · simp [h]

/-- Witness for C22: when every call returns 0 the allocation of the channel table fails,
and the setup returns `-ENOMEM` with `g->fifo.channel == NULL`; when every call returns 3
the table is installed at the address 3 and the setup returns 0. -/
theorem channel_setup_sw_atomic_witness :
    ((nvgpu_channel_setup_sw env_zero sample_g).1 ≠ 0 ∧
      (nvgpu_channel_setup_sw env_zero sample_g).2.rest.fifo_channel = 0) ∧
    (nvgpu_channel_setup_sw env_target_present sample_g).1 = 0 ∧
    (nvgpu_channel_setup_sw env_zero sample_g).1 = -ENOMEM ∧
    (nvgpu_channel_setup_sw env_target_present sample_g).2.rest.fifo_channel = 3 :=
  ⟨(channel_setup_sw_atomic env_zero sample_g).1 (by decide),
    (channel_setup_sw_atomic env_target_present sample_g).2.1 (by decide), by decide,
    by decide⟩

/-! ### The runlist-event interrupt -/

/-- C23, as stated, fails. For every device, `gv11b_fifo_runlist_event_intr_disable` reads
`fifo_intr_en_0` and writes back the value read and-ed with
`fifo_intr_0_runlist_event_pending_f()` itself, not with its complement: the runlist-event
bit keeps its value and every other bit is cleared. (`gv11b_fifo_runlist_event_intr_enable`
writes back the value or-ed with the bit.) Failing input: the register reads
`0xffffffff`; the value written is `0x40000000`, in which the runlist-event bit 30 is
still 1 and bit 0 has been cleared. -/
theorem runlist_event_intr_disable_keeps_only_event_bit :
    (∀ (hw : Manifest) (env : Env) (g : gk20a),
      events_since g (gv11b_fifo_runlist_event_intr_disable hw env g) =
        [⟨Call.gk20a_readl Reg.fifo_intr_en_0_r, (gk20a_readl env Reg.fifo_intr_en_0_r g).1⟩,
          ⟨Call.gk20a_writel Reg.fifo_intr_en_0_r
            ((gk20a_readl env Reg.fifo_intr_en_0_r g).1 &&&
              hw.fifo_intr_0_runlist_event_pending_f), 0⟩]) ∧
    (∀ (hw : Manifest) (env : Env) (g : gk20a),
      events_since g (gv11b_fifo_runlist_event_intr_enable hw env g) =
        [⟨Call.gk20a_readl Reg.fifo_intr_en_0_r, (gk20a_readl env Reg.fifo_intr_en_0_r g).1⟩,
          ⟨Call.gk20a_writel Reg.fifo_intr_en_0_r
            ((gk20a_readl env Reg.fifo_intr_en_0_r g).1 |||
              hw.fifo_intr_0_runlist_event_pending_f), 0⟩]) ∧
    events_since sample_g
        (gv11b_fifo_runlist_event_intr_disable sample_hw (env_reads 4294967295) sample_g) =
      [⟨Call.gk20a_readl Reg.fifo_intr_en_0_r, 4294967295⟩,
        ⟨Call.gk20a_writel Reg.fifo_intr_en_0_r 1073741824, 0⟩] ∧
    sample_hw.fifo_intr_0_runlist_event_pending_f = 2 ^ 30 ∧
    Nat.testBit 1073741824 30 = true ∧ Nat.testBit 4294967295 0 = true ∧
    Nat.testBit 1073741824 0 = false := by
  refine ⟨?_, ?_, by decide, by decide, by decide, by decide, by decide⟩
  · intro hw env g
    apply events_since_of_append
    simp [gv11b_fifo_runlist_event_intr_disable, gk20a_readl, gk20a_writel, ext_void]
  · intro hw env g
    apply events_since_of_append
    simp [gv11b_fifo_runlist_event_intr_enable, gk20a_readl, gk20a_writel, ext_void]

/-! ### TPC fuse, MMU NACK and VEID bundles -/

theorem testBit_u32_not (x i : Nat) :
    (u32_not x).testBit i = (decide (i < 32) && !x.testBit i) := by
  unfold u32_not u32
  have h : 2 ^ 32 - 1 - x % 2 ^ 32 = 2 ^ 32 - (x % 2 ^ 32 + 1) := by omega
  rw [h, Nat.testBit_two_pow_sub_succ (Nat.mod_lt _ (by decide)), Nat.testBit_mod_two_pow]
  by_cases hi : i < 32 <;> simp [hi]

/-- C24, as stated, fails: for a GPC with two TPCs, both enabled in the software mask
(`0x3`), `gr_gv11b_set_gpc_tpc_mask` writes `0xc` to the TPC-disable fuse: bits 2 and 3,
at positions not below the TPC count, are written as 1. -/
theorem set_gpc_tpc_mask_writes_bits_above_tpc_count :
    sample_g_two_tpcs.rest.gr_config.gpc_tpc_count 0 = 2 ∧
    sample_g_two_tpcs.rest.gr_config.max_tpc_per_gpc_count = 2 ∧
    events_since sample_g_two_tpcs (gr_gv11b_set_gpc_tpc_mask 0 sample_g_two_tpcs) =
      [⟨Call.hal (.nvgpu_tegra_fuse_write_bypass 1), 0⟩,
        ⟨Call.hal (.nvgpu_tegra_fuse_write_access_sw 0), 0⟩,
        ⟨Call.hal (.nvgpu_tegra_fuse_write_opt_gpu_tpc0_disable 12), 0⟩] ∧
    Nat.testBit 12 2 = true ∧ Nat.testBit 12 3 = true := by
  decide

/-- C24, amended: when the software mask of GPC `gpc_index` is 0,
`gr_gv11b_set_gpc_tpc_mask` writes nothing; for every non-zero software mask it sets the
fuse bypass, clears the software access control and writes to the TPC-disable fuse a value
whose bit `i` is 1 iff `i < 4` (the width of the fuse) and TPC `i` is disabled in the
software mask; every bit at position 4 or above is 0. -/
theorem set_gpc_tpc_mask_fuse_value (gpc_index : Nat) (g : gk20a) :
    (g.rest.gr_config.gpc_tpc_mask gpc_index = 0 →
      gr_gv11b_set_gpc_tpc_mask gpc_index g = g) ∧
    (g.rest.gr_config.gpc_tpc_mask gpc_index ≠ 0 →
      events_since g (gr_gv11b_set_gpc_tpc_mask gpc_index g) =
        [⟨Call.hal (.nvgpu_tegra_fuse_write_bypass 1), 0⟩,
          ⟨Call.hal (.nvgpu_tegra_fuse_write_access_sw 0), 0⟩,
          ⟨Call.hal (.nvgpu_tegra_fuse_write_opt_gpu_tpc0_disable
            (u32_not (g.rest.gr_config.gpc_tpc_mask gpc_index) &&& 15)), 0⟩]) ∧
    ∀ i : Nat, (u32_not (g.rest.gr_config.gpc_tpc_mask gpc_index) &&& 15).testBit i =
      (decide (i < 4) && !(g.rest.gr_config.gpc_tpc_mask gpc_index).testBit i) := by
  refine ⟨?_, ?_, ?_⟩
  · intro hm
    unfold gr_gv11b_set_gpc_tpc_mask
    rw [if_pos hm]
  · intro hm
    apply events_since_of_append
    unfold gr_gv11b_set_gpc_tpc_mask
    rw [if_neg hm]
    simp [ext_void]
  · intro i
    have h15 : (15 : Nat) = 2 ^ 4 - 1 := by decide
    rw [Nat.testBit_and, testBit_u32_not, h15, Nat.testBit_two_pow_sub_one]
    by_cases h4 : i < 4
    · have : i < 32 := by omega
      simp [h4, this]
    · simp [h4]

/-- Witness for C24: a GPC with the TPCs 0 and 1 enabled gets the fuse value `0xc`. -/
theorem set_gpc_tpc_mask_fuse_value_witness :
    events_since sample_g_two_tpcs (gr_gv11b_set_gpc_tpc_mask 0 sample_g_two_tpcs) =
      [⟨Call.hal (.nvgpu_tegra_fuse_write_bypass 1), 0⟩,
        ⟨Call.hal (.nvgpu_tegra_fuse_write_access_sw 0), 0⟩,
        ⟨Call.hal (.nvgpu_tegra_fuse_write_opt_gpu_tpc0_disable 12), 0⟩] :=
  ((set_gpc_tpc_mask_fuse_value 0 sample_g_two_tpcs).2.1 (by decide)).trans (by decide)

theorem mmu_nack_eq (hw : GrOffsetManifest) (env : Env) (gpc tpc sm fault_ch : Nat)
    (g : gk20a) :
    gr_gv11b_handle_warp_esr_error_mmu_nack hw env gpc tpc sm fault_ch g =
      (if env g.trace (Call.gk20a_channel_get fault_ch) ≠ 0 ∧
          g.rest.mmu_nack_handled fault_ch = false then
        (-EFAULT, { g with
          rest := { g.rest with
            mmu_nack_handled := Function.update g.rest.mmu_nack_handled fault_ch true }
          trace := g.trace ++
            [⟨Call.gk20a_channel_get fault_ch, env g.trace (Call.gk20a_channel_get fault_ch)⟩,
              ⟨Call.gk20a_writel (Reg.gr .gr_gpc0_tpc0_sm0_hww_warp_esr_r
                (u32 (hw.gk20a_gr_gpc_offset gpc + hw.gk20a_gr_tpc_offset tpc +
                  gv11b_gr_sm_offset hw sm))) 0, 0⟩] })
      else
        (0, { g with
          trace := g.trace ++
            [⟨Call.gk20a_channel_get fault_ch, env g.trace (Call.gk20a_channel_get fault_ch)⟩] ++
            (if env g.trace (Call.gk20a_channel_get fault_ch) ≠ 0 then
              [(⟨Call.gk20a_channel_put fault_ch, 0⟩ : Event)] else []) ++
            [⟨Call.gk20a_writel (Reg.gr .gr_gpc0_tpc0_sm0_hww_warp_esr_r
              (u32 (hw.gk20a_gr_gpc_offset gpc + hw.gk20a_gr_tpc_offset tpc +
                gv11b_gr_sm_offset hw sm))) 0, 0⟩] })) := by
  unfold gr_gv11b_handle_warp_esr_error_mmu_nack
  by_cases hg : env g.trace (Call.gk20a_channel_get fault_ch) = 0
  · simp [hg, ext, ext_void, gk20a_writel]
  · by_cases hh : g.rest.mmu_nack_handled fault_ch = true
    · simp [hg, hh, ext, ext_void, gk20a_writel]
    · simp [hg, hh, ext, ext_void, gk20a_writel, EFAULT]

/-- C25: `gr_gv11b_handle_warp_esr_error_mmu_nack` on channel `fault_ch`. If
`gk20a_channel_get` returns the channel and its `mmu_nack_handled` is false, the function
sets `mmu_nack_handled`, makes no call of `gk20a_channel_put` (the reference is kept),
writes 0 to the SM warp ESR register and returns `-EFAULT`. In every other case it returns
0, leaves the device fields unchanged, calls `gk20a_channel_put` exactly when the
reference was taken, and writes 0 to the SM warp ESR register. Hence, when both
references can be taken and `mmu_nack_handled` is false at first, two consecutive calls
return `-EFAULT` then 0. -/
theorem mmu_nack_forces_recovery_once (hw : GrOffsetManifest) (env : Env)
    (gpc tpc sm fault_ch : Nat) (g : gk20a) :
    gr_gv11b_handle_warp_esr_error_mmu_nack hw env gpc tpc sm fault_ch g =
      (if env g.trace (Call.gk20a_channel_get fault_ch) ≠ 0 ∧
          g.rest.mmu_nack_handled fault_ch = false then
        (-EFAULT, { g with
          rest := { g.rest with
            mmu_nack_handled := Function.update g.rest.mmu_nack_handled fault_ch true }
          trace := g.trace ++
            [⟨Call.gk20a_channel_get fault_ch, env g.trace (Call.gk20a_channel_get fault_ch)⟩,
              ⟨Call.gk20a_writel (Reg.gr .gr_gpc0_tpc0_sm0_hww_warp_esr_r
                (u32 (hw.gk20a_gr_gpc_offset gpc + hw.gk20a_gr_tpc_offset tpc +
                  gv11b_gr_sm_offset hw sm))) 0, 0⟩] })
      else
        (0, { g with
          trace := g.trace ++
            [⟨Call.gk20a_channel_get fault_ch, env g.trace (Call.gk20a_channel_get fault_ch)⟩] ++
            (if env g.trace (Call.gk20a_channel_get fault_ch) ≠ 0 then
              [(⟨Call.gk20a_channel_put fault_ch, 0⟩ : Event)] else []) ++
            [⟨Call.gk20a_writel (Reg.gr .gr_gpc0_tpc0_sm0_hww_warp_esr_r
              (u32 (hw.gk20a_gr_gpc_offset gpc + hw.gk20a_gr_tpc_offset tpc +
                gv11b_gr_sm_offset hw sm))) 0, 0⟩] })) ∧
    ((gr_gv11b_handle_warp_esr_error_mmu_nack hw env gpc tpc sm fault_ch g).1 = -EFAULT ↔
      env g.trace (Call.gk20a_channel_get fault_ch) ≠ 0 ∧
        g.rest.mmu_nack_handled fault_ch = false) ∧
    (env g.trace (Call.gk20a_channel_get fault_ch) ≠ 0 →
      g.rest.mmu_nack_handled fault_ch = false →
      env (gr_gv11b_handle_warp_esr_error_mmu_nack hw env gpc tpc sm fault_ch g).2.trace
        (Call.gk20a_channel_get fault_ch) ≠ 0 →
      (gr_gv11b_handle_warp_esr_error_mmu_nack hw env gpc tpc sm fault_ch g).1 = -EFAULT ∧
      (gr_gv11b_handle_warp_esr_error_mmu_nack hw env gpc tpc sm fault_ch
        (gr_gv11b_handle_warp_esr_error_mmu_nack hw env gpc tpc sm fault_ch g).2).1 = 0) := by
  refine ⟨mmu_nack_eq hw env gpc tpc sm fault_ch g, ?_, ?_⟩
  · rw [mmu_nack_eq]
    by_cases hc : env g.trace (Call.gk20a_channel_get fault_ch) ≠ 0 ∧
        g.rest.mmu_nack_handled fault_ch = false
    · rw [if_pos hc]
      simp [hc]
    · rw [if_neg hc]
      simp only [hc, iff_false]
      simp [EFAULT]
  · intro hg hh hg2
    have h1 := mmu_nack_eq hw env gpc tpc sm fault_ch g
    rw [if_pos ⟨hg, hh⟩] at h1
    refine ⟨by rw [h1], ?_⟩
    rw [mmu_nack_eq hw env gpc tpc sm fault_ch
      (gr_gv11b_handle_warp_esr_error_mmu_nack hw env gpc tpc sm fault_ch g).2]
    have h2 : (gr_gv11b_handle_warp_esr_error_mmu_nack hw env gpc tpc sm fault_ch
        g).2.rest.mmu_nack_handled fault_ch = true := by
      rw [h1]
      simp
    rw [if_neg (by simp [h2])]

/-- Witness for C25: on a live channel of `sample_g`, the first call returns `-EFAULT` and
the second call returns 0 after dropping its reference. -/
theorem mmu_nack_forces_recovery_once_witness :
    (gr_gv11b_handle_warp_esr_error_mmu_nack sample_offset_hw env_channel_live 0 1 1 3
      sample_g).1 = -EFAULT ∧
    (gr_gv11b_handle_warp_esr_error_mmu_nack sample_offset_hw env_channel_live 0 1 1 3
      (gr_gv11b_handle_warp_esr_error_mmu_nack sample_offset_hw env_channel_live 0 1 1 3
        sample_g).2).1 = 0 :=
  (mmu_nack_forces_recovery_once sample_offset_hw env_channel_live 0 1 1 3 sample_g).2.2
    (by decide) (by decide) (by decide)

/-! ### GPC and TPC masks of `gr_config_gm20b.c` -/

theorem BIT32_of_lt (n : Nat) (h : n < 32) : BIT32 n = 2 ^ n := by
  unfold BIT32
  rw [Nat.shiftLeft_eq, one_mul]
  exact Nat.mod_eq_of_lt (Nat.pow_lt_pow_right (by decide) h)

theorem testBit_not_and_mask (ops : SafeOps)
    (hsub : ∀ a b : Nat, b ≤ a → ops.nvgpu_safe_sub_u32 a b = a - b) (v n i : Nat)
    (hn : n < 32) :
    (u32_not v &&& ops.nvgpu_safe_sub_u32 (BIT32 n) 1).testBit i =
      (decide (i < n) && !v.testBit i) := by
  rw [BIT32_of_lt n hn, hsub _ _ Nat.one_le_two_pow, Nat.testBit_and, testBit_u32_not,
    Nat.testBit_two_pow_sub_one]
  by_cases hi : i < n
  · have : i < 32 := by omega
    simp [hi, this]
  · simp [hi]

/-- C26: with checked subtraction that is exact when it does not underflow,
`gm20b_gr_config_get_gpc_mask` reads the GPC floorsweep fuse once and, for
`max_gpc_count < 32`, returns a value whose bit `i` is 1 iff `i < max_gpc_count` and bit
`i` of the fuse value is 0 (so every bit at a position `>= max_gpc_count` is 0);
`gm20b_gr_config_get_gpc_tpc_mask` does the same with the TPC fuse of the GPC and
`max_tpc_per_gpc_count`. -/
theorem gpc_mask_is_fuse_complement_below_count (ops : SafeOps) (env : Env)
    (config : nvgpu_gr_config) (gpc_index : Nat) (g : gk20a)
    (hsub : ∀ a b : Nat, b ≤ a → ops.nvgpu_safe_sub_u32 a b = a - b) :
    (config.max_gpc_count < 32 → ∀ i : Nat,
      (gm20b_gr_config_get_gpc_mask ops env config g).1.testBit i =
        (decide (i < config.max_gpc_count) &&
          !(ext_u32 env (Call.hal .fuse_status_opt_gpc) g).1.testBit i)) ∧
    (config.max_tpc_per_gpc_count < 32 → ∀ i : Nat,
      (gm20b_gr_config_get_gpc_tpc_mask ops env config gpc_index g).1.testBit i =
        (decide (i < config.max_tpc_per_gpc_count) &&
          !(ext_u32 env (Call.fuse_status_opt_tpc_gpc gpc_index) g).1.testBit i)) ∧
    (gm20b_gr_config_get_gpc_mask ops env config g).2 =
      (ext_u32 env (Call.hal .fuse_status_opt_gpc) g).2 ∧
    (gm20b_gr_config_get_gpc_tpc_mask ops env config gpc_index g).2 =
      (ext_u32 env (Call.fuse_status_opt_tpc_gpc gpc_index) g).2 := by
  refine ⟨?_, ?_, rfl, rfl⟩
  · intro hn i
    exact testBit_not_and_mask ops hsub _ _ i hn
  · intro hn i
    exact testBit_not_and_mask ops hsub _ _ i hn

/-- Witness for C26: with at most 3 GPCs and the fuse value `0b010` (GPC 1 floorswept) the
GPC mask is `0b101`; with at most 4 TPCs per GPC and the same fuse value the TPC mask is
`0b1101`. -/
theorem gpc_mask_is_fuse_complement_below_count_witness :
    (∀ i : Nat,
      (gm20b_gr_config_get_gpc_mask sample_safe_ops (env_fuse_status 2) sample_gr_config
        sample_g).1.testBit i =
        (decide (i < sample_gr_config.max_gpc_count) &&
          !(ext_u32 (env_fuse_status 2) (Call.hal .fuse_status_opt_gpc) sample_g).1.testBit i)) ∧
    (gm20b_gr_config_get_gpc_mask sample_safe_ops (env_fuse_status 2) sample_gr_config
      sample_g).1 = 5 ∧
    (gm20b_gr_config_get_gpc_tpc_mask sample_safe_ops (env_fuse_status 2) sample_gr_config 0
      sample_g).1 = 13 :=
  ⟨(gpc_mask_is_fuse_complement_below_count sample_safe_ops (env_fuse_status 2) sample_gr_config 0
      sample_g (fun _ _ _ => rfl)).1 (by decide), by decide, by decide⟩

/-! ### VEID bundles -/

/-- C28, failing input: two subcontexts, two VEID bundles (neither the go-idle bundle), and
the first call of `g->ops.gr.init.wait_idle`, made for subcontext 0 of bundle 0, fails
with `-EBUSY` while every later call succeeds. `gv11b_write_bundle_veid_state` overwrites
the error with the result of the call for subcontext 1 and returns 0, so
`gr_gv11b_init_sw_veid_bundle` goes on to write bundle 1 and returns 0. -/
theorem init_sw_veid_bundle_loses_idle_failure :
    (gv11b_write_bundle_veid_state sample_pipe_hw env_idle_fails_first 0 sample_g_veid).1 = 0 ∧
    (gr_gv11b_init_sw_veid_bundle sample_pipe_hw env_idle_fails_first sample_g_veid).1 = 0 ∧
    events_since sample_g_veid
        (gr_gv11b_init_sw_veid_bundle sample_pipe_hw env_idle_fails_first sample_g_veid).2 =
      [⟨Call.gk20a_writel (Reg.gr .gr_pipe_bundle_data_r 0) 7, 0⟩,
        ⟨Call.gk20a_writel (Reg.gr .gr_pipe_bundle_address_r 0) 16, 0⟩,
        ⟨Call.hal .gr_init_wait_idle, -16⟩,
        ⟨Call.gk20a_writel (Reg.gr .gr_pipe_bundle_address_r 0) 1048592, 0⟩,
        ⟨Call.hal .gr_init_wait_idle, 0⟩,
        ⟨Call.gk20a_writel (Reg.gr .gr_pipe_bundle_address_r 0) 32, 0⟩,
        ⟨Call.hal .gr_init_wait_idle, 0⟩,
        ⟨Call.gk20a_writel (Reg.gr .gr_pipe_bundle_address_r 0) 1048608, 0⟩,
        ⟨Call.hal .gr_init_wait_idle, 0⟩] := by
  decide


/-! ### The table of SM ids -/

theorem foldl_ite_eq_filter_map {σ α β : Type} (p : α → Prop) [DecidablePred p]
    (f : σ → β → σ) (h : α → β) (l : List α) (s : σ) :
    l.foldl (fun s a => if p a then f s (h a) else s) s =
      ((l.filter (fun a => decide (p a))).map h).foldl f s := by
  induction l generalizing s with
  | nil => rfl
  | cons a l ih =>
    by_cases hp : p a
    · simp [List.filter_cons, hp, ih]
    · simp [List.filter_cons, hp, ih]

theorem foldl_foldl_eq_flatMap {σ α β : Type} (f : σ → β → σ) (h : α → List β) (l : List α)
    (s : σ) :
    l.foldl (fun s a => (h a).foldl f s) s = (l.flatMap h).foldl f s := by
  induction l generalizing s with
  | nil => rfl
  | cons a l ih => simp [List.flatMap_cons, List.foldl_append, ih]

theorem init_sm_id_table_eq (ops : SafeOps) (gr_config : nvgpu_gr_config) :
    gm20b_gr_config_init_sm_id_table ops gr_config =
      (0, { gr_config with
        sm_info := (sm_id_write ops (sm_id_pairs gr_config) (0, gr_config.sm_info)).2
        no_of_sm := (sm_id_write ops (sm_id_pairs gr_config) (0, gr_config.sm_info)).1 }) := by
  unfold gm20b_gr_config_init_sm_id_table sm_id_write sm_id_pairs
  have h : ∀ (tpc : Nat) (st : Nat × (Nat → nvgpu_sm_info)),
      (List.range gr_config.gpc_count).foldl
        (fun (st : Nat × (Nat → nvgpu_sm_info)) gpc =>
          if tpc < gr_config.gpc_tpc_count gpc then
            (ops.nvgpu_safe_add_u32 st.1 1,
              Function.update st.2 st.1
                { tpc_index := tpc, gpc_index := gpc, sm_index := 0,
                  global_tpc_index := st.1 })
          else st) st =
      (((List.range gr_config.gpc_count).filter
        (fun gpc => decide (tpc < gr_config.gpc_tpc_count gpc))).map
          fun gpc => (tpc, gpc)).foldl
        (fun st p => (ops.nvgpu_safe_add_u32 st.1 1,
          Function.update st.2 st.1 (sm_id_entry st.1 p))) st := by
    intro tpc st
    exact foldl_ite_eq_filter_map (fun gpc => tpc < gr_config.gpc_tpc_count gpc)
      (fun st p => (ops.nvgpu_safe_add_u32 st.1 1,
          Function.update st.2 st.1 (sm_id_entry st.1 p))) (fun gpc => (tpc, gpc)) _ st
  dsimp only
  simp only [h]
  rw [foldl_foldl_eq_flatMap]

theorem sm_id_write_spec (ops : SafeOps)
    (hadd : ∀ a b : Nat, a + b < 2 ^ 32 → ops.nvgpu_safe_add_u32 a b = a + b)
    (l : List (Nat × Nat)) (s : Nat) (tbl : Nat → nvgpu_sm_info)
    (hlen : s + l.length < 2 ^ 32) :
    (sm_id_write ops l (s, tbl)).1 = s + l.length ∧
    (∀ k, k < s → (sm_id_write ops l (s, tbl)).2 k = tbl k) ∧
    (∀ k (hk : k < l.length),
      (sm_id_write ops l (s, tbl)).2 (s + k) = sm_id_entry (s + k) (l.get ⟨k, hk⟩)) := by
  induction l generalizing s tbl with
  | nil => simp [sm_id_write]
  | cons p l ih =>
    have hl : s + 1 + l.length < 2 ^ 32 := by simp at hlen; omega
    have hs : ops.nvgpu_safe_add_u32 s 1 = s + 1 := hadd s 1 (by omega)
    have hstep : sm_id_write ops (p :: l) (s, tbl) =
        sm_id_write ops l (s + 1, Function.update tbl s (sm_id_entry s p)) := by
      simp [sm_id_write, hs]
    obtain ⟨h1, h2, h3⟩ := ih (s + 1) (Function.update tbl s (sm_id_entry s p)) hl
    rw [hstep]
    refine ⟨by rw [h1]; simp; omega, ?_, ?_⟩
    · intro k hk
      rw [h2 k (by omega), Function.update_noteq (by omega)]
    · intro k hk
      cases k with
      | zero =>
        have h0 := h2 s (by omega)
        rw [Function.update_same] at h0
        simpa using h0
      | succ k =>
        have hk2 : k < l.length := by simpa using hk
        have := h3 k hk2
        rw [show s + (k + 1) = s + 1 + k by omega, this]
        rfl

theorem sm_id_pairs_mem (cfg : nvgpu_gr_config) (t g : Nat) :
    (t, g) ∈ sm_id_pairs cfg ↔
      t < cfg.max_tpc_per_gpc_count ∧ g < cfg.gpc_count ∧ t < cfg.gpc_tpc_count g := by
  unfold sm_id_pairs
  simp only [List.mem_flatMap, List.mem_map, List.mem_filter, List.mem_range, Prod.mk.injEq,
    decide_eq_true_eq]
  constructor
  · rintro ⟨t', ht', g', ⟨hg', hc⟩, rfl, rfl⟩
    exact ⟨ht', hg', hc⟩
  · rintro ⟨ht, hg, hc⟩
    exact ⟨t, ht, g, ⟨hg, hc⟩, rfl, rfl⟩

theorem sm_id_pairs_sorted (cfg : nvgpu_gr_config) :
    (sm_id_pairs cfg).Pairwise (fun a b => a.1 < b.1 ∨ (a.1 = b.1 ∧ a.2 < b.2)) := by
  unfold sm_id_pairs
  rw [List.pairwise_flatMap]
  constructor
  · intro t _
    rw [List.pairwise_map]
    exact ((List.pairwise_lt_range _).filter _).imp (fun h => Or.inr ⟨rfl, h⟩)
  · refine (List.pairwise_lt_range _).imp ?_
    intro t t' htt x hx y hy
    simp only [List.mem_map] at hx hy
    obtain ⟨_, _, rfl⟩ := hx
    obtain ⟨_, _, rfl⟩ := hy
    exact Or.inl htt

theorem length_flatMap_range {β : Type} (n : Nat) (f : Nat → List β) :
    ((List.range n).flatMap f).length = ∑ i ∈ Finset.range n, (f i).length := by
  induction n with
  | zero => simp
  | succ n ih => simp [List.range_succ, List.flatMap_append, Finset.sum_range_succ, ih]

theorem length_filter_range (m : Nat) (p : Nat → Bool) :
    ((List.range m).filter p).length = ∑ j ∈ Finset.range m, if p j then 1 else 0 := by
  induction m with
  | zero => simp
  | succ m ih =>
    rw [List.range_succ, List.filter_append, List.length_append, Finset.sum_range_succ, ih]
    cases hp : p m <;> simp [List.filter_cons, hp]

theorem sum_range_lt_indicator (c m : Nat) :
    (∑ t ∈ Finset.range m, if t < c then 1 else 0) = min c m := by
  induction m with
  | zero => simp
  | succ m ih =>
    rw [Finset.sum_range_succ, ih]
    split_ifs <;> omega

theorem sm_id_pairs_length (cfg : nvgpu_gr_config) :
    (sm_id_pairs cfg).length =
      ∑ g ∈ Finset.range cfg.gpc_count,
        min (cfg.gpc_tpc_count g) cfg.max_tpc_per_gpc_count := by
  unfold sm_id_pairs
  rw [length_flatMap_range]
  simp only [List.length_map, length_filter_range, decide_eq_true_eq]
  rw [Finset.sum_comm]
  exact Finset.sum_congr rfl (fun g _ => sum_range_lt_indicator _ _)

/-- C29: with checked addition that is exact when it does not overflow, and fewer than
`2^32` present TPCs, `gm20b_gr_config_init_sm_id_table` returns 0 and leaves `no_of_sm`
equal to the sum over the GPCs `g < gpc_count` of
`min(gpc_tpc_count(g), max_tpc_per_gpc_count)`; for every `k < no_of_sm` the entry
`sm_info[k]` has `global_tpc_index == k`, `sm_index == 0`, `gpc_index < gpc_count` and
`tpc_index < gpc_tpc_count(gpc_index)`; the entries are strictly increasing in `k` under
the lexicographic order on `(tpc_index, gpc_index)`; the pairs `(gpc_index, tpc_index)`
are pairwise distinct; and every TPC `tpc < min(gpc_tpc_count(gpc), max_tpc_per_gpc_count)`
of a GPC `gpc < gpc_count` has an entry. -/
theorem init_sm_id_table_enumerates_tpcs (ops : SafeOps) (cfg : nvgpu_gr_config)
    (hadd : ∀ a b : Nat, a + b < 2 ^ 32 → ops.nvgpu_safe_add_u32 a b = a + b)
    (htot : ∑ g ∈ Finset.range cfg.gpc_count,
      min (cfg.gpc_tpc_count g) cfg.max_tpc_per_gpc_count < 2 ^ 32) :
    (gm20b_gr_config_init_sm_id_table ops cfg).1 = 0 ∧
    (gm20b_gr_config_init_sm_id_table ops cfg).2.no_of_sm =
      ∑ g ∈ Finset.range cfg.gpc_count,
        min (cfg.gpc_tpc_count g) cfg.max_tpc_per_gpc_count ∧
    (∀ k, k < (gm20b_gr_config_init_sm_id_table ops cfg).2.no_of_sm →
      ((gm20b_gr_config_init_sm_id_table ops cfg).2.sm_info k).global_tpc_index = k ∧
      ((gm20b_gr_config_init_sm_id_table ops cfg).2.sm_info k).sm_index = 0 ∧
      ((gm20b_gr_config_init_sm_id_table ops cfg).2.sm_info k).gpc_index < cfg.gpc_count ∧
      ((gm20b_gr_config_init_sm_id_table ops cfg).2.sm_info k).tpc_index <
        cfg.gpc_tpc_count
          ((gm20b_gr_config_init_sm_id_table ops cfg).2.sm_info k).gpc_index) ∧
    (∀ k k', k < k' → k' < (gm20b_gr_config_init_sm_id_table ops cfg).2.no_of_sm →
      ((gm20b_gr_config_init_sm_id_table ops cfg).2.sm_info k).tpc_index <
          ((gm20b_gr_config_init_sm_id_table ops cfg).2.sm_info k').tpc_index ∨
        (((gm20b_gr_config_init_sm_id_table ops cfg).2.sm_info k).tpc_index =
            ((gm20b_gr_config_init_sm_id_table ops cfg).2.sm_info k').tpc_index ∧
          ((gm20b_gr_config_init_sm_id_table ops cfg).2.sm_info k).gpc_index <
            ((gm20b_gr_config_init_sm_id_table ops cfg).2.sm_info k').gpc_index)) ∧
    (∀ k k', k < (gm20b_gr_config_init_sm_id_table ops cfg).2.no_of_sm →
      k' < (gm20b_gr_config_init_sm_id_table ops cfg).2.no_of_sm → k ≠ k' →
      (((gm20b_gr_config_init_sm_id_table ops cfg).2.sm_info k).gpc_index,
          ((gm20b_gr_config_init_sm_id_table ops cfg).2.sm_info k).tpc_index) ≠
        (((gm20b_gr_config_init_sm_id_table ops cfg).2.sm_info k').gpc_index,
          ((gm20b_gr_config_init_sm_id_table ops cfg).2.sm_info k').tpc_index)) ∧
    (∀ gpc tpc, gpc < cfg.gpc_count → tpc < cfg.gpc_tpc_count gpc →
      tpc < cfg.max_tpc_per_gpc_count →
      ∃ k, k < (gm20b_gr_config_init_sm_id_table ops cfg).2.no_of_sm ∧
        ((gm20b_gr_config_init_sm_id_table ops cfg).2.sm_info k).gpc_index = gpc ∧
        ((gm20b_gr_config_init_sm_id_table ops cfg).2.sm_info k).tpc_index = tpc) := by
  rw [init_sm_id_table_eq]
  have hlen := sm_id_pairs_length cfg
  obtain ⟨h1, -, h3⟩ := sm_id_write_spec ops hadd (sm_id_pairs cfg) 0 cfg.sm_info
    (by rw [hlen]; omega)
  simp only [Nat.zero_add] at h1 h3
  have hlex : ∀ k k' (hk : k < k') (hk' : k' < (sm_id_pairs cfg).length),
      ((sm_id_pairs cfg).get ⟨k, by omega⟩).1 < ((sm_id_pairs cfg).get ⟨k', hk'⟩).1 ∨
      (((sm_id_pairs cfg).get ⟨k, by omega⟩).1 = ((sm_id_pairs cfg).get ⟨k', hk'⟩).1 ∧
        ((sm_id_pairs cfg).get ⟨k, by omega⟩).2 < ((sm_id_pairs cfg).get ⟨k', hk'⟩).2) := by
    intro k k' hk hk'
    exact List.pairwise_iff_get.1 (sm_id_pairs_sorted cfg) ⟨k, by omega⟩ ⟨k', hk'⟩ hk
  dsimp only
  rw [h1]
  refine ⟨rfl, hlen, ?_, ?_, ?_, ?_⟩
  · intro k hk
    rw [h3 k hk]
    have hm := (sm_id_pairs_mem cfg _ _).1 (List.get_mem (sm_id_pairs cfg) k hk)
    exact ⟨rfl, rfl, hm.2.1, hm.2.2⟩
  · intro k k' hkk hk'
    rw [h3 k (by omega), h3 k' hk']
    exact hlex k k' hkk hk'
  · intro k k' hk hk' hne
    rw [h3 k hk, h3 k' hk']
    simp only [sm_id_entry, ne_eq, Prod.mk.injEq, not_and]
    rcases Nat.lt_or_gt_of_ne hne with h | h
    · rcases hlex k k' h hk' with h' | ⟨_, h'⟩ <;> omega
    · rcases hlex k' k h hk with h' | ⟨_, h'⟩ <;> omega
  · intro gpc tpc hg ht hm
    obtain ⟨⟨k, hk⟩, hget⟩ := List.get_of_mem ((sm_id_pairs_mem cfg tpc gpc).2 ⟨hm, hg, ht⟩)
    refine ⟨k, hk, ?_⟩
    rw [h3 k hk, hget]
    exact ⟨rfl, rfl⟩

/-- Witness for C29: 3 GPCs of 4, 2 and 3 TPCs with at most 4 TPCs per GPC give 9 SMs, the
first four being TPC 0 of GPC 0, 1, 2 and TPC 1 of GPC 0. -/
theorem init_sm_id_table_enumerates_tpcs_witness :
    (gm20b_gr_config_init_sm_id_table sample_safe_ops sample_gr_config).2.no_of_sm = 9 ∧
    (List.range 4).map (gm20b_gr_config_init_sm_id_table sample_safe_ops
      sample_gr_config).2.sm_info =
      [⟨0, 0, 0, 0⟩, ⟨1, 0, 0, 1⟩, ⟨2, 0, 0, 2⟩, ⟨0, 1, 0, 3⟩] :=
  ⟨((init_sm_id_table_enumerates_tpcs sample_safe_ops sample_gr_config (fun _ _ _ => rfl)
      (by decide)).2.1).trans (by decide), by decide⟩

/-! ### The renumbering of the TPCs of a GPC -/

theorem and_BIT32_ne_zero (m tpc : Nat) (h : tpc < 32) :
    m &&& BIT32 tpc ≠ 0 ↔ m.testBit tpc = true := by
  rw [BIT32_of_lt tpc h, Nat.and_two_pow]
  cases m.testBit tpc <;> simp

theorem nonpes_loop_found (config : nvgpu_gr_config) (gpc tpc : Nat) (d : Nat) :
    ∀ (n pes acc : Nat), d < n →
      (∀ q, q < d → config.pes_tpc_mask gpc (pes + q) &&& BIT32 tpc = 0) →
      config.pes_tpc_mask gpc (pes + d) &&& BIT32 tpc ≠ 0 →
      acc + ∑ q ∈ Finset.range d, config.pes_tpc_count gpc (pes + q) < 2 ^ 32 →
      get_nonpes_aware_tpc_loop config gpc tpc n pes acc =
        (pes + d, acc + ∑ q ∈ Finset.range d, config.pes_tpc_count gpc (pes + q)) := by
  induction d with
  | zero =>
    intro n pes acc hn _ hd _
    obtain ⟨n, rfl⟩ := Nat.exists_eq_succ_of_ne_zero (Nat.pos_iff_ne_zero.1 hn)
    rw [get_nonpes_aware_tpc_loop, if_pos (by simpa using hd)]
    simp
  | succ d ih =>
    intro n pes acc hn hz hd hsum
    obtain ⟨n, rfl⟩ := Nat.exists_eq_succ_of_ne_zero (Nat.pos_iff_ne_zero.1 (by omega : 0 < n))
    rw [Finset.sum_range_succ'] at hsum ⊢
    have h0 := hz 0 (by omega)
    rw [get_nonpes_aware_tpc_loop, if_neg (by simpa using h0)]
    simp only [Nat.add_zero] at hsum ⊢
    have hu : u32 (acc + config.pes_tpc_count gpc pes) = acc + config.pes_tpc_count gpc pes :=
      Nat.mod_eq_of_lt (by omega)
    rw [hu, ih n (pes + 1) (acc + config.pes_tpc_count gpc pes) (by omega)]
    · have : ∀ q, pes + 1 + q = pes + (q + 1) := fun q => by omega
      simp only [this]
      congr 1
      omega
    · intro q hq
      have := hz (q + 1) (by omega)
      rwa [show pes + 1 + q = pes + (q + 1) by omega]
    · rwa [show pes + 1 + d = pes + (d + 1) by omega]
    · have : ∀ q, pes + 1 + q = pes + (q + 1) := fun q => by omega
      simp only [this]
      omega

theorem nonpes_loop_not_found (config : nvgpu_gr_config) (gpc tpc : Nat) (n : Nat) :
    ∀ (pes acc : Nat),
      (∀ q, q < n → config.pes_tpc_mask gpc (pes + q) &&& BIT32 tpc = 0) →
      (get_nonpes_aware_tpc_loop config gpc tpc n pes acc).1 = pes + n := by
  induction n with
  | zero => intro pes acc _; rfl
  | succ n ih =>
    intro pes acc hz
    have h0 := hz 0 (by omega)
    rw [get_nonpes_aware_tpc_loop, if_neg (by simpa using h0), ih]
    · omega
    · intro q hq
      have := hz (q + 1) (by omega)
      rwa [show pes + 1 + q = pes + (q + 1) by omega]

theorem bits_below_eq_card (x t : Nat) :
    bits_below x t = ((Finset.range t).filter (fun i => x.testBit i = true)).card := by
  unfold bits_below
  rw [length_filter_range, Finset.sum_boole]
  simp

theorem hweight32_eq_card (x : Nat) :
    hweight32 x = ((Finset.range 32).filter (fun i => x.testBit i = true)).card :=
  bits_below_eq_card x 32

theorem hweight32_low_bits (x t : Nat) (ht : t < 32) :
    hweight32 (u32 (BIT32 t + 2 ^ 32 - 1) &&& x) = bits_below x t := by
  have h1 : u32 (BIT32 t + 2 ^ 32 - 1) = 2 ^ t - 1 := by
    rw [BIT32_of_lt t ht]
    unfold u32
    have h2 : 2 ^ t < 2 ^ 32 := Nat.pow_lt_pow_right (by decide) ht
    have h3 : 0 < 2 ^ t := Nat.two_pow_pos t
    rw [show 2 ^ t + 2 ^ 32 - 1 = (2 ^ t - 1) + 2 ^ 32 by omega, Nat.add_mod_right,
      Nat.mod_eq_of_lt (by omega)]
  rw [h1, hweight32_eq_card, bits_below_eq_card]
  refine congrArg Finset.card (Finset.ext fun i => ?_)
  simp only [Finset.mem_filter, Finset.mem_range, Nat.testBit_and,
    Nat.testBit_two_pow_sub_one, Bool.and_eq_true, decide_eq_true_eq]
  constructor
  · rintro ⟨_, h, hb⟩
    exact ⟨h, hb⟩
  · rintro ⟨h, hb⟩
    exact ⟨by omega, h, hb⟩

theorem bits_below_lt_of_testBit (x t t' : Nat) (h : t < t') (hb : x.testBit t = true) :
    bits_below x t < bits_below x t' := by
  rw [bits_below_eq_card, bits_below_eq_card]
  apply Finset.card_lt_card
  rw [Finset.ssubset_iff_of_subset]
  · exact ⟨t, by simp [h, hb], by simp⟩
  · intro i
    simp only [Finset.mem_filter, Finset.mem_range]
    rintro ⟨hi, hbi⟩
    exact ⟨by omega, hbi⟩

theorem bits_below_le_hweight32 (x t : Nat) (ht : t < 32) (hb : x.testBit t = true) :
    bits_below x t < hweight32 x :=
  bits_below_lt_of_testBit x t 32 ht hb

theorem disjoint_testBit (a b i : Nat) (h : a &&& b = 0) (ha : a.testBit i = true) :
    b.testBit i = false := by
  have := congrArg (fun x => x.testBit i) h
  simp only [Nat.testBit_and, Nat.zero_testBit, ha, Bool.true_and] at this
  exact this

theorem sum_hweight32_eq_card (m : Nat → Nat) (n : Nat)
    (hdisj : ∀ p q, p < q → q < n → m p &&& m q = 0) :
    ∑ p ∈ Finset.range n, hweight32 (m p) =
      ((Finset.range 32).filter (fun i => ∃ p, p < n ∧ (m p).testBit i = true)).card := by
  have h1 : ∀ p, hweight32 (m p) =
      ∑ i ∈ Finset.range 32, if (m p).testBit i = true then 1 else 0 := by
    intro p
    rw [hweight32_eq_card, Finset.sum_boole]
    simp
  simp only [h1]
  rw [Finset.sum_comm, Finset.card_filter]
  apply Finset.sum_congr rfl
  intro i _
  by_cases hex : ∃ p, p < n ∧ (m p).testBit i = true
  · rw [if_pos hex]
    obtain ⟨p, hp, hb⟩ := hex
    rw [Finset.sum_eq_single p]
    · rw [if_pos hb]
    · intro q hq hne
      have hq' : q < n := Finset.mem_range.1 hq
      rw [if_neg]
      rcases Nat.lt_or_gt_of_ne hne with h | h
      · have := disjoint_testBit _ _ i (hdisj q p h hp)
        intro hqb
        rw [this hqb] at hb
        exact Bool.noConfusion hb
      · have := disjoint_testBit _ _ i (hdisj p q h hq') hb
        rw [this]
        exact Bool.noConfusion
    · intro hp'
      exact absurd (Finset.mem_range.2 hp) hp'
  · rw [if_neg hex]
    apply Finset.sum_eq_zero
    intro p hp
    rw [if_neg]
    intro hb
    exact hex ⟨p, Finset.mem_range.1 hp, hb⟩

theorem sum_hweight32_le (m : Nat → Nat) (n : Nat)
    (hdisj : ∀ p q, p < q → q < n → m p &&& m q = 0) :
    ∑ p ∈ Finset.range n, hweight32 (m p) ≤ 32 := by
  rw [sum_hweight32_eq_card m n hdisj]
  exact (Finset.card_filter_le _ _).trans (by simp)

theorem sum_range_succ_le (c : Nat → Nat) (p n : Nat) (h : p < n) :
    ∑ q ∈ Finset.range p, c q + c p ≤ ∑ q ∈ Finset.range n, c q := by
  rw [← Finset.sum_range_succ]
  exact Finset.sum_le_sum_of_subset (Finset.range_subset.2 h)

theorem sum_range_mono (c : Nat → Nat) (p n : Nat) (h : p ≤ n) :
    ∑ q ∈ Finset.range p, c q ≤ ∑ q ∈ Finset.range n, c q :=
  Finset.sum_le_sum_of_subset (Finset.range_subset.2 h)

theorem sum_pes_tpc_count_le (config : nvgpu_gr_config) (gpc : Nat)
    (hdisj : ∀ p q, p < q → q < config.gpc_ppc_count gpc →
      config.pes_tpc_mask gpc p &&& config.pes_tpc_mask gpc q = 0)
    (hcnt : ∀ p, p < config.gpc_ppc_count gpc →
      config.pes_tpc_count gpc p = hweight32 (config.pes_tpc_mask gpc p)) :
    ∑ q ∈ Finset.range (config.gpc_ppc_count gpc), config.pes_tpc_count gpc q ≤ 32 := by
  rw [Finset.sum_congr rfl (fun q hq => hcnt q (Finset.mem_range.1 hq))]
  exact sum_hweight32_le _ _ hdisj

theorem nonpes_aware_tpc_eq (config : nvgpu_gr_config) (gpc : Nat)
    (hdisj : ∀ p q, p < q → q < config.gpc_ppc_count gpc →
      config.pes_tpc_mask gpc p &&& config.pes_tpc_mask gpc q = 0)
    (hcnt : ∀ p, p < config.gpc_ppc_count gpc →
      config.pes_tpc_count gpc p = hweight32 (config.pes_tpc_mask gpc p))
    (tpc p : Nat) (ht : tpc < 32) (hp : p < config.gpc_ppc_count gpc)
    (hb : (config.pes_tpc_mask gpc p).testBit tpc = true) :
    gr_gv11b_get_nonpes_aware_tpc config gpc tpc =
      ∑ q ∈ Finset.range p, config.pes_tpc_count gpc q +
        bits_below (config.pes_tpc_mask gpc p) tpc ∧
    bits_below (config.pes_tpc_mask gpc p) tpc < config.pes_tpc_count gpc p := by
  have h32 := sum_pes_tpc_count_le config gpc hdisj hcnt
  have hle := sum_range_succ_le (config.pes_tpc_count gpc) p _ hp
  have hrank : bits_below (config.pes_tpc_mask gpc p) tpc < config.pes_tpc_count gpc p := by
    rw [hcnt p hp]
    exact bits_below_le_hweight32 _ _ ht hb
  have hloop := nonpes_loop_found config gpc tpc p (config.gpc_ppc_count gpc) 0 0 hp
    (by
      intro q hq
      rw [Nat.zero_add]
      by_contra hne
      have hqb := (and_BIT32_ne_zero _ _ ht).1 hne
      have := disjoint_testBit _ _ tpc (hdisj q p hq hp) hqb
      rw [this] at hb
      exact Bool.noConfusion hb)
    (by
      rw [Nat.zero_add]
      exact (and_BIT32_ne_zero _ _ ht).2 hb)
    (by
      simp only [Nat.zero_add]
      omega)
  simp only [Nat.zero_add] at hloop
  refine ⟨?_, hrank⟩
  unfold gr_gv11b_get_nonpes_aware_tpc
  rw [hloop]
  dsimp only
  rw [hweight32_low_bits _ _ ht]
  exact Nat.mod_eq_of_lt (by omega)

theorem nonpes_aware_tpc_inj (config : nvgpu_gr_config) (gpc : Nat)
    (hdisj : ∀ p q, p < q → q < config.gpc_ppc_count gpc →
      config.pes_tpc_mask gpc p &&& config.pes_tpc_mask gpc q = 0)
    (hcnt : ∀ p, p < config.gpc_ppc_count gpc →
      config.pes_tpc_count gpc p = hweight32 (config.pes_tpc_mask gpc p))
    (tpc tpc' p p' : Nat) (ht : tpc < 32) (ht' : tpc' < 32)
    (hp : p < config.gpc_ppc_count gpc) (hp' : p' < config.gpc_ppc_count gpc)
    (hb : (config.pes_tpc_mask gpc p).testBit tpc = true)
    (hb' : (config.pes_tpc_mask gpc p').testBit tpc' = true)
    (heq : gr_gv11b_get_nonpes_aware_tpc config gpc tpc =
      gr_gv11b_get_nonpes_aware_tpc config gpc tpc') : tpc = tpc' := by
  obtain ⟨h1, h2⟩ := nonpes_aware_tpc_eq config gpc hdisj hcnt tpc p ht hp hb
  obtain ⟨h1', h2'⟩ := nonpes_aware_tpc_eq config gpc hdisj hcnt tpc' p' ht' hp' hb'
  rw [h1, h1'] at heq
  rcases Nat.lt_trichotomy p p' with h | h | h
  · have := sum_range_succ_le (config.pes_tpc_count gpc) p p' h
    omega
  · subst h
    rcases Nat.lt_trichotomy tpc tpc' with ht2 | ht2 | ht2
    · have := bits_below_lt_of_testBit _ tpc tpc' ht2 hb
      omega
    · exact ht2
    · have := bits_below_lt_of_testBit _ tpc' tpc ht2 hb'
      omega
  · have := sum_range_succ_le (config.pes_tpc_count gpc) p' p h
    omega

theorem nonpes_aware_tpc_surj (config : nvgpu_gr_config) (gpc : Nat)
    (hdisj : ∀ p q, p < q → q < config.gpc_ppc_count gpc →
      config.pes_tpc_mask gpc p &&& config.pes_tpc_mask gpc q = 0)
    (hcnt : ∀ p, p < config.gpc_ppc_count gpc →
      config.pes_tpc_count gpc p = hweight32 (config.pes_tpc_mask gpc p))
    (k : Nat)
    (hk : k < ∑ q ∈ Finset.range (config.gpc_ppc_count gpc), config.pes_tpc_count gpc q) :
    ∃ tpc, tpc < 32 ∧
      (∃ p, p < config.gpc_ppc_count gpc ∧ (config.pes_tpc_mask gpc p).testBit tpc = true) ∧
      gr_gv11b_get_nonpes_aware_tpc config gpc tpc = k := by
  have hcard := sum_hweight32_eq_card (config.pes_tpc_mask gpc) (config.gpc_ppc_count gpc) hdisj
  rw [← Finset.sum_congr rfl (fun q hq => hcnt q (Finset.mem_range.1 hq))] at hcard
  have hinj : Set.InjOn (gr_gv11b_get_nonpes_aware_tpc config gpc)
      ((Finset.range 32).filter (fun i => ∃ p, p < config.gpc_ppc_count gpc ∧
        (config.pes_tpc_mask gpc p).testBit i = true) : Finset Nat) := by
    intro t ht t' ht' heq
    simp only [Finset.coe_filter, Finset.mem_range, Set.mem_setOf_eq] at ht ht'
    obtain ⟨h32, p, hp, hb⟩ := ht
    obtain ⟨h32', p', hp', hb'⟩ := ht'
    exact nonpes_aware_tpc_inj config gpc hdisj hcnt t t' p p' h32 h32' hp hp' hb hb' heq
  have hsub : ((Finset.range 32).filter (fun i => ∃ p, p < config.gpc_ppc_count gpc ∧
        (config.pes_tpc_mask gpc p).testBit i = true)).image
        (gr_gv11b_get_nonpes_aware_tpc config gpc) ⊆
      Finset.range (∑ q ∈ Finset.range (config.gpc_ppc_count gpc),
        config.pes_tpc_count gpc q) := by
    intro x hx
    obtain ⟨t, ht, rfl⟩ := Finset.mem_image.1 hx
    simp only [Finset.mem_filter, Finset.mem_range] at ht
    obtain ⟨h32, p, hp, hb⟩ := ht
    obtain ⟨h1, h2⟩ := nonpes_aware_tpc_eq config gpc hdisj hcnt t p h32 hp hb
    have := sum_range_succ_le (config.pes_tpc_count gpc) p _ hp
    rw [Finset.mem_range, h1]
    omega
  have himg := Finset.eq_of_subset_of_card_le hsub
    (by rw [Finset.card_image_of_injOn hinj, ← hcard, Finset.card_range])
  have hmem : k ∈ ((Finset.range 32).filter (fun i => ∃ p, p < config.gpc_ppc_count gpc ∧
        (config.pes_tpc_mask gpc p).testBit i = true)).image
        (gr_gv11b_get_nonpes_aware_tpc config gpc) := by
    rw [himg]
    exact Finset.mem_range.2 hk
  obtain ⟨t, ht, rfl⟩ := Finset.mem_image.1 hmem
  simp only [Finset.mem_filter, Finset.mem_range] at ht
  exact ⟨t, ht.1, ht.2, rfl⟩

/-- C30: for a GPC whose PES TPC masks are pairwise disjoint, with `pes_tpc_count(p)` equal to
the number of set bits of `pes_tpc_mask(p)`: for every `tpc < 32` contained in the mask of
PES `p`, `gr_gv11b_get_nonpes_aware_tpc` returns the sum of `pes_tpc_count` over the PESes
before `p` plus the number of set bits of the mask of `p` below bit `tpc`, which is less
than the total TPC count of the GPC; the map is injective on the TPCs contained in some
mask and reaches every number below the total TPC count. If no PES mask contains `tpc`,
the loop ends with `pes == gpc_ppc_count`, the index at which the mask is then read. -/
theorem nonpes_aware_tpc_renumbers (config : nvgpu_gr_config) (gpc : Nat)
    (hdisj : ∀ p q, p < q → q < config.gpc_ppc_count gpc →
      config.pes_tpc_mask gpc p &&& config.pes_tpc_mask gpc q = 0)
    (hcnt : ∀ p, p < config.gpc_ppc_count gpc →
      config.pes_tpc_count gpc p = hweight32 (config.pes_tpc_mask gpc p)) :
    (∀ tpc p, tpc < 32 → p < config.gpc_ppc_count gpc →
      (config.pes_tpc_mask gpc p).testBit tpc = true →
      gr_gv11b_get_nonpes_aware_tpc config gpc tpc =
        ∑ q ∈ Finset.range p, config.pes_tpc_count gpc q +
          bits_below (config.pes_tpc_mask gpc p) tpc ∧
      gr_gv11b_get_nonpes_aware_tpc config gpc tpc <
        ∑ q ∈ Finset.range (config.gpc_ppc_count gpc), config.pes_tpc_count gpc q) ∧
    (∀ tpc tpc' p p', tpc < 32 → tpc' < 32 →
      p < config.gpc_ppc_count gpc → p' < config.gpc_ppc_count gpc →
      (config.pes_tpc_mask gpc p).testBit tpc = true →
      (config.pes_tpc_mask gpc p').testBit tpc' = true →
      gr_gv11b_get_nonpes_aware_tpc config gpc tpc =
        gr_gv11b_get_nonpes_aware_tpc config gpc tpc' → tpc = tpc') ∧
    (∀ k, k < ∑ q ∈ Finset.range (config.gpc_ppc_count gpc), config.pes_tpc_count gpc q →
      ∃ tpc, tpc < 32 ∧
        (∃ p, p < config.gpc_ppc_count gpc ∧
          (config.pes_tpc_mask gpc p).testBit tpc = true) ∧
        gr_gv11b_get_nonpes_aware_tpc config gpc tpc = k) ∧
    (∀ tpc, tpc < 32 →
      (∀ p, p < config.gpc_ppc_count gpc →
        (config.pes_tpc_mask gpc p).testBit tpc = false) →
      (get_nonpes_aware_tpc_loop config gpc tpc (config.gpc_ppc_count gpc) 0 0).1 =
          config.gpc_ppc_count gpc ∧
        gr_gv11b_get_nonpes_aware_tpc config gpc tpc =
          u32 ((get_nonpes_aware_tpc_loop config gpc tpc (config.gpc_ppc_count gpc) 0 0).2 +
            hweight32 (u32 (BIT32 tpc + 2 ^ 32 - 1) &&&
              config.pes_tpc_mask gpc (config.gpc_ppc_count gpc)))) := by
  refine ⟨?_, ?_, ?_, ?_⟩
  · intro tpc p ht hp hb
    obtain ⟨h1, h2⟩ := nonpes_aware_tpc_eq config gpc hdisj hcnt tpc p ht hp hb
    have := sum_range_succ_le (config.pes_tpc_count gpc) p _ hp
    exact ⟨h1, by rw [h1]; omega⟩
  · intro tpc tpc' p p' ht ht' hp hp' hb hb' heq
    exact nonpes_aware_tpc_inj config gpc hdisj hcnt tpc tpc' p p' ht ht' hp hp' hb hb' heq
  · intro k hk
    exact nonpes_aware_tpc_surj config gpc hdisj hcnt k hk
  · intro tpc ht hnone
    have hidx := nonpes_loop_not_found config gpc tpc (config.gpc_ppc_count gpc) 0 0
      (by
        intro q hq
        rw [Nat.zero_add]
        by_contra hne
        have := (and_BIT32_ne_zero _ _ ht).1 hne
        rw [hnone q hq] at this
        exact Bool.noConfusion this)
    rw [Nat.zero_add] at hidx
    refine ⟨hidx, ?_⟩
    unfold gr_gv11b_get_nonpes_aware_tpc
    generalize hr : get_nonpes_aware_tpc_loop config gpc tpc (config.gpc_ppc_count gpc) 0 0 = r
      at hidx
    obtain ⟨pes, acc⟩ := r
    dsimp only at hidx ⊢
    rw [hidx]

theorem sample_pes_config_disjoint :
    ∀ p q, p < q → q < sample_pes_config.gpc_ppc_count 0 →
      sample_pes_config.pes_tpc_mask 0 p &&& sample_pes_config.pes_tpc_mask 0 q = 0 := by
  intro p q hpq hq
  have hq2 : q < 2 := hq
  have hq1 : q = 1 := by omega
  have hp0 : p = 0 := by omega
  subst hq1 hp0
  decide

theorem sample_pes_config_counts :
    ∀ p, p < sample_pes_config.gpc_ppc_count 0 →
      sample_pes_config.pes_tpc_count 0 p = hweight32 (sample_pes_config.pes_tpc_mask 0 p) := by
  intro p hp
  have hp2 : p < 2 := hp
  rcases (by omega : p = 0 ∨ p = 1) with h | h <;> subst h <;> decide

/-- Witness for C30: with the TPCs 0 and 2 on PES 0 and the TPCs 1 and 3 on PES 1, TPC 3 is
renumbered 3 and the TPCs 0, 2, 1, 3 are renumbered 0, 1, 2, 3. -/
theorem nonpes_aware_tpc_renumbers_witness :
    (gr_gv11b_get_nonpes_aware_tpc sample_pes_config 0 3 =
        ∑ q ∈ Finset.range 1, sample_pes_config.pes_tpc_count 0 q +
          bits_below (sample_pes_config.pes_tpc_mask 0 1) 3 ∧
      gr_gv11b_get_nonpes_aware_tpc sample_pes_config 0 3 <
        ∑ q ∈ Finset.range (sample_pes_config.gpc_ppc_count 0),
          sample_pes_config.pes_tpc_count 0 q) ∧
    [0, 2, 1, 3].map (gr_gv11b_get_nonpes_aware_tpc sample_pes_config 0) = [0, 1, 2, 3] :=
  ⟨(nonpes_aware_tpc_renumbers sample_pes_config 0 sample_pes_config_disjoint
      sample_pes_config_counts).1 3 1 (by decide) (by decide) (by decide), by decide⟩


/-! ### The reset mark of `gv11b_fifo_is_preempt_pending` -/

theorem pbdma_fold_eq_polls (hw : Manifest) (env : Env) (id timeout_rc_type : Nat)
    (l : List Nat) (ret : Int) (g : gk20a) :
    l.foldl
      (fun (p : Int × gk20a) pbdma_id =>
        let (func_ret, g) :=
          gv11b_fifo_poll_pbdma_chan_status hw env id pbdma_id timeout_rc_type p.2
        if func_ret ≠ 0 then (int_or p.1 func_ret, g) else (p.1, g))
      (ret, g) =
    ((preempt_pending_pbdma_polls hw env id timeout_rc_type l g).1.foldl
        preempt_pending_acc ret,
      (preempt_pending_pbdma_polls hw env id timeout_rc_type l g).2) := by
  induction l generalizing ret g with
  | nil => rfl
  | cons a l ih =>
    rw [List.foldl_cons, preempt_pending_pbdma_polls]
    dsimp only
    rw [List.foldl_cons, ← ih]
    congr 1
    unfold preempt_pending_acc
    split_ifs <;> rfl

theorem eng_fold_eq_polls (hw : Manifest) (env : Env) (id timeout_rc_type runlist_id : Nat)
    (l : List Nat) (ret : Int) (g : gk20a) :
    l.foldl
      (fun (p : Int × gk20a) act_eng_id =>
        let (func_ret, reset_eng_bitmask, g) :=
          gv11b_fifo_poll_eng_ctx_status hw env id act_eng_id
            (p.2.fifo.runlist_info runlist_id).reset_eng_bitmask timeout_rc_type p.2
        let g := set_reset_eng_bitmask runlist_id reset_eng_bitmask g
        if func_ret ≠ 0 then (int_or p.1 func_ret, g) else (p.1, g))
      (ret, g) =
    ((preempt_pending_eng_polls hw env id timeout_rc_type runlist_id l g).1.foldl
        preempt_pending_acc ret,
      (preempt_pending_eng_polls hw env id timeout_rc_type runlist_id l g).2) := by
  induction l generalizing ret g with
  | nil => rfl
  | cons a l ih =>
    rw [List.foldl_cons, preempt_pending_eng_polls]
    dsimp only
    rw [List.foldl_cons, ← ih]
    congr 1
    unfold preempt_pending_acc
    split_ifs <;> rfl

theorem is_preempt_pending_eq_polls (hw : Manifest) (env : Env) (id id_type
    timeout_rc_type : Nat) (g : gk20a) :
    gv11b_fifo_is_preempt_pending hw env id id_type timeout_rc_type g =
      (((preempt_pending_eng_polls hw env id timeout_rc_type
          (preempt_pending_runlist_id hw g.fifo id id_type)
          (for_each_set_bit (g.fifo.runlist_info
            (preempt_pending_runlist_id hw g.fifo id id_type)).eng_bitmask g.fifo.num_engines)
          (set_reset_eng_bitmask (preempt_pending_runlist_id hw g.fifo id id_type) 0
            (preempt_pending_pbdma_polls hw env id timeout_rc_type
              (for_each_set_bit (g.fifo.runlist_info
                (preempt_pending_runlist_id hw g.fifo id id_type)).pbdma_bitmask
                g.fifo.num_pbdma) g).2)).1.foldl preempt_pending_acc
          ((preempt_pending_pbdma_polls hw env id timeout_rc_type
            (for_each_set_bit (g.fifo.runlist_info
              (preempt_pending_runlist_id hw g.fifo id id_type)).pbdma_bitmask
              g.fifo.num_pbdma) g).1.foldl preempt_pending_acc 0)),
        (preempt_pending_eng_polls hw env id timeout_rc_type
          (preempt_pending_runlist_id hw g.fifo id id_type)
          (for_each_set_bit (g.fifo.runlist_info
            (preempt_pending_runlist_id hw g.fifo id id_type)).eng_bitmask g.fifo.num_engines)
          (set_reset_eng_bitmask (preempt_pending_runlist_id hw g.fifo id id_type) 0
            (preempt_pending_pbdma_polls hw env id timeout_rc_type
              (for_each_set_bit (g.fifo.runlist_info
                (preempt_pending_runlist_id hw g.fifo id id_type)).pbdma_bitmask
                g.fifo.num_pbdma) g).2)).2) := by
  unfold gv11b_fifo_is_preempt_pending
  dsimp only
  rw [pbdma_fold_eq_polls]
  dsimp only
  rw [eng_fold_eq_polls]
  rfl

theorem poll_eng_body_spec (hw : Manifest) (id engine_idx timeout_rc_type eng_stat
    reset_eng_bitmask : Nat) :
    ((poll_eng_body hw id engine_idx timeout_rc_type eng_stat reset_eng_bitmask).2 =
        reset_eng_bitmask) ∨
    ((poll_eng_body hw id engine_idx timeout_rc_type eng_stat reset_eng_bitmask).1 = true ∧
      (poll_eng_body hw id engine_idx timeout_rc_type eng_stat reset_eng_bitmask).2 =
        u32 (reset_eng_bitmask ||| BIT engine_idx) ∧
      timeout_rc_type = hw.PREEMPT_TIMEOUT_NORC ∧
      (id = hw.fifo_engine_status_id_v eng_stat ∨
        id = hw.fifo_engine_status_next_id_v eng_stat)) := by
  unfold poll_eng_body
  dsimp only
  split_ifs <;> simp_all

theorem poll_eng_loop_unfold (hw : Manifest) (env : Env) (id engine_idx timeout_rc_type n
    reset_eng_bitmask : Nat) (g : gk20a) :
    poll_eng_loop hw env id engine_idx timeout_rc_type n reset_eng_bitmask g =
      if (poll_eng_body hw id engine_idx timeout_rc_type
          (gk20a_readl env (Reg.fifo_engine_status_r engine_idx) g).1 reset_eng_bitmask).1 = true
      then (0, (poll_eng_body hw id engine_idx timeout_rc_type
          (gk20a_readl env (Reg.fifo_engine_status_r engine_idx) g).1 reset_eng_bitmask).2,
        (gk20a_readl env (Reg.fifo_engine_status_r engine_idx) g).2)
      else
        match n with
        | 0 => (-EBUSY, (poll_eng_body hw id engine_idx timeout_rc_type
            (gk20a_readl env (Reg.fifo_engine_status_r engine_idx) g).1 reset_eng_bitmask).2,
          (gk20a_readl env (Reg.fifo_engine_status_r engine_idx) g).2)
        | n + 1 => poll_eng_loop hw env id engine_idx timeout_rc_type n
            (poll_eng_body hw id engine_idx timeout_rc_type
              (gk20a_readl env (Reg.fifo_engine_status_r engine_idx) g).1 reset_eng_bitmask).2
            (gk20a_readl env (Reg.fifo_engine_status_r engine_idx) g).2 := by
  cases n <;> rw [poll_eng_loop]

theorem poll_eng_loop_spec (hw : Manifest) (env : Env) (id engine_idx timeout_rc_type n
    reset_eng_bitmask : Nat) (g : gk20a) :
    ∃ vals : List Nat, vals ≠ [] ∧
      (poll_eng_loop hw env id engine_idx timeout_rc_type n reset_eng_bitmask g).2.2.trace =
        g.trace ++ vals.map
          (fun v : Nat => (⟨Call.gk20a_readl (Reg.fifo_engine_status_r engine_idx), (v : Int)⟩ :
            Event)) ∧
      (poll_eng_loop hw env id engine_idx timeout_rc_type n reset_eng_bitmask g).2.2.fifo =
        g.fifo ∧
      ((poll_eng_loop hw env id engine_idx timeout_rc_type n reset_eng_bitmask g).1 = 0 ∨
        (poll_eng_loop hw env id engine_idx timeout_rc_type n reset_eng_bitmask g).1 =
          -EBUSY) ∧
      ((poll_eng_loop hw env id engine_idx timeout_rc_type n reset_eng_bitmask g).2.1 =
          reset_eng_bitmask ∨
        ((poll_eng_loop hw env id engine_idx timeout_rc_type n reset_eng_bitmask g).2.1 =
            u32 (reset_eng_bitmask ||| BIT engine_idx) ∧
          timeout_rc_type = hw.PREEMPT_TIMEOUT_NORC ∧
          ∃ v, vals.getLast? = some v ∧
            (id = hw.fifo_engine_status_id_v v ∨ id = hw.fifo_engine_status_next_id_v v))) := by
  induction n generalizing g reset_eng_bitmask with
  | zero =>
    refine ⟨[(gk20a_readl env (Reg.fifo_engine_status_r engine_idx) g).1], by simp, ?_, ?_, ?_,
      ?_⟩
    · rw [poll_eng_loop_unfold]
      split <;> rfl
    · rw [poll_eng_loop_unfold]
      split <;> rfl
    · rw [poll_eng_loop_unfold]
      split
      · exact Or.inl rfl
      · exact Or.inr rfl
    · rw [poll_eng_loop_unfold]
      rcases poll_eng_body_spec hw id engine_idx timeout_rc_type
        (gk20a_readl env (Reg.fifo_engine_status_r engine_idx) g).1 reset_eng_bitmask with
        h | ⟨hd, h, hrc, hid⟩
      · left
        split <;> exact h
      · right
        rw [if_pos hd]
        exact ⟨h, hrc, _, rfl, hid⟩
  | succ n ih =>
    by_cases hb : (poll_eng_body hw id engine_idx timeout_rc_type
          (gk20a_readl env (Reg.fifo_engine_status_r engine_idx) g).1 reset_eng_bitmask).1 = true
    · refine ⟨[(gk20a_readl env (Reg.fifo_engine_status_r engine_idx) g).1], by simp, ?_, ?_,
        ?_, ?_⟩
      · rw [poll_eng_loop_unfold, if_pos hb]
        rfl
      · rw [poll_eng_loop_unfold, if_pos hb]
        rfl
      · rw [poll_eng_loop_unfold, if_pos hb]
        exact Or.inl rfl
      · rw [poll_eng_loop_unfold, if_pos hb]
        rcases poll_eng_body_spec hw id engine_idx timeout_rc_type
          (gk20a_readl env (Reg.fifo_engine_status_r engine_idx) g).1 reset_eng_bitmask with
          h | ⟨_, h, hrc, hid⟩
        · exact Or.inl h
        · exact Or.inr ⟨h, hrc, _, rfl, hid⟩
    · have hres : (poll_eng_body hw id engine_idx timeout_rc_type
          (gk20a_readl env (Reg.fifo_engine_status_r engine_idx) g).1 reset_eng_bitmask).2 =
          reset_eng_bitmask := by
        rcases poll_eng_body_spec hw id engine_idx timeout_rc_type
          (gk20a_readl env (Reg.fifo_engine_status_r engine_idx) g).1 reset_eng_bitmask with
          h | ⟨hd, _⟩
        · exact h
        · exact absurd hd hb
      obtain ⟨vals, hne, htr, hfifo, hret, hmark⟩ :=
        ih reset_eng_bitmask (gk20a_readl env (Reg.fifo_engine_status_r engine_idx) g).2
      refine ⟨(gk20a_readl env (Reg.fifo_engine_status_r engine_idx) g).1 :: vals, by simp,
        ?_, ?_, ?_, ?_⟩
      · rw [poll_eng_loop_unfold, if_neg hb]
        dsimp only
        rw [hres, htr]
        simp [gk20a_readl]
      · rw [poll_eng_loop_unfold, if_neg hb]
        dsimp only
        rw [hres, hfifo]
        rfl
      · rw [poll_eng_loop_unfold, if_neg hb]
        dsimp only
        rw [hres]
        exact hret
      · rw [poll_eng_loop_unfold, if_neg hb]
        dsimp only
        rw [hres]
        rcases hmark with h | ⟨h, hrc, v, hv, hid⟩
        · exact Or.inl h
        · refine Or.inr ⟨h, hrc, v, ?_, hid⟩
          cases vals with
          | nil => exact absurd rfl hne
          | cons b t =>
            rw [List.getLast?_cons_cons]
            exact hv

theorem eng_status_reads_append (i : Nat) (l l' : List Event) :
    eng_status_reads i (l ++ l') = eng_status_reads i l ++ eng_status_reads i l' := by
  simp [eng_status_reads, List.filterMap_append]

theorem eng_status_reads_map (i engine_idx : Nat) (vals : List Nat) :
    eng_status_reads i (vals.map
      (fun v : Nat => (⟨Call.gk20a_readl (Reg.fifo_engine_status_r engine_idx), (v : Int)⟩ :
        Event))) = if i = engine_idx then vals else [] := by
  induction vals with
  | nil => simp [eng_status_reads]
  | cons v vals ih =>
    unfold eng_status_reads at ih ⊢
    rw [List.map_cons, List.filterMap_cons, ih]
    by_cases h : i = engine_idx
    · subst h
      simp
    · have h' : ¬ engine_idx = i := fun h2 => h h2.symm
      simp [h, h']

theorem eng_status_reads_timeout_init (i : Nat) (n : Int) (l : List Event) :
    eng_status_reads i (⟨Call.nvgpu_timeout_init, n⟩ :: l) = eng_status_reads i l := by
  simp [eng_status_reads, List.filterMap_cons]

theorem poll_eng_ctx_status_spec (hw : Manifest) (env : Env) (id engine_idx
    reset_eng_bitmask timeout_rc_type : Nat) (g : gk20a) :
    ∃ (n : Int) (vals : List Nat), vals ≠ [] ∧
      (gv11b_fifo_poll_eng_ctx_status hw env id engine_idx reset_eng_bitmask timeout_rc_type
          g).2.2.trace =
        g.trace ++ ⟨Call.nvgpu_timeout_init, n⟩ :: vals.map
          (fun v : Nat => (⟨Call.gk20a_readl (Reg.fifo_engine_status_r engine_idx), (v : Int)⟩ :
            Event)) ∧
      (gv11b_fifo_poll_eng_ctx_status hw env id engine_idx reset_eng_bitmask timeout_rc_type
          g).2.2.fifo = g.fifo ∧
      ((gv11b_fifo_poll_eng_ctx_status hw env id engine_idx reset_eng_bitmask timeout_rc_type
            g).1 = 0 ∨
        (gv11b_fifo_poll_eng_ctx_status hw env id engine_idx reset_eng_bitmask timeout_rc_type
            g).1 = -EBUSY) ∧
      ((gv11b_fifo_poll_eng_ctx_status hw env id engine_idx reset_eng_bitmask timeout_rc_type
            g).2.1 = reset_eng_bitmask ∨
        ((gv11b_fifo_poll_eng_ctx_status hw env id engine_idx reset_eng_bitmask
              timeout_rc_type g).2.1 = u32 (reset_eng_bitmask ||| BIT engine_idx) ∧
          timeout_rc_type = hw.PREEMPT_TIMEOUT_NORC ∧
          ∃ v, vals.getLast? = some v ∧
            (id = hw.fifo_engine_status_id_v v ∨ id = hw.fifo_engine_status_next_id_v v))) := by
  obtain ⟨vals, hne, htr, hfifo, hret, hmark⟩ := poll_eng_loop_spec hw env id engine_idx
    timeout_rc_type (nvgpu_timeout_init env g).1 reset_eng_bitmask (nvgpu_timeout_init env g).2
  refine ⟨((env g.trace Call.nvgpu_timeout_init).toNat : Int), vals, hne, ?_, ?_, hret, hmark⟩
  · show (poll_eng_loop hw env id engine_idx timeout_rc_type (nvgpu_timeout_init env g).1
      reset_eng_bitmask (nvgpu_timeout_init env g).2).2.2.trace = _
    rw [htr]
    simp [nvgpu_timeout_init]
  · show (poll_eng_loop hw env id engine_idx timeout_rc_type (nvgpu_timeout_init env g).1
      reset_eng_bitmask (nvgpu_timeout_init env g).2).2.2.fifo = _
    rw [hfifo]
    rfl

theorem testBit_or_BIT (x engine_idx i : Nat)
    (h : (u32 (x ||| BIT engine_idx)).testBit i = true) :
    x.testBit i = true ∨ i = engine_idx := by
  unfold u32 BIT at h
  rw [Nat.testBit_mod_two_pow, Nat.testBit_or, Nat.testBit_mod_two_pow, Nat.shiftLeft_eq,
    one_mul, Nat.testBit_two_pow] at h
  by_cases hx : x.testBit i = true
  · exact Or.inl hx
  · right
    simp only [hx, Bool.false_or, Bool.and_eq_true, decide_eq_true_eq] at h
    exact h.2.2.symm

theorem set_reset_eng_bitmask_trace (runlist_id v : Nat) (g : gk20a) :
    (set_reset_eng_bitmask runlist_id v g).trace = g.trace := rfl

theorem set_reset_eng_bitmask_get (runlist_id v : Nat) (g : gk20a) :
    ((set_reset_eng_bitmask runlist_id v g).fifo.runlist_info runlist_id).reset_eng_bitmask =
      v := by
  simp [set_reset_eng_bitmask]

theorem eng_polls_spec (hw : Manifest) (env : Env) (id timeout_rc_type runlist_id : Nat)
    (l : List Nat) :
    ∀ (g : gk20a), l.Nodup →
    ∃ evs : List Event,
      (preempt_pending_eng_polls hw env id timeout_rc_type runlist_id l g).2.trace =
        g.trace ++ evs ∧
      (∀ i, i ∉ l → eng_status_reads i evs = []) ∧
      (∀ r ∈ (preempt_pending_eng_polls hw env id timeout_rc_type runlist_id l g).1,
        r = 0 ∨ r = -EBUSY) ∧
      (∀ i, (((preempt_pending_eng_polls hw env id timeout_rc_type runlist_id l
            g).2.fifo.runlist_info runlist_id).reset_eng_bitmask).testBit i = true →
        ((g.fifo.runlist_info runlist_id).reset_eng_bitmask).testBit i = true ∨
        (i ∈ l ∧ timeout_rc_type = hw.PREEMPT_TIMEOUT_NORC ∧
          ∃ v, (eng_status_reads i evs).getLast? = some v ∧
            (id = hw.fifo_engine_status_id_v v ∨ id = hw.fifo_engine_status_next_id_v v))) := by
  induction l with
  | nil =>
    intro g _
    refine ⟨[], by simp [preempt_pending_eng_polls], fun _ _ => rfl, ?_, ?_⟩
    · intro r hr
      simp [preempt_pending_eng_polls] at hr
    · intro i hi
      exact Or.inl hi
  | cons e l ih =>
    intro g hnd
    obtain ⟨hel, hnd'⟩ := List.nodup_cons.1 hnd
    obtain ⟨n, vals, hne, htr, hfifo, hret, hmark⟩ := poll_eng_ctx_status_spec hw env id e
      (g.fifo.runlist_info runlist_id).reset_eng_bitmask timeout_rc_type g
    obtain ⟨evs, htr', hother, hrets, hbits⟩ := ih
      (set_reset_eng_bitmask runlist_id
        (gv11b_fifo_poll_eng_ctx_status hw env id e
          (g.fifo.runlist_info runlist_id).reset_eng_bitmask timeout_rc_type g).2.1
        (gv11b_fifo_poll_eng_ctx_status hw env id e
          (g.fifo.runlist_info runlist_id).reset_eng_bitmask timeout_rc_type g).2.2) hnd'
    rw [set_reset_eng_bitmask_trace, htr] at htr'
    rw [set_reset_eng_bitmask_get] at hbits
    refine ⟨(⟨Call.nvgpu_timeout_init, n⟩ :: vals.map
      (fun v : Nat => (⟨Call.gk20a_readl (Reg.fifo_engine_status_r e), (v : Int)⟩ : Event))) ++
      evs, ?_, ?_, ?_, ?_⟩
    · rw [preempt_pending_eng_polls]
      dsimp only
      rw [htr', List.append_assoc]
    · intro i hi
      have hie : i ≠ e := fun h => hi (h ▸ List.mem_cons_self _ _)
      have hil : i ∉ l := fun h => hi (List.mem_cons_of_mem _ h)
      rw [eng_status_reads_append, eng_status_reads_timeout_init, eng_status_reads_map,
        if_neg hie, hother i hil]
      rfl
    · intro r hr
      rw [preempt_pending_eng_polls] at hr
      dsimp only at hr
      rcases List.mem_cons.1 hr with rfl | hr
      · exact hret
      · exact hrets r hr
    · intro i hi
      rw [preempt_pending_eng_polls] at hi
      dsimp only at hi
      rcases hbits i hi with h | ⟨hil, hrc, v, hv, hid⟩
      · rcases hmark with hm | ⟨hm, hrc, v, hv, hid⟩
        · rw [hm] at h
          exact Or.inl h
        · rw [hm] at h
          rcases testBit_or_BIT _ _ _ h with h | h
          · exact Or.inl h
          · subst h
            refine Or.inr ⟨List.mem_cons_self _ _, hrc, v, ?_, hid⟩
            rw [eng_status_reads_append, eng_status_reads_timeout_init, eng_status_reads_map,
              if_pos rfl, hother i hel, List.append_nil]
            exact hv
      · refine Or.inr ⟨List.mem_cons_of_mem _ hil, hrc, v, ?_, hid⟩
        rw [eng_status_reads_append, List.getLast?_append, hv]
        rfl

theorem poll_pbdma_chan_status_ret (hw : Manifest) (env : Env) (id pbdma_id
    timeout_rc_type : Nat) (g : gk20a) :
    (gv11b_fifo_poll_pbdma_chan_status hw env id pbdma_id timeout_rc_type g).1 = 0 ∨
      (gv11b_fifo_poll_pbdma_chan_status hw env id pbdma_id timeout_rc_type g).1 = -EBUSY := by
  unfold gv11b_fifo_poll_pbdma_chan_status
  dsimp only
  obtain ⟨_, _, _, _, h⟩ := poll_pbdma_loop_reads hw env id pbdma_id
    (nvgpu_timeout_init env (poll_pbdma_clear_intr hw env pbdma_id timeout_rc_type g)).1
    (nvgpu_timeout_init env (poll_pbdma_clear_intr hw env pbdma_id timeout_rc_type g)).2
  rcases h with ⟨h, _⟩ | ⟨h, _⟩
  · exact Or.inl h
  · exact Or.inr h

theorem pbdma_polls_spec (hw : Manifest) (env : Env) (id timeout_rc_type : Nat)
    (l : List Nat) :
    ∀ (g : gk20a),
      Steps is_reg_call g (preempt_pending_pbdma_polls hw env id timeout_rc_type l g).2 ∧
      ∀ r ∈ (preempt_pending_pbdma_polls hw env id timeout_rc_type l g).1,
        r = 0 ∨ r = -EBUSY := by
  induction l with
  | nil =>
    intro g
    refine ⟨Steps.refl _ _, ?_⟩
    intro r hr
    simp [preempt_pending_pbdma_polls] at hr
  | cons a l ih =>
    intro g
    obtain ⟨hs, hr⟩ := ih (gv11b_fifo_poll_pbdma_chan_status hw env id a timeout_rc_type g).2
    refine ⟨?_, ?_⟩
    · rw [preempt_pending_pbdma_polls]
      exact (steps_poll_pbdma_chan_status hw env id a timeout_rc_type g).trans hs
    · intro r hmem
      rw [preempt_pending_pbdma_polls] at hmem
      dsimp only at hmem
      rcases List.mem_cons.1 hmem with rfl | hmem
      · exact poll_pbdma_chan_status_ret hw env id a timeout_rc_type g
      · exact hr r hmem

theorem preempt_pending_acc_foldl (rets : List Int) :
    ∀ (ret : Int), (ret = 0 ∨ ret = -EBUSY) → (∀ r ∈ rets, r = 0 ∨ r = -EBUSY) →
      (rets.foldl preempt_pending_acc ret = 0 ∨ rets.foldl preempt_pending_acc ret = -EBUSY) ∧
      (rets.foldl preempt_pending_acc ret ≠ 0 ↔ ret ≠ 0 ∨ ∃ r ∈ rets, r ≠ 0) := by
  induction rets with
  | nil =>
    intro ret hret _
    simp [hret]
  | cons a rets ih =>
    intro ret hret hall
    have ha := hall a (List.mem_cons_self _ _)
    have hacc : (preempt_pending_acc ret a = 0 ∨ preempt_pending_acc ret a = -EBUSY) ∧
        (preempt_pending_acc ret a ≠ 0 ↔ ret ≠ 0 ∨ a ≠ 0) := by
      rcases hret with rfl | rfl <;> rcases ha with rfl | rfl <;> decide
    obtain ⟨h1, h2⟩ := ih (preempt_pending_acc ret a) hacc.1
      (fun r hr => hall r (List.mem_cons_of_mem _ hr))
    rw [List.foldl_cons]
    refine ⟨h1, ?_⟩
    rw [h2, hacc.2]
    simp only [List.mem_cons, exists_eq_or_imp]
    rw [or_assoc]

theorem for_each_set_bit_nodup (bits size : Nat) : (for_each_set_bit bits size).Nodup :=
  (List.nodup_range size).filter _

theorem mem_for_each_set_bit (bits size i : Nat) :
    i ∈ for_each_set_bit bits size ↔ i < size ∧ bits.testBit i = true := by
  simp [for_each_set_bit]

/-- C27: after `gv11b_fifo_is_preempt_pending(id, id_type, timeout_rc_type)`, every bit `e`
set in `reset_eng_bitmask` of the runlist of the id is a bit of that runlist's
`eng_bitmask` with `e < num_engines`, `timeout_rc_type` is `PREEMPT_TIMEOUT_NORC`, and the
last read of the status register of engine `e` made by the call shows the id in its `id`
or `next_id` field; hence `reset_eng_bitmask` is 0 whenever `timeout_rc_type` is not
`PREEMPT_TIMEOUT_NORC`. The return value is the accumulation, by `ret |= func_ret` for
every non-zero `func_ret`, of the values returned by the polls of the served PBDMAs and
engines, and it is non-zero iff one of these polls returned non-zero. -/
theorem is_preempt_pending_reset_mark (hw : Manifest) (env : Env) (id id_type
    timeout_rc_type : Nat) (g : gk20a) :
    (∀ e, (((gv11b_fifo_is_preempt_pending hw env id id_type timeout_rc_type
          g).2.fifo.runlist_info
          (preempt_pending_runlist_id hw g.fifo id id_type)).reset_eng_bitmask).testBit e =
        true →
      ((g.fifo.runlist_info
        (preempt_pending_runlist_id hw g.fifo id id_type)).eng_bitmask).testBit e = true ∧
      e < g.fifo.num_engines ∧
      timeout_rc_type = hw.PREEMPT_TIMEOUT_NORC ∧
      ∃ v, (eng_status_reads e (events_since g
          (gv11b_fifo_is_preempt_pending hw env id id_type timeout_rc_type g).2)).getLast? =
          some v ∧
        (id = hw.fifo_engine_status_id_v v ∨ id = hw.fifo_engine_status_next_id_v v)) ∧
    (timeout_rc_type ≠ hw.PREEMPT_TIMEOUT_NORC →
      ((gv11b_fifo_is_preempt_pending hw env id id_type timeout_rc_type
        g).2.fifo.runlist_info
        (preempt_pending_runlist_id hw g.fifo id id_type)).reset_eng_bitmask = 0) ∧
    (gv11b_fifo_is_preempt_pending hw env id id_type timeout_rc_type g).1 =
      (is_preempt_pending_polls hw env id id_type timeout_rc_type g).foldl
        preempt_pending_acc 0 ∧
    ((gv11b_fifo_is_preempt_pending hw env id id_type timeout_rc_type g).1 ≠ 0 ↔
      ∃ r ∈ is_preempt_pending_polls hw env id id_type timeout_rc_type g, r ≠ 0) := by
  obtain ⟨hsteps, hprets⟩ := pbdma_polls_spec hw env id timeout_rc_type
    (for_each_set_bit (g.fifo.runlist_info
      (preempt_pending_runlist_id hw g.fifo id id_type)).pbdma_bitmask g.fifo.num_pbdma) g
  obtain ⟨evs0, htr0, -⟩ := hsteps.trace
  obtain ⟨evs, htr, hother, herets, hbits⟩ := eng_polls_spec hw env id timeout_rc_type
    (preempt_pending_runlist_id hw g.fifo id id_type)
    (for_each_set_bit (g.fifo.runlist_info
      (preempt_pending_runlist_id hw g.fifo id id_type)).eng_bitmask g.fifo.num_engines)
    (set_reset_eng_bitmask (preempt_pending_runlist_id hw g.fifo id id_type) 0
      (preempt_pending_pbdma_polls hw env id timeout_rc_type
        (for_each_set_bit (g.fifo.runlist_info
          (preempt_pending_runlist_id hw g.fifo id id_type)).pbdma_bitmask
          g.fifo.num_pbdma) g).2)
    (for_each_set_bit_nodup _ _)
  rw [set_reset_eng_bitmask_trace, htr0, List.append_assoc] at htr
  rw [set_reset_eng_bitmask_get] at hbits
  have hmark : ∀ e, (((gv11b_fifo_is_preempt_pending hw env id id_type timeout_rc_type
          g).2.fifo.runlist_info
          (preempt_pending_runlist_id hw g.fifo id id_type)).reset_eng_bitmask).testBit e =
        true →
      ((g.fifo.runlist_info
        (preempt_pending_runlist_id hw g.fifo id id_type)).eng_bitmask).testBit e = true ∧
      e < g.fifo.num_engines ∧
      timeout_rc_type = hw.PREEMPT_TIMEOUT_NORC ∧
      ∃ v, (eng_status_reads e (events_since g
          (gv11b_fifo_is_preempt_pending hw env id id_type timeout_rc_type g).2)).getLast? =
          some v ∧
        (id = hw.fifo_engine_status_id_v v ∨ id = hw.fifo_engine_status_next_id_v v) := by
    intro e he
    rw [is_preempt_pending_eq_polls] at he ⊢
    dsimp only at he ⊢
    rcases hbits e he with h | ⟨hmem, hrc, v, hv, hid⟩
    · rw [Nat.zero_testBit] at h
      exact Bool.noConfusion h
    · obtain ⟨hlt, hbit⟩ := (mem_for_each_set_bit _ _ _).1 hmem
      refine ⟨hbit, hlt, hrc, v, ?_, hid⟩
      rw [events_since_of_append _ _ _ htr, eng_status_reads_append, List.getLast?_append, hv]
      rfl
  refine ⟨hmark, ?_, ?_, ?_⟩
  · intro hrc
    apply Nat.eq_of_testBit_eq
    intro i
    rw [Nat.zero_testBit]
    by_contra hne
    have hi := hmark i (by simpa using hne)
    exact hrc hi.2.2.1
  · rw [is_preempt_pending_eq_polls]
    unfold is_preempt_pending_polls
    dsimp only
    rw [List.foldl_append]
  · rw [is_preempt_pending_eq_polls]
    dsimp only
    obtain ⟨hp1, hp2⟩ := preempt_pending_acc_foldl _ 0 (Or.inl rfl) hprets
    obtain ⟨-, he2⟩ := preempt_pending_acc_foldl _ _ hp1 herets
    rw [he2, hp2]
    unfold is_preempt_pending_polls
    dsimp only
    simp only [List.mem_append, ne_eq, not_true_eq_false, false_or]
    constructor
    · rintro (⟨r, hr, hne⟩ | ⟨r, hr, hne⟩)
      · exact ⟨r, Or.inl hr, hne⟩
      · exact ⟨r, Or.inr hr, hne⟩
    · rintro ⟨r, hr | hr, hne⟩
      · exact Or.inl ⟨r, hr, hne⟩
      · exact Or.inr ⟨r, hr, hne⟩

/-- C27 at `sample_g`: TSG 5 is on runlist 1, whose engine 1 shows a valid context with the
id 5; with `PREEMPT_TIMEOUT_NORC` the call returns 0 and marks engine 1 for reset, and
with `PREEMPT_TIMEOUT_RC` it returns `-EBUSY` and marks no engine. -/
theorem is_preempt_pending_reset_mark_witness :
    preempt_pending_runlist_id sample_hw sample_g.fifo 5 1 = 1 ∧
    ((gv11b_fifo_is_preempt_pending sample_hw env_target_present 5 1
        sample_hw.PREEMPT_TIMEOUT_NORC sample_g).2.fifo.runlist_info 1).reset_eng_bitmask = 2 ∧
    (gv11b_fifo_is_preempt_pending sample_hw env_target_present 5 1
        sample_hw.PREEMPT_TIMEOUT_NORC sample_g).1 = 0 ∧
    (gv11b_fifo_is_preempt_pending sample_hw env_target_present 5 1
        sample_hw.PREEMPT_TIMEOUT_RC sample_g).1 = -EBUSY ∧
    ((gv11b_fifo_is_preempt_pending sample_hw env_target_present 5 1
        sample_hw.PREEMPT_TIMEOUT_RC sample_g).2.fifo.runlist_info
        (preempt_pending_runlist_id sample_hw sample_g.fifo 5 1)).reset_eng_bitmask = 0 := by
  refine ⟨by decide, ?_, ?_, ?_, ?_⟩
  · rw [is_preempt_pending_eq_polls]
    decide
  · rw [is_preempt_pending_eq_polls]
    decide
  · rw [is_preempt_pending_eq_polls]
    decide
  · exact (is_preempt_pending_reset_mark sample_hw env_target_present 5 1
      sample_hw.PREEMPT_TIMEOUT_RC sample_g).2.1 (by decide)

end Nvgpu
